import Mathlib

/-!
# goql: lexer, parser and writer of a SQL dialect

A shallow embedding of the Go package `goql` (ast.go, lexer.go, parser.go, writer.go)
and theorems about it.

Conventions of the embedding.

* A Go `string` is a Lean `String`.  The lexer reads its input byte by byte; a
  character of the input stands for the byte with the same code (the inputs
  considered are ASCII).  Where the Go code ranges over the runes of a string and
  truncates them with `byte(c)`, the embedding takes the code of the character
  modulo 256.
* A value of type `interface{}` (a query parameter) is a `Value`.
* The writer mutates its buffer, its parameter slice and its cursor in place and
  returns an `error`; the embedding passes the writer state explicitly.  A result
  is `ok`, `err` (the Go function returned a non-nil error; the state reached at
  that point is kept, because `writeLimit` discards the error and goes on),
  `panic` (a Go run-time panic) or `fuel` (the recursion budget of the embedding
  ran out; no Go behaviour corresponds to it).
* The mutually recursive writer functions take a recursion budget as first
  argument; every call into a sub-expression passes a smaller budget.
-/

namespace Goql

/-! ## ast.go : positions, token types, nodes -/

structure Position where
  Line : Int
  Column : Int
  Length : Int
deriving DecidableEq, Repr, Inhabited

/-- The Go type `Type` (a byte) with its constants, in the order of the `iota`
block of ast.go.  `Type` is a reserved word of Lean, hence the name. -/
inductive Typ
| NOTSET | ERROR | EOF | COMMENT
| CREATE | SHOW | DROP | ALTER | TABLE | DATABASE | NOT | EXISTS | CONSTRAINT
| INTEGER | DECIMAL | CHAR | VARCHAR | TEXT | MEDIUMTEXT | BOOL | BLOB | DATETIME | DEFAULT
| SELECT | DISTINCT | INSERT | INTO | VALUES | UPDATE | SET | DELETE | FROM | WHERE
| GROUP | HAVING | JOIN | LEFT | RIGHT | INNER | OUTER | CROSS | ON | AS | IN | NOTIN
| BETWEEN | LIKE | IS | ISNOT | NOTLIKE | ORDER | BY | ASC | DESC | RANDOM | LIMIT
| UNION | AND | OR | NULL | TRUE | FALSE
| FOR
| IDENT | INT | FLOAT | STRING
| ADD | SUB | MUL | DIV | MOD
| LSF | RSF | ANB
| EQL | LSS | GTR | NT
| NEQ | LEQ | GEQ
| LPAREN | LBRACK | LBRACE | COMMA | PERIOD
| RPAREN | COLON | SEMICOLON | QUESTION
deriving DecidableEq, Repr, Inhabited

/-- The numeric value of a `Type` constant (its place in the `iota` block). -/
def Typ.toByte (t : Typ) : Nat := t.toCtorIdx

/-- Modelled from the spec: the `String` method of `Type`, which `go:generate stringer`
produces in a file that is not part of the sources; it yields the name of the constant. -/
def Typ.String : Typ → String
| .NOTSET => "NOTSET"
| .ERROR => "ERROR"
| .EOF => "EOF"
| .COMMENT => "COMMENT"
| .CREATE => "CREATE"
| .SHOW => "SHOW"
| .DROP => "DROP"
| .ALTER => "ALTER"
| .TABLE => "TABLE"
| .DATABASE => "DATABASE"
| .NOT => "NOT"
| .EXISTS => "EXISTS"
| .CONSTRAINT => "CONSTRAINT"
| .INTEGER => "INTEGER"
| .DECIMAL => "DECIMAL"
| .CHAR => "CHAR"
| .VARCHAR => "VARCHAR"
| .TEXT => "TEXT"
| .MEDIUMTEXT => "MEDIUMTEXT"
| .BOOL => "BOOL"
| .BLOB => "BLOB"
| .DATETIME => "DATETIME"
| .DEFAULT => "DEFAULT"
| .SELECT => "SELECT"
| .DISTINCT => "DISTINCT"
| .INSERT => "INSERT"
| .INTO => "INTO"
| .VALUES => "VALUES"
| .UPDATE => "UPDATE"
| .SET => "SET"
| .DELETE => "DELETE"
| .FROM => "FROM"
| .WHERE => "WHERE"
| .GROUP => "GROUP"
| .HAVING => "HAVING"
| .JOIN => "JOIN"
| .LEFT => "LEFT"
| .RIGHT => "RIGHT"
| .INNER => "INNER"
| .OUTER => "OUTER"
| .CROSS => "CROSS"
| .ON => "ON"
| .AS => "AS"
| .IN => "IN"
| .NOTIN => "NOTIN"
| .BETWEEN => "BETWEEN"
| .LIKE => "LIKE"
| .IS => "IS"
| .ISNOT => "ISNOT"
| .NOTLIKE => "NOTLIKE"
| .ORDER => "ORDER"
| .BY => "BY"
| .ASC => "ASC"
| .DESC => "DESC"
| .RANDOM => "RANDOM"
| .LIMIT => "LIMIT"
| .UNION => "UNION"
| .AND => "AND"
| .OR => "OR"
| .NULL => "NULL"
| .TRUE => "TRUE"
| .FALSE => "FALSE"
| .FOR => "FOR"
| .IDENT => "IDENT"
| .INT => "INT"
| .FLOAT => "FLOAT"
| .STRING => "STRING"
| .ADD => "ADD"
| .SUB => "SUB"
| .MUL => "MUL"
| .DIV => "DIV"
| .MOD => "MOD"
| .LSF => "LSF"
| .RSF => "RSF"
| .ANB => "ANB"
| .EQL => "EQL"
| .LSS => "LSS"
| .GTR => "GTR"
| .NT => "NT"
| .NEQ => "NEQ"
| .LEQ => "LEQ"
| .GEQ => "GEQ"
| .LPAREN => "LPAREN"
| .LBRACK => "LBRACK"
| .LBRACE => "LBRACE"
| .COMMA => "COMMA"
| .PERIOD => "PERIOD"
| .RPAREN => "RPAREN"
| .COLON => "COLON"
| .SEMICOLON => "SEMICOLON"
| .QUESTION => "QUESTION"

/-- A query parameter: a Go value of type `interface{}`, by dynamic type. -/
inductive Float64
| finite (mant : Int) (exp : Int)
| nan
| inf (neg : Bool)
deriving DecidableEq, Repr

/-- A `time.Time`, given by the calendar fields of the instant in UTC. -/
structure Time where
  Year : Nat
  Month : Nat
  Day : Nat
  Hour : Nat
  Minute : Nat
  Second : Nat
deriving DecidableEq, Repr

inductive Value
| nil
| int (v : Int)
| int8 (v : Int)
| int16 (v : Int)
| int32 (v : Int)
| int64 (v : Int)
| uint (v : Nat)
| uint8 (v : Nat)
| uint16 (v : Nat)
| uint32 (v : Nat)
| uint64 (v : Nat)
| float32 (v : Float64)
| float64 (v : Float64)
| string (s : String)
| bool (b : Bool)
| time (t : Time)
| slice (xs : List Value)
| other (typeName : String)

structure Token where
  Typ : Typ
  Str : String
  Pos : Position
deriving DecidableEq, Repr, Inhabited

/-- The Go type `Error` of ast.go: a lexer or parser error. -/
structure Error where
  Pos : Position
  Message : String
  Token : String
deriving DecidableEq, Repr

inductive ColumnType
| Int | Decimal | Char | Varchar | Text | MediumText | Bool | Blob | DatTime
deriving DecidableEq, Repr, Inhabited

structure CreateColumn where
  Name : String
  Typ : ColumnType
  Nullable : Bool
  Size : String
  Decimals : String
  Key : Bool
  Default : String
deriving DecidableEq, Repr

structure Constraint where
  Name : String
  Typ : String
  Columns : List String
deriving DecidableEq, Repr

structure ForeginKey where
  Name : String
  Column : String
  RefTable : String
  RefColumn : String
  DeleteCascade : Bool
deriving DecidableEq, Repr

inductive CreateTableConstraint
| Constraint (c : Constraint)
| ForeginKey (c : ForeginKey)
deriving DecidableEq, Repr

structure ColumnNameExpr where
  Pos : Position
  Name : String
  Table : String
  Alias : String
deriving DecidableEq, Repr

structure TableName where
  Pos : Position
  Database : String
  Name : String
deriving DecidableEq, Repr

mutual
/-- The expression nodes (interface `Expr`). -/
inductive Expr
| ParameterExpr (Pos : Position) (Name : String)
| AllColumnsExpr (Table : String) (Pos : Position)
| ConstantExpr (Pos : Position) (Kind : Typ) (Value : String)
| ParenExpr (LParen : Position) (X : Expr) (RParen : Position)
| UnaryExpr (Pos : Position) (Operator : Typ) (Operand : Expr)
| BinaryExpr (Operator : Typ) (Left : Expr) (Right : Expr)
| SelectColumnExpr (Expr : Expr) (Alias : String)
| ColumnNameExpr (c : ColumnNameExpr)
| SelectQuery (q : SelectQuery)
| CallExpr (Pos : Position) (Name : String) (Args : List Expr)
| BetweenExpr (LExpr : Expr) (RExpr : Expr)
| InExpr (LParen : Position) (Values : List Expr) (RParen : Position)
| GroupConcatExpr (Pos : Position) (Distinct : Bool) (Expressions : List Expr)
    (OrderByPart : List OrderColumn) (Separator : String)
| IdentExpr (Pos : Position) (Name : String)
/-- The node `SelectQuery`.  `From` is `none` for a nil slice. -/
inductive SelectQuery
| mk (Pos : Position) (Distinct : Bool) (ForUpdate : Bool) (Columns : List Expr)
    (From : Option (List SqlFrom)) (WherePart : Option WherePart) (GroupByPart : List Expr)
    (HavingPart : Option Goql.WherePart) (OrderByPart : List OrderColumn)
    (LimitPart : Option Limit) (UnionPart : List SelectQuery) (Params : List Value)
/-- The FROM sources (interface `SqlFrom`); a `ParenExpr` is given by its fields. -/
inductive SqlFrom
| Table (t : Table)
| ParenExpr (LParen : Position) (X : Expr) (RParen : Position)
| FromAsExpr (LParen : Position) (X : Expr) (RParen : Position) (Alias : String)
inductive Table
| mk (Pos : Position) (Name : String) (Database : String) (Alias : String) (Joins : List Join)
inductive Join
| mk (Pos : Position) (Typ : Typ) (Table : String) (Alias : String) (Database : String)
    (On : Option Expr)
inductive OrderColumn
| mk (Expr : Expr) (Typ : Typ)
inductive WherePart
| mk (Pos : Position) (Expr : Expr)
/-- The node `Limit`; a nil `Expr` is `none`. -/
inductive Limit
| mk (Pos : Position) (RowCount : Option Expr) (Offset : Option Expr)
end

def Table.Name : Table → String
| .mk _ n _ _ _ => n

def Table.Database : Table → String
| .mk _ _ d _ _ => d

def Table.Alias : Table → String
| .mk _ _ _ a _ => a

def Table.Joins : Table → List Join
| .mk _ _ _ _ j => j

def WherePart.Expr : WherePart → Expr
| .mk _ e => e

structure ColumnValue where
  Pos : Position
  Table : String
  Name : String
  Expr : Expr

structure InsertQuery where
  Pos : Position
  Table : TableName
  Columns : List ColumnNameExpr
  Values : List Expr
  Params : List Value
  Select : Option SelectQuery

structure UpdateQuery where
  Pos : Position
  Table : Table
  Columns : List ColumnValue
  WherePart : Option WherePart
  LimitPart : Option Limit
  Params : List Value

structure DeleteQuery where
  Pos : Position
  Alias : List String
  Table : Table
  WherePart : Option WherePart
  LimitPart : Option Limit
  Params : List Value

structure CreateDatabaseQuery where
  Pos : Position
  Name : String
  IfNotExists : Bool
deriving DecidableEq, Repr

structure CreateTableQuery where
  Pos : Position
  Name : String
  Columns : List CreateColumn
  Constraints : List CreateTableConstraint
  IfNotExists : Bool
deriving DecidableEq, Repr

structure ShowQuery where
  Pos : Position
  Typ : String
  Database : String
  Table : String
deriving DecidableEq, Repr

structure DropDatabaseQuery where
  Pos : Position
  Database : String
  IfExists : Bool
deriving DecidableEq, Repr

structure DropTableQuery where
  Pos : Position
  Database : String
  Table : String
  IfExists : Bool
deriving DecidableEq, Repr

structure AlterDropQuery where
  Pos : Position
  Database : String
  Table : String
  Typ : String
  Item : String
deriving DecidableEq, Repr

structure AddColumnQuery where
  Pos : Position
  Database : String
  Table : String
  Column : CreateColumn
deriving DecidableEq, Repr

structure RenameColumnQuery where
  Pos : Position
  Database : String
  Table : String
  Name : String
  Column : CreateColumn
deriving DecidableEq, Repr

structure ModifyColumnQuery where
  Pos : Position
  Database : String
  Table : String
  Column : CreateColumn
deriving DecidableEq, Repr

structure AddConstraintQuery where
  Pos : Position
  Typ : String
  Database : String
  Table : String
  Name : String
  Columns : List ColumnNameExpr
deriving DecidableEq, Repr

structure AddFKQuery where
  Pos : Position
  Typ : String
  Database : String
  Table : String
  Name : String
  Column : String
  RefDatabase : String
  RefTable : String
  RefColumn : String
  DeleteCascade : Bool
deriving DecidableEq, Repr

/-- The statements (interface `Query`). -/
inductive Query
| SelectQuery (q : SelectQuery)
| InsertQuery (q : InsertQuery)
| UpdateQuery (q : UpdateQuery)
| DeleteQuery (q : DeleteQuery)
| CreateTableQuery (q : CreateTableQuery)
| CreateDatabaseQuery (q : CreateDatabaseQuery)
| RenameColumnQuery (q : RenameColumnQuery)
| ModifyColumnQuery (q : ModifyColumnQuery)
| AddColumnQuery (q : AddColumnQuery)
| ShowQuery (q : ShowQuery)
| DropDatabaseQuery (q : DropDatabaseQuery)
| DropTableQuery (q : DropTableQuery)
| AlterDropQuery (q : AlterDropQuery)
| AddConstraintQuery (q : AddConstraintQuery)
| AddFKQuery (q : AddFKQuery)

/-- The dynamic type of a `Query` value, which is all the writer inspects of
`currentQuery`. -/
inductive QueryType
| SelectQuery | InsertQuery | UpdateQuery | DeleteQuery | CreateTableQuery
| CreateDatabaseQuery | RenameColumnQuery | ModifyColumnQuery | AddColumnQuery | ShowQuery
| DropDatabaseQuery | DropTableQuery | AlterDropQuery | AddConstraintQuery | AddFKQuery
deriving DecidableEq, Repr

def Query.type : Query → QueryType
| .SelectQuery _ => .SelectQuery
| .InsertQuery _ => .InsertQuery
| .UpdateQuery _ => .UpdateQuery
| .DeleteQuery _ => .DeleteQuery
| .CreateTableQuery _ => .CreateTableQuery
| .CreateDatabaseQuery _ => .CreateDatabaseQuery
| .RenameColumnQuery _ => .RenameColumnQuery
| .ModifyColumnQuery _ => .ModifyColumnQuery
| .AddColumnQuery _ => .AddColumnQuery
| .ShowQuery _ => .ShowQuery
| .DropDatabaseQuery _ => .DropDatabaseQuery
| .DropTableQuery _ => .DropTableQuery
| .AlterDropQuery _ => .AlterDropQuery
| .AddConstraintQuery _ => .AddConstraintQuery
| .AddFKQuery _ => .AddFKQuery

/-! ## Go standard library functions used by the package -/

/-- The conversion `byte(c)` of a rune. -/
def byteOf (c : Char) : Nat := c.toNat % 256

def replaceAllAux (old : Char) (new : List Char) : List Char → List Char
| [] => []
| c :: cs => if c = old then new ++ replaceAllAux old new cs else c :: replaceAllAux old new cs

/-- The call `strings.Replace(s, old, new, -1)` for a one-character `old`. -/
def stringsReplace (s : String) (old : Char) (new : String) : String :=
  String.mk (replaceAllAux old new.data s.data)

/-- The function `strings.ContainsRune`. -/
def stringsContainsRune (s : String) (r : Char) : Bool := s.data.elem r

def isPrefixOfList : List Char → List Char → Bool
| [], _ => true
| _ :: _, [] => false
| a :: as, b :: bs => a == b && isPrefixOfList as bs

/-- The function `strings.HasPrefix(s, p)`. -/
def stringsHasPrefix (s p : String) : Bool := isPrefixOfList p.data s.data

/-- The function `strings.ToUpper`, modelled on ASCII letters only: a letter outside ASCII
is left as it stands, where Go maps it with its Unicode tables. -/
def stringsToUpper (s : String) : String := String.mk (s.data.map Char.toUpper)

/-- The function `strings.ToLower`, modelled on ASCII letters only: a letter outside ASCII
is left as it stands, where Go maps it with its Unicode tables. -/
def stringsToLower (s : String) : String := String.mk (s.data.map Char.toLower)

/-- The function `strings.EqualFold`, modelled on ASCII letters only: two texts are equal
when they are equal after `stringsToLower`; the Unicode case folding of Go (under which
`ſum` equals `SUM`) is not modelled. -/
def stringsEqualFold (a b : String) : Bool := stringsToLower a == stringsToLower b

def digitChar (n : Nat) : Char := Char.ofNat (48 + n % 10)

def natDigits : Nat → Nat → List Char → List Char
| 0, _, acc => acc
| fuel + 1, n, acc =>
  if n < 10 then digitChar n :: acc else natDigits fuel (n / 10) (digitChar n :: acc)

/-- The decimal digits of a natural number. -/
def formatNat (n : Nat) : String := String.mk (natDigits (n + 1) n [])

/-- The call `strconv.FormatInt(i, 10)`. -/
def formatInt (i : Int) : String :=
  if i < 0 then "-" ++ formatNat i.natAbs else formatNat i.natAbs

def parseDigits : List Char → Nat → Option Nat
| [], acc => some acc
| c :: cs, acc =>
  if 48 ≤ c.toNat ∧ c.toNat ≤ 57 then parseDigits cs (acc * 10 + (c.toNat - 48)) else none

/-- The digits of `strconv.Atoi` after the sign: at least one decimal digit, nothing
else, and a value that fits an `int`. -/
def atoiBody (neg : Bool) (ds : List Char) : Option Int :=
  match ds with
  | [] => none
  | _ :: _ =>
    match parseDigits ds 0 with
    | none => none
    | some n =>
      let v : Int := if neg then - (n : Int) else (n : Int)
      if - (2 : Int) ^ 63 ≤ v ∧ v < (2 : Int) ^ 63 then some v else none

/-- The function `strconv.Atoi` on a 64-bit platform: an optional sign, at least one
decimal digit, nothing else, and a value that fits an `int`; `none` stands for the
error result. -/
def strconvAtoi (s : String) : Option Int :=
  match s.data with
  | '-' :: r => atoiBody true r
  | '+' :: r => atoiBody false r
  | r => atoiBody false r

def pad (width : Nat) (n : Nat) : String :=
  let d := formatNat n
  String.mk (List.replicate (width - d.length) '0') ++ d

/-- The call `t.UTC().Format("'2006-01-02 15:04:05'")`. -/
def Time.format (t : Time) : String :=
  "'" ++ pad 4 t.Year ++ "-" ++ pad 2 t.Month ++ "-" ++ pad 2 t.Day ++ " " ++
    pad 2 t.Hour ++ ":" ++ pad 2 t.Minute ++ ":" ++ pad 2 t.Second ++ "'"

/-- The conversion `int64(t)` of a finite `float64` (truncation toward zero). -/
def Float64.toInt64 : Float64 → Option Int
| .finite m e =>
  let i : Int := if 0 ≤ e then m * 2 ^ e.toNat else Int.tdiv m (2 ^ (-e).toNat)
  if - (2 : Int) ^ 63 ≤ i ∧ i < (2 : Int) ^ 63 then some i else none
| _ => none

/-- Whether `t == float64(i)`, for `i` in the range of `int64`. -/
def Float64.eqInt : Float64 → Int → Bool
| .finite m e, i => if 0 ≤ e then m * 2 ^ e.toNat == i else m == i * 2 ^ (-e).toNat
| _, _ => false

/-- A rendering of a value as the verb `%v` of package fmt prints it, for integers,
strings, booleans, times and nil.  A float is rendered as `<float>` and a slice as `[...]`:
the text that `%v` prints for them is not modelled, so for such a value the tail of an
error message that quotes it is not the one of the code. -/
def Value.fmt : Value → String
| .nil => "<nil>"
| .int v | .int8 v | .int16 v | .int32 v | .int64 v => formatInt v
| .uint v | .uint8 v | .uint16 v | .uint32 v | .uint64 v => formatNat v
| .float32 _ | .float64 _ => "<float>"
| .string s => s
| .bool b => if b then "true" else "false"
| .time t => t.format
| .slice _ => "[...]"
| .other n => n

/-- The method `Position.String`. -/
def Position.String (p : Position) : String :=
  (if p.Line > 0 then "line " ++ formatInt (p.Line + 1) ++ " " else "") ++
    "column " ++ formatInt p.Column

/-! ## lexer.go : character classes -/

def isWhitespace (ch : Nat) : Bool :=
  ch == 9 || ch == 13 || ch == 32 || ch == 10

def isDecimal (ch : Nat) : Bool :=
  48 ≤ ch && ch ≤ 57

def isIdent (ch : Nat) (pos : Nat) : Bool :=
  ch == 95 ||
    (65 ≤ ch && ch ≤ 90) ||
    (97 ≤ ch && ch ≤ 122) ||
    (isDecimal ch && pos > 0)

/-! ## writer.go : the writer state -/

structure writer where
  Database : String
  NamespaceWriteAll : Bool
  Namespace : String
  IgnoreNamespaces : Bool
  Format : Bool
  EscapeIdents : Bool
  /-- `none` is the nil slice -/
  WhitelistFuncs : Option (List String)
  buf : String
  params : List Value
  driver : String
  query : Option Query
  /-- the dynamic type of `currentQuery`; `none` is the nil interface -/
  currentQuery : Option QueryType
  paramSymbolCount : Nat
  /-- the package-level variable `WhitelistFuncs` -/
  globalWhitelistFuncs : Option (List String)

def NewWriter (q : Option Query) (params : List Value) (database driver : String) : writer :=
  { Database := database
    NamespaceWriteAll := false
    Namespace := ""
    IgnoreNamespaces := false
    Format := false
    EscapeIdents := true
    WhitelistFuncs := none
    buf := ""
    params := params
    driver := if driver == "" then "mysql" else driver
    query := q
    currentQuery := q.map Query.type
    paramSymbolCount := 0
    globalWhitelistFuncs := none }

/-- The outcome of a writer method. -/
inductive Res (α : Type)
| ok (a : α) (w : writer)
| err (e : String) (w : writer)
| panic (msg : String)
| fuel

/-- A writer method: a function of the writer state. -/
def W (α : Type) : Type := writer → Res α

def W.pure {α : Type} (a : α) : W α := fun w => .ok a w

def W.bind {α β : Type} (m : W α) (f : α → W β) : W β := fun w =>
  match m w with
  | .ok a w1 => f a w1
  | .err e w1 => .err e w1
  | .panic msg => .panic msg
  | .fuel => .fuel

instance : Monad W where
  pure := W.pure
  bind := W.bind

/-- Return a non-nil error. -/
def fail {α : Type} (e : String) : W α := fun w => .err e w

def goPanic {α : Type} (msg : String) : W α := fun _ => .panic msg

def outOfFuel {α : Type} : W α := fun _ => .fuel

def getW : W writer := fun w => .ok w w

def modifyW (f : writer → writer) : W Unit := fun w => .ok () (f w)

/-- A call whose returned error is discarded by the caller. -/
def ignoreErr (m : W Unit) : W Unit := fun w =>
  match m w with
  | .ok a w1 => .ok a w1
  | .err _ w1 => .ok () w1
  | .panic msg => .panic msg
  | .fuel => .fuel

def liftExcept {α : Type} : Except String α → W α
| .ok a => W.pure a
| .error e => fail e

def WriteString (s : String) : W Unit := modifyW fun w => { w with buf := w.buf ++ s }

def WriteRune (c : Char) : W Unit := modifyW fun w => { w with buf := w.buf ++ String.singleton c }

/-- A loop `for i, x := range xs` whose body returns the error it meets. -/
def forRange {α : Type} (body : Nat → α → W Unit) : List α → Nat → W Unit
| [], _ => W.pure ()
| x :: xs, i => W.bind (body i x) fun _ => forRange body xs (i + 1)

/-- The slice `append(p[:i], p[i+1:]...)`. -/
def removeAt (ps : List Value) (i : Nat) : List Value := ps.eraseIdx i

/-! ## writer.go : databases, namespaces, identifiers -/

def writer.validateDatabase (p : writer) (name : String) : Bool :=
  if p.Database != "" then
    if name != "" && name != p.Database then false else true
  else true

/-- The loop of `ValidateNamespace`: every rune is an identifier byte, or a `:` after
the first position. -/
def validNamespaceRunes : List Char → Nat → Bool
| [], _ => true
| c :: cs, i =>
  if i > 0 && c == ':' then validNamespaceRunes cs (i + 1)
  else if !isIdent (byteOf c) i then false
  else validNamespaceRunes cs (i + 1)

def ValidateNamespace (s : String) : Except String Unit :=
  if validNamespaceRunes s.data 0 then .ok () else .error ("Invalid identifier " ++ s)

def writer.ValidateNamespace (p : writer) (s : String) : Except String Unit :=
  if p.IgnoreNamespaces then .ok ()
  else if validNamespaceRunes s.data 0 then .ok () else .error ("Invalid identifier " ++ s)

def validSeparatorRunes : List Char → Bool
| [] => true
| c :: cs =>
  if c == ';' || c == ' ' || c == ',' || c == '-' || c == '_' || c == '|' then validSeparatorRunes cs
  else false

def validateSeparator (s : String) : Except String Unit :=
  if validSeparatorRunes s.data then .ok () else .error ("Invalid identifier " ++ s)

def writer.namespaceToSQL (p : writer) (s : String) : String :=
  if p.IgnoreNamespaces then s else stringsReplace s ':' "_"

def writer.addNamespace (p : writer) (table : String) (isWrite : Bool) : Except String String :=
  if p.IgnoreNamespaces then .ok table
  else
    let hasNamespace := stringsContainsRune table ':'
    if !hasNamespace then
      if p.Namespace == "" then .ok table
      else .ok (p.namespaceToSQL p.Namespace ++ "_" ++ table)
    else if isWrite && !p.NamespaceWriteAll then
      if !stringsHasPrefix table (p.Namespace ++ ":") then
        .error ("Invalid table prefix for a write query: " ++ table)
      else .ok (p.namespaceToSQL table)
    else .ok (p.namespaceToSQL table)

def writer.prefixTableName (p : writer) (table : String) (isWrite : Bool) : Except String String :=
  if p.IgnoreNamespaces then .ok table
  else
    let n := p.Namespace
    if n == "" then
      .ok (if stringsContainsRune table ':' then stringsReplace table ':' "_" else table)
    else
      match p.ValidateNamespace n with
      | .error e => .error e
      | .ok _ =>
        match p.currentQuery with
        | some .SelectQuery | some .ShowQuery | some .CreateTableQuery | some .InsertQuery
        | some .UpdateQuery | some .DeleteQuery | some .RenameColumnQuery
        | some .ModifyColumnQuery | some .AlterDropQuery | some .DropTableQuery
        | some .AddColumnQuery | some .AddFKQuery | some .AddConstraintQuery =>
          p.addNamespace table isWrite
        | _ => .error "Invalid query type in this context."

/-- The validation loop of `writeIdentifier`. -/
def validIdentifierRunes (ignoreNamespaces : Bool) : List Char → Nat → Bool
| [], _ => true
| c :: cs, i =>
  if c == ':' && i > 0 && ignoreNamespaces then validIdentifierRunes ignoreNamespaces cs (i + 1)
  else if !isIdent (byteOf c) i then false
  else validIdentifierRunes ignoreNamespaces cs (i + 1)

def writeIdentifier (s : String) : W Unit := fun p =>
  if !validIdentifierRunes p.IgnoreNamespaces s.data 0 then
    .err ("Invalid identifier " ++ s) p
  else
    modifyW (fun q => { q with buf := q.buf ++ (if q.EscapeIdents then "`" else "") ++ s ++
      (if q.EscapeIdents then "`" else "") }) p

def validAlphanumericRunes : List Char → Bool
| [] => true
| c :: cs => if !isIdent (byteOf c) 1 then false else validAlphanumericRunes cs

def writeUnescapedAlphanumeric (s : String) : W Unit :=
  if !validAlphanumericRunes s.data then fail ("Invalid identifier " ++ s)
  else WriteString s

/-- The loop of `writeQuotedAlphanumeric` over the bytes `s[i]`, `l` being `len(s)-1`. -/
def validQuotedBytes (l : Nat) : List Char → Nat → Bool
| [], _ => true
| c :: cs, i =>
  if (i == 0 || i == l) && (c == Char.ofNat 39 || c == Char.ofNat 34) then
    validQuotedBytes l cs (i + 1)
  else if !isIdent c.toNat 1 then false
  else validQuotedBytes l cs (i + 1)

def writeQuotedAlphanumeric (s : String) : W Unit :=
  if !validQuotedBytes (s.length - 1) s.data 0 then fail ("Invalid identifier " ++ s)
  else WriteString s

def writeTable (database table : String) (isWrite : Bool) : W Unit := fun p =>
  if !p.validateDatabase database then .err ("Invalid database " ++ database) p
  else
    match p.prefixTableName table isWrite with
    | .error e => .err e p
    | .ok table =>
      let database := if database == "" then p.Database else database
      if database != "" then
        if p.driver == "sqlite3" then writeIdentifier (database ++ "_" ++ table) p
        else
          (W.bind (writeIdentifier database) fun _ =>
            W.bind (WriteString ".") fun _ => writeIdentifier table) p
      else writeIdentifier table p

/-! ## writer.go : expressions -/

/-- The error of `strconv.Atoi`, when there is one. -/
def strconvAtoiError (s : String) : String :=
  "strconv.Atoi: parsing \"" ++ s ++ "\": " ++
    (if (match s.data with
         | '-' :: r => r != [] && (parseDigits r 0).isSome
         | '+' :: r => r != [] && (parseDigits r 0).isSome
         | r => r != [] && (parseDigits r 0).isSome)
     then "value out of range" else "invalid syntax")

def writeInConstant (v : Value) : W Unit :=
  match v with
  | .int t => WriteString (formatInt t)
  | .int32 t => WriteString (formatInt t)
  | .int64 t => WriteString (formatInt t)
  | .float64 t =>
    -- `i := int64(t)`; outside the range of int64 (and for NaN) the conversion yields
    -- the least int64 on amd64, which differs from `t`
    match t.toInt64 with
    | none => fail ("Invalid IN value " ++ v.fmt)
    | some i =>
      if !t.eqInt i then fail ("Invalid IN value " ++ v.fmt)
      else WriteString (formatInt i)
  | .string t =>
    match strconvAtoi t with
    | none => fail ("Invalid IN value " ++ t ++ ": " ++ strconvAtoiError t)
    | some _ => WriteString t
  | .time t => WriteString t.format
  | _ => fail ("Invalid IN value: " ++ v.fmt)

/-- Whether an expression is a `*ParameterExpr`. -/
def Expr.isParameterExpr : Expr → Bool
| .ParameterExpr _ _ => true
| _ => false

def replaceInParameter (Values : List Expr) : W Bool := do
  if Values.length != 1 then return false
  let p ← getW
  if p.params.length == 0 then return false
  match Values with
  | [v0] =>
    if !v0.isParameterExpr then return false
    match p.params.get? p.paramSymbolCount with
    | none =>
      goPanic ("runtime error: index out of range [" ++ formatNat p.paramSymbolCount ++
        "] with length " ++ formatNat p.params.length)
    | some value =>
      WriteRune '('
      match value with
      | .slice x =>
        forRange (fun i v => do
          if i > 0 then WriteString ", "
          writeInConstant v) x 0
      | .nil => goPanic "Invalid IN parameter"
      | x => writeInConstant x
      WriteRune ')'
      -- delete the parameter now that it is writen in the query
      modifyW fun p => { p with params := removeAt p.params p.paramSymbolCount }
      return true
  | _ => return false

def handleEmptyIN (Right : Expr) : W Bool := do
  match Right with
  | .InExpr _ Values _ =>
    if Values.length != 1 then return false
    match Values with
    | [v0] =>
      if !v0.isParameterExpr then return false
      let p ← getW
      let isEmpty ←
        (if p.params.length == 0 then W.pure true
         else if p.params.length ≤ p.paramSymbolCount then
           fail "Too few parameters. Error processing IN parameter"
         else
           match p.params.get? p.paramSymbolCount with
           | some .nil => W.pure true
           | some (.slice t) => W.pure (t.length == 0)
           | _ => W.pure false)
      if isEmpty then
        WriteString "1=0"
        let p ← getW
        if p.params.length > 0 then
          -- delete the parameter now that it is writen in the query
          modifyW fun p => { p with params := removeAt p.params p.paramSymbolCount }
        return true
      return false
    | _ => return false
  | _ => fail "Invalid IN expression"

def writer.isWhiteListedFunc (p : writer) (name : String) : Bool :=
  match p.WhitelistFuncs with
  | some list => list.any fun v => stringsEqualFold v name
  | none =>
    match p.globalWhitelistFuncs with
    | some list => list.any fun v => stringsEqualFold v name
    | none => true

def writeColumnNameExpr (t : ColumnNameExpr) : W Unit := do
  if t.Table != "" then
    writeIdentifier t.Table
    WriteRune '.'
  writeIdentifier t.Name
  if t.Alias != "" then
    WriteString " AS "
    writeIdentifier t.Alias

def writeAllColumnsExpr (Table : String) : W Unit := do
  if Table != "" then
    writeIdentifier Table
    WriteRune '.'
  WriteRune '*'

def writeParameterExpr : W Unit := do
  WriteRune '?'
  modifyW fun p => { p with paramSymbolCount := p.paramSymbolCount + 1 }

/-- The function `sanitize`. -/
def sanitize (s : String) : String := stringsReplace s (Char.ofNat 34) "\\\""

def writeConstantExpr (Pos : Position) (Kind : Typ) (Value : String) : W Unit := do
  match Kind with
  | .INT | .FLOAT => WriteString Value
  | .STRING =>
    WriteRune (Char.ofNat 34)
    WriteString (sanitize Value)
    WriteRune (Char.ofNat 34)
  | .NULL => WriteString "null"
  | .TRUE =>
    if (← getW).driver == "sqlite3" then WriteString "1" else WriteString "true"
  | .FALSE =>
    if (← getW).driver == "sqlite3" then WriteString "0" else WriteString "false"
  | .DEFAULT => WriteString "default"
  | _ =>
    fail ("Invalid constant type: " ++ Kind.String ++ " " ++ Value ++ " at " ++ Pos.String)

def writeUTCTimestampSqlite (Args : List Expr) : W Unit := do
  if Args.length > 0 then
    fail "Expected 0 args"
  else
    WriteString "datetime('now')"

/-- The method `Position` of the expression nodes. -/
def Expr.Position : Expr → Goql.Position
| .ParameterExpr Pos _ => Pos
| .AllColumnsExpr _ Pos => Pos
| .ConstantExpr Pos _ _ => Pos
| .ParenExpr _ X _ => Expr.Position X
| .UnaryExpr Pos _ _ => Pos
| .BinaryExpr _ Left _ => Expr.Position Left
| .SelectColumnExpr e _ => Expr.Position e
| .ColumnNameExpr c => c.Pos
| .SelectQuery (.mk Pos _ _ _ _ _ _ _ _ _ _ _) => Pos
| .CallExpr Pos _ _ => Pos
| .BetweenExpr LExpr _ => Expr.Position LExpr
| .InExpr LParen _ _ => LParen
| .GroupConcatExpr Pos _ _ _ _ => Pos
| .IdentExpr Pos _ => Pos

mutual

def writeSelect : Nat → SelectQuery → W Unit
| 0, _ => outOfFuel
| n + 1, .mk _ Distinct ForUpdate Columns From WherePart GroupByPart HavingPart OrderByPart
    LimitPart UnionPart _ => do
  modifyW fun p => { p with currentQuery := some .SelectQuery }
  WriteString "SELECT "
  if Distinct then
    WriteString "DISTINCT "
  forRange (fun i col => do
    if i > 0 then
      WriteString ", "
    if (← getW).Format then
      WriteString "\n   "
    writeExpr n col) Columns 0
  match From with
  | none => pure ()
  | some froms =>
    if (← getW).Format then WriteRune '\n' else WriteRune ' '
    WriteString "FROM "
    forRange (fun i f => do
      if i > 0 then
        WriteString ", "
      writeFrom n f) froms 0
  match WherePart with
  | none => pure ()
  | some wp =>
    if (← getW).Format then WriteRune '\n' else WriteRune ' '
    WriteString "WHERE "
    writeExpr n wp.Expr
  if GroupByPart.length > 0 then
    if (← getW).Format then WriteRune '\n' else WriteRune ' '
    WriteString "GROUP BY "
    forRange (fun i group => do
      if i > 0 then
        WriteString ", "
      writeExpr n group) GroupByPart 0
  match HavingPart with
  | none => pure ()
  | some hp =>
    if (← getW).Format then WriteRune '\n' else WriteRune ' '
    WriteString "HAVING "
    writeExpr n hp.Expr
  if OrderByPart.length > 0 then
    if (← getW).Format then WriteRune '\n' else WriteRune ' '
    writeOrderBy n OrderByPart
  match LimitPart with
  | none => pure ()
  | some l => writeLimit n l
  forRange (fun _ u => do
    if (← getW).Format then WriteRune '\n' else WriteRune ' '
    WriteString "UNION "
    writeSelect n u) UnionPart 0
  if ForUpdate then
    WriteString " FOR UPDATE"

def writeLimit : Nat → Limit → W Unit
| 0, _ => outOfFuel
| n + 1, .mk _ RowCount Offset => do
  if (← getW).Format then WriteRune '\n' else WriteRune ' '
  WriteString "LIMIT "
  match Offset with
  | none => pure ()
  | some o =>
    ignoreErr (writeExpr n o)
    WriteString ", "
  ignoreErr (match RowCount with
    | some r => writeExpr n r
    | none => fail "Invalid expr <nil>")

def writeFrom : Nat → SqlFrom → W Unit
| 0, _ => outOfFuel
| n + 1, .Table t => writeFromTable n t false
| n + 1, .ParenExpr _ X _ => writeParenExpr n X
| n + 1, .FromAsExpr _ X _ Alias => do
  writeParenExpr n X
  WriteString " AS "
  writeIdentifier Alias

def writeFromTable : Nat → Table → Bool → W Unit
| 0, _, _ => outOfFuel
| n + 1, t, isWrite => do
  writeTable t.Database t.Name isWrite
  if t.Alias != "" then
    WriteString " AS "
    writeIdentifier t.Alias
  writeJoins n t.Joins

def writeJoins : Nat → List Join → W Unit
| 0, _ => outOfFuel
| n + 1, joins => forRange (fun _ j => writeJoin n j) joins 0

def writeJoin : Nat → Join → W Unit
| 0, _ => outOfFuel
| n + 1, .mk _ Typ Table Alias Database On => do
  if (← getW).Format then WriteRune '\n' else WriteRune ' '
  match Typ with
  | .LEFT => WriteString "LEFT JOIN "
  | .RIGHT => WriteString "RIGHT JOIN "
  | .INNER => WriteString "INNER JOIN "
  | .OUTER => WriteString "OUTER JOIN "
  | .CROSS => WriteString "CROSS JOIN "
  | .JOIN => WriteString "JOIN "
  | _ => fail ("Invalid join type: " ++ Typ.String)
  writeTable Database Table false
  if Alias != "" then
    WriteString " AS "
    writeIdentifier Alias
  match On with
  | none => pure ()
  | some onExpr => do
    WriteString " ON "
    writeExpr n onExpr

def writeExpr : Nat → Expr → W Unit
| 0, _ => outOfFuel
| _ + 1, .ParameterExpr _ _ => writeParameterExpr
| _ + 1, .AllColumnsExpr Table _ => writeAllColumnsExpr Table
| _ + 1, .ConstantExpr Pos Kind Value => writeConstantExpr Pos Kind Value
| n + 1, .ParenExpr _ X _ => writeParenExpr n X
| n + 1, .UnaryExpr _ Operator Operand => writeUnaryExpr n Operator Operand
| n + 1, .BinaryExpr Operator Left Right => writeBinaryExpr n Operator Left Right
| n + 1, .SelectColumnExpr e Alias => writeSelectColumnExpr n e Alias
| _ + 1, .ColumnNameExpr c => writeColumnNameExpr c
| n + 1, .SelectQuery q => writeSelect n q
| n + 1, .CallExpr _ Name Args => writeFuncCallExpr n Name Args
| n + 1, .BetweenExpr LExpr RExpr => writeBetweenExpr n LExpr RExpr
| n + 1, .InExpr _ Values _ => writeInExpr n Values
| n + 1, .GroupConcatExpr _ Distinct Expressions OrderByPart Separator =>
  writeGroupConcat n Distinct Expressions OrderByPart Separator
| _ + 1, .IdentExpr _ _ => fail "Invalid expr *goql.IdentExpr"

def writeBetweenExpr : Nat → Expr → Expr → W Unit
| 0, _, _ => outOfFuel
| n + 1, LExpr, RExpr => do
  writeExpr n LExpr
  WriteString " AND "
  writeExpr n RExpr

def writeInExpr : Nat → List Expr → W Unit
| 0, _ => outOfFuel
| n + 1, Values => do
  if (← replaceInParameter Values) then
    return
  WriteRune '('
  forRange (fun i a => do
    if i > 0 then
      WriteString ", "
    writeExpr n a) Values 0
  WriteRune ')'

def writeGroupConcat : Nat → Bool → List Expr → List OrderColumn → String → W Unit
| 0, _, _, _, _ => outOfFuel
| n + 1, Distinct, Expressions, OrderByPart, Separator => do
  if (← getW).driver == "sqlite3" then
    writeGroupConcatSqlite n Expressions
  else
    WriteString "GROUP_CONCAT("
    if Distinct then
      WriteString "DISTINCT "
    forRange (fun i exp => do
      if i > 0 then
        WriteRune ','
      writeExpr n exp) Expressions 0
    if OrderByPart.length > 0 then
      WriteRune ' '
      writeOrderBy n OrderByPart
    if Separator != "" then
      WriteString " SEPARATOR '"
      liftExcept (validateSeparator Separator)
      WriteString Separator
      WriteRune (Char.ofNat 39)
    WriteRune ')'

def writeGroupConcatSqlite : Nat → List Expr → W Unit
| 0, _ => outOfFuel
| n + 1, Expressions => do
  WriteString "GROUP_CONCAT("
  forRange (fun i exp => do
    if i > 0 then
      WriteRune ','
    writeExpr n exp) Expressions 0
  WriteRune ')'

def writeFuncCallExpr : Nat → String → List Expr → W Unit
| 0, _, _ => outOfFuel
| n + 1, Name, Args => do
  let name := stringsToUpper Name
  let p ← getW
  if !p.isWhiteListedFunc name then
    fail ("The function " ++ name ++ " is not allowed")
  else if (name == "CONCAT" || name == "CONCAT_WS") && p.driver == "sqlite3" then
    writeConcatSqlite n Args
  else if name == "UTC_TIMESTAMP" && p.driver == "sqlite3" then
    writeUTCTimestampSqlite Args
  else
    WriteString name
    WriteRune '('
    forRange (fun i a => do
      if i > 0 then
        WriteString ", "
      writeExpr n a) Args 0
    WriteRune ')'

def writeConcatSqlite : Nat → List Expr → W Unit
| 0, _ => outOfFuel
| n + 1, Args =>
  forRange (fun i a => do
    if i > 0 then
      WriteString " || "
    writeExpr n a) Args 0

def writeOrderBy : Nat → List OrderColumn → W Unit
| 0, _ => outOfFuel
| n + 1, t => do
  WriteString "ORDER BY "
  forRange (fun i c => do
    if i > 0 then
      WriteString ", "
    writeOrderColumn n c) t 0

def writeOrderColumn : Nat → OrderColumn → W Unit
| 0, _ => outOfFuel
| n + 1, .mk e Typ => do
  writeExpr n e
  match Typ with
  | .NOTSET => pure ()
  | .ASC => WriteString " ASC"
  | .DESC => WriteString " DESC"
  | _ => fail ("Invalid order type " ++ Typ.String ++ " at " ++ e.Position.String)

def writeSelectColumnExpr : Nat → Expr → String → W Unit
| 0, _, _ => outOfFuel
| n + 1, e, Alias => do
  writeExpr n e
  if Alias != "" then
    WriteString " AS "
    writeIdentifier Alias

def writeParenExpr : Nat → Expr → W Unit
| 0, _ => outOfFuel
| n + 1, X => do
  WriteRune '('
  writeExpr n X
  WriteRune ')'

def writeUnaryExpr : Nat → Typ → Expr → W Unit
| 0, _, _ => outOfFuel
| n + 1, Operator, Operand => do
  match Operator with
  | .ADD => WriteRune '+'
  | .SUB => WriteRune '-'
  | _ => fail ("Invalid unary operator " ++ Operator.String)
  writeExpr n Operand

def handleNullEquality : Nat → Expr → Expr → Bool → W Bool
| 0, _, _, _ => outOfFuel
| n + 1, Left, Right, equals => do
  let p ← getW
  let isNull ←
    (match Right with
     | .ParameterExpr _ _ =>
       if p.params.length ≤ p.paramSymbolCount then W.pure true
       else
         match p.params.get? p.paramSymbolCount with
         | some .nil =>
           -- delete the parameter
           W.bind (modifyW fun p => { p with params := removeAt p.params p.paramSymbolCount })
             fun _ => W.pure true
         | _ => W.pure false
     | .ConstantExpr _ Kind _ => W.pure (Kind == .NULL)
     | _ => W.pure false)
  if isNull then
    writeExpr n Left
    if equals then
      WriteString " IS NULL"
    else
      WriteString " IS NOT NULL"
    return true
  return false

def writeBinaryExpr : Nat → Typ → Expr → Expr → W Unit
| 0, _, _, _ => outOfFuel
| n + 1, Operator, Left, Right => do
  let ok ←
    (match Operator with
     | .IN => handleEmptyIN Right
     | .EQL => handleNullEquality n Left Right true
     | .NEQ => handleNullEquality n Left Right false
     | _ => W.pure false)
  if ok then
    return
  writeExpr n Left
  WriteRune ' '
  match Operator with
  | .ADD => WriteRune '+'
  | .SUB => WriteRune '-'
  | .DIV => WriteRune '/'
  | .MUL => WriteRune '*'
  | .MOD => WriteRune '%'
  | .LSF => WriteString ">>"
  | .ANB => WriteRune '&'
  | .LSS => WriteRune '<'
  | .LEQ => WriteString "<="
  | .GTR => WriteRune '>'
  | .GEQ => WriteString ">="
  | .EQL => WriteRune '='
  | .LIKE => WriteString "LIKE"
  | .NOTLIKE => WriteString "NOT LIKE"
  | .NEQ => WriteString "!="
  | .AND =>
    if (← getW).Format then
      WriteString "\n "
    WriteString "AND"
  | .OR =>
    if (← getW).Format then
      WriteString "\n "
    WriteString "OR"
  | .BETWEEN => WriteString "BETWEEN"
  | .IN => WriteString "IN"
  | .NOTIN => WriteString "NOT IN"
  | .IS => WriteString "IS"
  | .ISNOT => WriteString "IS NOT"
  | _ => fail ("Invalid binary operator " ++ Operator.String)
  WriteRune ' '
  writeExpr n Right

end

/-! ## writer.go : statements -/

def writeColumnValue (n : Nat) (t : ColumnValue) : W Unit := do
  if t.Table != "" then
    writeIdentifier t.Table
    WriteRune '.'
  writeIdentifier t.Name
  WriteString " = "
  writeExpr n t.Expr

def writeCreateColumnMySQL (c : CreateColumn) : W Unit := do
  writeIdentifier c.Name
  (match c.Typ with
    | .Int => WriteString " int"
    | .Decimal => WriteString " decimal"
    | .Char => WriteString " char"
    | .Varchar => WriteString " varchar"
    | .Text => WriteString " text"
    | .MediumText => WriteString " mediumtext"
    | .Bool => WriteString " bool"
    | .Blob => WriteString " blob"
    | .DatTime => WriteString " datetime")
  (if c.Size != "" then do
    WriteString "("
    writeUnescapedAlphanumeric c.Size
    (if c.Decimals != "" then do
      WriteString ","
      writeUnescapedAlphanumeric c.Decimals
    else pure ())
    WriteString ")"
  else pure ())
  (if c.Key then WriteString " AUTO_INCREMENT" else pure ())
  (if !c.Nullable then WriteString " NOT" else pure ())
  WriteString " NULL"
  (if c.Default != "" then do
    WriteString " DEFAULT "
    writeQuotedAlphanumeric c.Default
  else pure ())

def writeCreateColumnSqlite3 (c : CreateColumn) : W Unit := do
  writeIdentifier c.Name
  (match c.Typ with
    | .Int => WriteString " INTEGER"
    | .Decimal => WriteString " REAL"
    | .Char | .Varchar => WriteString " VARCHAR"
    | .Text | .MediumText => WriteString " TEXT"
    | .Bool => WriteString " BOOLEAN"
    | .DatTime => WriteString " DATETIME"
    | .Blob => pure ())
  (if c.Size != "" then do
    WriteString "("
    writeUnescapedAlphanumeric c.Size
    (if c.Decimals != "" then do
      WriteString ","
      writeUnescapedAlphanumeric c.Decimals
    else pure ())
    WriteString ")"
  else pure ())
  (if c.Key then WriteString " PRIMARY KEY" else pure ())
  (if !c.Nullable then WriteString " NOT" else pure ())
  WriteString " NULL"
  (if c.Default != "" then do
    WriteString " DEFAULT "
    writeQuotedAlphanumeric c.Default
  else pure ())
  (match c.Typ with
    | .Char | .Varchar | .Text | .MediumText => WriteString " COLLATE NOCASE"
    | _ => pure ())

def writeCreateColumn (c : CreateColumn) : W Unit := do
  if (← getW).driver == "sqlite3" then writeCreateColumnSqlite3 c
  else writeCreateColumnMySQL c

def setCurrentQuery (t : QueryType) : W Unit :=
  modifyW fun p => { p with currentQuery := some t }

def writeRenameColumnQuery (q : RenameColumnQuery) : W Unit := do
  WriteString "ALTER TABLE "
  writeTable q.Database q.Table true
  WriteString " CHANGE "
  writeIdentifier q.Name
  WriteString " "
  setCurrentQuery .RenameColumnQuery
  writeCreateColumn q.Column

def writeAddColumnQuery (q : AddColumnQuery) : W Unit := do
  WriteString "ALTER TABLE "
  writeTable q.Database q.Table true
  WriteString " ADD COLUMN "
  setCurrentQuery .AddColumnQuery
  writeCreateColumn q.Column

def writeAlterDropQuery (q : AlterDropQuery) : W Unit := do
  WriteString "ALTER TABLE "
  writeTable q.Database q.Table true
  WriteString " DROP "
  if q.Typ == "COLUMN" || q.Typ == "INDEX" then
    WriteString q.Typ
  else
    fail ("Invalid drop type: " ++ q.Typ)
  WriteString " "
  setCurrentQuery .AlterDropQuery
  writeIdentifier q.Item

def writeModifyColumnQuery (q : ModifyColumnQuery) : W Unit := do
  WriteString "ALTER TABLE "
  writeTable q.Database q.Table true
  WriteString " MODIFY "
  setCurrentQuery .ModifyColumnQuery
  writeCreateColumn q.Column

def writeDelete (n : Nat) (s : DeleteQuery) : W Unit := do
  setCurrentQuery .DeleteQuery
  let p ← getW
  if p.driver == "sqlite3" && s.Table.Joins.length > 0 then
    fail "Invalid operation: UPDATE JOIN not supported in sqlite3"
  else if p.driver == "sqlite3" && s.Table.Alias.length > 0 then
    fail "Invalid operation: UPDATE with Alias not supported in sqlite3"
  else
    WriteString "DELETE"
    if s.Alias.length > 1 then
      WriteRune ' '
      forRange (fun i a => do
        if i > 0 then
          WriteString ", "
        writeIdentifier a) s.Alias 0
    WriteString " FROM "
    writeFromTable n s.Table true
    match s.WherePart with
    | none => pure ()
    | some wp =>
      if p.Format then
        WriteRune '\n'
      WriteString " WHERE "
      writeExpr n wp.Expr
    match s.LimitPart with
    | none => pure ()
    | some l => writeLimit n l

def writeUpdate (n : Nat) (s : UpdateQuery) : W Unit := do
  setCurrentQuery .UpdateQuery
  let p ← getW
  if p.driver == "sqlite3" && s.Table.Joins.length > 0 then
    fail "Invalid operation: UPDATE JOIN not supported in sqlite3"
  else if p.driver == "sqlite3" && s.Table.Alias.length > 0 then
    fail "Invalid operation: UPDATE with Alias not supported in sqlite3"
  else
    WriteString "UPDATE "
    writeFromTable n s.Table true
    WriteString " SET "
    forRange (fun i col => do
      if i > 0 then
        WriteString ", "
      if p.Format then
        WriteString "\n "
      writeColumnValue n col) s.Columns 0
    match s.WherePart with
    | none => pure ()
    | some wp =>
      if p.Format then
        WriteRune '\n'
      WriteString " WHERE "
      writeExpr n wp.Expr
    match s.LimitPart with
    | none => pure ()
    | some l => writeLimit n l

def writeInsert (n : Nat) (s : InsertQuery) : W Unit := do
  setCurrentQuery .InsertQuery
  WriteString "INSERT INTO "
  writeTable s.Table.Database s.Table.Name true
  if s.Columns.length > 0 then
    WriteString " ("
    forRange (fun i col => do
      if i > 0 then
        WriteString ", "
      writeColumnNameExpr col) s.Columns 0
    WriteString ")"
  if (← getW).Format then WriteRune '\n' else WriteRune ' '
  match s.Select with
  | some sel => writeSelect n sel
  | none =>
    WriteString "VALUES ("
    forRange (fun i v => do
      if i > 0 then
        WriteString ", "
      writeExpr n v) s.Values 0
    WriteString ")"

def writeAddFK (s : AddFKQuery) : W Unit := do
  WriteString "ALTER TABLE "
  writeTable s.Database s.Table true
  WriteString " ADD CONSTRAINT "
  writeIdentifier s.Name
  WriteString " FOREIGN KEY("
  writeIdentifier s.Column
  WriteString ") REFERENCES "
  writeTable s.RefDatabase s.RefTable false
  WriteRune '('
  writeIdentifier s.RefColumn
  WriteRune ')'
  if s.DeleteCascade then
    WriteString " ON DELETE CASCADE"

def writeAddContraint (s : AddConstraintQuery) : W Unit := do
  WriteString "ALTER TABLE "
  writeTable s.Database s.Table true
  WriteString " ADD CONSTRAINT "
  writeIdentifier s.Name
  if s.Typ == "UNIQUE" then
    WriteString " UNIQUE "
  else
    fail ("Invalid cosntraint type " ++ s.Typ ++ " at " ++ s.Pos.String)
  WriteString "("
  forRange (fun i col => do
    if i > 0 then
      WriteString ", "
    writeColumnNameExpr col) s.Columns 0
  WriteString ")"

def writeDropDatabase (s : DropDatabaseQuery) : W Unit := do
  setCurrentQuery .DropDatabaseQuery
  WriteString "DROP DATABASE "
  if s.IfExists then
    WriteString "IF EXISTS "
  writeIdentifier s.Database

def writeDropTable (s : DropTableQuery) : W Unit := do
  setCurrentQuery .DropTableQuery
  WriteString "DROP TABLE "
  if s.IfExists then
    WriteString "IF EXISTS "
  writeTable s.Database s.Table true

def writeShowDatabases (s : ShowQuery) : W Unit := do
  let p ← getW
  if p.Database != "" then
    fail ("Invalid database in SHOW DATABASES at " ++ s.Pos.String)
  else if p.driver == "sqlite3" then
    fail ("Sqlite doesn't support 'SHOW DATABASES' at " ++ s.Pos.String)
  else
    WriteString "SHOW DATABASES"

def writeShowTables (s : ShowQuery) : W Unit := do
  let p ← getW
  if !p.validateDatabase s.Database then
    fail ("Invalid database " ++ s.Database ++ " at " ++ s.Pos.String)
  else
    let database := if s.Database == "" then p.Database else s.Database
    if p.driver == "sqlite3" then
      WriteString "SELECT name FROM sqlite_master WHERE type = \"table\""
      if database != "" then
        WriteString " AND name like \""
        writeUnescapedAlphanumeric database
        WriteString "%\""
    else
      WriteString "SHOW TABLES"
      if database != "" then
        WriteString " FROM "
        writeIdentifier database

def writeShowColumns (q : ShowQuery) : W Unit := do
  if (← getW).driver == "sqlite3" then
    WriteString "PRAGMA table_info("
    writeTable q.Database q.Table false
    WriteString ")"
  else
    WriteString "SHOW COLUMNS FROM "
    writeTable q.Database q.Table false

def writeShowIndex (q : ShowQuery) : W Unit := do
  if (← getW).driver == "sqlite3" then
    WriteString "PRAGMA index_list("
    writeTable q.Database q.Table false
    WriteString ")"
  else
    WriteString "SHOW INDEX FROM "
    writeTable q.Database q.Table false

def writeShow (s : ShowQuery) : W Unit := do
  setCurrentQuery .ShowQuery
  let t := stringsToLower s.Typ
  if t == "databases" then writeShowDatabases s
  else if t == "tables" then writeShowTables s
  else if t == "columns" then writeShowColumns s
  else if t == "index" then writeShowIndex s
  else fail ("Invalid identifier " ++ s.Typ ++ " at " ++ s.Pos.String)

def writeCreateDatabase (s : CreateDatabaseQuery) : W Unit := do
  setCurrentQuery .CreateDatabaseQuery
  if (← getW).driver == "sqlite3" then
    fail ("Not supported at " ++ s.Pos.String)
  else
    WriteString "CREATE DATABASE "
    if s.IfNotExists then
      WriteString "IF NOT EXISTS "
    writeIdentifier s.Name

def writeFKConstraint (c : ForeginKey) : W Unit := do
  WriteString ", CONSTRAINT "
  writeIdentifier c.Name
  WriteString " FOREIGN KEY ("
  writeIdentifier c.Column
  WriteString ") REFERENCES "
  writeTable (← getW).Database c.RefTable false
  WriteString "("
  writeIdentifier c.RefColumn
  WriteString ")"
  if c.DeleteCascade then
    WriteString " ON DELETE CASCADE"

def writeConstraint (c : Constraint) : W Unit := do
  WriteString ", CONSTRAINT "
  writeIdentifier c.Name
  WriteString " "
  writeUnescapedAlphanumeric (stringsToUpper c.Typ)
  WriteString " ("
  forRange (fun i col => do
    if i > 0 then
      WriteString ", "
    writeIdentifier col) c.Columns 0
  WriteString ")"

def writeCreateTable (s : CreateTableQuery) : W Unit := do
  setCurrentQuery .CreateTableQuery
  WriteString "CREATE TABLE "
  if s.IfNotExists then
    WriteString "IF NOT EXISTS "
  writeTable (← getW).Database s.Name true
  WriteString " ("
  forRange (fun i col => do
    if i > 0 then
      WriteString ", "
    if (← getW).Format then
      WriteString "\n\t"
    setCurrentQuery .CreateTableQuery
    writeCreateColumn col) s.Columns 0
  -- `key` is the first column with `Key` set
  match (if (← getW).driver == "mysql" then s.Columns.find? (fun col => col.Key) else none) with
  | some key =>
    WriteString ", "
    if (← getW).Format then
      WriteString "\n\t"
    WriteString "PRIMARY KEY("
    writeIdentifier key.Name
    WriteString ")"
  | none => pure ()
  forRange (fun _ c => do
    if (← getW).Format then
      WriteRune '\n'
    match c with
    | .Constraint t => writeConstraint t
    | .ForeginKey t => writeFKConstraint t) s.Constraints 0
  if (← getW).Format then
    WriteRune '\n'
  WriteString ")"
  if (← getW).driver == "mysql" then
    WriteString " ENGINE=InnoDb"
    WriteString " DEFAULT CHARACTER SET = utf8"
    WriteString " DEFAULT COLLATE = utf8_general_ci"

/-- The result of `Write`: the SQL text and the parameters, or the error. -/
inductive WriteResult
| ok (sql : String) (params : List Value)
| error (msg : String)
| panic (msg : String)
| fuel

/-- The dispatch of `Write` on the type of the query. -/
def writeQuery (n : Nat) : Query → W Unit
| .SelectQuery t => writeSelect n t
| .InsertQuery t => writeInsert n t
| .UpdateQuery t => writeUpdate n t
| .DeleteQuery t => writeDelete n t
| .CreateTableQuery t => writeCreateTable t
| .CreateDatabaseQuery t => writeCreateDatabase t
| .RenameColumnQuery t => writeRenameColumnQuery t
| .ModifyColumnQuery t => writeModifyColumnQuery t
| .AddColumnQuery t => writeAddColumnQuery t
| .ShowQuery t => writeShow t
| .DropDatabaseQuery t => writeDropDatabase t
| .DropTableQuery t => writeDropTable t
| .AlterDropQuery t => writeAlterDropQuery t
| .AddConstraintQuery t => writeAddContraint t
| .AddFKQuery t => writeAddFK t

/-- The method `Write`, with recursion budget `n`. -/
def writer.Write (p : writer) (n : Nat) : WriteResult :=
  match p.ValidateNamespace p.Namespace with
  | .error e => .error e
  | .ok _ =>
    match p.query with
    | none => .error "Empty query"
    | some q =>
      match writeQuery n q p with
      | .ok _ p1 => .ok p1.buf p1.params
      | .err e _ => .error e
      | .panic msg => .panic msg
      | .fuel => .fuel

/-- The function `ToSql`. -/
def ToSql (n : Nat) (q : Option Query) (params : List Value) (database driver : String) :
    WriteResult :=
  (NewWriter q params database driver).Write n

/-- The helper `toSQL` of writer_test.go. -/
def toSQL (n : Nat) (format : Bool) (q : Option Query) (params : List Value)
    (database driver : String) : WriteResult :=
  ({ NewWriter q params database driver with EscapeIdents := false, Format := format }).Write n

/-! ## A state-and-error monad for the lexer and the parser -/

/-- The outcome of a lexer or parser method: a value and the new state, an error (with
the state reached, since some callers discard the error and go on), or the exhaustion of
the recursion budget of the embedding. -/
inductive SRes (σ α : Type)
| ok (a : α) (s : σ)
| err (e : Error) (s : σ)
| fuel

def SM (σ α : Type) : Type := σ → SRes σ α

def SM.pure {σ α : Type} (a : α) : SM σ α := fun s => .ok a s

def SM.bind {σ α β : Type} (m : SM σ α) (f : α → SM σ β) : SM σ β := fun s =>
  match m s with
  | .ok a s1 => f a s1
  | .err e s1 => .err e s1
  | .fuel => .fuel

instance {σ : Type} : Monad (SM σ) where
  pure := SM.pure
  bind := SM.bind

def SM.throw {σ α : Type} (e : Error) : SM σ α := fun s => .err e s

/-- A call whose error the caller inspects instead of returning it. -/
def SM.attempt {σ α : Type} (m : SM σ α) : SM σ (Except Error α) := fun s =>
  match m s with
  | .ok a s1 => .ok (.ok a) s1
  | .err e s1 => .ok (.error e) s1
  | .fuel => .fuel

def SM.noFuel {σ α : Type} : SM σ α := fun _ => .fuel

def SM.get {σ : Type} : SM σ σ := fun s => .ok s s

def SM.modify {σ : Type} (f : σ → σ) : SM σ Unit := fun s => .ok () (f s)

/-! ## lexer.go -/

/-- The lexer: its position, the bytes of the reader not yet read, the tokens. -/
structure lexer where
  Pos : Position
  reader : List Char
  Tokens : List Token

def newLexer (input : String) : lexer :=
  { Pos := ⟨0, 0, 0⟩, reader := input.data, Tokens := [] }

/-- The byte `byte(EOF)`, which `readNext` returns at the end of the input. -/
def eofByte : Char := Char.ofNat Typ.EOF.toByte

def EOF_LINE : Int := -1

def lexer.error (tok : String) (msg : String) : SM lexer Unit := fun l =>
  .err ⟨l.Pos, msg, tok⟩ l

/-- The reader after one byte was read. -/
def lexer.advance (l : lexer) : lexer := { l with reader := l.reader.tail }

def lexer.readNext : SM lexer Char := fun l =>
  match l.reader with
  | [] => .ok eofByte l
  | c :: _ => .ok c l.advance

/-- The method `peek`: the byte is put back unless it equals `byte(EOF)`. -/
def lexer.peek : SM lexer Char := fun l =>
  match l.reader with
  | [] => .ok eofByte l
  | c :: _ => if c != eofByte then .ok c l else .ok c l.advance

def lexer.newline (ch : Char) : SM lexer Unit := do
  SM.modify fun l => { l with Pos := ⟨l.Pos.Line + 1, 0, l.Pos.Length⟩ }
  let next ← lexer.peek
  if (ch == '\n' && next == '\r') || (ch == '\r' && next == '\n') then
    SM.modify fun l => { l with reader := l.reader.tail }

def lexer.next : SM lexer Char := do
  let ch ← lexer.readNext
  if ch == '\n' || ch == '\r' then
    lexer.newline ch
    return '\n'
  else if ch == eofByte then
    SM.modify fun l => { l with Pos := ⟨EOF_LINE, 0, l.Pos.Length⟩ }
    return ch
  else
    SM.modify fun l => { l with Pos := ⟨l.Pos.Line, l.Pos.Column + 1, l.Pos.Length⟩ }
    return ch

def lexer.skipWhiteSpace : Nat → SM lexer Unit
| 0 => SM.noFuel
| n + 1 => do
  if isWhitespace (← lexer.peek).toNat then
    let _ ← lexer.next
    lexer.skipWhiteSpace n

def lexer.addToken (t : Token) : SM lexer Unit :=
  SM.modify fun l =>
    { l with Tokens := l.Tokens ++ [⟨t.Typ, t.Str, ⟨l.Pos.Line, l.Pos.Column, t.Str.length⟩⟩] }

/-- The loop of `readIdent`, the buffer being `b`. -/
def lexer.readIdentLoop : Nat → String → SM lexer String
| 0, _ => SM.noFuel
| n + 1, b => do
  if isIdent (← lexer.peek).toNat 1 then
    let c ← lexer.next
    lexer.readIdentLoop n (b.push c)
  else
    return b

def lexer.readIdent (n : Nat) (c : Char) (b : String) : SM lexer String :=
  lexer.readIdentLoop n (b.push c)

def lexer.readDecimalLoop : Nat → String → SM lexer String
| 0, _ => SM.noFuel
| n + 1, b => do
  if isDecimal (← lexer.peek).toNat then
    let c ← lexer.next
    lexer.readDecimalLoop n (b.push c)
  else
    return b

def lexer.readDecimal (n : Nat) (c : Char) (b : String) : SM lexer String :=
  lexer.readDecimalLoop n (b.push c)

def lexer.readCommentLoop : Nat → String → SM lexer String
| 0, _ => SM.noFuel
| n + 1, b => do
  let p ← lexer.peek
  if p == '\n' || p == eofByte then
    return b
  else
    let c ← lexer.next
    lexer.readCommentLoop n (b.push c)

def lexer.readComment (n : Nat) (c : Char) (b : String) : SM lexer String :=
  lexer.readCommentLoop n (b.push c)

/-- The loop of `readString`: `c` is the byte at hand, `b` the buffer.  The result is
the buffer, with the error when there is one. -/
def lexer.readStringLoop (quote : Char) : Nat → Char → String → SM lexer (String × Option Error)
| 0, _, _ => SM.noFuel
| n + 1, c, b => do
  if c == quote then
    return (b, none)
  else if c == eofByte then
    return (b, some ⟨(← SM.get).Pos, "unterminated string", b⟩)
  else if c == '\\' then
    let c ← lexer.next
    let esc : Option Char :=
      if c == 'b' then some (Char.ofNat 8)
      else if c == 't' then some '\t'
      else if c == 'n' then some '\n'
      else if c == 'f' then some (Char.ofNat 12)
      else if c == 'r' then some '\r'
      else if c == Char.ofNat 34 then some (Char.ofNat 34)
      else if c == Char.ofNat 39 then some (Char.ofNat 39)
      else if c == '\\' then some '\\'
      else none
    match esc with
    | none => return (b, some ⟨(← SM.get).Pos, "Invalid escape sequence", b⟩)
    | some e =>
      let c ← lexer.next
      lexer.readStringLoop quote n c (b.push e)
  else
    let c2 ← lexer.next
    lexer.readStringLoop quote n c2 (b.push c)

def lexer.readString (n : Nat) (quote : Char) (b : String) : SM lexer (String × Option Error) := do
  let c ← lexer.next
  lexer.readStringLoop quote n c b

/-- The method `readNumber`: the type and the text of the token, with the error when
there is one. -/
def lexer.readNumber (n : Nat) (c : Char) : SM lexer (Typ × String × Option Error) := do
  let b ← lexer.readDecimal n c ""
  let c ← lexer.peek
  if c == '.' then
    let b := b.push c
    let _ ← lexer.next
    let c ← lexer.next
    if !isDecimal c.toNat then
      return (.INT, b, some ⟨(← SM.get).Pos, "Invalid number", b⟩)
    else
      let b ← lexer.readDecimal n c b
      return (.FLOAT, b, none)
  else
    return (.INT, b, none)

/-- The map `reservedWords` of ast.go. -/
def reservedWords (s : String) : Option Typ :=
  [("CREATE", Typ.CREATE), ("SHOW", .SHOW), ("ALTER", .ALTER), ("DROP", .DROP), ("TABLE", .TABLE),
   ("DATABASE", .DATABASE), ("NOT", .NOT), ("EXISTS", .EXISTS), ("CONSTRAINT", .CONSTRAINT),
   ("INT", .INTEGER), ("DECIMAL", .DECIMAL), ("CHAR", .CHAR), ("VARCHAR", .VARCHAR),
   ("TEXT", .TEXT), ("MEDIUMTEXT", .MEDIUMTEXT), ("BOOL", .BOOL), ("BLOB", .BLOB),
   ("DATETIME", .DATETIME), ("DEFAULT", .DEFAULT), ("SELECT", .SELECT), ("DISTINCT", .DISTINCT),
   ("INSERT", .INSERT), ("INTO", .INTO), ("VALUES", .VALUES), ("UPDATE", .UPDATE), ("SET", .SET),
   ("DELETE", .DELETE), ("FROM", .FROM), ("WHERE", .WHERE), ("GROUP", .GROUP),
   ("HAVING", .HAVING), ("JOIN", .JOIN), ("LEFT", .LEFT), ("RIGHT", .RIGHT), ("INNER", .INNER),
   ("OUTER", .OUTER), ("CROSS", .CROSS), ("ON", .ON), ("AS", .AS), ("IN", .IN),
   ("BETWEEN", .BETWEEN), ("IS", .IS), ("LIKE", .LIKE), ("NOTLIKE", .NOTLIKE),
   ("ORDER", .ORDER), ("BY", .BY), ("ASC", .ASC), ("DESC", .DESC), ("RANDOM", .RANDOM),
   ("LIMIT", .LIMIT), ("AND", .AND), ("OR", .OR), ("NULL", .NULL), ("TRUE", .TRUE),
   ("FALSE", .FALSE), ("FOR", .FOR), ("UNION", .UNION)].lookup s

/-- The token of a one-byte operator or delimiter, as the inner `switch` of `run` sets
it; `none` for a byte that none of its cases names. -/
def simpleToken (c : Char) : Option Typ :=
  if c == '+' then some .ADD
  else if c == '*' then some .MUL
  else if c == '/' then some .DIV
  else if c == '&' then some .ANB
  else if c == '=' then some .EQL
  else if c == '%' then some .MOD
  else if c == '(' then some .LPAREN
  else if c == ')' then some .RPAREN
  else if c == ',' then some .COMMA
  else if c == '.' then some .PERIOD
  else if c == ':' then some .COLON
  else if c == ';' then some .SEMICOLON
  else if c == '?' then some .QUESTION
  else none

/-- One turn of the loop of `run` after the byte `c` was read: the token to add, or the
error that ends the run.  `n` bounds the inner loops. -/
def lexer.scanToken (n : Nat) (c : Char) : SM lexer Token := do
  if isIdent c.toNat 0 then
    let str ← lexer.readIdent n c ""
    match reservedWords (stringsToUpper str) with
    | some typ => return ⟨typ, str, default⟩
    | none => return ⟨.IDENT, str, default⟩
  else if isDecimal c.toNat then
    let (typ, str, err) ← lexer.readNumber n c
    match err with
    | some e => SM.throw e
    | none => return ⟨typ, str, default⟩
  else if c == Char.ofNat 34 || c == Char.ofNat 39 then
    let (str, err) ← lexer.readString n c ""
    match err with
    | some e => SM.throw e
    | none => return ⟨.STRING, str, default⟩
  else if c == Char.ofNat 96 then
    let str ← lexer.readIdent n c ""
    -- readIdent won't read the closing quote
    if (← lexer.next) != Char.ofNat 96 then
      SM.throw ⟨(← SM.get).Pos, "Unclosed back quote", str⟩
    else
      return ⟨.IDENT, str, default⟩
  else if c == '-' then
    if (← lexer.peek) == '-' then
      let str ← lexer.readComment n c ""
      return ⟨.COMMENT, str, default⟩
    else
      return ⟨.SUB, String.singleton c, default⟩
  else if c == '<' then
    if (← lexer.peek) == '=' then
      let _ ← lexer.next
      return ⟨.LEQ, "<=", default⟩
    else
      return ⟨.LSS, String.singleton c, default⟩
  else if c == '>' then
    let p ← lexer.peek
    if p == '=' then
      let _ ← lexer.next
      return ⟨.GEQ, ">=", default⟩
    else if p == '>' then
      let _ ← lexer.next
      return ⟨.LSF, ">>", default⟩
    else
      return ⟨.GTR, String.singleton c, default⟩
  else if c == '!' then
    if (← lexer.peek) == '=' then
      let _ ← lexer.next
      return ⟨.NEQ, "!=", default⟩
    else
      return ⟨.NT, String.singleton c, default⟩
  else
    match simpleToken c with
    | some typ => return ⟨typ, String.singleton c, default⟩
    | none => return ⟨.NOTSET, "", default⟩

/-- The method `run`, with `n` turns of its loop at most. -/
def lexer.run : Nat → SM lexer Unit
| 0 => SM.noFuel
| n + 1 => do
  lexer.skipWhiteSpace ((← SM.get).reader.length + 1)
  let c ← lexer.next
  if c == eofByte then
    return
  let token ← lexer.scanToken ((← SM.get).reader.length + 1) c
  lexer.addToken token
  lexer.run n

/-- The tokens of an input: `newLexer` and `run`, with one turn per input byte (and one
for the end of the input). -/
def lex (input : String) : SRes lexer (List Token) :=
  match lexer.run (input.length + 1) (newLexer input) with
  | .ok _ l => .ok l.Tokens l
  | .err e l => .err e l
  | .fuel => .fuel

/-- The token types of an input, or `none` when the lexer fails. -/
def lexTypes (input : String) : Option (List Typ) :=
  match lex input with
  | .ok ts _ => some (ts.map Token.Typ)
  | _ => none

/-! ## parser.go : the token cursor -/

structure Parser where
  ReplaceParams : Bool
  Params : List Value
  /-- the tokens of `p.lexer` -/
  Tokens : List Token
  lexIdex : Nat

/-- The token `&Token{Type: EOF}`. -/
def eofToken : Token := ⟨.EOF, "", ⟨0, 0, 0⟩⟩

def Parser.tokenAt (p : Parser) (i : Nat) : Token := (p.Tokens.get? i).getD eofToken

def Parser.advance (p : Parser) : Parser := { p with lexIdex := p.lexIdex + 1 }

def Parser.peek : SM Parser Token := fun p => .ok (p.tokenAt p.lexIdex) p

/-- Peek two positions forward. -/
def Parser.peekTwo : SM Parser Token := fun p => .ok (p.tokenAt (p.lexIdex + 1)) p

def Parser.next : SM Parser Token := fun p =>
  if p.lexIdex ≥ p.Tokens.length then .ok eofToken p
  else .ok (p.tokenAt p.lexIdex) p.advance

def newError (tok : Token) (msg : String) : Error := ⟨tok.Pos, msg, tok.Str⟩

def Parser.accept (k : Typ) : SM Parser Token := do
  let t ← Parser.next
  if t.Typ != k then
    SM.throw (newError t ("Expecting " ++ k.String ++ " got " ++ t.Typ.String ++ " (" ++ t.Str ++ ")"))
  else
    return t

def Parser.acceptString (s : String) : SM Parser Token := do
  let t ← Parser.next
  if !stringsEqualFold t.Str s then
    SM.throw (newError t ("Expecting " ++ s ++ ", got " ++ t.Str))
  else
    return t

/-- The loop of `parsePrefixedIdent`. -/
def Parser.parsePrefixedIdentLoop : Nat → String → SM Parser String
| 0, _ => SM.noFuel
| n + 1, ident => do
  if (← Parser.peek).Typ == .COLON then
    let _ ← Parser.next
    let aa ← Parser.accept .IDENT
    Parser.parsePrefixedIdentLoop n (ident ++ ":" ++ aa.Str)
  else
    return ident

/-- An identifier that can have a prefix separated with `:`. -/
def Parser.parsePrefixedIdent (n : Nat) : SM Parser String := do
  let a ← Parser.accept .IDENT
  Parser.parsePrefixedIdentLoop n a.Str

/-- Parses a `name` or a `name.selector` expression. -/
def Parser.parseSelectorIdent (n : Nat) : SM Parser (String × String) := do
  let a ← Parser.parsePrefixedIdent n
  if (← Parser.peek).Typ == .PERIOD then
    let _ ← Parser.next
    let b ← Parser.parsePrefixedIdent n
    return (a, b)
  else
    return ("", a)

def Parser.parseColumnNameExpr (n : Nat) : SM Parser ColumnNameExpr := do
  let t ← Parser.peek
  let (table, name) ← Parser.parseSelectorIdent n
  return ⟨t.Pos, name, table, ""⟩

/-- Parses a select column expression like `name`, `a.*` or `a.name`. -/
def Parser.parseSelecColumnIdent : SM Parser (String × String) := do
  let a ← Parser.accept .IDENT
  if (← Parser.peek).Typ == .PERIOD then
    let _ ← Parser.next
    if (← Parser.peek).Typ == .MUL then
      let _ ← Parser.next
      return (a.Str, "*")
    else
      let b ← Parser.accept .IDENT
      return (a.Str, b.Str)
  else
    return ("", a.Str)

def Parser.parseColumnExpr : SM Parser Expr := do
  let t ← Parser.peek
  let (table, name) ← Parser.parseSelecColumnIdent
  if name == "*" then
    return .AllColumnsExpr table t.Pos
  else
    return .ColumnNameExpr ⟨t.Pos, name, table, ""⟩

def Parser.parseColumnName : SM Parser String := do
  let t ← Parser.next
  match t.Typ with
  | .IDENT | .STRING | .TEXT | .ORDER => return t.Str
  | _ => SM.throw (newError t ("Invalid column name, got " ++ t.Typ.String))

/-- The alias after `AS`: an identifier, a string or the word `text`. -/
def Parser.parseAlias : SM Parser String := do
  let t ← Parser.next
  match t.Typ with
  | .IDENT | .STRING | .TEXT => return t.Str
  | _ => SM.throw (newError t ("Expecting alias, got " ++ t.Str))

/-- The loop of `parseOrderBy`. -/
def Parser.parseOrderByLoop : Nat → List OrderColumn → SM Parser (List OrderColumn)
| 0, _ => SM.noFuel
| n + 1, columns => do
  let col ← Parser.parseColumnNameExpr n
  let t ← Parser.peek
  let typ ← (match t.Typ with
    | .ASC | .DESC | .RANDOM => SM.bind Parser.next fun _ => SM.pure t.Typ
    | _ => SM.pure Typ.NOTSET)
  let columns := columns ++ [OrderColumn.mk (.ColumnNameExpr col) typ]
  if (← Parser.peek).Typ == .COMMA then
    let _ ← Parser.next
    Parser.parseOrderByLoop n columns
  else
    return columns

def Parser.parseOrderBy (n : Nat) : SM Parser (List OrderColumn) := do
  if (← Parser.peek).Typ != .ORDER then
    return []
  else
    let _ ← Parser.next
    let _ ← Parser.accept .BY
    Parser.parseOrderByLoop n []

def Parser.parseLimit : SM Parser (Option Limit) := do
  if (← Parser.peek).Typ != .LIMIT then
    return none
  else
    let t ← Parser.next
    let rows ← Parser.peek
    match rows.Typ with
    | .INT | .QUESTION =>
      let _ ← Parser.next
      let e : Expr := .ConstantExpr rows.Pos .INT rows.Str
      if (← Parser.peek).Typ == .COMMA then
        let _ ← Parser.next
        let offset ← Parser.peek
        -- the type tested here is that of `rows`, which is INT or QUESTION
        let _ ← Parser.next
        -- when both values are specified then the first one is the offset
        -- and the second is the number of rows.
        return some (.mk t.Pos (some (.ConstantExpr offset.Pos .INT offset.Str)) (some e))
      else
        return some (.mk t.Pos (some e) none)
    | _ => SM.throw (newError t ("Unexpected " ++ t.Str ++ " after LIMIT"))

def Parser.parseForUpdate : SM Parser Bool := do
  if (← Parser.peek).Typ != .FOR then
    return false
  else
    let _ ← Parser.next
    match ← SM.attempt (Parser.accept .UPDATE) with
    | .error _ => return false
    | .ok _ => return true

/-- The function `parseValue`.  In the FLOAT case the code calls `strconv.ParseFloat`;
here the value is kept as the text of the literal, and the failure of `ParseFloat` on a
literal out of range is not modelled. -/
def parseValue (t : Typ) (s : String) : Except String Value :=
  match t with
  | .INT =>
    match strconvAtoi s with
    | some v => .ok (.int v)
    | none => .error (strconvAtoiError s)
  | .FLOAT => .ok (.other ("float64 " ++ s))
  | .STRING => .ok (.string s)
  | .NULL => .ok .nil
  | .TRUE => .ok (.bool true)
  | .FALSE => .ok (.bool false)
  | _ => .error ("Invalid value type: " ++ t.String)

/-! ## parser.go : selects and expressions -/

mutual

def Parser.parseSelect : Nat → SM Parser SelectQuery
| 0 => SM.noFuel
| n + 1 => do
  let t ← Parser.accept .SELECT
  let distinct ← (do
    if (← Parser.peek).Typ == .DISTINCT then
      let _ ← Parser.next
      return true
    else
      return false)
  let columns ← Parser.parseSelectColumns n
  -- a simple select without from part
  let t1 ← Parser.peek
  if t1.Typ == .EOF || t1.Typ == .RPAREN then
    return .mk t.Pos distinct false columns none none [] none [] none [] []
  let (froms, whereP, group, having) ← (do
    if (← Parser.peek).Typ == .FROM then
      let froms ← Parser.parseFrom n
      let whereP ← Parser.parseWhere n
      let group ← Parser.parseGroupBy n
      let having ← Parser.parseHaving n
      return (some froms, whereP, group, having)
    else
      return (none, none, [], none))
  let order ← Parser.parseOrderBy n
  let limit ← Parser.parseLimit
  let union ← Parser.parseUnion n
  let ok ← Parser.parseForUpdate
  return .mk t.Pos distinct ok columns froms whereP group having order limit union []

def Parser.parseUnion : Nat → SM Parser (List SelectQuery)
| 0 => SM.noFuel
| n + 1 => do
  if (← Parser.peek).Typ != .UNION then
    return []
  else
    let _ ← Parser.next
    Parser.parseUnionLoop n []

def Parser.parseUnionLoop : Nat → List SelectQuery → SM Parser (List SelectQuery)
| 0, _ => SM.noFuel
| n + 1, queries => do
  let q ← Parser.parseSelect n
  let queries := queries ++ [q]
  if (← Parser.peek).Typ == .UNION then
    let _ ← Parser.next
    Parser.parseUnionLoop n queries
  else
    return queries

def Parser.parseHaving : Nat → SM Parser (Option WherePart)
| 0 => SM.noFuel
| n + 1 => do
  if (← Parser.peek).Typ != .HAVING then
    return none
  else
    let _ ← Parser.next
    let t ← Parser.parseHavingPart n
    return some t

def Parser.parseHavingPart : Nat → SM Parser WherePart
| 0 => SM.noFuel
| n + 1 => do
  let exp ← Parser.parseBooleanExpr n
  return .mk exp.Position exp

def Parser.parseGroupBy : Nat → SM Parser (List Expr)
| 0 => SM.noFuel
| n + 1 => do
  if (← Parser.peek).Typ != .GROUP then
    return []
  else
    let _ ← Parser.next
    let _ ← Parser.accept .BY
    Parser.parseGroupByLoop n []

def Parser.parseGroupByLoop : Nat → List Expr → SM Parser (List Expr)
| 0, _ => SM.noFuel
| n + 1, columns => do
  let col ← Parser.parseSelectColumnExpr n
  let columns := columns ++ [col]
  if (← Parser.peek).Typ != .COMMA then
    return columns
  else
    let _ ← Parser.next
    Parser.parseGroupByLoop n columns

def Parser.parseWhere : Nat → SM Parser (Option WherePart)
| 0 => SM.noFuel
| n + 1 => do
  if (← Parser.peek).Typ != .WHERE then
    return none
  else
    let t ← Parser.next
    let exp ← Parser.parseBooleanExpr n
    return some (.mk t.Pos exp)

def Parser.parseSelectColumns : Nat → SM Parser (List Expr)
| 0 => SM.noFuel
| n + 1 => do
  let t ← Parser.peek
  if t.Typ == .MUL then
    let _ ← Parser.next
    return [.AllColumnsExpr "" t.Pos]
  else
    Parser.parseSelectColumnsLoop n []

def Parser.parseSelectColumnsLoop : Nat → List Expr → SM Parser (List Expr)
| 0, _ => SM.noFuel
| n + 1, columns => do
  let exp ← Parser.parseSelectColumnExpr n
  let columns := columns ++ [exp]
  let t ← Parser.peek
  if t.Typ != .COMMA then
    if t.Typ == .IDENT then
      SM.throw (newError t ("ParseColumns: Unexpected IDENT '" ++ t.Str ++ "' at " ++ t.Pos.String))
    else
      return columns
  else
    let _ ← Parser.next
    -- allow a trailing comma
    if (← Parser.peek).Typ == .FROM then
      return columns
    else
      Parser.parseSelectColumnsLoop n columns

def Parser.parseSelectColumnExpr : Nat → SM Parser Expr
| 0 => SM.noFuel
| n + 1 => do
  let exp ← Parser.parseBooleanExpr n
  if (← Parser.peek).Typ == .AS then
    let _ ← Parser.next
    let aliasStr ← Parser.parseAlias
    -- if the expresion is a simple column name then don't create a SelectColumnExpr.
    match exp with
    | .ColumnNameExpr sel => return .ColumnNameExpr { sel with Alias := aliasStr }
    | _ => return .SelectColumnExpr exp aliasStr
  else
    return exp

def Parser.parseFrom : Nat → SM Parser (List SqlFrom)
| 0 => SM.noFuel
| n + 1 => do
  let _ ← Parser.accept .FROM
  Parser.parseFromLoop n []

def Parser.parseFromLoop : Nat → List SqlFrom → SM Parser (List SqlFrom)
| 0, _ => SM.noFuel
| n + 1, froms => do
  let t ← Parser.peek
  let f ← (do
    -- is a subquery
    if t.Typ == .LPAREN then
      let (lp, x, rp) ← Parser.parseParenExpr n
      if (← Parser.peek).Typ == .AS then
        let _ ← Parser.next
        let aliasStr ← Parser.parseAlias
        return SqlFrom.FromAsExpr lp x rp aliasStr
      else if (← Parser.peek).Typ == .IDENT then
        let t ← Parser.accept .IDENT
        return SqlFrom.FromAsExpr lp x rp t.Str
      else
        return SqlFrom.ParenExpr lp x rp
    else
      -- its a table definition
      let table ← Parser.parseFromTable n t
      return SqlFrom.Table table)
  let froms := froms ++ [f]
  if (← Parser.peek).Typ != .COMMA then
    return froms
  else
    let _ ← Parser.next
    Parser.parseFromLoop n froms

def Parser.parseFromTable : Nat → Token → SM Parser Table
| 0, _ => SM.noFuel
| n + 1, t => do
  let (db, tableName) ← Parser.parseSelectorIdent n
  let p1 ← Parser.peek
  let aliasStr ← (do
    if p1.Typ == .AS then
      let _ ← Parser.next
      Parser.parseAlias
    else if p1.Typ == .IDENT then
      let t ← Parser.accept .IDENT
      return t.Str
    else
      return "")
  let p2 ← Parser.peek
  let joins ← (match p2.Typ with
    | .LEFT | .RIGHT | .INNER | .OUTER | .CROSS | .JOIN => Parser.parseJoins n []
    | _ => SM.pure [])
  return .mk t.Pos tableName db aliasStr joins

def Parser.parseJoins : Nat → List Join → SM Parser (List Join)
| 0, _ => SM.noFuel
| n + 1, joins => do
  let t ← Parser.peek
  let tp ← (match t.Typ with
    | .LEFT | .RIGHT | .INNER | .OUTER | .CROSS =>
      SM.bind Parser.next fun _ => SM.bind (Parser.accept .JOIN) fun _ => SM.pure (some t.Typ)
    | .JOIN => SM.bind Parser.next fun _ => SM.pure (some Typ.JOIN)
    | _ => SM.pure none)
  match tp with
  | none => return joins
  | some tp =>
    let (db, tableName) ← Parser.parseSelectorIdent n
    -- parse the aliasStr part
    let p1 ← Parser.peek
    let aliasStr ← (do
      if p1.Typ == .AS then
        let _ ← Parser.next
        Parser.parseAlias
      else if p1.Typ == .IDENT then
        let t ← Parser.accept .IDENT
        return t.Str
      else
        return "")
    let onExpr ← (do
      if (← Parser.peek).Typ == .ON then
        let _ ← Parser.next
        let exp ← Parser.parseBooleanExpr n
        return some exp
      else
        return none)
    Parser.parseJoins n (joins ++ [Join.mk t.Pos tp tableName aliasStr db onExpr])

def Parser.parseBooleanExpr : Nat → SM Parser Expr
| 0 => SM.noFuel
| n + 1 => do
  let lh ← Parser.parseBooleanTerm n
  Parser.parseBooleanExprLoop n lh

def Parser.parseBooleanExprLoop : Nat → Expr → SM Parser Expr
| 0, _ => SM.noFuel
| n + 1, e => do
  let t ← Parser.peek
  if t.Typ == .OR then
    let _ ← Parser.next
    let rh ← Parser.parseBooleanTerm n
    Parser.parseBooleanExprLoop n (.BinaryExpr t.Typ e rh)
  else
    return e

def Parser.parseBooleanTerm : Nat → SM Parser Expr
| 0 => SM.noFuel
| n + 1 => do
  let lh ← Parser.parseNotFactor n
  Parser.parseBooleanTermLoop n lh

def Parser.parseBooleanTermLoop : Nat → Expr → SM Parser Expr
| 0, _ => SM.noFuel
| n + 1, e => do
  let t ← Parser.peek
  if t.Typ == .AND then
    let _ ← Parser.next
    let rh ← Parser.parseNotFactor n
    Parser.parseBooleanTermLoop n (.BinaryExpr t.Typ e rh)
  else
    return e

def Parser.parseNotFactor : Nat → SM Parser Expr
| 0 => SM.noFuel
| n + 1 => do
  let t ← Parser.peek
  if t.Typ == .NT then
    let _ ← Parser.next
    let exp ← Parser.parseRelation n
    return .UnaryExpr t.Pos t.Typ exp
  else
    Parser.parseRelation n

def Parser.parseRelation : Nat → SM Parser Expr
| 0 => SM.noFuel
| n + 1 => do
  let lh ← Parser.parseExpr n
  Parser.parseRelationLoop n lh

def Parser.parseRelationLoop : Nat → Expr → SM Parser Expr
| 0, _ => SM.noFuel
| n + 1, e => do
  let t ← Parser.peek
  match t.Typ with
  | .NOT =>
    let _ ← Parser.next
    let t ← Parser.peek
    match t.Typ with
    | .LIKE =>
      let _ ← Parser.next
      let rh ← Parser.parseExpr n
      Parser.parseRelationLoop n (.BinaryExpr .NOTLIKE e rh)
    | .IN =>
      let rh ← Parser.parseInExpr n
      Parser.parseRelationLoop n (.BinaryExpr .NOTIN e rh)
    | _ => SM.throw (newError t ("Unexpected " ++ t.Str ++ " after NOT"))
  | .EQL | .NEQ | .LSS | .LEQ | .GTR | .GEQ | .LIKE =>
    let _ ← Parser.next
    let rh ← Parser.parseExpr n
    Parser.parseRelationLoop n (.BinaryExpr t.Typ e rh)
  | .IS =>
    let _ ← Parser.next
    let tp ← (do
      if (← Parser.peek).Typ == .NOT then
        let _ ← Parser.next
        return Typ.ISNOT
      else
        return Typ.IS)
    let rh ← Parser.parseExpr n
    Parser.parseRelationLoop n (.BinaryExpr tp e rh)
  | .IN =>
    let rh ← Parser.parseInExpr n
    Parser.parseRelationLoop n (.BinaryExpr t.Typ e rh)
  | .BETWEEN =>
    let rh ← Parser.parseBetweenExpr n
    Parser.parseRelationLoop n (.BinaryExpr t.Typ e rh)
  | _ => return e

def Parser.parseBetweenExpr : Nat → SM Parser Expr
| 0 => SM.noFuel
| n + 1 => do
  let _ ← Parser.next
  let left ← Parser.parseExpr n
  let _ ← Parser.accept .AND
  let right ← Parser.parseExpr n
  return .BetweenExpr left right

def Parser.parseInExpr : Nat → SM Parser Expr
| 0 => SM.noFuel
| n + 1 => do
  let _ ← Parser.next
  if (← Parser.peek).Typ != .LPAREN then
    let exp ← Parser.parseExpr n
    return .InExpr exp.Position [exp] exp.Position
  else
    let lp ← Parser.accept .LPAREN
    let values ← (do
      if (← Parser.peek).Typ == .SELECT then
        let s ← Parser.parseSelect n
        return [Expr.SelectQuery s]
      else
        Parser.parseExpressionList n [])
    let rp ← Parser.accept .RPAREN
    return .InExpr lp.Pos values rp.Pos

def Parser.parseExpr : Nat → SM Parser Expr
| 0 => SM.noFuel
| n + 1 => do
  let lh ← Parser.parseTerm n
  Parser.parseExprLoop n lh

def Parser.parseExprLoop : Nat → Expr → SM Parser Expr
| 0, _ => SM.noFuel
| n + 1, e => do
  let t ← Parser.peek
  if t.Typ == .ADD || t.Typ == .SUB then
    let _ ← Parser.next
    let rh ← Parser.parseTerm n
    Parser.parseExprLoop n (.BinaryExpr t.Typ e rh)
  else
    return e

def Parser.parseTerm : Nat → SM Parser Expr
| 0 => SM.noFuel
| n + 1 => do
  let lh ← Parser.parseSignedFactor n
  Parser.parseTermLoop n lh

def Parser.parseTermLoop : Nat → Expr → SM Parser Expr
| 0, _ => SM.noFuel
| n + 1, e => do
  let t ← Parser.peek
  match t.Typ with
  | .MUL | .DIV | .MOD | .LSF | .ANB =>
    let _ ← Parser.next
    let rh ← Parser.parseSignedFactor n
    Parser.parseTermLoop n (.BinaryExpr t.Typ e rh)
  | _ => return e

def Parser.parseSignedFactor : Nat → SM Parser Expr
| 0 => SM.noFuel
| n + 1 => do
  let t ← Parser.peek
  if t.Typ == .ADD || t.Typ == .SUB then
    let _ ← Parser.next
    let exp ← Parser.parseFactor n
    return .UnaryExpr t.Pos t.Typ exp
  else
    Parser.parseFactor n

def Parser.parseFactor : Nat → SM Parser Expr
| 0 => SM.noFuel
| n + 1 => do
  let t ← Parser.peek
  match t.Typ with
  | .INT | .FLOAT | .STRING | .NULL | .TRUE | .FALSE =>
    let _ ← Parser.next
    if (← SM.get).ReplaceParams then
      match parseValue t.Typ t.Str with
      | .error e => SM.throw (newError t e)
      | .ok v =>
        SM.modify fun p => { p with Params := p.Params ++ [v] }
        return .ParameterExpr t.Pos ""
    else
      return .ConstantExpr t.Pos t.Typ t.Str
  | .DEFAULT =>
    let _ ← Parser.next
    return .ConstantExpr t.Pos t.Typ t.Str
  | .MUL =>
    let _ ← Parser.next
    return .AllColumnsExpr "" t.Pos
  | .QUESTION =>
    let _ ← Parser.next
    return .ParameterExpr t.Pos ""
  | .IDENT | .DISTINCT =>
    if (← Parser.peekTwo).Typ == .LPAREN then
      if stringsToUpper t.Str == "GROUP_CONCAT" then
        Parser.parseGroupConcat n
      else
        Parser.parseCallExpr n
    else
      Parser.parseColumnExpr
  | .LPAREN =>
    let (lp, x, rp) ← Parser.parseParenExpr n
    return .ParenExpr lp x rp
  | _ => SM.throw (newError t ("Expecting expression, got " ++ t.Typ.String))

def Parser.parseParenExpr : Nat → SM Parser (Position × Expr × Position)
| 0 => SM.noFuel
| n + 1 => do
  let lparen ← Parser.accept .LPAREN
  let exp ← (do
    if (← Parser.peek).Typ == .SELECT then
      let s ← Parser.parseSelect n
      return Expr.SelectQuery s
    else
      Parser.parseBooleanExpr n)
  let rparen ← Parser.accept .RPAREN
  return (lparen.Pos, exp, rparen.Pos)

def Parser.parseGroupConcat : Nat → SM Parser Expr
| 0 => SM.noFuel
| n + 1 => do
  let t ← Parser.next
  if t.Typ != .IDENT then
    SM.throw (newError t ("Expecting expression, got " ++ t.Typ.String))
  else
    let _ ← Parser.accept .LPAREN
    let distinct ← (do
      if (← Parser.peek).Typ == .DISTINCT then
        let _ ← Parser.next
        return true
      else
        return false)
    let exprs ← Parser.parseGroupConcatLoop n []
    let orderBy ← Parser.parseOrderBy n
    let t ← Parser.peek
    let sep ← (do
      if stringsToUpper t.Str == "SEPARATOR" then
        let _ ← Parser.next
        let t ← Parser.accept .STRING
        match validateSeparator t.Str with
        | .error e => SM.throw ⟨⟨0, 0, 0⟩, e, ""⟩
        | .ok _ => return t.Str
      else
        return "")
    let _ ← Parser.accept .RPAREN
    return .GroupConcatExpr ⟨0, 0, 0⟩ distinct exprs orderBy sep

def Parser.parseGroupConcatLoop : Nat → List Expr → SM Parser (List Expr)
| 0, _ => SM.noFuel
| n + 1, exprs => do
  let exp ← Parser.parseExpr n
  let exprs := exprs ++ [exp]
  if (← Parser.peek).Typ == .COMMA then
    let _ ← Parser.next
    Parser.parseGroupConcatLoop n exprs
  else
    return exprs

def Parser.parseCallExpr : Nat → SM Parser Expr
| 0 => SM.noFuel
| n + 1 => do
  let t ← Parser.next
  if t.Typ != .IDENT && t.Typ != .DISTINCT then
    SM.throw (newError t ("Expecting expression, got " ++ t.Typ.String))
  else
    let _ ← Parser.accept .LPAREN
    let args ← (do
      if (← Parser.peek).Typ != .RPAREN then
        Parser.parseExpressionList n []
      else
        return [])
    let _ ← Parser.accept .RPAREN
    return .CallExpr t.Pos t.Str args

def Parser.parseExpressionList : Nat → List Expr → SM Parser (List Expr)
| 0, _ => SM.noFuel
| n + 1, args => do
  let exp ← Parser.parseBooleanExpr n
  let args := args ++ [exp]
  if (← Parser.peek).Typ != .COMMA then
    return args
  else
    let _ ← Parser.next
    Parser.parseExpressionList n args

end

/-! ## parser.go : statements -/

/-- The loop of `parseColumnValues`.  An error of `accept(EQL)` or of `parseBooleanExpr`
is discarded and the function returns `nil, nil`. -/
def Parser.parseColumnValuesLoop : Nat → List ColumnValue → SM Parser (List ColumnValue)
| 0, _ => SM.noFuel
| n + 1, columns => do
  let t ← Parser.peek
  let (table, column) ← Parser.parseSelectorIdent n
  match ← SM.attempt (Parser.accept .EQL) with
  | .error _ => return []
  | .ok _ =>
    match ← SM.attempt (Parser.parseBooleanExpr n) with
    | .error _ => return []
    | .ok exp =>
      let columns := columns ++ [⟨t.Pos, table, column, exp⟩]
      if (← Parser.peek).Typ != .COMMA then
        return columns
      else
        let _ ← Parser.next
        Parser.parseColumnValuesLoop n columns

def Parser.parseColumnValues (n : Nat) : SM Parser (List ColumnValue) :=
  Parser.parseColumnValuesLoop n []

def Parser.parseColumnNamesLoop : Nat → List ColumnNameExpr → SM Parser (List ColumnNameExpr)
| 0, _ => SM.noFuel
| n + 1, columns => do
  let col ← Parser.parseColumnNameExpr n
  let columns := columns ++ [col]
  if (← Parser.peek).Typ != .COMMA then
    return columns
  else
    let _ ← Parser.next
    Parser.parseColumnNamesLoop n columns

def Parser.parseColumnNames (n : Nat) : SM Parser (List ColumnNameExpr) :=
  Parser.parseColumnNamesLoop n []

/-- The loop of `parseDelete` over the alias list. -/
def Parser.parseDeleteAliasLoop : Nat → List String → SM Parser (List String)
| 0, _ => SM.noFuel
| n + 1, aliases => do
  let a ← Parser.accept .IDENT
  let aliases := aliases ++ [a.Str]
  if (← Parser.peek).Typ != .COMMA then
    return aliases
  else
    let _ ← Parser.next
    Parser.parseDeleteAliasLoop n aliases

def Parser.parseDelete (n : Nat) : SM Parser DeleteQuery := do
  let t ← Parser.accept .DELETE
  let aliases ← (do
    if (← Parser.peek).Typ != .FROM then
      Parser.parseDeleteAliasLoop n []
    else
      return [])
  let _ ← Parser.accept .FROM
  let t1 ← Parser.peek
  if t1.Typ != .IDENT then
    SM.throw (newError t1 ("Exepected ident, got " ++ t1.Str))
  else
    let table ← Parser.parseFromTable n t1
    let whereP ← Parser.parseWhere n
    let limit ← Parser.parseLimit
    return ⟨t.Pos, aliases, table, whereP, limit, []⟩

def Parser.parseUpdate (n : Nat) : SM Parser UpdateQuery := do
  let t ← Parser.accept .UPDATE
  let t1 ← Parser.peek
  if t1.Typ != .IDENT then
    SM.throw (newError t1 ("Exepected ident, got " ++ t1.Str))
  else
    let table ← Parser.parseFromTable n t1
    let t2 ← Parser.peek
    match t2.Typ with
    | .EOF => return ⟨t.Pos, table, [], none, none, []⟩
    | .SET =>
      let _ ← Parser.accept .SET
      let paren ← (do
        if (← Parser.peek).Typ == .LPAREN then
          let _ ← Parser.next
          return true
        else
          return false)
      let cols ← Parser.parseColumnValues n
      if paren then
        let _ ← Parser.accept .RPAREN
      let whereP ← Parser.parseWhere n
      let limit ← Parser.parseLimit
      return ⟨t.Pos, table, cols, whereP, limit, []⟩
    | _ => SM.throw (newError t2 ("Unexpected " ++ t2.Str))

def Parser.parseInsert (n : Nat) : SM Parser InsertQuery := do
  let _ ← Parser.accept .INSERT
  let _ ← Parser.accept .INTO
  let t ← Parser.peek
  let (db, table) ← Parser.parseSelectorIdent n
  let cols ← (do
    if (← Parser.peek).Typ == .LPAREN then
      let _ ← Parser.next
      let cols ← Parser.parseColumnNames n
      let _ ← Parser.accept .RPAREN
      return cols
    else
      return [])
  if (← Parser.peek).Typ == .SELECT then
    let sel ← Parser.parseSelect n
    return ⟨t.Pos, ⟨t.Pos, db, table⟩, cols, [], [], some sel⟩
  else
    let _ ← Parser.accept .VALUES
    let _ ← Parser.accept .LPAREN
    let values ← Parser.parseExpressionList n []
    let _ ← Parser.accept .RPAREN
    return ⟨t.Pos, ⟨t.Pos, db, table⟩, cols, values, [], none⟩

def Parser.parseColumnType : SM Parser ColumnType := do
  let t ← Parser.next
  match t.Typ with
  | .INTEGER => return .Int
  | .DECIMAL => return .Decimal
  | .CHAR => return .Char
  | .VARCHAR => return .Varchar
  | .TEXT => return .Text
  | .MEDIUMTEXT => return .MediumText
  | .BOOL => return .Bool
  | .BLOB => return .Blob
  | .DATETIME => return .DatTime
  | _ => SM.throw (newError t ("Invalid column type " ++ t.Str))

/-- The method `parseColumnSize`: the size and the decimals. -/
def Parser.parseColumnSize : SM Parser (String × String) := do
  if (← Parser.peek).Typ != .LPAREN then
    return ("", "")
  else
    let _ ← Parser.next
    let t ← Parser.accept .INT
    let decimals ← (do
      if (← Parser.peek).Typ == .COMMA then
        let _ ← Parser.next
        let t ← Parser.accept .INT
        return t.Str
      else
        return "")
    let _ ← Parser.accept .RPAREN
    return (t.Str, decimals)

def Parser.parseCreateColumn : SM Parser CreateColumn := do
  let name ← Parser.parseColumnName
  -- Key is a shortcut for the primary key as an autoincrement int.
  let k ← Parser.peek
  if k.Typ == .IDENT && stringsToUpper k.Str == "KEY" then
    let _ ← Parser.next
    return ⟨name, .Int, false, "", "", true, ""⟩
  else
    let typ ← Parser.parseColumnType
    let (size, decimals) ← Parser.parseColumnSize
    let nullable ← (do
      if (← Parser.peek).Typ == .NOT then
        let _ ← Parser.next
        return false
      else
        return true)
    let isNullable ← (do
      if (← Parser.peek).Typ == .NULL then
        let _ ← Parser.next
        return nullable
      else
        return false)
    let t ← Parser.peek
    if t.Str == "AUTO_INCREMENT" && !stringsEqualFold name "id" then
      SM.throw (newError t ("AUTO_INCREMENT is only supported on ID columns: " ++ name))
    else
      if t.Str == "AUTO_INCREMENT" then
        let _ ← Parser.next
      let t ← Parser.peek
      if t.Typ == .DEFAULT then
        let _ ← Parser.next
        let t ← Parser.next
        match t.Typ with
        | .STRING => return ⟨name, typ, isNullable, size, decimals, false, "'" ++ t.Str ++ "'"⟩
        | .INT | .FLOAT | .TRUE | .FALSE =>
          return ⟨name, typ, isNullable, size, decimals, false, t.Str⟩
        | _ => SM.throw (newError t ("Invalid default value type " ++ t.Str))
      else
        return ⟨name, typ, isNullable, size, decimals, false, ""⟩

def Parser.parseCreateColumns : Nat → List CreateColumn → SM Parser (List CreateColumn)
| 0, _ => SM.noFuel
| n + 1, columns => do
  let t ← Parser.peek
  if t.Typ == .CONSTRAINT || (t.Typ == .IDENT && (t.Str == "PRIMARY" || t.Str == "UNIQUE")) then
    return columns
  else
    let col ← Parser.parseCreateColumn
    let columns := columns ++ [col]
    if (← Parser.peek).Typ != .COMMA then
      return columns
    else
      let _ ← Parser.next
      Parser.parseCreateColumns n columns

/-- The loop over the column names of a constraint. -/
def Parser.parseConstraintColumns : Nat → List String → SM Parser (List String)
| 0, _ => SM.noFuel
| n + 1, columns => do
  let name ← Parser.parseColumnName
  let columns := columns ++ [name]
  if (← Parser.peek).Typ != .COMMA then
    return columns
  else
    let _ ← Parser.next
    Parser.parseConstraintColumns n columns

def Parser.parseUniqueKey (n : Nat) : SM Parser Constraint := do
  let _ ← Parser.acceptString "UNIQUE"
  let _ ← Parser.acceptString "KEY"
  let t ← Parser.accept .IDENT
  let _ ← Parser.accept .LPAREN
  let cols ← Parser.parseConstraintColumns n []
  let _ ← Parser.accept .RPAREN
  return ⟨t.Str, "UNIQUE", cols⟩

def Parser.parseUniqueConstraint (n : Nat) (name : String) : SM Parser Constraint := do
  let _ ← Parser.accept .LPAREN
  let cols ← Parser.parseConstraintColumns n []
  let _ ← Parser.accept .RPAREN
  return ⟨name, "UNIQUE", cols⟩

def Parser.parseFKConstraint (n : Nat) (name : String) : SM Parser ForeginKey := do
  let _ ← Parser.acceptString "KEY"
  let _ ← Parser.accept .LPAREN
  let column ← Parser.parseColumnName
  let _ ← Parser.accept .RPAREN
  let _ ← Parser.acceptString "REFERENCES"
  let refTable ← Parser.parsePrefixedIdent n
  let _ ← Parser.accept .LPAREN
  let refColumn ← Parser.parseColumnName
  let _ ← Parser.accept .RPAREN
  let t ← Parser.peek
  if t.Typ == .ON then
    let _ ← Parser.next
    let _ ← Parser.acceptString "DELETE"
    let _ ← Parser.acceptString "CASCADE"
  return ⟨name, column, refTable, refColumn, false⟩

def Parser.parseConstraint (n : Nat) : SM Parser CreateTableConstraint := do
  let _ ← Parser.accept .CONSTRAINT
  let t ← Parser.accept .IDENT
  let name := t.Str
  let t ← Parser.accept .IDENT
  let u := stringsToUpper t.Str
  if u == "FOREIGN" then
    return .ForeginKey (← Parser.parseFKConstraint n name)
  else if u == "UNIQUE" then
    return .Constraint (← Parser.parseUniqueConstraint n name)
  else
    SM.throw (newError t ("Unexpected " ++ t.Str))

/-- The loop of `parseCreateTable` over the constraints. -/
def Parser.parseConstraintsLoop : Nat → List CreateTableConstraint →
    SM Parser (List CreateTableConstraint)
| 0, _ => SM.noFuel
| n + 1, cs => do
  let t ← Parser.peek
  let c ← (match t.Typ with
    | .IDENT =>
      if stringsToUpper t.Str == "UNIQUE" then
        SM.bind (Parser.parseUniqueKey n) fun c => SM.pure (some (CreateTableConstraint.Constraint c))
      else
        SM.throw (newError t ("Unexpected " ++ t.Str))
    | .CONSTRAINT => SM.bind (Parser.parseConstraint n) fun c => SM.pure (some c)
    | _ => SM.pure none)
  match c with
  | none => return cs
  | some c =>
    let cs := cs ++ [c]
    if (← Parser.peek).Typ != .COMMA then
      return cs
    else
      let _ ← Parser.next
      Parser.parseConstraintsLoop n cs

/-- The optional `IF NOT EXISTS` of CREATE. -/
def Parser.parseIfNotExists : SM Parser Bool := do
  if stringsToUpper (← Parser.peek).Str == "IF" then
    let _ ← Parser.next
    let _ ← Parser.accept .NOT
    let _ ← Parser.accept .EXISTS
    return true
  else
    return false

/-- The optional `IF EXISTS` of DROP. -/
def Parser.parseIfExists : SM Parser Bool := do
  if stringsToUpper (← Parser.peek).Str == "IF" then
    let _ ← Parser.next
    let _ ← Parser.accept .EXISTS
    return true
  else
    return false

def Parser.parseCreateTable (n : Nat) (t : Token) : SM Parser CreateTableQuery := do
  let _ ← Parser.accept .TABLE
  let ifNotExists ← Parser.parseIfNotExists
  let table ← Parser.parsePrefixedIdent n
  let _ ← Parser.accept .LPAREN
  let cols ← Parser.parseCreateColumns n []
  let t1 ← Parser.peek
  if stringsEqualFold t1.Str "PRIMARY" then
    let _ ← Parser.next
    let _ ← Parser.acceptString "KEY"
    let _ ← Parser.accept .LPAREN
    let _ ← Parser.acceptString "id"
    let _ ← Parser.accept .RPAREN
    let _ ← Parser.accept .COMMA
  let cs ← Parser.parseConstraintsLoop n []
  let _ ← Parser.accept .RPAREN
  return ⟨t.Pos, table, cols, cs, ifNotExists⟩

def Parser.parseCreateDatabase (t : Token) : SM Parser CreateDatabaseQuery := do
  let _ ← Parser.accept .DATABASE
  let ifNotExists ← Parser.parseIfNotExists
  let t1 ← Parser.accept .IDENT
  return ⟨t.Pos, t1.Str, ifNotExists⟩

def Parser.parseCreate (n : Nat) : SM Parser Query := do
  let t ← Parser.accept .CREATE
  let q ← Parser.peek
  match q.Typ with
  | .DATABASE => return .CreateDatabaseQuery (← Parser.parseCreateDatabase t)
  | .TABLE => return .CreateTableQuery (← Parser.parseCreateTable n t)
  | _ => SM.throw (newError t ("Unexpected " ++ q.Typ.String))

def Parser.parseShow (n : Nat) : SM Parser ShowQuery := do
  let t ← Parser.accept .SHOW
  let t1 ← Parser.accept .IDENT
  let typ := stringsToLower t1.Str
  if typ == "databases" then
    return ⟨t.Pos, t1.Str, "", ""⟩
  else if typ == "tables" then
    -- from what database is optional
    if (← Parser.peek).Typ == .FROM then
      let _ ← Parser.next
      let t2 ← Parser.accept .IDENT
      return ⟨t.Pos, t1.Str, t2.Str, ""⟩
    else
      return ⟨t.Pos, t1.Str, "", ""⟩
  else if typ == "columns" || typ == "index" then
    -- from what table is required
    let _ ← Parser.accept .FROM
    let (db, tableName) ← Parser.parseSelectorIdent n
    return ⟨t.Pos, t1.Str, db, tableName⟩
  else
    SM.throw (newError t1 ("Unexpected " ++ t1.Str))

def Parser.parseDropDatabase (pos : Position) : SM Parser DropDatabaseQuery := do
  let ifExists ← Parser.parseIfExists
  let t ← Parser.accept .IDENT
  return ⟨pos, t.Str, ifExists⟩

def Parser.parseDropTable (n : Nat) (pos : Position) : SM Parser DropTableQuery := do
  let ifExists ← Parser.parseIfExists
  let (db, table) ← Parser.parseSelectorIdent n
  return ⟨pos, db, table, ifExists⟩

def Parser.parseDrop (n : Nat) : SM Parser Query := do
  let t ← Parser.accept .DROP
  match (← Parser.next).Typ with
  | .DATABASE => return .DropDatabaseQuery (← Parser.parseDropDatabase t.Pos)
  | .TABLE => return .DropTableQuery (← Parser.parseDropTable n t.Pos)
  | _ => SM.throw (newError t ("Unexpected " ++ t.Typ.String))

def Parser.parseAlterDrop (pos : Position) (db table : String) : SM Parser AlterDropQuery := do
  let t ← Parser.next
  let u := stringsToUpper t.Str
  if u == "COLUMN" || u == "INDEX" then
    let c ← Parser.accept .IDENT
    return ⟨pos, db, table, u, c.Str⟩
  else
    SM.throw (newError t ("Unexpected " ++ t.Str))

def Parser.parseAddUniqueConstraint (n : Nat) (pos : Position) (db table name : String) :
    SM Parser AddConstraintQuery := do
  let _ ← Parser.accept .LPAREN
  let cols ← Parser.parseColumnNames n
  let _ ← Parser.accept .RPAREN
  return ⟨pos, "UNIQUE", db, table, name, cols⟩

def Parser.parseAddFKConstraint (n : Nat) (pos : Position) (db table name : String) :
    SM Parser AddFKQuery := do
  let _ ← Parser.accept .LPAREN
  let col ← Parser.accept .IDENT
  let _ ← Parser.accept .RPAREN
  let _ ← Parser.acceptString "REFERENCES"
  let (refDB, refTable) ← Parser.parseSelectorIdent n
  let _ ← Parser.accept .LPAREN
  let refCol ← Parser.accept .IDENT
  let _ ← Parser.accept .RPAREN
  if (← Parser.peek).Typ == .ON then
    let _ ← Parser.next
    let _ ← Parser.accept .DELETE
    let _ ← Parser.acceptString "CASCADE"
    return ⟨pos, "FOREIGN_KEY", db, table, name, col.Str, refDB, refTable, refCol.Str, true⟩
  else
    return ⟨pos, "FOREIGN_KEY", db, table, name, col.Str, refDB, refTable, refCol.Str, false⟩

def Parser.parseAddConstraint (n : Nat) (t : Token) (db table : String) : SM Parser Query := do
  let name ← Parser.accept .IDENT
  let tp ← Parser.accept .IDENT
  let tpStr := stringsToUpper tp.Str
  if tpStr == "UNIQUE" then
    return .AddConstraintQuery (← Parser.parseAddUniqueConstraint n t.Pos db table name.Str)
  else if tpStr == "FOREIGN" then
    let _ ← Parser.acceptString "KEY"
    return .AddFKQuery (← Parser.parseAddFKConstraint n t.Pos db table name.Str)
  else
    SM.throw (newError tp ("Unexpected " ++ tp.Str))

def Parser.parseAlterTableAdd (n : Nat) (t : Token) (db table : String) : SM Parser Query := do
  let tt ← Parser.peek
  let u := stringsToUpper tt.Str
  if u == "CONSTRAINT" then
    let _ ← Parser.next
    Parser.parseAddConstraint n t db table
  else if u == "COLUMN" then
    let _ ← Parser.next
    return .AddColumnQuery ⟨t.Pos, db, table, ← Parser.parseCreateColumn⟩
  else
    return .AddColumnQuery ⟨t.Pos, db, table, ← Parser.parseCreateColumn⟩

def Parser.parseAlter (n : Nat) : SM Parser Query := do
  let t ← Parser.accept .ALTER
  let _ ← Parser.accept .TABLE
  let (db, table) ← Parser.parseSelectorIdent n
  let tt ← Parser.peek
  let u := stringsToUpper tt.Str
  if u == "MODIFY" then
    let _ ← Parser.next
    return .ModifyColumnQuery ⟨t.Pos, db, table, ← Parser.parseCreateColumn⟩
  else if u == "CHANGE" then
    let _ ← Parser.next
    let name ← Parser.parseColumnName
    let c ← Parser.parseCreateColumn
    return .RenameColumnQuery ⟨t.Pos, db, table, name, c⟩
  else if u == "ADD" then
    let _ ← Parser.next
    Parser.parseAlterTableAdd n t db table
  else if u == "DROP" then
    let _ ← Parser.next
    return .AlterDropQuery (← Parser.parseAlterDrop t.Pos db table)
  else
    SM.throw (newError t ("Invalid alter type " ++ tt.Str))

/-! ## parser.go : the statement dispatcher -/

/-- The assignment `n.Params = p.Params` on a select. -/
def SelectQuery.setParams : SelectQuery → List Value → SelectQuery
| .mk pos d fu cols fr wh gb hv ob lim un _, ps => .mk pos d fu cols fr wh gb hv ob lim un ps

def SelectQuery.Params : SelectQuery → List Value
| .mk _ _ _ _ _ _ _ _ _ _ _ ps => ps

/-- The text of an error raised by `Parse`: `fmt.Errorf("SQL Parser: %v", err)`. -/
def parserError (e : Error) : String := "SQL Parser: " ++ e.Message

/-- The error of an unexpected token in `Parse`. -/
def unexpectedToken (t : Token) : Error :=
  newError t ("Unexpected '" ++ t.Str ++ "' (" ++ t.Typ.String ++ ")")

/-- The loop `inner` of `Parse`: `true` after a `;` (the outer loop goes on), `false` at the
end of the input (`break loop`). -/
def Parser.parseInner : Nat → SM Parser Bool
| 0 => SM.noFuel
| n + 1 => do
  let t ← Parser.peek
  match t.Typ with
  | .COMMENT =>
    let _ ← Parser.next
    Parser.parseInner n
  | .SEMICOLON =>
    let _ ← Parser.next
    return true
  | .EOF => return false
  | _ => SM.throw (unexpectedToken t)

/-- One statement of the loop of `Parse`, by the type of the token at the cursor; `none`
for the end of the input. -/
def Parser.parseStatement (n : Nat) (t : Token) : SM Parser (Option Query) := do
  match t.Typ with
  | .SELECT =>
    let q ← Parser.parseSelect n
    return some (.SelectQuery (q.setParams (← SM.get).Params))
  | .INSERT =>
    let q ← Parser.parseInsert n
    return some (.InsertQuery { q with Params := (← SM.get).Params })
  | .UPDATE =>
    let q ← Parser.parseUpdate n
    return some (.UpdateQuery { q with Params := (← SM.get).Params })
  | .DELETE =>
    let q ← Parser.parseDelete n
    return some (.DeleteQuery { q with Params := (← SM.get).Params })
  | .CREATE => return some (← Parser.parseCreate n)
  | .SHOW => return some (.ShowQuery (← Parser.parseShow n))
  | .DROP => return some (← Parser.parseDrop n)
  | .ALTER => return some (← Parser.parseAlter n)
  | .EOF => return none
  | _ => SM.throw (unexpectedToken t)

/-- The loop `loop` of `Parse`. -/
def Parser.parseLoop : Nat → List Query → SM Parser (List Query)
| 0, _ => SM.noFuel
| n + 1, queries => do
  -- reset params for each query
  SM.modify (fun p => { p with Params := [] })
  let t ← Parser.peek
  if t.Typ == .COMMENT then
    let _ ← Parser.next
    Parser.parseLoop n queries
  else
    match ← Parser.parseStatement n t with
    | none => return queries
    | some q =>
      let queries := queries ++ [q]
      if ← Parser.parseInner n then
        Parser.parseLoop n queries
      else
        return queries

/-- The outcome of `Parse` and of `ParseQuery`. -/
inductive ParseResult (α : Type)
| ok (a : α)
| error (msg : String)
| fuel

/-- The parser of `NewStrParser(code)` once its lexer has run. -/
def NewStrParser (replaceParams : Bool) (tokens : List Token) : Parser :=
  ⟨replaceParams, [], tokens, 0⟩

/-- The fuel that `Parse` gets for an input of `k` tokens. -/
def parseFuel (k : Nat) : Nat := 40 * (k + 2)

/-- The method `Parse` on the parser of `NewStrParser(code)`, with its final state. -/
def Parser.ParseState (replaceParams : Bool) (code : String) : ParseResult (List Query × Parser) :=
  match lex code with
  | .err e _ => .error (parserError e)
  | .fuel => .fuel
  | .ok tokens _ =>
    match Parser.parseLoop (parseFuel tokens.length) [] (NewStrParser replaceParams tokens) with
    | .ok qs p => .ok (qs, p)
    | .err e _ => .error (parserError e)
    | .fuel => .fuel

def Parser.Parse (replaceParams : Bool) (code : String) : ParseResult (List Query) :=
  match Parser.ParseState replaceParams code with
  | .ok (qs, _) => .ok qs
  | .error e => .error e
  | .fuel => .fuel

/-- The method `ParseQuery` with the flag `ReplaceParams` of the parser. -/
def Parser.ParseQuery (replaceParams : Bool) (code : String) : ParseResult Query :=
  match Parser.Parse replaceParams code with
  | .ok [q] => .ok q
  | .ok qs => .error ("Expected one query, got " ++ formatNat qs.length)
  | .error e => .error e
  | .fuel => .fuel

/-- The function `ParseQuery(code)`. -/
def ParseQuery (code : String) : ParseResult Query := Parser.ParseQuery false code

/-- Whether `ParseQuery` returns a query. -/
def ParseResult.isOk {α : Type} : ParseResult α → Bool
| .ok _ => true
| _ => false

/-! ## builder.go -/

def SelectQuery.Columns : SelectQuery → List Expr
| .mk _ _ _ cols _ _ _ _ _ _ _ _ => cols

def SelectQuery.From : SelectQuery → Option (List SqlFrom)
| .mk _ _ _ _ fr _ _ _ _ _ _ _ => fr

def SelectQuery.WherePart : SelectQuery → Option Goql.WherePart
| .mk _ _ _ _ _ wh _ _ _ _ _ _ => wh

def SelectQuery.GroupByPart : SelectQuery → List Expr
| .mk _ _ _ _ _ _ gb _ _ _ _ _ => gb

def SelectQuery.HavingPart : SelectQuery → Option Goql.WherePart
| .mk _ _ _ _ _ _ _ hv _ _ _ _ => hv

def SelectQuery.OrderByPart : SelectQuery → List OrderColumn
| .mk _ _ _ _ _ _ _ _ ob _ _ _ => ob

/-- The assignment `q.Columns = cols`. -/
def SelectQuery.setColumns : SelectQuery → List Expr → SelectQuery
| .mk pos d fu _ fr wh gb hv ob lim un ps, cols => .mk pos d fu cols fr wh gb hv ob lim un ps

/-- The assignment `q.From = froms`. -/
def SelectQuery.setFrom : SelectQuery → Option (List SqlFrom) → SelectQuery
| .mk pos d fu cols _ wh gb hv ob lim un ps, fr => .mk pos d fu cols fr wh gb hv ob lim un ps

/-- The assignment `q.WherePart = w`. -/
def SelectQuery.setWherePart : SelectQuery → Option Goql.WherePart → SelectQuery
| .mk pos d fu cols fr _ gb hv ob lim un ps, wh => .mk pos d fu cols fr wh gb hv ob lim un ps

/-- The assignment `q.GroupByPart = g`. -/
def SelectQuery.setGroupByPart : SelectQuery → List Expr → SelectQuery
| .mk pos d fu cols fr wh _ hv ob lim un ps, gb => .mk pos d fu cols fr wh gb hv ob lim un ps

/-- The assignment `q.HavingPart = h`. -/
def SelectQuery.setHavingPart : SelectQuery → Option Goql.WherePart → SelectQuery
| .mk pos d fu cols fr wh gb _ ob lim un ps, hv => .mk pos d fu cols fr wh gb hv ob lim un ps

/-- The assignment `q.OrderByPart = o`. -/
def SelectQuery.setOrderByPart : SelectQuery → List OrderColumn → SelectQuery
| .mk pos d fu cols fr wh gb hv _ lim un ps, ob => .mk pos d fu cols fr wh gb hv ob lim un ps

def WherePart.Pos : WherePart → Position
| .mk pos _ => pos

/-- The outcome of a builder method on the query `q` it mutates: the query after the call,
with the error when the method returns one; a run-time panic; or the exhaustion of the
recursion budget of the embedding. -/
inductive BRes (α : Type)
| ok (q : α)
| err (e : String) (q : α)
| panic (msg : String)
| fuel

/-- The parser of `NewStrParser(code)` after `p.lexer.run()`, or the error of the lexer. -/
def fragmentParser (code : String) : Except String Parser ⊕ Unit :=
  match lex code with
  | .ok tokens _ => .inl (.ok (NewStrParser false tokens))
  | .err e _ => .inl (.error e.Message)
  | .fuel => .inr ()

/-- The function `processParams`: times are converted to UTC (a `Time` of the embedding
is given in UTC already). -/
def processParams (params : List Value) : List Value := params

def SelectQuery.AddColumns (q : SelectQuery) (code : String) : BRes SelectQuery :=
  match fragmentParser code with
  | .inr _ => .fuel
  | .inl (.error e) => .err e q
  | .inl (.ok p) =>
    match Parser.parseSelectColumns (parseFuel p.Tokens.length) p with
    | .fuel => .fuel
    | .err e _ => .err e.Message q
    | .ok exps _ => .ok (q.setColumns (q.Columns ++ exps))

def SelectQuery.SetColumns (q : SelectQuery) (code : String) : BRes SelectQuery :=
  (q.setColumns []).AddColumns code

def SelectQuery.SetFrom (q : SelectQuery) (code : String) : BRes SelectQuery :=
  match fragmentParser code with
  | .inr _ => .fuel
  | .inl (.error e) => .err e q
  | .inl (.ok p) =>
    match Parser.parseFrom (parseFuel p.Tokens.length) p with
    | .fuel => .fuel
    | .err e _ => .err e.Message q
    | .ok froms _ => .ok (q.setFrom (some froms))

/-- The join tokens of a fragment as the `Join` methods prepare them: when the first token
is not among `kinds`, a token `&Token{Type: JOIN}` is put in front. -/
def withDefaultJoin (kinds : List Typ) (p : Parser) : Parser :=
  if kinds.contains (p.tokenAt p.lexIdex).Typ then p
  else { p with Tokens := ⟨.JOIN, "", ⟨0, 0, 0⟩⟩ :: p.Tokens }

def SelectQuery.Join (q : SelectQuery) (code : String) : BRes SelectQuery :=
  match fragmentParser code with
  | .inr _ => .fuel
  | .inl (.error e) => .err e q
  | .inl (.ok p) =>
    match q.From with
    | none | some [] => .err "Can't add a join to this query (empty FROM)" q
    | some (.Table (.mk pos name db al joins) :: rest) =>
      let p := withDefaultJoin [.LEFT, .RIGHT, .OUTER, .JOIN] p
      match Parser.parseJoins (parseFuel p.Tokens.length) [] p with
      | .fuel => .fuel
      | .err e _ => .err e.Message q
      | .ok js _ => .ok (q.setFrom (some (.Table (.mk pos name db al (joins ++ js)) :: rest)))
    | some (_ :: _) => .err "Can't add a join to this query. From must be a table" q

/-- The merge of a parsed HAVING clause at the end of `parseAfterFilter`. -/
def SelectQuery.mergeHaving (q : SelectQuery) (h : Goql.WherePart) : SelectQuery :=
  match q.HavingPart with
  | none => q.setHavingPart (some h)
  | some (.mk pos e) => q.setHavingPart (some (.mk pos (.BinaryExpr .AND e h.Expr)))

/-- The function `parseAfterFilter` on the query `q` and the parser state `p`; the errors
of `parseOrderBy` and of `parseGroupBy` are discarded. -/
def parseAfterFilter (n : Nat) (q : SelectQuery) (p : Parser) : BRes SelectQuery :=
  match Parser.parseOrderBy n p with
  | .fuel => .fuel
  | ro =>
    let (q1, p1) := match ro with
      | .ok o p1 => (q.setOrderByPart (q.OrderByPart ++ o), p1)
      | .err _ p1 => (q, p1)
      | .fuel => (q, p)
    match Parser.parseGroupBy n p1 with
    | .fuel => .fuel
    | rg =>
      let (q2, p2) := match rg with
        | .ok g p2 => (q1.setGroupByPart (q1.GroupByPart ++ g), p2)
        | .err _ p2 => (q1, p2)
        | .fuel => (q1, p1)
      match Parser.parseHaving n p2 with
      | .fuel => .fuel
      | .err e _ => .err e.Message q2
      | .ok none _ => .ok q2
      | .ok (some h) _ => .ok (q2.mergeHaving h)

/-- The end of `And` and `Or` on a select. -/
def SelectQuery.afterFilter (q : SelectQuery) (p : Parser) : BRes SelectQuery :=
  parseAfterFilter (parseFuel p.Tokens.length) q p

def SelectQuery.And (q : SelectQuery) (code : String) (params : List Value) : BRes SelectQuery :=
  match fragmentParser code with
  | .inr _ => .fuel
  | .inl (.error e) => .err e q
  | .inl (.ok p) =>
    -- the filter can be empty but have order, having, etc...
    let isFilter := !stringsHasPrefix (stringsToUpper code) "ORDER BY"
    if isFilter then
      match Parser.parseBooleanExpr (parseFuel p.Tokens.length) p with
      | .fuel => .fuel
      | .err e _ => .err e.Message q
      | .ok exp p1 =>
        let q := q.setParams (q.Params ++ p1.Params ++ processParams params)
        match q.WherePart with
        | some (.mk pos e) => .ok (q.setWherePart (some (.mk pos (.BinaryExpr .AND e exp))))
        | none => (q.setWherePart (some (.mk exp.Position exp))).afterFilter p1
    else
      q.afterFilter p

def SelectQuery.Where (q : SelectQuery) (code : String) (params : List Value) :
    BRes SelectQuery :=
  q.And code params

def SelectQuery.Or (q : SelectQuery) (code : String) (params : List Value) : BRes SelectQuery :=
  match fragmentParser code with
  | .inr _ => .fuel
  | .inl (.error e) => .err e q
  | .inl (.ok p) =>
    -- the filter can be empty but have order, having, etc...
    let isFilter := !stringsHasPrefix (stringsToUpper code) "ORDER BY"
    if isFilter then
      match Parser.parseBooleanTerm (parseFuel p.Tokens.length) p with
      | .fuel => .fuel
      | .err e _ => .err e.Message q
      | .ok e1 p1 =>
        let q := q.setParams (q.Params ++ processParams params)
        match q.WherePart with
        | some (.mk pos e) => .ok (q.setWherePart (some (.mk pos (.BinaryExpr .OR e e1))))
        | none => (q.setWherePart (some (.mk e1.Position e1))).afterFilter p1
    else
      q.afterFilter p

/-- The method `AndQuery`; `filter.WherePart.Expr` on a filter without a WHERE
dereferences a nil pointer. -/
def SelectQuery.AndQuery (q : SelectQuery) (filter : Option SelectQuery) : BRes SelectQuery :=
  match filter with
  | none => .ok q
  | some f =>
    let q := q.setParams (q.Params ++ f.Params)
    match f.WherePart with
    | none => .panic "invalid memory address or nil pointer dereference"
    | some (.mk _ x) =>
      let exp := Expr.ParenExpr ⟨0, 0, 0⟩ x ⟨0, 0, 0⟩
      match q.WherePart with
      | some (.mk pos e) => .ok (q.setWherePart (some (.mk pos (.BinaryExpr .AND e exp))))
      | none => .ok (q.setWherePart (some (.mk exp.Position exp)))

def SelectQuery.OrQuery (q : SelectQuery) (filter : Option SelectQuery) : BRes SelectQuery :=
  match filter with
  | none => .ok q
  | some f =>
    let q := q.setParams (q.Params ++ f.Params)
    match f.WherePart with
    | none => .panic "invalid memory address or nil pointer dereference"
    | some (.mk _ exp) =>
      match q.WherePart with
      | some (.mk pos e) => .ok (q.setWherePart (some (.mk pos (.BinaryExpr .OR e exp))))
      | none => .ok (q.setWherePart (some (.mk exp.Position exp)))

def DeleteQuery.And (q : DeleteQuery) (code : String) (params : List Value) : BRes DeleteQuery :=
  match fragmentParser code with
  | .inr _ => .fuel
  | .inl (.error e) => .err e q
  | .inl (.ok p) =>
    match Parser.parseBooleanExpr (parseFuel p.Tokens.length) p with
    | .fuel => .fuel
    | .err e _ => .err e.Message q
    | .ok exp p1 =>
      let q := { q with Params := q.Params ++ p1.Params ++ processParams params }
      match q.WherePart with
      | some (.mk pos e) => .ok { q with WherePart := some (.mk pos (.BinaryExpr .AND e exp)) }
      | none => .ok { q with WherePart := some (.mk exp.Position exp) }

def DeleteQuery.Where (q : DeleteQuery) (code : String) (params : List Value) :
    BRes DeleteQuery :=
  q.And code params

def DeleteQuery.Or (q : DeleteQuery) (code : String) (params : List Value) : BRes DeleteQuery :=
  match fragmentParser code with
  | .inr _ => .fuel
  | .inl (.error e) => .err e q
  | .inl (.ok p) =>
    match Parser.parseBooleanTerm (parseFuel p.Tokens.length) p with
    | .fuel => .fuel
    | .err e _ => .err e.Message q
    | .ok e1 _ =>
      let q := { q with Params := q.Params ++ processParams params }
      match q.WherePart with
      | some (.mk pos e) => .ok { q with WherePart := some (.mk pos (.BinaryExpr .OR e e1)) }
      | none => .ok { q with WherePart := some (.mk e1.Position e1) }

def UpdateQuery.And (q : UpdateQuery) (code : String) (params : List Value) : BRes UpdateQuery :=
  match fragmentParser code with
  | .inr _ => .fuel
  | .inl (.error e) => .err e q
  | .inl (.ok p) =>
    match Parser.parseBooleanExpr (parseFuel p.Tokens.length) p with
    | .fuel => .fuel
    | .err e _ => .err e.Message q
    | .ok exp p1 =>
      let q := { q with Params := q.Params ++ p1.Params ++ processParams params }
      match q.WherePart with
      | some (.mk pos e) => .ok { q with WherePart := some (.mk pos (.BinaryExpr .AND e exp)) }
      | none => .ok { q with WherePart := some (.mk exp.Position exp) }

def UpdateQuery.Where (q : UpdateQuery) (code : String) (params : List Value) :
    BRes UpdateQuery :=
  q.And code params

def UpdateQuery.Or (q : UpdateQuery) (code : String) (params : List Value) : BRes UpdateQuery :=
  match fragmentParser code with
  | .inr _ => .fuel
  | .inl (.error e) => .err e q
  | .inl (.ok p) =>
    match Parser.parseBooleanTerm (parseFuel p.Tokens.length) p with
    | .fuel => .fuel
    | .err e _ => .err e.Message q
    | .ok e1 _ =>
      let q := { q with Params := q.Params ++ processParams params }
      match q.WherePart with
      | some (.mk pos e) => .ok { q with WherePart := some (.mk pos (.BinaryExpr .OR e e1)) }
      | none => .ok { q with WherePart := some (.mk e1.Position e1) }

def UpdateQuery.AddColumns (q : UpdateQuery) (code : String) : BRes UpdateQuery :=
  match fragmentParser code with
  | .inr _ => .fuel
  | .inl (.error e) => .err e q
  | .inl (.ok p) =>
    match Parser.parseColumnValues (parseFuel p.Tokens.length) p with
    | .fuel => .fuel
    | .err e _ => .err e.Message q
    | .ok exps _ => .ok { q with Columns := q.Columns ++ exps }

def UpdateQuery.SetColumns (q : UpdateQuery) (code : String) : BRes UpdateQuery :=
  UpdateQuery.AddColumns { q with Columns := [] } code

/-! # Specification-side definitions -/

/-- The text of a string constant as the specification words it: every `"` of the
value replaced by `\"`. -/
def escapeQuotes : List Char → List Char
| [] => []
| c :: cs => if c = Char.ofNat 34 then Char.ofNat 92 :: Char.ofNat 34 :: escapeQuotes cs
  else c :: escapeQuotes cs

/-- Whether a text is ASCII.  The functions `strings.ToUpper`, `strings.ToLower` and
`strings.EqualFold` are modelled on ASCII text only (the Unicode case tables of Go are
not part of this development). -/
def asciiText (s : String) : Bool := s.data.all fun c => c.toNat < 128

/-- The whitelist in force: the writer's own list when it is set, else the
package-level list. -/
def effectiveWhitelist (w : writer) : Option (List String) :=
  match w.WhitelistFuncs with
  | some l => some l
  | none => w.globalWhitelistFuncs

/-- The query types for which `prefixTableName` resolves a table name (the cases of
its type switch). -/
def QueryType.hasTables : QueryType → Bool
| .CreateDatabaseQuery | .DropDatabaseQuery => false
| _ => true

/-- The text `writeIdentifier` writes for a valid identifier: the identifier, between
backticks when `EscapeIdents` is set. -/
def identText (escape : Bool) (s : String) : String :=
  (if escape then "`" else "") ++ s ++ (if escape then "`" else "")

/-- The position used in hand-built syntax trees. -/
def noPos : Position := ⟨0, 0, 0⟩

/-- The tree of a parameter marker `?`. -/
def markerExpr : Expr := .ParameterExpr noPos ""

/-- The tree of a plain column name. -/
def columnExpr (name : String) : Expr := .ColumnNameExpr ⟨noPos, name, "", ""⟩

/-- The tree of `select * from <table> where <e>`. -/
def selectStarWhere (table : String) (e : Expr) : Query :=
  .SelectQuery (.mk noPos false false [.AllColumnsExpr "" noPos]
    (some [.Table (.mk noPos table "" "" [])]) (some (.mk noPos e)) [] none [] none [] [])

/-- The tree of `left in ?`. -/
def inMarker (left : Expr) : Expr := .BinaryExpr .IN left (.InExpr noPos [markerExpr] noPos)

/-- The number of `?` characters of a text. -/
def countMarks (s : String) : Nat := s.data.count '?'

/-- The tree of `left not in ?`. -/
def notInMarker (left : Expr) : Expr :=
  .BinaryExpr .NOTIN left (.InExpr noPos [markerExpr] noPos)

def allDigits : List Char → Bool
| [] => true
| c :: cs => (48 ≤ c.toNat && c.toNat ≤ 57) && allDigits cs

/-- An optional sign followed by at least one decimal digit, and nothing else. -/
def isSignedDecimal (s : String) : Bool :=
  match s.data with
  | '-' :: r => r != [] && allDigits r
  | '+' :: r => r != [] && allDigits r
  | r => r != [] && allDigits r

/-- A finite `float64` whose value is an integer in the range of `int64`. -/
def Float64.isIntegralInt64 : Float64 → Bool
| .finite m e =>
  if 0 ≤ e then
    decide (- (2 : Int) ^ 63 ≤ m * 2 ^ e.toNat ∧ m * 2 ^ e.toNat < (2 : Int) ^ 63)
  else
    decide (m % 2 ^ (-e).toNat = 0 ∧
      - (2 : Int) ^ 63 ≤ m / 2 ^ (-e).toNat ∧ m / 2 ^ (-e).toNat < (2 : Int) ^ 63)
| _ => false

/-- The values an IN list may hold: an `int`, `int32` or `int64`, a `float64` with an
integral value in the range of `int64`, a string that `strconv.Atoi` parses, a
`time.Time`. -/
def acceptedInValue : Value → Bool
| .int _ | .int32 _ | .int64 _ => true
| .float64 t => t.isIntegralInt64
| .string s => (strconvAtoi s).isSome
| .time _ => true
| _ => false

/-- The tree of `select name from <table>`. -/
def selectNameFrom (table : String) : Query :=
  .SelectQuery (.mk noPos false false [columnExpr "name"]
    (some [.Table (.mk noPos table "" "" [])]) none [] none [] none [] [])

/-- The tree of `insert into <database>.<table> values (?)`. -/
def insertMarker (database table : String) : Query :=
  .InsertQuery ⟨noPos, ⟨noPos, database, table⟩, [], [markerExpr], [], none⟩

/-- The SQL that the writer of the tests (`toSQL`: no namespace, `EscapeIdents` off) gives
for the query that `ParseQuery` returns for `code`; `none` when the parser or the writer
fails. -/
def writeParsed (code : String) (params : List Value) (database driver : String) :
    Option String :=
  match ParseQuery code with
  | .ok q =>
    match toSQL 1000 false (some q) params database driver with
    | .ok sql _ => some sql
    | _ => none
  | _ => none

/-- The types and the texts of the tokens of an input; `none` when the lexer fails. -/
def lexTexts (input : String) : Option (List (Typ × String)) :=
  match lex input with
  | .ok ts _ => some (ts.map fun t => (t.Typ, t.Str))
  | _ => none

/-- The columns that the tokens of an input record; `none` when the lexer fails. -/
def lexColumns (input : String) : Option (List Int) :=
  match lex input with
  | .ok ts _ => some (ts.map fun t => t.Pos.Column)
  | _ => none

/-- The bytes for which `lexer.run` has no case: neither whitespace, identifier start,
digit, quote, backtick, operator nor delimiter (and not the end marker `byte(EOF)`). -/
def unmappedByte (c : Char) : Bool :=
  !isWhitespace c.toNat && !isIdent c.toNat 0 && !isDecimal c.toNat &&
  c != Char.ofNat 34 && c != Char.ofNat 39 && c != Char.ofNat 96 &&
  c != '-' && c != '<' && c != '>' && c != '!' && (simpleToken c).isNone && c != eofByte

/-- A rendering of the shape of an expression: `Binary(op, left, right)` for a binary
node, `Unary(op, x)` for a unary node, `(x)` for parentheses, the name of a column, the
text of a constant and `?` for a parameter marker; `_` for the other nodes. -/
def Expr.shape : Expr → String
| .BinaryExpr op l r => "Binary(" ++ op.String ++ ", " ++ Expr.shape l ++ ", " ++ Expr.shape r ++ ")"
| .UnaryExpr _ op x => "Unary(" ++ op.String ++ ", " ++ Expr.shape x ++ ")"
| .ParenExpr _ x _ => "(" ++ Expr.shape x ++ ")"
| .ColumnNameExpr c => c.Name
| .ConstantExpr _ _ v => v
| .ParameterExpr _ _ => "?"
| _ => "_"

/-- The shape of the expression that `parseBooleanExpr` reads from the tokens of `code`;
`none` when the lexer or the parser fails. -/
def parseShape (code : String) : Option String :=
  match lex code with
  | .ok tokens _ =>
    match Parser.parseBooleanExpr (parseFuel tokens.length) (NewStrParser false tokens) with
    | .ok e _ => some e.shape
    | _ => none
  | _ => none

/-- The parameters (rendered with `%v`) and the SQL of the statement that a parser with
`ReplaceParams` set returns for `code`. -/
def parseReplaced (code : String) : Option (List String × String) :=
  match Parser.ParseQuery true code with
  | .ok q =>
    let ps := match q with
      | .SelectQuery s => s.Params
      | .InsertQuery s => s.Params
      | .UpdateQuery s => s.Params
      | .DeleteQuery s => s.Params
      | _ => []
    match toSQL 1000 false (some q) [] "" "" with
    | .ok sql _ => some (ps.map Value.fmt, sql)
    | _ => none
  | _ => none

/-- The WHERE that the claim gives a query after `And`, `Or`, `AndQuery` or `OrQuery`: the
existing expression and `exp` under `op`, or `exp` alone when there is no WHERE. -/
def whereAfter (op : Typ) (w : Option Goql.WherePart) (exp : Expr) : Option Goql.WherePart :=
  match w with
  | some (.mk pos e) => some (.mk pos (.BinaryExpr op e exp))
  | none => some (.mk exp.Position exp)

/-- The query that a builder method leaves behind (also when it returns an error). -/
def BRes.query {α : Type} : BRes α → Option α
| .ok q => some q
| .err _ q => some q
| _ => none

/-- The select that `ParseQuery` returns for `code`. -/
def parsedSelect (code : String) : Option SelectQuery :=
  match ParseQuery code with
  | .ok (.SelectQuery q) => some q
  | _ => none

/-- The outcome of a builder method on a select, as text: `ok` or the error, and the SQL
that the writer of the tests gives for the query after the call. -/
def builtSQL : Option (BRes SelectQuery) → String
| some (.ok q) =>
  match toSQL 1000 false (some (.SelectQuery q)) [] "" "" with
  | .ok sql _ => "ok: " ++ sql
  | _ => "ok, not writable"
| some (.err e q) =>
  match toSQL 1000 false (some (.SelectQuery q)) [] "" "" with
  | .ok sql _ => "error " ++ e ++ ": " ++ sql
  | _ => "error " ++ e ++ ", not writable"
| _ => "no result"

/-- The name of a column type in the output: under mysql the name as it is, under sqlite3
Int→INTEGER, Decimal→REAL, Char/Varchar→VARCHAR, Text/MediumText→TEXT, Bool→BOOLEAN,
DateTime→DATETIME (nothing for Blob). -/
def typeText (sqlite : Bool) : ColumnType → String
| .Int => if sqlite then " INTEGER" else " int"
| .Decimal => if sqlite then " REAL" else " decimal"
| .Char => if sqlite then " VARCHAR" else " char"
| .Varchar => if sqlite then " VARCHAR" else " varchar"
| .Text => if sqlite then " TEXT" else " text"
| .MediumText => if sqlite then " TEXT" else " mediumtext"
| .Bool => if sqlite then " BOOLEAN" else " bool"
| .Blob => if sqlite then "" else " blob"
| .DatTime => if sqlite then " DATETIME" else " datetime"

/-- The text of a column definition as the specification gives it: the name, the type, the
size, the key marker (`AUTO_INCREMENT` under mysql, `PRIMARY KEY` inline under sqlite3),
`NOT NULL` unless the column is nullable, in which case `NULL`, the default, and
`COLLATE NOCASE` for the string types under sqlite3. -/
def columnText (sqlite : Bool) (c : CreateColumn) : String :=
  c.Name ++ (typeText sqlite c.Typ ++
    ((if c.Size != "" then "(" ++ (c.Size ++ ((if c.Decimals != "" then "," ++ c.Decimals else "")
      ++ ")")) else "") ++
    ((if c.Key then (if sqlite then " PRIMARY KEY" else " AUTO_INCREMENT") else "") ++
    ((if c.Nullable then " NULL" else " NOT NULL") ++
    ((if c.Default != "" then " DEFAULT " ++ c.Default else "") ++
    (if sqlite && (c.Typ == .Char || c.Typ == .Varchar || c.Typ == .Text || c.Typ == .MediumText)
      then " COLLATE NOCASE" else ""))))))

/-- The writer method `m`, when it succeeds on a writer without `EscapeIdents`, appends the
text `t` to the buffer and changes nothing else. -/
def Appends (m : W Unit) (t : String) : Prop :=
  ∀ w w1 : writer, w.EscapeIdents = false → m w = .ok () w1 → w1 = { w with buf := w.buf ++ t }

/-- Every value that the computation `m` returns satisfies `P`. -/
def Yields {σ α : Type} (P : α → Prop) (m : SM σ α) : Prop :=
  ∀ (s : σ) (a : α) (s1 : σ), m s = .ok a s1 → P a

/-- The error message with which the writer of the tests fails on the query that
`ParseQuery` returns for `code`; `none` when the parser fails or the writer succeeds. -/
def writeFailure (code : String) (params : List Value) (database driver : String) :
    Option String :=
  match ParseQuery code with
  | .ok q =>
    match toSQL 1000 false (some q) params database driver with
    | .error e => some e
    | _ => none
  | _ => none

/-- Whether the writer of the tests fails on the parsed `code` with a message that starts
with `Invalid database `. -/
def failsInvalidDatabase (code : String) (database : String) : Bool :=
  match writeFailure code [] database "" with
  | some e => stringsHasPrefix e "Invalid database "
  | none => false


/-! ## What the writer methods leave unchanged -/

/-- The settings of a writer: the fields that no writer method assigns. -/
def writer.settings (w : writer) :
    String × Bool × String × Bool × Bool × Bool × Option (List String) × String ×
      Option (List String) :=
  (w.Database, w.NamespaceWriteAll, w.Namespace, w.IgnoreNamespaces, w.Format, w.EscapeIdents,
    w.WhitelistFuncs, w.driver, w.globalWhitelistFuncs)

/-- Whether the current statement of the writer is one of those for which
`prefixTableName` resolves a table name. -/
def writer.inStatement (w : writer) : Bool :=
  match w.currentQuery with
  | some t => t.hasTables
  | none => false

/-- The writer `w1` has the settings of `w`, its buffer is the buffer of `w` with text
appended, and its current statement resolves table names if the one of `w` does. -/
def Extends (w w1 : writer) : Prop :=
  w1.settings = w.settings ∧ (∃ s, w1.buf = w.buf ++ s) ∧
    (w.inStatement = true → w1.inStatement = true)

/-- The name that `prefixTableName` gives a table inside a statement: the result of
`prefixTableName`, which depends on the current statement only in that it must be one of
the cases of its type switch. -/
def writer.resolve (w : writer) (table : String) (isWrite : Bool) : Except String String :=
  ({ w with currentQuery := some .SelectQuery }).prefixTableName table isWrite

/-- The text that `writeTable` appends for the resolved table name `t`: with a database
in force (the qualifier of the table, or else `Database`) the identifier `database_t` under
sqlite3 and the identifiers `database` and `t` around a `.` otherwise; without one the
identifier `t`. -/
def tableText (w : writer) (database t : String) : String :=
  if (if database == "" then w.Database else database) != "" then
    if w.driver == "sqlite3" then
      identText w.EscapeIdents ((if database == "" then w.Database else database) ++ "_" ++ t)
    else
      identText w.EscapeIdents (if database == "" then w.Database else database) ++ "." ++
        identText w.EscapeIdents t
  else identText w.EscapeIdents t

/-- Whether two texts differ at a position that both have. -/
def mismatch : List Char → List Char → Bool
| a :: as, b :: bs => a != b || mismatch as bs
| _, _ => false

/-- The text `s` differs from `Invalid table prefix for a write query` at a position that
both have, so that no text that starts with `s` starts with that message. -/
def Diverges (s : String) : Prop :=
  mismatch s.data "Invalid table prefix for a write query".data = true

instance (s : String) : Decidable (Diverges s) :=
  inferInstanceAs (Decidable (mismatch _ _ = true))

/-- The error `e` is not the rejection of a table for its namespace. -/
def readError (e : String) : Prop :=
  stringsHasPrefix e "Invalid table prefix for a write query" = false

/-- No condition on the error. -/
@[reducible] def anyError (_ : String) : Prop := True

/-- The writer method `m` keeps the settings of the writer and only appends to its buffer,
also when it returns an error, and every error it returns satisfies `E`. -/
@[irreducible] def Inv {α : Type} (E : String → Prop) (m : W α) : Prop :=
  ∀ w : writer, match m w with
    | .ok _ w1 => Extends w w1
    | .err e w1 => Extends w w1 ∧ E e
    | .panic _ => True
    | .fuel => True

/-- Every instance of a continuation satisfies `Inv`. -/
def InvAll {α β : Type} (E : String → Prop) (f : β → W α) : Prop := ∀ y, Inv E (f y)


/-- At recursion budget `n`, every method of the expression writer keeps the settings, only
appends to the buffer and returns no rejection of a table for its namespace (the tables of
FROM are written as tables that are read). -/
def InvAt (n : Nat) : Prop :=
  (∀ q, Inv readError (writeSelect n q)) ∧
  (∀ l, Inv readError (writeLimit n l)) ∧
  (∀ f, Inv readError (writeFrom n f)) ∧
  (∀ t, Inv readError (writeFromTable n t false)) ∧
  (∀ js, Inv readError (writeJoins n js)) ∧
  (∀ j, Inv readError (writeJoin n j)) ∧
  (∀ e, Inv readError (writeExpr n e)) ∧
  (∀ a b, Inv readError (writeBetweenExpr n a b)) ∧
  (∀ vs, Inv readError (writeInExpr n vs)) ∧
  (∀ d es os s, Inv readError (writeGroupConcat n d es os s)) ∧
  (∀ es, Inv readError (writeGroupConcatSqlite n es)) ∧
  (∀ name args, Inv readError (writeFuncCallExpr n name args)) ∧
  (∀ args, Inv readError (writeConcatSqlite n args)) ∧
  (∀ t, Inv readError (writeOrderBy n t)) ∧
  (∀ c, Inv readError (writeOrderColumn n c)) ∧
  (∀ e a, Inv readError (writeSelectColumnExpr n e a)) ∧
  (∀ x, Inv readError (writeParenExpr n x)) ∧
  (∀ op e, Inv readError (writeUnaryExpr n op e)) ∧
  (∀ l r eq, Inv readError (handleNullEquality n l r eq)) ∧
  (∀ op l r, Inv readError (writeBinaryExpr n op l r))

/-! ## Where statements name tables -/

/-- The keyword that `writeJoin` writes for a join type. -/
def joinWord : Typ → String
| .LEFT => "LEFT JOIN "
| .RIGHT => "RIGHT JOIN "
| .INNER => "INNER JOIN "
| .OUTER => "OUTER JOIN "
| .CROSS => "CROSS JOIN "
| .JOIN => "JOIN "
| _ => ""

/-- The name that `prefixTableName` gives a table inside a statement, empty when it
rejects the name. -/
def writer.resolved (w : writer) (table : String) (isWrite : Bool) : String :=
  match w.resolve table isWrite with
  | .ok t => t
  | .error _ => ""

/-- The text of the alias list of DELETE: the aliases as identifiers with `, ` between
them (`i` is the index of the first alias of the list). -/
def aliasText (escape : Bool) : Nat → List String → String
| _, [] => ""
| i, a :: as => (if i > 0 then ", " else "") ++ identText escape a ++ aliasText escape (i + 1) as

/-- A place where a statement names a table: the writer method, the text that the method
has appended to the buffer when it comes to the table, and the database, the table and the
flag that it passes to `writeTable`. -/
structure Site where
  run : W Unit
  pre : writer → String
  database : writer → String
  table : String
  isWrite : Bool

/-- The places where the writer names a table, one for each call of `writeTable`: the
tables of FROM (of a select, an update and a delete), the tables of JOIN, the targets of
INSERT, UPDATE, DELETE, CREATE TABLE, DROP TABLE and of the ALTER TABLE statements, the
tables of SHOW COLUMNS and SHOW INDEX and the tables after REFERENCES. -/
inductive IsSite : Site → Prop
| fromTable (n : Nat) (t : Table) (isWrite : Bool) :
    IsSite ⟨writeFromTable (n + 1) t isWrite, fun _ => "", fun _ => t.Database, t.Name, isWrite⟩
| join (n : Nat) (pos : Position) (typ : Typ) (table al database : String)
    (onExpr : Option Expr) :
    IsSite ⟨writeJoin (n + 1) (.mk pos typ table al database onExpr),
      fun w => (if w.Format then "\n" else " ") ++ joinWord typ, fun _ => database, table, false⟩
| insert (n : Nat) (s : InsertQuery) :
    IsSite ⟨writeInsert n s, fun _ => "INSERT INTO ", fun _ => s.Table.Database, s.Table.Name,
      true⟩
| update (n : Nat) (s : UpdateQuery) :
    IsSite ⟨writeUpdate (n + 1) s, fun _ => "UPDATE ", fun _ => s.Table.Database, s.Table.Name,
      true⟩
| delete (n : Nat) (s : DeleteQuery) :
    IsSite ⟨writeDelete (n + 1) s,
      fun w => "DELETE" ++ (if s.Alias.length > 1 then
          " " ++ aliasText w.EscapeIdents 0 s.Alias else "") ++ " FROM ",
      fun _ => s.Table.Database, s.Table.Name, true⟩
| createTable (s : CreateTableQuery) :
    IsSite ⟨writeCreateTable s,
      fun _ => "CREATE TABLE " ++ (if s.IfNotExists then "IF NOT EXISTS " else ""),
      fun w => w.Database, s.Name, true⟩
| dropTable (s : DropTableQuery) :
    IsSite ⟨writeDropTable s,
      fun _ => "DROP TABLE " ++ (if s.IfExists then "IF EXISTS " else ""),
      fun _ => s.Database, s.Table, true⟩
| renameColumn (q : RenameColumnQuery) :
    IsSite ⟨writeRenameColumnQuery q, fun _ => "ALTER TABLE ", fun _ => q.Database, q.Table, true⟩
| addColumn (q : AddColumnQuery) :
    IsSite ⟨writeAddColumnQuery q, fun _ => "ALTER TABLE ", fun _ => q.Database, q.Table, true⟩
| alterDrop (q : AlterDropQuery) :
    IsSite ⟨writeAlterDropQuery q, fun _ => "ALTER TABLE ", fun _ => q.Database, q.Table, true⟩
| modifyColumn (q : ModifyColumnQuery) :
    IsSite ⟨writeModifyColumnQuery q, fun _ => "ALTER TABLE ", fun _ => q.Database, q.Table, true⟩
| addConstraint (s : AddConstraintQuery) :
    IsSite ⟨writeAddContraint s, fun _ => "ALTER TABLE ", fun _ => s.Database, s.Table, true⟩
| addFK (s : AddFKQuery) :
    IsSite ⟨writeAddFK s, fun _ => "ALTER TABLE ", fun _ => s.Database, s.Table, true⟩
| addFKReferences (s : AddFKQuery) :
    IsSite ⟨writeAddFK s,
      fun w => "ALTER TABLE " ++ tableText w s.Database (w.resolved s.Table true) ++
        " ADD CONSTRAINT " ++ identText w.EscapeIdents s.Name ++ " FOREIGN KEY(" ++
        identText w.EscapeIdents s.Column ++ ") REFERENCES ",
      fun _ => s.RefDatabase, s.RefTable, false⟩
| references (c : ForeginKey) :
    IsSite ⟨writeFKConstraint c,
      fun w => ", CONSTRAINT " ++ identText w.EscapeIdents c.Name ++ " FOREIGN KEY (" ++
        identText w.EscapeIdents c.Column ++ ") REFERENCES ",
      fun w => w.Database, c.RefTable, false⟩
| showColumns (q : ShowQuery) (h : stringsToLower q.Typ = "columns") :
    IsSite ⟨writeShow q,
      fun w => if w.driver == "sqlite3" then "PRAGMA table_info(" else "SHOW COLUMNS FROM ",
      fun _ => q.Database, q.Table, false⟩
| showIndex (q : ShowQuery) (h : stringsToLower q.Typ = "index") :
    IsSite ⟨writeShow q,
      fun w => if w.driver == "sqlite3" then "PRAGMA index_list(" else "SHOW INDEX FROM ",
      fun _ => q.Database, q.Table, false⟩

/-- The helper `testNamespace` of namespace_test.go: the SQL that the writer gives for the
query that `ParseQuery` returns for `query`, under sqlite3 with the given database,
namespace and write-all flag and without `EscapeIdents`; or the error of the writer. -/
def testNamespace (query database ns : String) (writeAll : Bool) : Except String String :=
  match ParseQuery query with
  | .ok q =>
    match ({ NewWriter (some q) [] database "sqlite3" with
        Namespace := ns, NamespaceWriteAll := writeAll, EscapeIdents := false }).Write 1000 with
    | .ok sql _ => .ok sql
    | .error e => .error e
    | .panic msg => .error msg
    | .fuel => .error "out of fuel"
  | _ => .error "parse error"

/-- Equality of two outcomes of `Write` rendered as text is decidable. -/
instance decEqExceptString : DecidableEq (Except String String) := fun a b =>
  match a, b with
  | .ok x, .ok y =>
    if h : x = y then isTrue (h ▸ rfl) else isFalse (fun h2 => h (Except.ok.inj h2))
  | .error x, .error y =>
    if h : x = y then isTrue (h ▸ rfl) else isFalse (fun h2 => h (Except.error.inj h2))
  | .ok _, .error _ => isFalse (fun h => Except.noConfusion h)
  | .error _, .ok _ => isFalse (fun h => Except.noConfusion h)

/-! ## Binary levels of the expression grammar -/

/-- The level of a binary operator in the expression grammar, from the loosest to the
tightest: 1 for OR (`parseBooleanExpr`), 2 for AND (`parseBooleanTerm`), 3 for the
operators of `parseRelation`, 4 for `+` and `-` (`parseExpr`), 5 for `*`, `/`, `%`, `>>`
(lexed as `LSF`) and `&` (`parseTerm`); 0 for a token that is no binary operator. -/
def binaryLevel : Typ → Nat
| .OR => 1
| .AND => 2
| .EQL | .NEQ | .LSS | .LEQ | .GTR | .GEQ | .LIKE | .NOTLIKE | .IN | .NOTIN | .IS | .ISNOT
| .BETWEEN => 3
| .ADD | .SUB => 4
| .MUL | .DIV | .MOD | .LSF | .ANB => 5
| _ => 0

/-- The level at which the root of a tree binds: the level of its operator for a binary
expression, 6 for every other tree (an operand, a unary expression, a parenthesis). -/
def Expr.level : Expr → Nat
| .BinaryExpr op _ _ => binaryLevel op
| _ => 6

/-- The tree binds at level `k` or tighter and, at every binary expression reached from
the root through operands of binary expressions, the left operand binds at the level of the
operator or tighter and the right operand strictly tighter: no operator has a looser one
directly below it, and an operator of the same level directly below only on the left. -/
inductive Nested : Nat → Expr → Prop
| operand (k : Nat) (e : Expr) : e.level = 6 → Nested k e
| binary (k : Nat) (op : Typ) (l r : Expr) : k ≤ binaryLevel op →
    Nested (binaryLevel op) l → Nested (binaryLevel op + 1) r → Nested k (.BinaryExpr op l r)

/-! ## The cursor of the parser and the recursion budget -/

/-- The number of tokens from the cursor to the end of the tokens. -/
def Parser.left (s : Parser) : Nat := s.Tokens.length - s.lexIdex

/-- The state `s1` is reached from `s` by advancing the cursor: the same tokens, the cursor
not moved back and not beyond the tokens. -/
def Adv (s s1 : Parser) : Prop :=
  s1.Tokens = s.Tokens ∧ s.lexIdex ≤ s1.lexIdex ∧ s1.lexIdex ≤ s1.Tokens.length

/-- Started with the cursor within the tokens and at most `B` tokens left, the method `m`
does not exhaust the recursion budget: it returns a value or an error, it only advances
the cursor, and when it returns the value `a` at most `post a` tokens are left. -/
@[irreducible] def Within {α : Type} (B : Nat) (post : α → Nat) (m : SM Parser α) : Prop :=
  ∀ s : Parser, s.lexIdex ≤ s.Tokens.length → s.left ≤ B →
    match m s with
    | .ok a s1 => Adv s s1 ∧ s1.left ≤ post a
    | .err _ s1 => Adv s s1
    | .fuel => False


/-- At the recursion budget `n`, every method of the parser of selects and expressions
returns, only advances the cursor and leaves at most `B` tokens when at most `B` tokens
are left and `n` is at least the rank of the method plus 40 for each of these tokens. -/
def ParsersAt (n : Nat) : Prop :=
  (∀ (B : Nat), 1 + 40 * B ≤ n → Within B (fun _ => B) (Parser.parseSelect n)) ∧
  (∀ (B : Nat), 1 + 40 * B ≤ n → Within B (fun _ => B) (Parser.parseUnion n)) ∧
  (∀ (queries : List SelectQuery) (B : Nat), 2 + 40 * B ≤ n → Within B (fun _ => B) (Parser.parseUnionLoop n queries)) ∧
  (∀ (B : Nat), 1 + 40 * B ≤ n → Within B (fun _ => B) (Parser.parseHaving n)) ∧
  (∀ (B : Nat), 12 + 40 * B ≤ n → Within B (fun _ => B) (Parser.parseHavingPart n)) ∧
  (∀ (B : Nat), 1 + 40 * B ≤ n → Within B (fun _ => B) (Parser.parseGroupBy n)) ∧
  (∀ (columns : List Expr) (B : Nat), 13 + 40 * B ≤ n → Within B (fun _ => B) (Parser.parseGroupByLoop n columns)) ∧
  (∀ (B : Nat), 1 + 40 * B ≤ n → Within B (fun _ => B) (Parser.parseWhere n)) ∧
  (∀ (B : Nat), 14 + 40 * B ≤ n → Within B (fun _ => B) (Parser.parseSelectColumns n)) ∧
  (∀ (columns : List Expr) (B : Nat), 13 + 40 * B ≤ n → Within B (fun _ => B) (Parser.parseSelectColumnsLoop n columns)) ∧
  (∀ (B : Nat), 12 + 40 * B ≤ n → Within B (fun _ => B) (Parser.parseSelectColumnExpr n)) ∧
  (∀ (B : Nat), 1 + 40 * B ≤ n → Within B (fun _ => B) (Parser.parseFrom n)) ∧
  (∀ (froms : List SqlFrom) (B : Nat), 3 + 40 * B ≤ n → Within B (fun _ => B) (Parser.parseFromLoop n froms)) ∧
  (∀ (t : Token) (B : Nat), 2 + 40 * B ≤ n → Within B (fun _ => B) (Parser.parseFromTable n t)) ∧
  (∀ (joins : List Join) (B : Nat), 1 + 40 * B ≤ n → Within B (fun _ => B) (Parser.parseJoins n joins)) ∧
  (∀ (B : Nat), 11 + 40 * B ≤ n → Within B (fun _ => B) (Parser.parseBooleanExpr n)) ∧
  (∀ (e : Expr) (B : Nat), 1 + 40 * B ≤ n → Within B (fun _ => B) (Parser.parseBooleanExprLoop n e)) ∧
  (∀ (B : Nat), 10 + 40 * B ≤ n → Within B (fun _ => B) (Parser.parseBooleanTerm n)) ∧
  (∀ (e : Expr) (B : Nat), 1 + 40 * B ≤ n → Within B (fun _ => B) (Parser.parseBooleanTermLoop n e)) ∧
  (∀ (B : Nat), 9 + 40 * B ≤ n → Within B (fun _ => B) (Parser.parseNotFactor n)) ∧
  (∀ (B : Nat), 8 + 40 * B ≤ n → Within B (fun _ => B) (Parser.parseRelation n)) ∧
  (∀ (e : Expr) (B : Nat), 7 + 40 * B ≤ n → Within B (fun _ => B) (Parser.parseRelationLoop n e)) ∧
  (∀ (B : Nat), 6 + 40 * B ≤ n → Within B (fun _ => B - 1) (Parser.parseBetweenExpr n)) ∧
  (∀ (B : Nat), 6 + 40 * B ≤ n → Within B (fun _ => B - 1) (Parser.parseInExpr n)) ∧
  (∀ (B : Nat), 5 + 40 * B ≤ n → Within B (fun _ => B) (Parser.parseExpr n)) ∧
  (∀ (e : Expr) (B : Nat), 1 + 40 * B ≤ n → Within B (fun _ => B) (Parser.parseExprLoop n e)) ∧
  (∀ (B : Nat), 4 + 40 * B ≤ n → Within B (fun _ => B) (Parser.parseTerm n)) ∧
  (∀ (e : Expr) (B : Nat), 1 + 40 * B ≤ n → Within B (fun _ => B) (Parser.parseTermLoop n e)) ∧
  (∀ (B : Nat), 3 + 40 * B ≤ n → Within B (fun _ => B) (Parser.parseSignedFactor n)) ∧
  (∀ (B : Nat), 2 + 40 * B ≤ n → Within B (fun _ => B) (Parser.parseFactor n)) ∧
  (∀ (B : Nat), 1 + 40 * B ≤ n → Within B (fun _ => B) (Parser.parseParenExpr n)) ∧
  (∀ (B : Nat), 1 + 40 * B ≤ n → Within B (fun _ => B) (Parser.parseGroupConcat n)) ∧
  (∀ (exprs : List Expr) (B : Nat), 6 + 40 * B ≤ n → Within B (fun _ => B) (Parser.parseGroupConcatLoop n exprs)) ∧
  (∀ (B : Nat), 1 + 40 * B ≤ n → Within B (fun _ => B) (Parser.parseCallExpr n)) ∧
  (∀ (args : List Expr) (B : Nat), 12 + 40 * B ≤ n → Within B (fun _ => B) (Parser.parseExpressionList n args))

/-! # Theorems -/

/-! ## The writer monad -/

@[simp] theorem W_pure_apply {α : Type} (a : α) (w : writer) :
    (pure a : W α) w = Res.ok a w := rfl

@[simp] theorem W_pure_apply2 {α : Type} (a : α) (w : writer) :
    (W.pure a : W α) w = Res.ok a w := rfl

theorem W_bind_apply {α β : Type} (m : W α) (f : α → W β) (w : writer) :
    (m >>= f) w = match m w with
      | .ok a w1 => f a w1
      | .err e w1 => .err e w1
      | .panic msg => .panic msg
      | .fuel => .fuel := rfl

@[simp] theorem W_bind_ok {α β : Type} (m : W α) (f : α → W β) (w w1 : writer) (a : α)
    (h : m w = .ok a w1) : (m >>= f) w = f a w1 := by
  rw [W_bind_apply, h]

@[simp] theorem WriteString_apply (s : String) (w : writer) :
    WriteString s w = .ok () { w with buf := w.buf ++ s } := rfl

@[simp] theorem WriteRune_apply (c : Char) (w : writer) :
    WriteRune c w = .ok () { w with buf := w.buf ++ String.singleton c } := rfl

@[simp] theorem getW_apply (w : writer) : getW w = .ok w w := rfl

@[simp] theorem modifyW_apply (f : writer → writer) (w : writer) :
    modifyW f w = .ok () (f w) := rfl

@[simp] theorem fail_apply {α : Type} (e : String) (w : writer) :
    (fail e : W α) w = .err e w := rfl

theorem sanitize_data (v : String) : (sanitize v).data = escapeQuotes v.data := by
  unfold sanitize stringsReplace
  simp only
  induction v.data with
  | nil => rfl
  | cons c cs ih =>
    unfold replaceAllAux escapeQuotes
    split
    · rw [ih]; rfl
    · rw [ih]

/-- C15: for every STRING constant with value `v`, whatever the driver and the rest of
the writer state, `writeConstantExpr` succeeds and appends to the buffer a `"`, the
value with each `"` replaced by `\"`, and a `"`; nothing else of the state changes. -/
theorem writeConstantExpr_string (w : writer) (pos : Position) (v : String) :
    writeConstantExpr pos .STRING v w =
      .ok () { w with buf := w.buf ++ "\"" ++ String.mk (escapeQuotes v.data) ++ "\"" } := by
  have h : sanitize v = String.mk (escapeQuotes v.data) := by
    rw [← sanitize_data]
  simp only [writeConstantExpr, W_bind_apply, WriteRune_apply, WriteString_apply, h]
  rfl

/-! ## Identifiers and the function whitelist -/

theorem Char_toNat_ofNat_small (m : Nat) (h : m < 55296) : (Char.ofNat m).toNat = m := by
  have hv : m.isValidChar := Or.inl h
  unfold Char.ofNat
  rw [dif_pos hv]
  simp [Char.ofNatAux, Char.toNat, UInt32.toNat]

theorem Char_toLower_toUpper (c : Char) : (c.toUpper).toLower = c.toLower := by
  unfold Char.toUpper
  simp only
  split
  · rename_i h
    unfold Char.toLower
    simp only
    rw [Char_toNat_ofNat_small _ (by omega)]
    rw [if_pos (by omega), if_neg (by omega)]
    have : c.toNat - 32 + 32 = c.toNat := by omega
    rw [this, Char.ofNat_toNat]
  · rfl

theorem stringsToLower_toUpper (s : String) :
    stringsToLower (stringsToUpper s) = stringsToLower s := by
  unfold stringsToLower stringsToUpper
  simp only [List.map_map]
  congr 1
  apply List.map_congr_left
  intro c _
  exact Char_toLower_toUpper c

theorem stringsEqualFold_toUpper (v f : String) :
    stringsEqualFold v (stringsToUpper f) = stringsEqualFold v f := by
  unfold stringsEqualFold
  rw [stringsToLower_toUpper]

/-- C13 (the code at the failing input): `writeIdentifier` accepts the one-rune
string U+0141, which is not in `[A-Za-z0-9_]`: the validation loop tests `byte(c)`,
here 0x41, and the rune is written to the buffer. -/
theorem writeIdentifier_accepts_truncated_rune :
    ∃ w1, writeIdentifier (String.mk [Char.ofNat 321]) (NewWriter none [] "" "") = .ok () w1 ∧
      w1.buf = String.mk [Char.ofNat 96, Char.ofNat 321, Char.ofNat 96] :=
  ⟨_, rfl, by decide!⟩

theorem isWhiteListedFunc_iff (w : writer) (f : String) :
    w.isWhiteListedFunc (stringsToUpper f) = true ↔
      (effectiveWhitelist w = none ∨
        ∃ l, effectiveWhitelist w = some l ∧ ∃ v ∈ l, stringsEqualFold v f = true) := by
  unfold writer.isWhiteListedFunc effectiveWhitelist
  cases h1 : w.WhitelistFuncs with
  | some l => simp [List.any_eq_true, stringsEqualFold_toUpper]
  | none =>
    cases h2 : w.globalWhitelistFuncs with
    | some l => simp [List.any_eq_true, stringsEqualFold_toUpper]
    | none => simp

theorem writeFuncCallExpr_rejects (n : Nat) (w : writer) (f : String) (args : List Expr)
    (h : w.isWhiteListedFunc (stringsToUpper f) = false) :
    writeFuncCallExpr (n + 1) f args w =
      .err ("The function " ++ stringsToUpper f ++ " is not allowed") w := by
  simp [writeFuncCallExpr, W_bind_apply, h]

theorem writeFuncCallExpr_passes (n : Nat) (w : writer) (f : String) (args : List Expr)
    (h : w.isWhiteListedFunc (stringsToUpper f) = true) :
    writeFuncCallExpr (n + 1) f args w =
      (if ((stringsToUpper f == "CONCAT" || stringsToUpper f == "CONCAT_WS") &&
            w.driver == "sqlite3") = true then writeConcatSqlite n args
       else if (stringsToUpper f == "UTC_TIMESTAMP" && w.driver == "sqlite3") = true then
         writeUTCTimestampSqlite args
       else do
         WriteString (stringsToUpper f)
         WriteRune '('
         forRange (fun i a => do
           if i > 0 then
             WriteString ", "
           writeExpr n a) args 0
         WriteRune ')') w := by
  simp [writeFuncCallExpr, W_bind_apply, h]

theorem write_rejects_call (m : Nat) (w : writer) (pos pos1 : Position)
    (f : String) (args : List Expr) (distinct forUpdate : Bool) (cols : List Expr)
    (fr : Option (List SqlFrom)) (wh hv : Option WherePart) (gb : List Expr)
    (ob : List OrderColumn) (lim : Option Limit) (un : List SelectQuery) (ps : List Value)
    (hq : w.query = some (.SelectQuery
      (.mk pos distinct forUpdate (.CallExpr pos1 f args :: cols) fr wh gb hv ob lim un ps)))
    (hns : w.ValidateNamespace w.Namespace = .ok ())
    (h : w.isWhiteListedFunc (stringsToUpper f) = false) :
    w.Write (m + 3) = .error ("The function " ++ stringsToUpper f ++ " is not allowed") := by
  have h1 : ∀ w1 : writer, w1.WhitelistFuncs = w.WhitelistFuncs →
      w1.globalWhitelistFuncs = w.globalWhitelistFuncs →
      writeExpr (m + 2) (.CallExpr pos1 f args) w1 =
        .err ("The function " ++ stringsToUpper f ++ " is not allowed") w1 := by
    intro w1 ha hb
    have : w1.isWhiteListedFunc (stringsToUpper f) = false := by
      unfold writer.isWhiteListedFunc at h ⊢
      rw [ha, hb]; exact h
    simp [writeExpr, writeFuncCallExpr, W_bind_apply, this]
  unfold writer.Write
  rw [hns, hq]
  simp only [writeQuery, writeSelect, W_bind_apply, modifyW_apply, WriteString_apply, forRange,
    W.bind, getW_apply]
  cases distinct <;> cases hF : w.Format <;>
    simp [W_bind_apply, hF, forRange, W.bind, h1]

/-- C14: for a call named `f` (names and whitelist entries being ASCII text, on which
`strings.ToUpper` and `strings.EqualFold` are modelled), the whitelist check of
`writeFuncCallExpr` passes iff no whitelist is configured (the writer's list and the
package-level list are both nil) or `f` equals, ignoring case, an entry of the whitelist
in force (the writer's own list whenever it is set).  When the check passes,
`writeFuncCallExpr` goes on to write the call (the sqlite3 forms of CONCAT and
UTC_TIMESTAMP, else the upper-cased name and the arguments between parentheses).  When it
does not pass, `writeFuncCallExpr` returns the error `The function F is not allowed`
with `F` the upper-cased name and writes nothing, and `Write` returns that error for
every select whose first column is the call. -/
theorem writeFuncCallExpr_whitelist (w : writer) (f : String) (hf : asciiText f = true)
    (hl : ∀ l, effectiveWhitelist w = some l → ∀ v ∈ l, asciiText v = true) :
    (w.isWhiteListedFunc (stringsToUpper f) = true ↔
      (effectiveWhitelist w = none ∨
        ∃ l, effectiveWhitelist w = some l ∧ ∃ v ∈ l, stringsEqualFold v f = true)) ∧
    (w.isWhiteListedFunc (stringsToUpper f) = true → ∀ (n : Nat) (args : List Expr),
      writeFuncCallExpr (n + 1) f args w =
        (if ((stringsToUpper f == "CONCAT" || stringsToUpper f == "CONCAT_WS") &&
              w.driver == "sqlite3") = true then writeConcatSqlite n args
         else if (stringsToUpper f == "UTC_TIMESTAMP" && w.driver == "sqlite3") = true then
           writeUTCTimestampSqlite args
         else do
           WriteString (stringsToUpper f)
           WriteRune '('
           forRange (fun i a => do
             if i > 0 then
               WriteString ", "
             writeExpr n a) args 0
           WriteRune ')') w) ∧
    (w.isWhiteListedFunc (stringsToUpper f) = false → ∀ (n : Nat) (args : List Expr),
      writeFuncCallExpr (n + 1) f args w =
        .err ("The function " ++ stringsToUpper f ++ " is not allowed") w) ∧
    (w.isWhiteListedFunc (stringsToUpper f) = false →
      ∀ (m : Nat) (pos pos1 : Position) (args : List Expr) (distinct forUpdate : Bool)
        (cols : List Expr) (fr : Option (List SqlFrom)) (wh hv : Option WherePart)
        (gb : List Expr) (ob : List OrderColumn) (lim : Option Limit) (un : List SelectQuery)
        (ps : List Value),
        w.query = some (.SelectQuery (.mk pos distinct forUpdate
          (.CallExpr pos1 f args :: cols) fr wh gb hv ob lim un ps)) →
        w.ValidateNamespace w.Namespace = .ok () →
        w.Write (m + 3) =
          .error ("The function " ++ stringsToUpper f ++ " is not allowed")) :=
  ⟨isWhiteListedFunc_iff w f,
   fun h n args => writeFuncCallExpr_passes n w f args h,
   fun h n args => writeFuncCallExpr_rejects n w f args h,
   fun h m pos pos1 args distinct forUpdate cols fr wh hv gb ob lim un ps hq hns =>
     write_rejects_call m w pos pos1 f args distinct forUpdate cols fr wh hv gb ob lim un ps
       hq hns h⟩

theorem writeFuncCallExpr_whitelist_witness :
    writeFuncCallExpr 1 "Count" []
        { NewWriter none [] "" "" with WhitelistFuncs := some ["count"] } =
      .ok () { NewWriter none [] "" "" with
        WhitelistFuncs := some ["count"], buf := "COUNT()" } ∧
    writeFuncCallExpr 1 "sum" []
        { NewWriter none [] "" "" with WhitelistFuncs := some ["count"] } =
      .err "The function SUM is not allowed"
        { NewWriter none [] "" "" with WhitelistFuncs := some ["count"] } ∧
    ({ NewWriter (some (.SelectQuery (.mk noPos false false
          [.CallExpr noPos "sum" [columnExpr "a"]]
          (some [.Table (.mk noPos "t" "" "" [])]) none [] none [] none [] []))) [] "" "" with
        WhitelistFuncs := some ["count"] }).Write 3 =
      .error "The function SUM is not allowed" :=
  ⟨((writeFuncCallExpr_whitelist
      { NewWriter none [] "" "" with WhitelistFuncs := some ["count"] } "Count" (by decide!)
      (fun l hl v hv => by cases hl; simp at hv; subst hv; decide!)).2.1 (by decide!) 0 []).trans
      rfl,
   (writeFuncCallExpr_whitelist
      { NewWriter none [] "" "" with WhitelistFuncs := some ["count"] } "sum" (by decide!)
      (fun l hl v hv => by cases hl; simp at hv; subst hv; decide!)).2.2.1 (by decide!) 0 [],
   (writeFuncCallExpr_whitelist
      { NewWriter (some (.SelectQuery (.mk noPos false false
          [.CallExpr noPos "sum" [columnExpr "a"]]
          (some [.Table (.mk noPos "t" "" "" [])]) none [] none [] none [] []))) [] "" "" with
        WhitelistFuncs := some ["count"] } "sum" (by decide!)
      (fun l hl v hv => by cases hl; simp at hv; subst hv; decide!)).2.2.2 (by decide!)
      0 noPos noPos [columnExpr "a"] false false [] (some [.Table (.mk noPos "t" "" "" [])])
      none none [] [] none [] [] rfl rfl⟩

/-! ## Databases and namespaces -/

theorem writeIdentifier_ok (s : String) (p p1 : writer) (h : writeIdentifier s p = .ok () p1) :
    p1 = { p with buf := p.buf ++ identText p.EscapeIdents s } := by
  unfold writeIdentifier at h
  split at h
  · cases h
  · simp only [modifyW_apply, Res.ok.injEq, true_and] at h
    rw [← h]
    simp [identText, String.append_assoc]

theorem prefixTableName_namespace (p : writer) (table : String) (isWrite : Bool)
    (hN : p.Namespace ≠ "") (hI : p.IgnoreNamespaces = false)
    (hV : p.ValidateNamespace p.Namespace = .ok ())
    (hQ : ∃ t, p.currentQuery = some t ∧ t.hasTables = true) :
    p.prefixTableName table isWrite = p.addNamespace table isWrite := by
  obtain ⟨t, ht, hh⟩ := hQ
  unfold writer.prefixTableName
  simp only [hI, hV, ht, Bool.false_eq_true, if_false]
  have : (p.Namespace == "") = false := by simpa using hN
  simp only [this, Bool.false_eq_true, if_false]
  cases t <;> simp_all [QueryType.hasTables]

/-! ## The null-equality and IN rewrites at concrete inputs -/

/-- C2 (the code at the failing input): for `select * from t where ? = ?` with the
parameters `[1, nil]` the second marker is bound to nil, yet the writer emits `? = ?`
and returns both parameters: `handleNullEquality` inspects the entry at the cursor
before the left operand has been written. -/
theorem write_null_equality_left_marker :
    toSQL 20 false (some (selectStarWhere "t" (.BinaryExpr .EQL markerExpr markerExpr)))
        [.int 1, .nil] "" "" =
      .ok "SELECT * FROM t WHERE ? = ?" [.int 1, .nil] := by
  rfl

/-- C3 (the code at the failing input): for `select * from t where ? in ?` with the
parameters `[1, []]` the marker of the IN list is bound to an empty list, yet the writer
emits `? IN ()` and not `1=0`. -/
theorem write_empty_in_left_marker :
    toSQL 20 false (some (selectStarWhere "t" (inMarker markerExpr)))
        [.int 1, .slice []] "" "" =
      .ok "SELECT * FROM t WHERE ? IN ()" [.int 1] := by
  rfl

/-- C4 (the code at the failing input): for `select * from t where ? in ?` with the
parameters `[nil, [1, 2, 3]]` the marker of the IN list is bound to a non-empty list of
integers, yet the writer emits `1=0`, removes the first parameter and returns the
list. -/
theorem write_in_list_left_marker :
    toSQL 20 false (some (selectStarWhere "t" (inMarker markerExpr)))
        [.nil, .slice [.int 1, .int 2, .int 3]] "" "" =
      .ok "SELECT * FROM t WHERE 1=0" [.slice [.int 1, .int 2, .int 3]] := by
  rfl

/-- C7 (the code at the failing input): `select * from t where ? in ?` has two markers
and is written with two parameters `[nil, 5]`; the SQL text returned has no `?` while
the returned parameter list has one entry. -/
theorem write_placeholder_count_mismatch :
    ∃ sql ps,
      toSQL 20 false (some (selectStarWhere "t" (inMarker markerExpr))) [.nil, .int 5] "" "" =
        .ok sql ps ∧ countMarks sql = 0 ∧ ps.length = 1 :=
  ⟨"SELECT * FROM t WHERE 1=0", [.int 5], rfl, by decide!, rfl⟩

/-- C6 (the code at the failing input): for `select * from t where ? = ?` with the
parameters `[nil, 1]` the marker on the right is bound to `1`, so neither rewrite applies
and the list should come back whole; the writer emits `? IS NULL` and returns `[1]`: the
entry it removed is the nil of the left marker, which is still in the output. -/
theorem write_removes_entry_of_other_marker :
    toSQL 20 false (some (selectStarWhere "t" (.BinaryExpr .EQL markerExpr markerExpr)))
        [.nil, .int 1] "" "" =
      .ok "SELECT * FROM t WHERE ? IS NULL" [.int 1] := by
  rfl

/-- C26 (the code at the failing input): for `select * from t where (a > ?) = ?` with the
single parameter `[1]` the second marker has no entry, yet the writer emits `(a > ?) = ?`
and not `(a > ?) IS NULL`: `handleNullEquality` looks at the list before the marker of
the left operand has advanced the cursor. -/
theorem write_missing_parameter_after_marker :
    toSQL 20 false (some (selectStarWhere "t"
        (.BinaryExpr .EQL (.ParenExpr noPos (.BinaryExpr .GTR (columnExpr "a") markerExpr) noPos)
          markerExpr))) [.int 1] "" "" =
      .ok "SELECT * FROM t WHERE (a > ?) = ?" [.int 1] := by
  rfl

/-- When the parameter list has no entry at the cursor before the left operand is written
(it is empty or all its entries are taken by the markers reached so far), `left = ?` is
written as `left IS NULL` and `left != ?` as `left IS NOT NULL`: the write succeeds as
soon as `left` is written, and apart from what writing `left` does, only the buffer
changes. -/
theorem writeBinaryExpr_missing_parameter (m : Nat) (left : Expr) (pos : Position)
    (name : String) (w w1 : writer) (hlen : w.params.length ≤ w.paramSymbolCount)
    (hleft : writeExpr m left w = .ok () w1) :
    writeBinaryExpr (m + 2) .EQL left (.ParameterExpr pos name) w =
        .ok () { w1 with buf := w1.buf ++ " IS NULL" } ∧
      writeBinaryExpr (m + 2) .NEQ left (.ParameterExpr pos name) w =
        .ok () { w1 with buf := w1.buf ++ " IS NOT NULL" } := by
  constructor <;>
    simp [writeBinaryExpr, handleNullEquality, W_bind_apply, hlen, hleft]

theorem writeBinaryExpr_missing_parameter_witness :
    writeBinaryExpr 3 .EQL (columnExpr "a") (.ParameterExpr noPos "")
        { NewWriter none [] "" "" with EscapeIdents := false } =
      .ok () { { NewWriter none [] "" "" with EscapeIdents := false, buf := "a" } with
        buf := "a" ++ " IS NULL" } :=
  (writeBinaryExpr_missing_parameter 1 (columnExpr "a") noPos ""
    { NewWriter none [] "" "" with EscapeIdents := false }
    { NewWriter none [] "" "" with EscapeIdents := false, buf := "a" }
    (by decide!) rfl).1

/-- C36 (the code at the failing inputs): writing `x not in ?` with the parameters
`[nil]` hits the panic `Invalid IN parameter`, and writing `a > ? and x not in ?` with
the single parameter `[1]` reads the parameter list at index 1, outside its bounds. -/
theorem write_not_in_panics :
    toSQL 20 false (some (selectStarWhere "t" (notInMarker (columnExpr "x")))) [.nil] "" "" =
        .panic "Invalid IN parameter" ∧
      toSQL 20 false (some (selectStarWhere "t"
          (.BinaryExpr .AND (.BinaryExpr .GTR (columnExpr "a") markerExpr)
            (notInMarker (columnExpr "x"))))) [.int 1] "" "" =
        .panic "runtime error: index out of range [1] with length 1" := by
  constructor <;> rfl

/-- C38 (the code on the operator `!`): whatever the operand and the writer state,
`writeUnaryExpr` rejects the operator `NT`, which `parseNotFactor` puts in the tree for
`!x`, with the error `Invalid unary operator`, before writing anything. -/
theorem writeUnaryExpr_rejects_not (n : Nat) (e : Expr) (w : writer) :
    writeUnaryExpr (n + 1) .NT e w = .err "Invalid unary operator NT" w := by
  simp [writeUnaryExpr, W_bind_apply]
  rfl

theorem parseDigits_allDigits (ds : List Char) :
    ∀ acc n, parseDigits ds acc = some n → allDigits ds = true := by
  induction ds with
  | nil => intro _ _ _; rfl
  | cons c cs ih =>
    intro acc n h
    unfold parseDigits at h
    split at h
    · rename_i hc
      unfold allDigits
      simp [hc.1, hc.2, ih _ _ h]
    · cases h

theorem atoiBody_digits (neg : Bool) (ds : List Char) (v : Int)
    (h : atoiBody neg ds = some v) : (ds != [] && allDigits ds) = true := by
  unfold atoiBody at h
  split at h
  · cases h
  · split at h
    · cases h
    · rename_i n hn
      simp [parseDigits_allDigits _ _ _ hn]

theorem strconvAtoi_isSignedDecimal (t : String) (v : Int) (h : strconvAtoi t = some v) :
    isSignedDecimal t = true := by
  unfold strconvAtoi at h
  unfold isSignedDecimal
  split at h <;> exact atoiBody_digits _ _ _ h

/-- C39: a string element that `writeInConstant` accepts is an optional sign followed
by decimal digits and nothing else, and it is exactly what is appended to the SQL
text. -/
theorem writeInConstant_string_is_decimal (t : String) (w w1 : writer)
    (h : writeInConstant (.string t) w = .ok () w1) :
    isSignedDecimal t = true ∧ w1 = { w with buf := w.buf ++ t } := by
  cases hv : strconvAtoi t with
  | none => simp [writeInConstant, hv] at h
  | some v =>
    refine ⟨strconvAtoi_isSignedDecimal t v hv, ?_⟩
    simp only [writeInConstant, hv, WriteString_apply, Res.ok.injEq, true_and] at h
    exact h.symm

theorem writeInConstant_string_is_decimal_witness :
    isSignedDecimal "-12" = true ∧
      ({ NewWriter none [] "" "" with buf := "-12" } : writer) =
        { NewWriter none [] "" "" with buf := "" ++ "-12" } :=
  writeInConstant_string_is_decimal "-12" (NewWriter none [] "" "")
    { NewWriter none [] "" "" with buf := "-12" } rfl

/-! ## The values of an IN list -/

theorem isPrefixOfList_append (a b : List Char) : isPrefixOfList a (a ++ b) = true := by
  induction a with
  | nil => rfl
  | cons c cs ih => simp [isPrefixOfList, ih]

theorem stringsHasPrefix_append (a b : String) : stringsHasPrefix (a ++ b) a = true := by
  unfold stringsHasPrefix
  rw [String.data_append]
  exact isPrefixOfList_append _ _

theorem Float64_accept_iff (t : Float64) :
    (match t.toInt64 with
      | some i => t.eqInt i
      | none => false) = t.isIntegralInt64 := by
  cases t with
  | nan => rfl
  | inf _ => rfl
  | finite m e =>
    unfold Float64.toInt64 Float64.isIntegralInt64 Float64.eqInt
    by_cases he : 0 ≤ e
    · simp only [he, if_true]
      split <;> simp_all <;> omega
    · simp only [he, if_false]
      have hd : (0 : Int) < 2 ^ (-e).toNat := by positivity
      by_cases hm : m % 2 ^ (-e).toNat = 0
      · have hdvd : (2 : Int) ^ (-e).toNat ∣ m := Int.dvd_of_emod_eq_zero hm
        rw [Int.tdiv_eq_ediv_of_dvd hdvd]
        have hc : m / 2 ^ (-e).toNat * 2 ^ (-e).toNat = m := Int.ediv_mul_cancel hdvd
        split <;> simp_all <;> omega
      · have hne : ¬ m = m.tdiv (2 ^ (-e).toNat) * 2 ^ (-e).toNat := by
          intro h
          apply hm
          apply Int.emod_eq_zero_of_dvd
          exact ⟨m.tdiv (2 ^ (-e).toNat), by rw [Int.mul_comm]; exact h⟩
        split <;> simp_all

/-- C5 (counterexample): an `int16` (and likewise an `int8` or an unsigned integer) is an
integer, yet `writeInConstant` rejects it with `Invalid IN value`; and a value that
`writeInConstant` rejects does not make `Write` fail when the IN expression is not
written: for `select * from t where ? in ?` with the parameters `[nil, [true]]` the
writer returns `1=0` and the list with the boolean. -/
theorem writeInConstant_rejects_int16 :
    writeInConstant (.int16 5) (NewWriter none [] "" "") =
        .err "Invalid IN value: 5" (NewWriter none [] "" "") ∧
      toSQL 20 false (some (selectStarWhere "t" (inMarker markerExpr)))
          [.nil, .slice [.bool true]] "" "" =
        .ok "SELECT * FROM t WHERE 1=0" [.slice [.bool true]] := by
  constructor <;> rfl

/-- The function `writeInConstant` accepts a value, appending some text to the buffer,
iff it is an `int`, `int32` or `int64`, a `float64` with an integral value in the range
of `int64`, a string that `strconv.Atoi` parses, or a `time.Time`; for every other value
it returns an error whose message starts with `Invalid IN value` and writes nothing. -/
theorem writeInConstant_accepts_iff (v : Value) (w : writer) :
    (acceptedInValue v = true →
      ∃ s, writeInConstant v w = .ok () { w with buf := w.buf ++ s }) ∧
    (acceptedInValue v = false →
      ∃ msg, writeInConstant v w = .err msg w ∧
        stringsHasPrefix msg "Invalid IN value" = true) := by
  have hp : ∀ r : String, stringsHasPrefix ("Invalid IN value" ++ r) "Invalid IN value" = true :=
    fun r => stringsHasPrefix_append _ _
  cases v with
  | float64 t =>
    have hf := Float64_accept_iff t
    simp only [acceptedInValue]
    rw [← hf]
    cases hx : t.toInt64 with
    | none =>
      simp only [writeInConstant, hx]
      exact ⟨fun h => by simp at h, fun _ => ⟨_, rfl, hp (" " ++ (Value.float64 t).fmt)⟩⟩
    | some i =>
      cases hy : t.eqInt i with
      | true =>
        simp only [writeInConstant, hx, hy]
        exact ⟨fun _ => ⟨_, rfl⟩, fun h => by simp at h⟩
      | false =>
        simp only [writeInConstant, hx, hy]
        exact ⟨fun h => by simp at h, fun _ => ⟨_, rfl, hp (" " ++ (Value.float64 t).fmt)⟩⟩
  | string s =>
    simp only [acceptedInValue]
    cases hx : strconvAtoi s with
    | none =>
      simp only [writeInConstant, hx]
      refine ⟨fun h => by simp at h, fun _ => ⟨_, rfl, ?_⟩⟩
      have := hp (" " ++ s ++ ": " ++ strconvAtoiError s)
      simpa [String.append_assoc] using this
    | some i =>
      simp only [writeInConstant, hx]
      exact ⟨fun _ => ⟨_, rfl⟩, fun h => by simp at h⟩
  | int _ => exact ⟨fun _ => ⟨_, rfl⟩, fun h => by simp [acceptedInValue] at h⟩
  | int32 _ => exact ⟨fun _ => ⟨_, rfl⟩, fun h => by simp [acceptedInValue] at h⟩
  | int64 _ => exact ⟨fun _ => ⟨_, rfl⟩, fun h => by simp [acceptedInValue] at h⟩
  | time _ => exact ⟨fun _ => ⟨_, rfl⟩, fun h => by simp [acceptedInValue] at h⟩
  | _ =>
    exact ⟨fun h => by simp [acceptedInValue] at h, fun _ => ⟨_, rfl, hp (": " ++ _)⟩⟩

theorem writeInConstant_accepts_iff_witness :
    (∃ s, writeInConstant (.string "12") (NewWriter none [] "" "") =
        .ok () { NewWriter none [] "" "" with buf := (NewWriter none [] "" "").buf ++ s }) ∧
      (∃ msg, writeInConstant (.bool true) (NewWriter none [] "" "") =
        .err msg (NewWriter none [] "" "") ∧ stringsHasPrefix msg "Invalid IN value" = true) :=
  ⟨(writeInConstant_accepts_iff (.string "12") (NewWriter none [] "" "")).1 (by decide!),
   (writeInConstant_accepts_iff (.bool true) (NewWriter none [] "" "")).2 (by decide!)⟩

theorem forRange_reject {α : Type} (body : Nat → α → W Unit) (bad : α → Bool) (P : String → Prop)
    (hbad : ∀ i v w, bad v = true → ∃ msg w1, body i v w = .err msg w1 ∧ P msg)
    (hok : ∀ i v w, bad v = false → ∃ w1, body i v w = .ok () w1) :
    ∀ (vs : List α) (i : Nat) (w : writer), (∃ x ∈ vs, bad x = true) →
      ∃ msg w1, forRange body vs i w = .err msg w1 ∧ P msg := by
  intro vs
  induction vs with
  | nil => intro i w h; obtain ⟨x, hx, _⟩ := h; cases hx
  | cons v vs ih =>
    intro i w h
    unfold forRange W.bind
    cases hv : bad v with
    | true =>
      obtain ⟨msg, w1, h1, h2⟩ := hbad i v w hv
      exact ⟨msg, w1, by rw [h1], h2⟩
    | false =>
      obtain ⟨w1, h1⟩ := hok i v w hv
      have h' : ∃ x ∈ vs, bad x = true := by
        obtain ⟨x, hx, hb⟩ := h
        cases hx with
        | head => rw [hv] at hb; cases hb
        | tail _ hx => exact ⟨x, hx, hb⟩
      obtain ⟨msg, w2, h3, h4⟩ := ih (i + 1) w1 h'
      exact ⟨msg, w2, by rw [h1]; exact h3, h4⟩


theorem inElement_reject (i : Nat) (v : Value) (w : writer) (hv : acceptedInValue v = false) :
    ∃ msg w1, (do if i > 0 then WriteString ", "
                  writeInConstant v : W Unit) w = .err msg w1 ∧
      stringsHasPrefix msg "Invalid IN value" = true := by
  by_cases hi : i > 0
  · obtain ⟨msg, h1, h2⟩ :=
      (writeInConstant_accepts_iff v { w with buf := w.buf ++ ", " }).2 hv
    have h : (do if i > 0 then WriteString ", "
                 writeInConstant v : W Unit) w = .err msg { w with buf := w.buf ++ ", " } := by
      simp [hi, W_bind_apply, h1]
    exact ⟨msg, _, h, h2⟩
  · obtain ⟨msg, h1, h2⟩ := (writeInConstant_accepts_iff v w).2 hv
    have h : (do if i > 0 then WriteString ", "
                 writeInConstant v : W Unit) w = .err msg w := by
      simp [hi, W_bind_apply, h1]
    exact ⟨msg, _, h, h2⟩

theorem inElement_accept (i : Nat) (v : Value) (w : writer) (hv : acceptedInValue v = true) :
    ∃ w1, (do if i > 0 then WriteString ", "
              writeInConstant v : W Unit) w = .ok () w1 := by
  by_cases hi : i > 0
  · obtain ⟨s, h1⟩ :=
      (writeInConstant_accepts_iff v { w with buf := w.buf ++ ", " }).1 hv
    have h : (do if i > 0 then WriteString ", "
                 writeInConstant v : W Unit) w =
        .ok () { w with buf := w.buf ++ ", " ++ s } := by
      simp [hi, W_bind_apply, h1]
    exact ⟨_, h⟩
  · obtain ⟨s, h1⟩ := (writeInConstant_accepts_iff v w).1 hv
    have h : (do if i > 0 then WriteString ", "
                 writeInConstant v : W Unit) w = .ok () { w with buf := w.buf ++ s } := by
      simp [hi, W_bind_apply, h1]
    exact ⟨_, h⟩

theorem writeInExpr_rejected_list (n : Nat) (pos : Position) (name : String) (w : writer)
    (vs : List Value) (hget : w.params.get? w.paramSymbolCount = some (.slice vs))
    (hbad : ∃ x ∈ vs, acceptedInValue x = false) :
    ∃ msg w1, writeInExpr (n + 1) [.ParameterExpr pos name] w = .err msg w1 ∧
      stringsHasPrefix msg "Invalid IN value" = true := by
  have hlen : (w.params.length == 0) = false := by
    cases hp : w.params with
    | nil => rw [hp] at hget; simp at hget
    | cons a l => rfl
  obtain ⟨msg, w1, h1, h2⟩ := forRange_reject
    (fun i v => (do if i > 0 then WriteString ", "
                    writeInConstant v : W Unit))
    (fun v => !acceptedInValue v) (fun m => stringsHasPrefix m "Invalid IN value" = true)
    (fun i v w hv => inElement_reject i v w (by simpa using hv))
    (fun i v w hv => inElement_accept i v w (by simpa using hv))
    vs 0 { w with buf := w.buf ++ String.singleton '(' } (by simpa using hbad)
  refine ⟨msg, w1, ?_, h2⟩
  simp only [writeInExpr, replaceInParameter, W_bind_apply, getW_apply, hlen, hget,
    Expr.isParameterExpr, WriteRune_apply, List.length_singleton, bne_self_eq_false,
    Bool.false_eq_true, if_false, W_pure_apply, Bool.not_true]
  rw [h1]

theorem writeInExpr_rejected_scalar (n : Nat) (pos : Position) (name : String) (w : writer)
    (v : Value) (hget : w.params.get? w.paramSymbolCount = some v)
    (hnil : v ≠ .nil) (hslice : ∀ vs, v ≠ .slice vs) (hbad : acceptedInValue v = false) :
    ∃ msg w1, writeInExpr (n + 1) [.ParameterExpr pos name] w = .err msg w1 ∧
      stringsHasPrefix msg "Invalid IN value" = true := by
  have hlen : (w.params.length == 0) = false := by
    cases hp : w.params with
    | nil => rw [hp] at hget; simp at hget
    | cons a l => rfl
  obtain ⟨msg, h1, h2⟩ :=
    (writeInConstant_accepts_iff v { w with buf := w.buf ++ String.singleton '(' }).2 hbad
  refine ⟨msg, { w with buf := w.buf ++ String.singleton '(' }, ?_, h2⟩
  simp only [writeInExpr, replaceInParameter, W_bind_apply, getW_apply, hlen, hget,
    Expr.isParameterExpr, WriteRune_apply, List.length_singleton, bne_self_eq_false,
    Bool.false_eq_true, if_false, W_pure_apply, Bool.not_true]
  cases v with
  | nil => exact absurd rfl hnil
  | slice vs => exact absurd rfl (hslice vs)
  | _ => simp only [h1]

/-- C5 (amended): `writeInConstant` accepts a value, appending some text to the buffer,
iff it is an `int`, `int32` or `int64`, a `float64` with an integral value in the range
of `int64`, a string that `strconv.Atoi` parses, or a `time.Time`; for every other value
it fails with a message that starts with `Invalid IN value`, and so does the writing of
an IN list `(?)` whose parameter is such a value or a list that holds one; `Write` fails
with that message on the queries of TestReplaceIN1 and TestReplaceIN11. -/
theorem in_value_accepted_or_rejected (v : Value) (w : writer) :
    (acceptedInValue v = true →
      ∃ s, writeInConstant v w = .ok () { w with buf := w.buf ++ s }) ∧
    (acceptedInValue v = false →
      ∃ msg, writeInConstant v w = .err msg w ∧
        stringsHasPrefix msg "Invalid IN value" = true) ∧
    (∀ (n : Nat) (pos : Position) (name : String),
      w.params.get? w.paramSymbolCount = some v → v ≠ .nil → (∀ vs, v ≠ .slice vs) →
      acceptedInValue v = false →
      ∃ msg w1, writeInExpr (n + 1) [.ParameterExpr pos name] w = .err msg w1 ∧
        stringsHasPrefix msg "Invalid IN value" = true) ∧
    (∀ (n : Nat) (pos : Position) (name : String) (vs : List Value),
      w.params.get? w.paramSymbolCount = some (.slice vs) → v ∈ vs →
      acceptedInValue v = false →
      ∃ msg w1, writeInExpr (n + 1) [.ParameterExpr pos name] w = .err msg w1 ∧
        stringsHasPrefix msg "Invalid IN value" = true) ∧
    writeFailure "select * from foo where id in ?" [.slice [.int 1, .bool true, .int 3]]
        "foo" "" = some "Invalid IN value: true" ∧
    writeFailure "select * from foo where id in ?" [.slice [.string "www"]] "foo" "" =
      some "Invalid IN value www: strconv.Atoi: parsing \"www\": invalid syntax" :=
  ⟨(writeInConstant_accepts_iff v w).1, (writeInConstant_accepts_iff v w).2,
    fun n pos name hget hnil hslice hbad =>
      writeInExpr_rejected_scalar n pos name w v hget hnil hslice hbad,
    fun n pos name vs hget hmem hbad =>
      writeInExpr_rejected_list n pos name w vs hget ⟨v, hmem, hbad⟩,
    by decide!, by decide!⟩

theorem in_value_accepted_or_rejected_witness :
    (∃ s, writeInConstant (.string "12") (NewWriter none [.slice [.string "12"]] "" "") =
        .ok () { NewWriter none [.slice [.string "12"]] "" "" with
          buf := (NewWriter none [.slice [.string "12"]] "" "").buf ++ s }) ∧
      (∃ msg, writeInConstant (.bool true) (NewWriter none [.bool true] "" "") =
        .err msg (NewWriter none [.bool true] "" "") ∧
          stringsHasPrefix msg "Invalid IN value" = true) ∧
      (∃ msg w1, writeInExpr 1 [markerExpr] (NewWriter none [.bool true] "" "") =
        .err msg w1 ∧ stringsHasPrefix msg "Invalid IN value" = true) ∧
      (∃ msg w1, writeInExpr 1 [markerExpr]
          (NewWriter none [.slice [.int 1, .bool true]] "" "") = .err msg w1 ∧
        stringsHasPrefix msg "Invalid IN value" = true) :=
  ⟨(in_value_accepted_or_rejected (.string "12")
      (NewWriter none [.slice [.string "12"]] "" "")).1 (by decide!),
   (in_value_accepted_or_rejected (.bool true) (NewWriter none [.bool true] "" "")).2.1
      (by decide!),
   (in_value_accepted_or_rejected (.bool true) (NewWriter none [.bool true] "" "")).2.2.1
      0 noPos "" rfl (fun h => by cases h) (fun vs h => by cases h) (by decide!),
   (in_value_accepted_or_rejected (.bool true)
      (NewWriter none [.slice [.int 1, .bool true]] "" "")).2.2.2.1
      0 noPos "" [.int 1, .bool true] rfl (by simp) (by decide!)⟩

set_option linter.unusedTactic false
set_option linter.unreachableTactic false

/-! ## The writer keeps its settings, and reads are not rejected for a namespace -/

theorem Extends_refl (w : writer) : Extends w w :=
  ⟨rfl, ⟨"", (String.append_empty _).symm⟩, id⟩

theorem Extends_trans {a b c : writer} (h1 : Extends a b) (h2 : Extends b c) : Extends a c := by
  obtain ⟨e1, ⟨s, hs⟩, i1⟩ := h1
  obtain ⟨e2, ⟨t, ht⟩, i2⟩ := h2
  exact ⟨e2.trans e1, ⟨s ++ t, by rw [ht, hs, String.append_assoc]⟩, fun h => i2 (i1 h)⟩

theorem mismatch_append (a p x : List Char) (h : mismatch a p = true) :
    mismatch (a ++ x) p = true := by
  induction a generalizing p with
  | nil => simp [mismatch] at h
  | cons c cs ih =>
    cases p with
    | nil => simp [mismatch] at h
    | cons d ds =>
      simp only [List.cons_append, mismatch, Bool.or_eq_true] at h ⊢
      rcases h with h | h
      · exact Or.inl h
      · exact Or.inr (ih ds h)

theorem mismatch_not_prefix (a p : List Char) (h : mismatch a p = true) :
    isPrefixOfList p a = false := by
  induction a generalizing p with
  | nil => simp [mismatch] at h
  | cons c cs ih =>
    cases p with
    | nil => simp [mismatch] at h
    | cons d ds =>
      simp only [mismatch, Bool.or_eq_true] at h
      simp only [isPrefixOfList, Bool.and_eq_false_imp]
      intro hdc
      rcases h with h | h
      · have : d = c := by simpa using hdc
        subst this
        simp at h
      · exact ih ds h

theorem Diverges_append (a b : String) (h : Diverges a) : Diverges (a ++ b) := by
  unfold Diverges at h ⊢
  rw [String.data_append]
  exact mismatch_append _ _ _ h

theorem readError_of (a : String) (h : Diverges a) : readError a :=
  mismatch_not_prefix _ _ h

theorem Inv_apply {α : Type} (E : String → Prop) (m : W α) (h : Inv E m) (w : writer) :
    match m w with
    | .ok _ w1 => Extends w w1
    | .err e w1 => Extends w w1 ∧ E e
    | .panic _ => True
    | .fuel => True := by
  unfold Inv at h; exact h w

theorem Inv_ok {α : Type} (E : String → Prop) (m : W α) (h : Inv E m) (w w1 : writer) (a : α)
    (hm : m w = .ok a w1) : Extends w w1 := by
  have := Inv_apply E m h w
  rw [hm] at this
  exact this

theorem Inv_err {α : Type} (E : String → Prop) (m : W α) (h : Inv E m) (w w1 : writer)
    (e : String) (hm : m w = .err e w1) : Extends w w1 ∧ E e := by
  have := Inv_apply E m h w
  rw [hm] at this
  exact this

theorem Inv_mono {α : Type} (E F : String → Prop) (m : W α) (hEF : ∀ e, E e → F e)
    (h : Inv E m) : Inv F m := by
  unfold Inv at h ⊢
  intro w
  have h1 := h w
  cases hmw : m w with
  | ok a w1 => rw [hmw] at h1; exact h1
  | err e w1 => rw [hmw] at h1; exact ⟨h1.1, hEF e h1.2⟩
  | panic msg => trivial
  | fuel => trivial

theorem Inv_any {α : Type} (E : String → Prop) (m : W α) (h : Inv E m) : Inv anyError m :=
  Inv_mono E anyError m (fun _ _ => trivial) h

theorem Inv_pure {α : Type} (E : String → Prop) (a : α) : Inv E (pure a : W α) := by
  unfold Inv; intro w; exact Extends_refl w

theorem Inv_Wpure {α : Type} (E : String → Prop) (a : α) : Inv E (W.pure a : W α) := by
  unfold Inv; intro w; exact Extends_refl w

theorem Inv_fail {α : Type} (E : String → Prop) (e : String) (h : E e) :
    Inv E (fail e : W α) := by
  unfold Inv; intro w; exact ⟨Extends_refl w, h⟩

theorem Inv_goPanic {α : Type} (E : String → Prop) (e : String) : Inv E (goPanic e : W α) := by
  unfold Inv; intro w; trivial

theorem Inv_outOfFuel {α : Type} (E : String → Prop) : Inv E (outOfFuel : W α) := by
  unfold Inv; intro w; trivial

theorem Inv_getW (E : String → Prop) : Inv E getW := by
  unfold Inv; intro w; exact Extends_refl w

theorem Inv_bind {α β : Type} (E : String → Prop) (m : W α) (f : α → W β) (hm : Inv E m)
    (hf : ∀ a, Inv E (f a)) : Inv E (m >>= f) := by
  unfold Inv at hm hf ⊢
  intro w
  have h1 := hm w
  rw [W_bind_apply]
  cases hmw : m w with
  | ok a w1 =>
    rw [hmw] at h1
    have h2 := hf a w1
    simp only
    cases hfw : f a w1 with
    | ok b w2 => rw [hfw] at h2; exact Extends_trans h1 h2
    | err e w2 => rw [hfw] at h2; exact ⟨Extends_trans h1 h2.1, h2.2⟩
    | panic msg => trivial
    | fuel => trivial
  | err e w1 => rw [hmw] at h1; exact h1
  | panic msg => trivial
  | fuel => trivial

theorem Inv_Wbind {α β : Type} (E : String → Prop) (m : W α) (f : α → W β) (hm : Inv E m)
    (hf : ∀ a, Inv E (f a)) : Inv E (W.bind m f) :=
  Inv_bind E m f hm hf

theorem Inv_modifyW (E : String → Prop) (f : writer → writer) (hf : ∀ w, Extends w (f w)) :
    Inv E (modifyW f) := by
  unfold Inv; intro w; exact hf w

theorem Inv_WriteString (E : String → Prop) (s : String) : Inv E (WriteString s) :=
  Inv_modifyW E _ fun _ => ⟨rfl, ⟨s, rfl⟩, id⟩

theorem Inv_WriteRune (E : String → Prop) (c : Char) : Inv E (WriteRune c) :=
  Inv_modifyW E _ fun _ => ⟨rfl, ⟨String.singleton c, rfl⟩, id⟩

theorem Inv_removeAt (E : String → Prop) :
    Inv E (modifyW fun p => { p with params := removeAt p.params p.paramSymbolCount }) :=
  Inv_modifyW E _ fun w => ⟨rfl, ⟨"", (String.append_empty _).symm⟩, id⟩

theorem Inv_cursor (E : String → Prop) :
    Inv E (modifyW fun p => { p with paramSymbolCount := p.paramSymbolCount + 1 }) :=
  Inv_modifyW E _ fun w => ⟨rfl, ⟨"", (String.append_empty _).symm⟩, id⟩

theorem Inv_current (E : String → Prop) (t : QueryType) (h : t.hasTables = true) :
    Inv E (modifyW fun p => { p with currentQuery := some t }) :=
  Inv_modifyW E _ fun w => ⟨rfl, ⟨"", (String.append_empty _).symm⟩, fun _ => h⟩

theorem Inv_setCurrentQuery (E : String → Prop) (t : QueryType) (h : t.hasTables = true) :
    Inv E (setCurrentQuery t) :=
  Inv_current E t h

theorem Inv_ignoreErr (E : String → Prop) (m : W Unit) (h : Inv E m) : Inv E (ignoreErr m) := by
  unfold Inv at h ⊢
  intro w
  have h1 := h w
  unfold ignoreErr
  cases hmw : m w with
  | ok a w1 => rw [hmw] at h1; exact h1
  | err e w1 => rw [hmw] at h1; exact h1.1
  | panic msg => trivial
  | fuel => trivial

theorem Inv_forRange {α : Type} (E : String → Prop) (body : Nat → α → W Unit)
    (h : ∀ i x, Inv E (body i x)) : ∀ (xs : List α) (i : Nat), Inv E (forRange body xs i) := by
  intro xs
  induction xs with
  | nil => intro i; exact Inv_Wpure E _
  | cons x xs ih => intro i; exact Inv_Wbind E _ _ (h i x) fun _ => ih (i + 1)

theorem Inv_writeIdentifier (s : String) : Inv readError (writeIdentifier s) := by
  unfold Inv
  intro w
  unfold writeIdentifier
  by_cases h : (!validIdentifierRunes w.IgnoreNamespaces s.data 0) = true
  · simp only [h, if_true]
    exact ⟨Extends_refl w, readError_of _ (Diverges_append _ _ (by decide!))⟩
  · simp only [h, if_false, modifyW_apply]
    exact ⟨rfl, ⟨(if w.EscapeIdents then "`" else "") ++
      (s ++ (if w.EscapeIdents then "`" else "")), by simp only [String.append_assoc]⟩, id⟩

theorem Inv_validateSeparator (s : String) : Inv readError (liftExcept (validateSeparator s)) := by
  unfold validateSeparator
  split
  · exact Inv_Wpure _ _
  · exact Inv_fail _ _ (readError_of _ (Diverges_append _ _ (by decide!)))

theorem ValidateNamespace_error (w : writer) (s e : String)
    (h : w.ValidateNamespace s = .error e) : readError e := by
  unfold writer.ValidateNamespace at h
  split at h
  · cases h
  · split at h
    · cases h
    · injection h with h
      subst h
      exact readError_of _ (Diverges_append _ _ (by decide!))

theorem addNamespace_read (w : writer) (table e : String) :
    w.addNamespace table false ≠ .error e := by
  unfold writer.addNamespace
  simp only [Bool.false_and, Bool.false_eq_true, if_false]
  split
  · simp
  · split
    · split <;> simp
    · simp

theorem prefixTableName_read (w : writer) (table e : String)
    (h : w.prefixTableName table false = .error e) : readError e := by
  unfold writer.prefixTableName at h
  by_cases hI : w.IgnoreNamespaces = true
  · simp [hI] at h
  · by_cases hn : (w.Namespace == "") = true
    · simp [hI, hn] at h
    · simp only [hI, hn, Bool.false_eq_true, if_false] at h
      cases hv : w.ValidateNamespace w.Namespace with
      | error e1 =>
        rw [hv] at h
        simp only [Except.error.injEq] at h
        subst h
        exact ValidateNamespace_error w _ _ hv
      | ok u =>
        rw [hv] at h
        simp only at h
        cases hq : w.currentQuery with
        | none =>
          rw [hq] at h
          simp only [Except.error.injEq] at h
          subst h
          exact readError_of _ (by decide!)
        | some t =>
          rw [hq] at h
          cases t <;> simp only [Except.error.injEq] at h <;>
            first
            | exact absurd h (addNamespace_read w table e)
            | (subst h; exact readError_of _ (by decide!))

theorem Inv_writeTable (database table : String) (isWrite : Bool) :
    Inv anyError (writeTable database table isWrite) := by
  have h1 := fun s => Inv_apply _ _ (Inv_any _ _ (Inv_writeIdentifier s))
  have h2 := fun a b => Inv_apply _ _ (Inv_Wbind anyError (writeIdentifier a)
    (fun _ => W.bind (WriteString ".") fun _ => writeIdentifier b)
    (Inv_any _ _ (Inv_writeIdentifier a))
    (fun _ => Inv_Wbind _ _ _ (Inv_WriteString _ ".")
      (fun _ => Inv_any _ _ (Inv_writeIdentifier b))))
  unfold Inv
  intro w
  unfold writeTable
  by_cases hv : (!w.validateDatabase database) = true
  · rw [if_pos hv]; exact ⟨Extends_refl w, trivial⟩
  · rw [if_neg hv]
    cases hp : w.prefixTableName table isWrite with
    | error e => exact ⟨Extends_refl w, trivial⟩
    | ok t =>
      dsimp only
      by_cases hd : ((if (database == "") = true then w.Database else database) != "") = true
      · rw [if_pos hd]
        by_cases hs : (w.driver == "sqlite3") = true
        · rw [if_pos hs]; exact h1 _ w
        · rw [if_neg hs]; exact h2 _ _ w
      · rw [if_neg hd]; exact h1 _ w

theorem Inv_writeTable_read (database table : String) :
    Inv readError (writeTable database table false) := by
  have h1 := fun s => Inv_apply _ _ (Inv_writeIdentifier s)
  have h2 := fun a b => Inv_apply _ _ (Inv_Wbind readError (writeIdentifier a)
    (fun _ => W.bind (WriteString ".") fun _ => writeIdentifier b)
    (Inv_writeIdentifier a)
    (fun _ => Inv_Wbind _ _ _ (Inv_WriteString _ ".") (fun _ => Inv_writeIdentifier b)))
  unfold Inv
  intro w
  unfold writeTable
  by_cases hv : (!w.validateDatabase database) = true
  · rw [if_pos hv]
    exact ⟨Extends_refl w, readError_of _ (Diverges_append _ _ (by decide!))⟩
  · rw [if_neg hv]
    cases hp : w.prefixTableName table false with
    | error e => exact ⟨Extends_refl w, prefixTableName_read w table e hp⟩
    | ok t =>
      dsimp only
      by_cases hd : ((if (database == "") = true then w.Database else database) != "") = true
      · rw [if_pos hd]
        by_cases hs : (w.driver == "sqlite3") = true
        · rw [if_pos hs]; exact h1 _ w
        · rw [if_neg hs]; exact h2 _ _ w
      · rw [if_neg hd]; exact h1 _ w

theorem Inv_decRec {α : Type} (E : String → Prop) {c : Prop} (inst : Decidable c)
    (a : ¬c → W α) (b : c → W α) (ha : ∀ h, Inv E (a h)) (hb : ∀ h, Inv E (b h)) :
    Inv E (Decidable.rec a b inst : W α) := by
  cases inst with
  | isFalse h => exact ha h
  | isTrue h => exact hb h

theorem InvAll_app {α β : Type} (E : String → Prop) (f : β → W α) (y : β) (h : InvAll E f) :
    Inv E (f y) := h y

theorem InvAll_intro {α β : Type} (E : String → Prop) (f : β → W α) (h : ∀ y, Inv E (f y)) :
    InvAll E f := h


theorem Inv_writeUnescapedAlphanumeric (s : String) : Inv readError (writeUnescapedAlphanumeric s) := by
  unfold writeUnescapedAlphanumeric
  repeat' (first
    | with_reducible (first
      | exact Inv_WriteString _ _
      | exact Inv_WriteRune _ _
      | (refine Inv_bind _ _ _ ?_ (fun _ => ?_))
      | (refine Inv_Wbind _ _ _ ?_ (fun _ => ?_))
      | exact Inv_pure _ _
      | exact Inv_Wpure _ _
      | exact Inv_goPanic _ _
      | exact Inv_outOfFuel _
      | exact Inv_getW _
      | exact Inv_removeAt _
      | exact Inv_cursor _
      | exact Inv_current _ _ (by decide!)
      | exact Inv_setCurrentQuery _ _ (by decide!)
      | exact Inv_writeIdentifier _
      | exact Inv_validateSeparator _
      | exact Inv_writeTable_read _ _
      | exact Inv_fail _ _ (readError_of _ (by decide!))
      | exact Inv_fail _ _ (readError_of _ (Diverges_append _ _ (by decide!)))
      | exact Inv_fail _ _ (readError_of _ (Diverges_append _ _ (Diverges_append _ _ (by decide!))))
      | exact Inv_fail _ _ (readError_of _ (Diverges_append _ _ (Diverges_append _ _ (Diverges_append _ _ (by decide!)))))
      | exact Inv_fail _ _ (readError_of _ (Diverges_append _ _ (Diverges_append _ _ (Diverges_append _ _ (Diverges_append _ _ (by decide!))))))
      | exact Inv_fail _ _ (readError_of _ (Diverges_append _ _ (Diverges_append _ _ (Diverges_append _ _ (Diverges_append _ _ (Diverges_append _ _ (by decide!)))))))
      | (refine InvAll_app _ _ _ ?_; assumption)
      | (refine Inv_forRange _ _ (fun _ _ => ?_) _ _)
      | (refine Inv_ignoreErr _ _ ?_)
      | (refine Inv_decRec _ _ _ _ (fun _ => ?_) (fun _ => ?_) <;> beta_reduce))
    | (lift_lets; intro jp; (have hjp : InvAll readError jp := ?_); clear_value jp)
    | (lift_lets; intro x; clear_value x)
    | (refine InvAll_intro _ _ (fun _ => ?_); unfold_let jp; beta_reduce)
    | split)

theorem Inv_writeQuotedAlphanumeric (s : String) : Inv readError (writeQuotedAlphanumeric s) := by
  unfold writeQuotedAlphanumeric
  repeat' (first
    | with_reducible (first
      | exact Inv_WriteString _ _
      | exact Inv_WriteRune _ _
      | (refine Inv_bind _ _ _ ?_ (fun _ => ?_))
      | (refine Inv_Wbind _ _ _ ?_ (fun _ => ?_))
      | exact Inv_pure _ _
      | exact Inv_Wpure _ _
      | exact Inv_goPanic _ _
      | exact Inv_outOfFuel _
      | exact Inv_getW _
      | exact Inv_removeAt _
      | exact Inv_cursor _
      | exact Inv_current _ _ (by decide!)
      | exact Inv_setCurrentQuery _ _ (by decide!)
      | exact Inv_writeIdentifier _
      | exact Inv_validateSeparator _
      | exact Inv_writeTable_read _ _
      | exact Inv_fail _ _ (readError_of _ (by decide!))
      | exact Inv_fail _ _ (readError_of _ (Diverges_append _ _ (by decide!)))
      | exact Inv_fail _ _ (readError_of _ (Diverges_append _ _ (Diverges_append _ _ (by decide!))))
      | exact Inv_fail _ _ (readError_of _ (Diverges_append _ _ (Diverges_append _ _ (Diverges_append _ _ (by decide!)))))
      | exact Inv_fail _ _ (readError_of _ (Diverges_append _ _ (Diverges_append _ _ (Diverges_append _ _ (Diverges_append _ _ (by decide!))))))
      | exact Inv_fail _ _ (readError_of _ (Diverges_append _ _ (Diverges_append _ _ (Diverges_append _ _ (Diverges_append _ _ (Diverges_append _ _ (by decide!)))))))
      | exact Inv_writeUnescapedAlphanumeric _
      | (refine InvAll_app _ _ _ ?_; assumption)
      | (refine Inv_forRange _ _ (fun _ _ => ?_) _ _)
      | (refine Inv_ignoreErr _ _ ?_)
      | (refine Inv_decRec _ _ _ _ (fun _ => ?_) (fun _ => ?_) <;> beta_reduce))
    | (lift_lets; intro jp; (have hjp : InvAll readError jp := ?_); clear_value jp)
    | (lift_lets; intro x; clear_value x)
    | (refine InvAll_intro _ _ (fun _ => ?_); unfold_let jp; beta_reduce)
    | split)

theorem Inv_writeInConstant (v : Value) : Inv readError (writeInConstant v) := by
  unfold writeInConstant
  repeat' (first
    | with_reducible (first
      | exact Inv_WriteString _ _
      | exact Inv_WriteRune _ _
      | (refine Inv_bind _ _ _ ?_ (fun _ => ?_))
      | (refine Inv_Wbind _ _ _ ?_ (fun _ => ?_))
      | exact Inv_pure _ _
      | exact Inv_Wpure _ _
      | exact Inv_goPanic _ _
      | exact Inv_outOfFuel _
      | exact Inv_getW _
      | exact Inv_removeAt _
      | exact Inv_cursor _
      | exact Inv_current _ _ (by decide!)
      | exact Inv_setCurrentQuery _ _ (by decide!)
      | exact Inv_writeIdentifier _
      | exact Inv_validateSeparator _
      | exact Inv_writeTable_read _ _
      | exact Inv_fail _ _ (readError_of _ (by decide!))
      | exact Inv_fail _ _ (readError_of _ (Diverges_append _ _ (by decide!)))
      | exact Inv_fail _ _ (readError_of _ (Diverges_append _ _ (Diverges_append _ _ (by decide!))))
      | exact Inv_fail _ _ (readError_of _ (Diverges_append _ _ (Diverges_append _ _ (Diverges_append _ _ (by decide!)))))
      | exact Inv_fail _ _ (readError_of _ (Diverges_append _ _ (Diverges_append _ _ (Diverges_append _ _ (Diverges_append _ _ (by decide!))))))
      | exact Inv_fail _ _ (readError_of _ (Diverges_append _ _ (Diverges_append _ _ (Diverges_append _ _ (Diverges_append _ _ (Diverges_append _ _ (by decide!)))))))
      | exact Inv_writeUnescapedAlphanumeric _
      | exact Inv_writeQuotedAlphanumeric _
      | (refine InvAll_app _ _ _ ?_; assumption)
      | (refine Inv_forRange _ _ (fun _ _ => ?_) _ _)
      | (refine Inv_ignoreErr _ _ ?_)
      | (refine Inv_decRec _ _ _ _ (fun _ => ?_) (fun _ => ?_) <;> beta_reduce))
    | (lift_lets; intro jp; (have hjp : InvAll readError jp := ?_); clear_value jp)
    | (lift_lets; intro x; clear_value x)
    | (refine InvAll_intro _ _ (fun _ => ?_); unfold_let jp; beta_reduce)
    | split)

theorem Inv_replaceInParameter (vs : List Expr) : Inv readError (replaceInParameter vs) := by
  unfold replaceInParameter
  repeat' (first
    | with_reducible (first
      | exact Inv_WriteString _ _
      | exact Inv_WriteRune _ _
      | (refine Inv_bind _ _ _ ?_ (fun _ => ?_))
      | (refine Inv_Wbind _ _ _ ?_ (fun _ => ?_))
      | exact Inv_pure _ _
      | exact Inv_Wpure _ _
      | exact Inv_goPanic _ _
      | exact Inv_outOfFuel _
      | exact Inv_getW _
      | exact Inv_removeAt _
      | exact Inv_cursor _
      | exact Inv_current _ _ (by decide!)
      | exact Inv_setCurrentQuery _ _ (by decide!)
      | exact Inv_writeIdentifier _
      | exact Inv_validateSeparator _
      | exact Inv_writeTable_read _ _
      | exact Inv_fail _ _ (readError_of _ (by decide!))
      | exact Inv_fail _ _ (readError_of _ (Diverges_append _ _ (by decide!)))
      | exact Inv_fail _ _ (readError_of _ (Diverges_append _ _ (Diverges_append _ _ (by decide!))))
      | exact Inv_fail _ _ (readError_of _ (Diverges_append _ _ (Diverges_append _ _ (Diverges_append _ _ (by decide!)))))
      | exact Inv_fail _ _ (readError_of _ (Diverges_append _ _ (Diverges_append _ _ (Diverges_append _ _ (Diverges_append _ _ (by decide!))))))
      | exact Inv_fail _ _ (readError_of _ (Diverges_append _ _ (Diverges_append _ _ (Diverges_append _ _ (Diverges_append _ _ (Diverges_append _ _ (by decide!)))))))
      | exact Inv_writeUnescapedAlphanumeric _
      | exact Inv_writeQuotedAlphanumeric _
      | exact Inv_writeInConstant _
      | (refine InvAll_app _ _ _ ?_; assumption)
      | (refine Inv_forRange _ _ (fun _ _ => ?_) _ _)
      | (refine Inv_ignoreErr _ _ ?_)
      | (refine Inv_decRec _ _ _ _ (fun _ => ?_) (fun _ => ?_) <;> beta_reduce))
    | (lift_lets; intro jp; (have hjp : InvAll readError jp := ?_); clear_value jp)
    | (lift_lets; intro x; clear_value x)
    | (refine InvAll_intro _ _ (fun _ => ?_); unfold_let jp; beta_reduce)
    | split)

theorem Inv_handleEmptyIN (e : Expr) : Inv readError (handleEmptyIN e) := by
  unfold handleEmptyIN
  repeat' (first
    | with_reducible (first
      | exact Inv_WriteString _ _
      | exact Inv_WriteRune _ _
      | (refine Inv_bind _ _ _ ?_ (fun _ => ?_))
      | (refine Inv_Wbind _ _ _ ?_ (fun _ => ?_))
      | exact Inv_pure _ _
      | exact Inv_Wpure _ _
      | exact Inv_goPanic _ _
      | exact Inv_outOfFuel _
      | exact Inv_getW _
      | exact Inv_removeAt _
      | exact Inv_cursor _
      | exact Inv_current _ _ (by decide!)
      | exact Inv_setCurrentQuery _ _ (by decide!)
      | exact Inv_writeIdentifier _
      | exact Inv_validateSeparator _
      | exact Inv_writeTable_read _ _
      | exact Inv_fail _ _ (readError_of _ (by decide!))
      | exact Inv_fail _ _ (readError_of _ (Diverges_append _ _ (by decide!)))
      | exact Inv_fail _ _ (readError_of _ (Diverges_append _ _ (Diverges_append _ _ (by decide!))))
      | exact Inv_fail _ _ (readError_of _ (Diverges_append _ _ (Diverges_append _ _ (Diverges_append _ _ (by decide!)))))
      | exact Inv_fail _ _ (readError_of _ (Diverges_append _ _ (Diverges_append _ _ (Diverges_append _ _ (Diverges_append _ _ (by decide!))))))
      | exact Inv_fail _ _ (readError_of _ (Diverges_append _ _ (Diverges_append _ _ (Diverges_append _ _ (Diverges_append _ _ (Diverges_append _ _ (by decide!)))))))
      | exact Inv_writeUnescapedAlphanumeric _
      | exact Inv_writeQuotedAlphanumeric _
      | exact Inv_writeInConstant _
      | exact Inv_replaceInParameter _
      | (refine InvAll_app _ _ _ ?_; assumption)
      | (refine Inv_forRange _ _ (fun _ _ => ?_) _ _)
      | (refine Inv_ignoreErr _ _ ?_)
      | (refine Inv_decRec _ _ _ _ (fun _ => ?_) (fun _ => ?_) <;> beta_reduce))
    | (lift_lets; intro jp; (have hjp : InvAll readError jp := ?_); clear_value jp)
    | (lift_lets; intro x; clear_value x)
    | (refine InvAll_intro _ _ (fun _ => ?_); unfold_let jp; beta_reduce)
    | split)

theorem Inv_writeColumnNameExpr (t : ColumnNameExpr) : Inv readError (writeColumnNameExpr t) := by
  unfold writeColumnNameExpr
  repeat' (first
    | with_reducible (first
      | exact Inv_WriteString _ _
      | exact Inv_WriteRune _ _
      | (refine Inv_bind _ _ _ ?_ (fun _ => ?_))
      | (refine Inv_Wbind _ _ _ ?_ (fun _ => ?_))
      | exact Inv_pure _ _
      | exact Inv_Wpure _ _
      | exact Inv_goPanic _ _
      | exact Inv_outOfFuel _
      | exact Inv_getW _
      | exact Inv_removeAt _
      | exact Inv_cursor _
      | exact Inv_current _ _ (by decide!)
      | exact Inv_setCurrentQuery _ _ (by decide!)
      | exact Inv_writeIdentifier _
      | exact Inv_validateSeparator _
      | exact Inv_writeTable_read _ _
      | exact Inv_fail _ _ (readError_of _ (by decide!))
      | exact Inv_fail _ _ (readError_of _ (Diverges_append _ _ (by decide!)))
      | exact Inv_fail _ _ (readError_of _ (Diverges_append _ _ (Diverges_append _ _ (by decide!))))
      | exact Inv_fail _ _ (readError_of _ (Diverges_append _ _ (Diverges_append _ _ (Diverges_append _ _ (by decide!)))))
      | exact Inv_fail _ _ (readError_of _ (Diverges_append _ _ (Diverges_append _ _ (Diverges_append _ _ (Diverges_append _ _ (by decide!))))))
      | exact Inv_fail _ _ (readError_of _ (Diverges_append _ _ (Diverges_append _ _ (Diverges_append _ _ (Diverges_append _ _ (Diverges_append _ _ (by decide!)))))))
      | exact Inv_writeUnescapedAlphanumeric _
      | exact Inv_writeQuotedAlphanumeric _
      | exact Inv_writeInConstant _
      | exact Inv_replaceInParameter _
      | exact Inv_handleEmptyIN _
      | (refine InvAll_app _ _ _ ?_; assumption)
      | (refine Inv_forRange _ _ (fun _ _ => ?_) _ _)
      | (refine Inv_ignoreErr _ _ ?_)
      | (refine Inv_decRec _ _ _ _ (fun _ => ?_) (fun _ => ?_) <;> beta_reduce))
    | (lift_lets; intro jp; (have hjp : InvAll readError jp := ?_); clear_value jp)
    | (lift_lets; intro x; clear_value x)
    | (refine InvAll_intro _ _ (fun _ => ?_); unfold_let jp; beta_reduce)
    | split)

theorem Inv_writeAllColumnsExpr (t : String) : Inv readError (writeAllColumnsExpr t) := by
  unfold writeAllColumnsExpr
  repeat' (first
    | with_reducible (first
      | exact Inv_WriteString _ _
      | exact Inv_WriteRune _ _
      | (refine Inv_bind _ _ _ ?_ (fun _ => ?_))
      | (refine Inv_Wbind _ _ _ ?_ (fun _ => ?_))
      | exact Inv_pure _ _
      | exact Inv_Wpure _ _
      | exact Inv_goPanic _ _
      | exact Inv_outOfFuel _
      | exact Inv_getW _
      | exact Inv_removeAt _
      | exact Inv_cursor _
      | exact Inv_current _ _ (by decide!)
      | exact Inv_setCurrentQuery _ _ (by decide!)
      | exact Inv_writeIdentifier _
      | exact Inv_validateSeparator _
      | exact Inv_writeTable_read _ _
      | exact Inv_fail _ _ (readError_of _ (by decide!))
      | exact Inv_fail _ _ (readError_of _ (Diverges_append _ _ (by decide!)))
      | exact Inv_fail _ _ (readError_of _ (Diverges_append _ _ (Diverges_append _ _ (by decide!))))
      | exact Inv_fail _ _ (readError_of _ (Diverges_append _ _ (Diverges_append _ _ (Diverges_append _ _ (by decide!)))))
      | exact Inv_fail _ _ (readError_of _ (Diverges_append _ _ (Diverges_append _ _ (Diverges_append _ _ (Diverges_append _ _ (by decide!))))))
      | exact Inv_fail _ _ (readError_of _ (Diverges_append _ _ (Diverges_append _ _ (Diverges_append _ _ (Diverges_append _ _ (Diverges_append _ _ (by decide!)))))))
      | exact Inv_writeUnescapedAlphanumeric _
      | exact Inv_writeQuotedAlphanumeric _
      | exact Inv_writeInConstant _
      | exact Inv_replaceInParameter _
      | exact Inv_handleEmptyIN _
      | exact Inv_writeColumnNameExpr _
      | (refine InvAll_app _ _ _ ?_; assumption)
      | (refine Inv_forRange _ _ (fun _ _ => ?_) _ _)
      | (refine Inv_ignoreErr _ _ ?_)
      | (refine Inv_decRec _ _ _ _ (fun _ => ?_) (fun _ => ?_) <;> beta_reduce))
    | (lift_lets; intro jp; (have hjp : InvAll readError jp := ?_); clear_value jp)
    | (lift_lets; intro x; clear_value x)
    | (refine InvAll_intro _ _ (fun _ => ?_); unfold_let jp; beta_reduce)
    | split)

theorem Inv_writeParameterExpr  : Inv readError (writeParameterExpr ) := by
  unfold writeParameterExpr
  repeat' (first
    | with_reducible (first
      | exact Inv_WriteString _ _
      | exact Inv_WriteRune _ _
      | (refine Inv_bind _ _ _ ?_ (fun _ => ?_))
      | (refine Inv_Wbind _ _ _ ?_ (fun _ => ?_))
      | exact Inv_pure _ _
      | exact Inv_Wpure _ _
      | exact Inv_goPanic _ _
      | exact Inv_outOfFuel _
      | exact Inv_getW _
      | exact Inv_removeAt _
      | exact Inv_cursor _
      | exact Inv_current _ _ (by decide!)
      | exact Inv_setCurrentQuery _ _ (by decide!)
      | exact Inv_writeIdentifier _
      | exact Inv_validateSeparator _
      | exact Inv_writeTable_read _ _
      | exact Inv_fail _ _ (readError_of _ (by decide!))
      | exact Inv_fail _ _ (readError_of _ (Diverges_append _ _ (by decide!)))
      | exact Inv_fail _ _ (readError_of _ (Diverges_append _ _ (Diverges_append _ _ (by decide!))))
      | exact Inv_fail _ _ (readError_of _ (Diverges_append _ _ (Diverges_append _ _ (Diverges_append _ _ (by decide!)))))
      | exact Inv_fail _ _ (readError_of _ (Diverges_append _ _ (Diverges_append _ _ (Diverges_append _ _ (Diverges_append _ _ (by decide!))))))
      | exact Inv_fail _ _ (readError_of _ (Diverges_append _ _ (Diverges_append _ _ (Diverges_append _ _ (Diverges_append _ _ (Diverges_append _ _ (by decide!)))))))
      | exact Inv_writeUnescapedAlphanumeric _
      | exact Inv_writeQuotedAlphanumeric _
      | exact Inv_writeInConstant _
      | exact Inv_replaceInParameter _
      | exact Inv_handleEmptyIN _
      | exact Inv_writeColumnNameExpr _
      | exact Inv_writeAllColumnsExpr _
      | (refine InvAll_app _ _ _ ?_; assumption)
      | (refine Inv_forRange _ _ (fun _ _ => ?_) _ _)
      | (refine Inv_ignoreErr _ _ ?_)
      | (refine Inv_decRec _ _ _ _ (fun _ => ?_) (fun _ => ?_) <;> beta_reduce))
    | (lift_lets; intro jp; (have hjp : InvAll readError jp := ?_); clear_value jp)
    | (lift_lets; intro x; clear_value x)
    | (refine InvAll_intro _ _ (fun _ => ?_); unfold_let jp; beta_reduce)
    | split)

theorem Inv_writeConstantExpr (a : Position) (b : Typ) (c : String) : Inv readError (writeConstantExpr a b c) := by
  unfold writeConstantExpr
  repeat' (first
    | with_reducible (first
      | exact Inv_WriteString _ _
      | exact Inv_WriteRune _ _
      | (refine Inv_bind _ _ _ ?_ (fun _ => ?_))
      | (refine Inv_Wbind _ _ _ ?_ (fun _ => ?_))
      | exact Inv_pure _ _
      | exact Inv_Wpure _ _
      | exact Inv_goPanic _ _
      | exact Inv_outOfFuel _
      | exact Inv_getW _
      | exact Inv_removeAt _
      | exact Inv_cursor _
      | exact Inv_current _ _ (by decide!)
      | exact Inv_setCurrentQuery _ _ (by decide!)
      | exact Inv_writeIdentifier _
      | exact Inv_validateSeparator _
      | exact Inv_writeTable_read _ _
      | exact Inv_fail _ _ (readError_of _ (by decide!))
      | exact Inv_fail _ _ (readError_of _ (Diverges_append _ _ (by decide!)))
      | exact Inv_fail _ _ (readError_of _ (Diverges_append _ _ (Diverges_append _ _ (by decide!))))
      | exact Inv_fail _ _ (readError_of _ (Diverges_append _ _ (Diverges_append _ _ (Diverges_append _ _ (by decide!)))))
      | exact Inv_fail _ _ (readError_of _ (Diverges_append _ _ (Diverges_append _ _ (Diverges_append _ _ (Diverges_append _ _ (by decide!))))))
      | exact Inv_fail _ _ (readError_of _ (Diverges_append _ _ (Diverges_append _ _ (Diverges_append _ _ (Diverges_append _ _ (Diverges_append _ _ (by decide!)))))))
      | exact Inv_writeUnescapedAlphanumeric _
      | exact Inv_writeQuotedAlphanumeric _
      | exact Inv_writeInConstant _
      | exact Inv_replaceInParameter _
      | exact Inv_handleEmptyIN _
      | exact Inv_writeColumnNameExpr _
      | exact Inv_writeAllColumnsExpr _
      | exact Inv_writeParameterExpr
      | (refine InvAll_app _ _ _ ?_; assumption)
      | (refine Inv_forRange _ _ (fun _ _ => ?_) _ _)
      | (refine Inv_ignoreErr _ _ ?_)
      | (refine Inv_decRec _ _ _ _ (fun _ => ?_) (fun _ => ?_) <;> beta_reduce))
    | (lift_lets; intro jp; (have hjp : InvAll readError jp := ?_); clear_value jp)
    | (lift_lets; intro x; clear_value x)
    | (refine InvAll_intro _ _ (fun _ => ?_); unfold_let jp; beta_reduce)
    | split)

theorem Inv_writeUTCTimestampSqlite (a : List Expr) : Inv readError (writeUTCTimestampSqlite a) := by
  unfold writeUTCTimestampSqlite
  repeat' (first
    | with_reducible (first
      | exact Inv_WriteString _ _
      | exact Inv_WriteRune _ _
      | (refine Inv_bind _ _ _ ?_ (fun _ => ?_))
      | (refine Inv_Wbind _ _ _ ?_ (fun _ => ?_))
      | exact Inv_pure _ _
      | exact Inv_Wpure _ _
      | exact Inv_goPanic _ _
      | exact Inv_outOfFuel _
      | exact Inv_getW _
      | exact Inv_removeAt _
      | exact Inv_cursor _
      | exact Inv_current _ _ (by decide!)
      | exact Inv_setCurrentQuery _ _ (by decide!)
      | exact Inv_writeIdentifier _
      | exact Inv_validateSeparator _
      | exact Inv_writeTable_read _ _
      | exact Inv_fail _ _ (readError_of _ (by decide!))
      | exact Inv_fail _ _ (readError_of _ (Diverges_append _ _ (by decide!)))
      | exact Inv_fail _ _ (readError_of _ (Diverges_append _ _ (Diverges_append _ _ (by decide!))))
      | exact Inv_fail _ _ (readError_of _ (Diverges_append _ _ (Diverges_append _ _ (Diverges_append _ _ (by decide!)))))
      | exact Inv_fail _ _ (readError_of _ (Diverges_append _ _ (Diverges_append _ _ (Diverges_append _ _ (Diverges_append _ _ (by decide!))))))
      | exact Inv_fail _ _ (readError_of _ (Diverges_append _ _ (Diverges_append _ _ (Diverges_append _ _ (Diverges_append _ _ (Diverges_append _ _ (by decide!)))))))
      | exact Inv_writeUnescapedAlphanumeric _
      | exact Inv_writeQuotedAlphanumeric _
      | exact Inv_writeInConstant _
      | exact Inv_replaceInParameter _
      | exact Inv_handleEmptyIN _
      | exact Inv_writeColumnNameExpr _
      | exact Inv_writeAllColumnsExpr _
      | exact Inv_writeParameterExpr
      | exact Inv_writeConstantExpr _ _ _
      | (refine InvAll_app _ _ _ ?_; assumption)
      | (refine Inv_forRange _ _ (fun _ _ => ?_) _ _)
      | (refine Inv_ignoreErr _ _ ?_)
      | (refine Inv_decRec _ _ _ _ (fun _ => ?_) (fun _ => ?_) <;> beta_reduce))
    | (lift_lets; intro jp; (have hjp : InvAll readError jp := ?_); clear_value jp)
    | (lift_lets; intro x; clear_value x)
    | (refine InvAll_intro _ _ (fun _ => ?_); unfold_let jp; beta_reduce)
    | split)


theorem writeJoin_succ (n : Nat) (Pos : Position) (Typ : Typ) (Table Alias Database : String)
    (On : Option Expr) :
    writeJoin (n + 1) (.mk Pos Typ Table Alias Database On) = (do
      if (← getW).Format then WriteRune '\n' else WriteRune ' '
      match Typ with
      | .LEFT => WriteString "LEFT JOIN "
      | .RIGHT => WriteString "RIGHT JOIN "
      | .INNER => WriteString "INNER JOIN "
      | .OUTER => WriteString "OUTER JOIN "
      | .CROSS => WriteString "CROSS JOIN "
      | .JOIN => WriteString "JOIN "
      | _ => fail ("Invalid join type: " ++ Typ.String)
      writeTable Database Table false
      if Alias != "" then
        WriteString " AS "
        writeIdentifier Alias
      match On with
      | none => pure ()
      | some onExpr => do
        WriteString " ON "
        writeExpr n onExpr : W Unit) := by
  cases Typ <;> cases On <;> rfl

theorem Inv_writeSelect_step (n : Nat) (ih : InvAt n) :
    ∀ q, Inv readError (writeSelect (n + 1) q) := by
  obtain ⟨ih_writeSelect, ih_writeLimit, ih_writeFrom, ih_writeFromTable, ih_writeJoins, ih_writeJoin, ih_writeExpr, ih_writeBetweenExpr, ih_writeInExpr, ih_writeGroupConcat, ih_writeGroupConcatSqlite, ih_writeFuncCallExpr, ih_writeConcatSqlite, ih_writeOrderBy, ih_writeOrderColumn, ih_writeSelectColumnExpr, ih_writeParenExpr, ih_writeUnaryExpr, ih_handleNullEquality, ih_writeBinaryExpr⟩ := ih
  intro q
  cases q <;> rw [writeSelect]
  all_goals
    repeat' (first
      | with_reducible (first
        | exact Inv_WriteString _ _
        | exact Inv_WriteRune _ _
        | (refine Inv_bind _ _ _ ?_ (fun _ => ?_))
        | (refine Inv_Wbind _ _ _ ?_ (fun _ => ?_))
        | exact Inv_pure _ _
        | exact Inv_Wpure _ _
        | exact Inv_goPanic _ _
        | exact Inv_outOfFuel _
        | exact Inv_getW _
        | exact Inv_removeAt _
        | exact Inv_cursor _
        | exact Inv_current _ _ (by decide!)
        | exact Inv_setCurrentQuery _ _ (by decide!)
        | exact Inv_writeIdentifier _
        | exact Inv_validateSeparator _
        | exact Inv_writeTable_read _ _
        | exact Inv_fail _ _ (readError_of _ (by decide!))
        | exact Inv_fail _ _ (readError_of _ (Diverges_append _ _ (by decide!)))
        | exact Inv_fail _ _ (readError_of _ (Diverges_append _ _ (Diverges_append _ _ (by decide!))))
        | exact Inv_fail _ _ (readError_of _ (Diverges_append _ _ (Diverges_append _ _ (Diverges_append _ _ (by decide!)))))
        | exact Inv_fail _ _ (readError_of _ (Diverges_append _ _ (Diverges_append _ _ (Diverges_append _ _ (Diverges_append _ _ (by decide!))))))
        | exact Inv_fail _ _ (readError_of _ (Diverges_append _ _ (Diverges_append _ _ (Diverges_append _ _ (Diverges_append _ _ (Diverges_append _ _ (by decide!)))))))
        | exact Inv_writeUnescapedAlphanumeric _
        | exact Inv_writeQuotedAlphanumeric _
        | exact Inv_writeInConstant _
        | exact Inv_replaceInParameter _
        | exact Inv_handleEmptyIN _
        | exact Inv_writeColumnNameExpr _
        | exact Inv_writeAllColumnsExpr _
        | exact Inv_writeParameterExpr
        | exact Inv_writeConstantExpr _ _ _
        | exact Inv_writeUTCTimestampSqlite _
        | exact ih_writeSelect _
        | exact ih_writeLimit _
        | exact ih_writeFrom _
        | exact ih_writeFromTable _
        | exact ih_writeJoins _
        | exact ih_writeJoin _
        | exact ih_writeExpr _
        | exact ih_writeBetweenExpr _ _
        | exact ih_writeInExpr _
        | exact ih_writeGroupConcat _ _ _ _
        | exact ih_writeGroupConcatSqlite _
        | exact ih_writeFuncCallExpr _ _
        | exact ih_writeConcatSqlite _
        | exact ih_writeOrderBy _
        | exact ih_writeOrderColumn _
        | exact ih_writeSelectColumnExpr _ _
        | exact ih_writeParenExpr _
        | exact ih_writeUnaryExpr _ _
        | exact ih_handleNullEquality _ _ _
        | exact ih_writeBinaryExpr _ _ _
        | (refine InvAll_app _ _ _ ?_; assumption)
        | (refine Inv_forRange _ _ (fun _ _ => ?_) _ _)
        | (refine Inv_ignoreErr _ _ ?_)
        | (refine Inv_decRec _ _ _ _ (fun _ => ?_) (fun _ => ?_) <;> beta_reduce))
      | (lift_lets; intro jp; (have hjp : InvAll readError jp := ?_); clear_value jp)
      | (lift_lets; intro x; clear_value x)
      | (refine InvAll_intro _ _ (fun _ => ?_); unfold_let jp; beta_reduce)
      | split)

theorem Inv_writeLimit_step (n : Nat) (ih : InvAt n) :
    ∀ l, Inv readError (writeLimit (n + 1) l) := by
  obtain ⟨ih_writeSelect, ih_writeLimit, ih_writeFrom, ih_writeFromTable, ih_writeJoins, ih_writeJoin, ih_writeExpr, ih_writeBetweenExpr, ih_writeInExpr, ih_writeGroupConcat, ih_writeGroupConcatSqlite, ih_writeFuncCallExpr, ih_writeConcatSqlite, ih_writeOrderBy, ih_writeOrderColumn, ih_writeSelectColumnExpr, ih_writeParenExpr, ih_writeUnaryExpr, ih_handleNullEquality, ih_writeBinaryExpr⟩ := ih
  intro l
  unfold writeLimit
  split
  all_goals (try (cases ‹n + 1 = _›))
  all_goals
    repeat' (first
      | with_reducible (first
        | exact Inv_WriteString _ _
        | exact Inv_WriteRune _ _
        | (refine Inv_bind _ _ _ ?_ (fun _ => ?_))
        | (refine Inv_Wbind _ _ _ ?_ (fun _ => ?_))
        | exact Inv_pure _ _
        | exact Inv_Wpure _ _
        | exact Inv_goPanic _ _
        | exact Inv_outOfFuel _
        | exact Inv_getW _
        | exact Inv_removeAt _
        | exact Inv_cursor _
        | exact Inv_current _ _ (by decide!)
        | exact Inv_setCurrentQuery _ _ (by decide!)
        | exact Inv_writeIdentifier _
        | exact Inv_validateSeparator _
        | exact Inv_writeTable_read _ _
        | exact Inv_fail _ _ (readError_of _ (by decide!))
        | exact Inv_fail _ _ (readError_of _ (Diverges_append _ _ (by decide!)))
        | exact Inv_fail _ _ (readError_of _ (Diverges_append _ _ (Diverges_append _ _ (by decide!))))
        | exact Inv_fail _ _ (readError_of _ (Diverges_append _ _ (Diverges_append _ _ (Diverges_append _ _ (by decide!)))))
        | exact Inv_fail _ _ (readError_of _ (Diverges_append _ _ (Diverges_append _ _ (Diverges_append _ _ (Diverges_append _ _ (by decide!))))))
        | exact Inv_fail _ _ (readError_of _ (Diverges_append _ _ (Diverges_append _ _ (Diverges_append _ _ (Diverges_append _ _ (Diverges_append _ _ (by decide!)))))))
        | exact Inv_writeUnescapedAlphanumeric _
        | exact Inv_writeQuotedAlphanumeric _
        | exact Inv_writeInConstant _
        | exact Inv_replaceInParameter _
        | exact Inv_handleEmptyIN _
        | exact Inv_writeColumnNameExpr _
        | exact Inv_writeAllColumnsExpr _
        | exact Inv_writeParameterExpr
        | exact Inv_writeConstantExpr _ _ _
        | exact Inv_writeUTCTimestampSqlite _
        | exact ih_writeSelect _
        | exact ih_writeLimit _
        | exact ih_writeFrom _
        | exact ih_writeFromTable _
        | exact ih_writeJoins _
        | exact ih_writeJoin _
        | exact ih_writeExpr _
        | exact ih_writeBetweenExpr _ _
        | exact ih_writeInExpr _
        | exact ih_writeGroupConcat _ _ _ _
        | exact ih_writeGroupConcatSqlite _
        | exact ih_writeFuncCallExpr _ _
        | exact ih_writeConcatSqlite _
        | exact ih_writeOrderBy _
        | exact ih_writeOrderColumn _
        | exact ih_writeSelectColumnExpr _ _
        | exact ih_writeParenExpr _
        | exact ih_writeUnaryExpr _ _
        | exact ih_handleNullEquality _ _ _
        | exact ih_writeBinaryExpr _ _ _
        | (refine InvAll_app _ _ _ ?_; assumption)
        | (refine Inv_forRange _ _ (fun _ _ => ?_) _ _)
        | (refine Inv_ignoreErr _ _ ?_)
        | (refine Inv_decRec _ _ _ _ (fun _ => ?_) (fun _ => ?_) <;> beta_reduce))
      | (lift_lets; intro jp; (have hjp : InvAll readError jp := ?_); clear_value jp)
      | (lift_lets; intro x; clear_value x)
      | (refine InvAll_intro _ _ (fun _ => ?_); unfold_let jp; beta_reduce)
      | split)

theorem Inv_writeFrom_step (n : Nat) (ih : InvAt n) :
    ∀ f, Inv readError (writeFrom (n + 1) f) := by
  obtain ⟨ih_writeSelect, ih_writeLimit, ih_writeFrom, ih_writeFromTable, ih_writeJoins, ih_writeJoin, ih_writeExpr, ih_writeBetweenExpr, ih_writeInExpr, ih_writeGroupConcat, ih_writeGroupConcatSqlite, ih_writeFuncCallExpr, ih_writeConcatSqlite, ih_writeOrderBy, ih_writeOrderColumn, ih_writeSelectColumnExpr, ih_writeParenExpr, ih_writeUnaryExpr, ih_handleNullEquality, ih_writeBinaryExpr⟩ := ih
  intro f
  cases f <;> rw [writeFrom]
  all_goals
    repeat' (first
      | with_reducible (first
        | exact Inv_WriteString _ _
        | exact Inv_WriteRune _ _
        | (refine Inv_bind _ _ _ ?_ (fun _ => ?_))
        | (refine Inv_Wbind _ _ _ ?_ (fun _ => ?_))
        | exact Inv_pure _ _
        | exact Inv_Wpure _ _
        | exact Inv_goPanic _ _
        | exact Inv_outOfFuel _
        | exact Inv_getW _
        | exact Inv_removeAt _
        | exact Inv_cursor _
        | exact Inv_current _ _ (by decide!)
        | exact Inv_setCurrentQuery _ _ (by decide!)
        | exact Inv_writeIdentifier _
        | exact Inv_validateSeparator _
        | exact Inv_writeTable_read _ _
        | exact Inv_fail _ _ (readError_of _ (by decide!))
        | exact Inv_fail _ _ (readError_of _ (Diverges_append _ _ (by decide!)))
        | exact Inv_fail _ _ (readError_of _ (Diverges_append _ _ (Diverges_append _ _ (by decide!))))
        | exact Inv_fail _ _ (readError_of _ (Diverges_append _ _ (Diverges_append _ _ (Diverges_append _ _ (by decide!)))))
        | exact Inv_fail _ _ (readError_of _ (Diverges_append _ _ (Diverges_append _ _ (Diverges_append _ _ (Diverges_append _ _ (by decide!))))))
        | exact Inv_fail _ _ (readError_of _ (Diverges_append _ _ (Diverges_append _ _ (Diverges_append _ _ (Diverges_append _ _ (Diverges_append _ _ (by decide!)))))))
        | exact Inv_writeUnescapedAlphanumeric _
        | exact Inv_writeQuotedAlphanumeric _
        | exact Inv_writeInConstant _
        | exact Inv_replaceInParameter _
        | exact Inv_handleEmptyIN _
        | exact Inv_writeColumnNameExpr _
        | exact Inv_writeAllColumnsExpr _
        | exact Inv_writeParameterExpr
        | exact Inv_writeConstantExpr _ _ _
        | exact Inv_writeUTCTimestampSqlite _
        | exact ih_writeSelect _
        | exact ih_writeLimit _
        | exact ih_writeFrom _
        | exact ih_writeFromTable _
        | exact ih_writeJoins _
        | exact ih_writeJoin _
        | exact ih_writeExpr _
        | exact ih_writeBetweenExpr _ _
        | exact ih_writeInExpr _
        | exact ih_writeGroupConcat _ _ _ _
        | exact ih_writeGroupConcatSqlite _
        | exact ih_writeFuncCallExpr _ _
        | exact ih_writeConcatSqlite _
        | exact ih_writeOrderBy _
        | exact ih_writeOrderColumn _
        | exact ih_writeSelectColumnExpr _ _
        | exact ih_writeParenExpr _
        | exact ih_writeUnaryExpr _ _
        | exact ih_handleNullEquality _ _ _
        | exact ih_writeBinaryExpr _ _ _
        | (refine InvAll_app _ _ _ ?_; assumption)
        | (refine Inv_forRange _ _ (fun _ _ => ?_) _ _)
        | (refine Inv_ignoreErr _ _ ?_)
        | (refine Inv_decRec _ _ _ _ (fun _ => ?_) (fun _ => ?_) <;> beta_reduce))
      | (lift_lets; intro jp; (have hjp : InvAll readError jp := ?_); clear_value jp)
      | (lift_lets; intro x; clear_value x)
      | (refine InvAll_intro _ _ (fun _ => ?_); unfold_let jp; beta_reduce)
      | split)

theorem Inv_writeFromTable_step (n : Nat) (ih : InvAt n) :
    ∀ t, Inv readError (writeFromTable (n + 1) t false) := by
  obtain ⟨ih_writeSelect, ih_writeLimit, ih_writeFrom, ih_writeFromTable, ih_writeJoins, ih_writeJoin, ih_writeExpr, ih_writeBetweenExpr, ih_writeInExpr, ih_writeGroupConcat, ih_writeGroupConcatSqlite, ih_writeFuncCallExpr, ih_writeConcatSqlite, ih_writeOrderBy, ih_writeOrderColumn, ih_writeSelectColumnExpr, ih_writeParenExpr, ih_writeUnaryExpr, ih_handleNullEquality, ih_writeBinaryExpr⟩ := ih
  intro t
  rw [writeFromTable]
  repeat' (first
    | with_reducible (first
      | exact Inv_WriteString _ _
      | exact Inv_WriteRune _ _
      | (refine Inv_bind _ _ _ ?_ (fun _ => ?_))
      | (refine Inv_Wbind _ _ _ ?_ (fun _ => ?_))
      | exact Inv_pure _ _
      | exact Inv_Wpure _ _
      | exact Inv_goPanic _ _
      | exact Inv_outOfFuel _
      | exact Inv_getW _
      | exact Inv_removeAt _
      | exact Inv_cursor _
      | exact Inv_current _ _ (by decide!)
      | exact Inv_setCurrentQuery _ _ (by decide!)
      | exact Inv_writeIdentifier _
      | exact Inv_validateSeparator _
      | exact Inv_writeTable_read _ _
      | exact Inv_fail _ _ (readError_of _ (by decide!))
      | exact Inv_fail _ _ (readError_of _ (Diverges_append _ _ (by decide!)))
      | exact Inv_fail _ _ (readError_of _ (Diverges_append _ _ (Diverges_append _ _ (by decide!))))
      | exact Inv_fail _ _ (readError_of _ (Diverges_append _ _ (Diverges_append _ _ (Diverges_append _ _ (by decide!)))))
      | exact Inv_fail _ _ (readError_of _ (Diverges_append _ _ (Diverges_append _ _ (Diverges_append _ _ (Diverges_append _ _ (by decide!))))))
      | exact Inv_fail _ _ (readError_of _ (Diverges_append _ _ (Diverges_append _ _ (Diverges_append _ _ (Diverges_append _ _ (Diverges_append _ _ (by decide!)))))))
      | exact Inv_writeUnescapedAlphanumeric _
      | exact Inv_writeQuotedAlphanumeric _
      | exact Inv_writeInConstant _
      | exact Inv_replaceInParameter _
      | exact Inv_handleEmptyIN _
      | exact Inv_writeColumnNameExpr _
      | exact Inv_writeAllColumnsExpr _
      | exact Inv_writeParameterExpr
      | exact Inv_writeConstantExpr _ _ _
      | exact Inv_writeUTCTimestampSqlite _
      | exact ih_writeSelect _
      | exact ih_writeLimit _
      | exact ih_writeFrom _
      | exact ih_writeFromTable _
      | exact ih_writeJoins _
      | exact ih_writeJoin _
      | exact ih_writeExpr _
      | exact ih_writeBetweenExpr _ _
      | exact ih_writeInExpr _
      | exact ih_writeGroupConcat _ _ _ _
      | exact ih_writeGroupConcatSqlite _
      | exact ih_writeFuncCallExpr _ _
      | exact ih_writeConcatSqlite _
      | exact ih_writeOrderBy _
      | exact ih_writeOrderColumn _
      | exact ih_writeSelectColumnExpr _ _
      | exact ih_writeParenExpr _
      | exact ih_writeUnaryExpr _ _
      | exact ih_handleNullEquality _ _ _
      | exact ih_writeBinaryExpr _ _ _
      | (refine InvAll_app _ _ _ ?_; assumption)
      | (refine Inv_forRange _ _ (fun _ _ => ?_) _ _)
      | (refine Inv_ignoreErr _ _ ?_)
      | (refine Inv_decRec _ _ _ _ (fun _ => ?_) (fun _ => ?_) <;> beta_reduce))
    | (lift_lets; intro jp; (have hjp : InvAll readError jp := ?_); clear_value jp)
    | (lift_lets; intro x; clear_value x)
    | (refine InvAll_intro _ _ (fun _ => ?_); unfold_let jp; beta_reduce)
    | split)

theorem Inv_writeJoins_step (n : Nat) (ih : InvAt n) :
    ∀ js, Inv readError (writeJoins (n + 1) js) := by
  obtain ⟨ih_writeSelect, ih_writeLimit, ih_writeFrom, ih_writeFromTable, ih_writeJoins, ih_writeJoin, ih_writeExpr, ih_writeBetweenExpr, ih_writeInExpr, ih_writeGroupConcat, ih_writeGroupConcatSqlite, ih_writeFuncCallExpr, ih_writeConcatSqlite, ih_writeOrderBy, ih_writeOrderColumn, ih_writeSelectColumnExpr, ih_writeParenExpr, ih_writeUnaryExpr, ih_handleNullEquality, ih_writeBinaryExpr⟩ := ih
  intro js
  rw [writeJoins]
  repeat' (first
    | with_reducible (first
      | exact Inv_WriteString _ _
      | exact Inv_WriteRune _ _
      | (refine Inv_bind _ _ _ ?_ (fun _ => ?_))
      | (refine Inv_Wbind _ _ _ ?_ (fun _ => ?_))
      | exact Inv_pure _ _
      | exact Inv_Wpure _ _
      | exact Inv_goPanic _ _
      | exact Inv_outOfFuel _
      | exact Inv_getW _
      | exact Inv_removeAt _
      | exact Inv_cursor _
      | exact Inv_current _ _ (by decide!)
      | exact Inv_setCurrentQuery _ _ (by decide!)
      | exact Inv_writeIdentifier _
      | exact Inv_validateSeparator _
      | exact Inv_writeTable_read _ _
      | exact Inv_fail _ _ (readError_of _ (by decide!))
      | exact Inv_fail _ _ (readError_of _ (Diverges_append _ _ (by decide!)))
      | exact Inv_fail _ _ (readError_of _ (Diverges_append _ _ (Diverges_append _ _ (by decide!))))
      | exact Inv_fail _ _ (readError_of _ (Diverges_append _ _ (Diverges_append _ _ (Diverges_append _ _ (by decide!)))))
      | exact Inv_fail _ _ (readError_of _ (Diverges_append _ _ (Diverges_append _ _ (Diverges_append _ _ (Diverges_append _ _ (by decide!))))))
      | exact Inv_fail _ _ (readError_of _ (Diverges_append _ _ (Diverges_append _ _ (Diverges_append _ _ (Diverges_append _ _ (Diverges_append _ _ (by decide!)))))))
      | exact Inv_writeUnescapedAlphanumeric _
      | exact Inv_writeQuotedAlphanumeric _
      | exact Inv_writeInConstant _
      | exact Inv_replaceInParameter _
      | exact Inv_handleEmptyIN _
      | exact Inv_writeColumnNameExpr _
      | exact Inv_writeAllColumnsExpr _
      | exact Inv_writeParameterExpr
      | exact Inv_writeConstantExpr _ _ _
      | exact Inv_writeUTCTimestampSqlite _
      | exact ih_writeSelect _
      | exact ih_writeLimit _
      | exact ih_writeFrom _
      | exact ih_writeFromTable _
      | exact ih_writeJoins _
      | exact ih_writeJoin _
      | exact ih_writeExpr _
      | exact ih_writeBetweenExpr _ _
      | exact ih_writeInExpr _
      | exact ih_writeGroupConcat _ _ _ _
      | exact ih_writeGroupConcatSqlite _
      | exact ih_writeFuncCallExpr _ _
      | exact ih_writeConcatSqlite _
      | exact ih_writeOrderBy _
      | exact ih_writeOrderColumn _
      | exact ih_writeSelectColumnExpr _ _
      | exact ih_writeParenExpr _
      | exact ih_writeUnaryExpr _ _
      | exact ih_handleNullEquality _ _ _
      | exact ih_writeBinaryExpr _ _ _
      | (refine InvAll_app _ _ _ ?_; assumption)
      | (refine Inv_forRange _ _ (fun _ _ => ?_) _ _)
      | (refine Inv_ignoreErr _ _ ?_)
      | (refine Inv_decRec _ _ _ _ (fun _ => ?_) (fun _ => ?_) <;> beta_reduce))
    | (lift_lets; intro jp; (have hjp : InvAll readError jp := ?_); clear_value jp)
    | (lift_lets; intro x; clear_value x)
    | (refine InvAll_intro _ _ (fun _ => ?_); unfold_let jp; beta_reduce)
    | split)

theorem Inv_writeJoin_step (n : Nat) (ih : InvAt n) :
    ∀ j, Inv readError (writeJoin (n + 1) j) := by
  obtain ⟨ih_writeSelect, ih_writeLimit, ih_writeFrom, ih_writeFromTable, ih_writeJoins, ih_writeJoin, ih_writeExpr, ih_writeBetweenExpr, ih_writeInExpr, ih_writeGroupConcat, ih_writeGroupConcatSqlite, ih_writeFuncCallExpr, ih_writeConcatSqlite, ih_writeOrderBy, ih_writeOrderColumn, ih_writeSelectColumnExpr, ih_writeParenExpr, ih_writeUnaryExpr, ih_handleNullEquality, ih_writeBinaryExpr⟩ := ih
  intro j
  cases j
  rw [writeJoin_succ]
  repeat' (first
    | with_reducible (first
      | exact Inv_WriteString _ _
      | exact Inv_WriteRune _ _
      | (refine Inv_bind _ _ _ ?_ (fun _ => ?_))
      | (refine Inv_Wbind _ _ _ ?_ (fun _ => ?_))
      | exact Inv_pure _ _
      | exact Inv_Wpure _ _
      | exact Inv_goPanic _ _
      | exact Inv_outOfFuel _
      | exact Inv_getW _
      | exact Inv_removeAt _
      | exact Inv_cursor _
      | exact Inv_current _ _ (by decide!)
      | exact Inv_setCurrentQuery _ _ (by decide!)
      | exact Inv_writeIdentifier _
      | exact Inv_validateSeparator _
      | exact Inv_writeTable_read _ _
      | exact Inv_fail _ _ (readError_of _ (by decide!))
      | exact Inv_fail _ _ (readError_of _ (Diverges_append _ _ (by decide!)))
      | exact Inv_fail _ _ (readError_of _ (Diverges_append _ _ (Diverges_append _ _ (by decide!))))
      | exact Inv_fail _ _ (readError_of _ (Diverges_append _ _ (Diverges_append _ _ (Diverges_append _ _ (by decide!)))))
      | exact Inv_fail _ _ (readError_of _ (Diverges_append _ _ (Diverges_append _ _ (Diverges_append _ _ (Diverges_append _ _ (by decide!))))))
      | exact Inv_fail _ _ (readError_of _ (Diverges_append _ _ (Diverges_append _ _ (Diverges_append _ _ (Diverges_append _ _ (Diverges_append _ _ (by decide!)))))))
      | exact Inv_writeUnescapedAlphanumeric _
      | exact Inv_writeQuotedAlphanumeric _
      | exact Inv_writeInConstant _
      | exact Inv_replaceInParameter _
      | exact Inv_handleEmptyIN _
      | exact Inv_writeColumnNameExpr _
      | exact Inv_writeAllColumnsExpr _
      | exact Inv_writeParameterExpr
      | exact Inv_writeConstantExpr _ _ _
      | exact Inv_writeUTCTimestampSqlite _
      | exact ih_writeSelect _
      | exact ih_writeLimit _
      | exact ih_writeFrom _
      | exact ih_writeFromTable _
      | exact ih_writeJoins _
      | exact ih_writeJoin _
      | exact ih_writeExpr _
      | exact ih_writeBetweenExpr _ _
      | exact ih_writeInExpr _
      | exact ih_writeGroupConcat _ _ _ _
      | exact ih_writeGroupConcatSqlite _
      | exact ih_writeFuncCallExpr _ _
      | exact ih_writeConcatSqlite _
      | exact ih_writeOrderBy _
      | exact ih_writeOrderColumn _
      | exact ih_writeSelectColumnExpr _ _
      | exact ih_writeParenExpr _
      | exact ih_writeUnaryExpr _ _
      | exact ih_handleNullEquality _ _ _
      | exact ih_writeBinaryExpr _ _ _
      | (refine InvAll_app _ _ _ ?_; assumption)
      | (refine Inv_forRange _ _ (fun _ _ => ?_) _ _)
      | (refine Inv_ignoreErr _ _ ?_)
      | (refine Inv_decRec _ _ _ _ (fun _ => ?_) (fun _ => ?_) <;> beta_reduce))
    | (lift_lets; intro jp; (have hjp : InvAll readError jp := ?_); clear_value jp)
    | (lift_lets; intro x; clear_value x)
    | (refine InvAll_intro _ _ (fun _ => ?_); unfold_let jp; beta_reduce)
    | split)

theorem Inv_writeExpr_step (n : Nat) (ih : InvAt n) :
    ∀ e, Inv readError (writeExpr (n + 1) e) := by
  obtain ⟨ih_writeSelect, ih_writeLimit, ih_writeFrom, ih_writeFromTable, ih_writeJoins, ih_writeJoin, ih_writeExpr, ih_writeBetweenExpr, ih_writeInExpr, ih_writeGroupConcat, ih_writeGroupConcatSqlite, ih_writeFuncCallExpr, ih_writeConcatSqlite, ih_writeOrderBy, ih_writeOrderColumn, ih_writeSelectColumnExpr, ih_writeParenExpr, ih_writeUnaryExpr, ih_handleNullEquality, ih_writeBinaryExpr⟩ := ih
  intro e
  cases e <;> rw [writeExpr]
  all_goals
    repeat' (first
      | with_reducible (first
        | exact Inv_WriteString _ _
        | exact Inv_WriteRune _ _
        | (refine Inv_bind _ _ _ ?_ (fun _ => ?_))
        | (refine Inv_Wbind _ _ _ ?_ (fun _ => ?_))
        | exact Inv_pure _ _
        | exact Inv_Wpure _ _
        | exact Inv_goPanic _ _
        | exact Inv_outOfFuel _
        | exact Inv_getW _
        | exact Inv_removeAt _
        | exact Inv_cursor _
        | exact Inv_current _ _ (by decide!)
        | exact Inv_setCurrentQuery _ _ (by decide!)
        | exact Inv_writeIdentifier _
        | exact Inv_validateSeparator _
        | exact Inv_writeTable_read _ _
        | exact Inv_fail _ _ (readError_of _ (by decide!))
        | exact Inv_fail _ _ (readError_of _ (Diverges_append _ _ (by decide!)))
        | exact Inv_fail _ _ (readError_of _ (Diverges_append _ _ (Diverges_append _ _ (by decide!))))
        | exact Inv_fail _ _ (readError_of _ (Diverges_append _ _ (Diverges_append _ _ (Diverges_append _ _ (by decide!)))))
        | exact Inv_fail _ _ (readError_of _ (Diverges_append _ _ (Diverges_append _ _ (Diverges_append _ _ (Diverges_append _ _ (by decide!))))))
        | exact Inv_fail _ _ (readError_of _ (Diverges_append _ _ (Diverges_append _ _ (Diverges_append _ _ (Diverges_append _ _ (Diverges_append _ _ (by decide!)))))))
        | exact Inv_writeUnescapedAlphanumeric _
        | exact Inv_writeQuotedAlphanumeric _
        | exact Inv_writeInConstant _
        | exact Inv_replaceInParameter _
        | exact Inv_handleEmptyIN _
        | exact Inv_writeColumnNameExpr _
        | exact Inv_writeAllColumnsExpr _
        | exact Inv_writeParameterExpr
        | exact Inv_writeConstantExpr _ _ _
        | exact Inv_writeUTCTimestampSqlite _
        | exact ih_writeSelect _
        | exact ih_writeLimit _
        | exact ih_writeFrom _
        | exact ih_writeFromTable _
        | exact ih_writeJoins _
        | exact ih_writeJoin _
        | exact ih_writeExpr _
        | exact ih_writeBetweenExpr _ _
        | exact ih_writeInExpr _
        | exact ih_writeGroupConcat _ _ _ _
        | exact ih_writeGroupConcatSqlite _
        | exact ih_writeFuncCallExpr _ _
        | exact ih_writeConcatSqlite _
        | exact ih_writeOrderBy _
        | exact ih_writeOrderColumn _
        | exact ih_writeSelectColumnExpr _ _
        | exact ih_writeParenExpr _
        | exact ih_writeUnaryExpr _ _
        | exact ih_handleNullEquality _ _ _
        | exact ih_writeBinaryExpr _ _ _
        | (refine InvAll_app _ _ _ ?_; assumption)
        | (refine Inv_forRange _ _ (fun _ _ => ?_) _ _)
        | (refine Inv_ignoreErr _ _ ?_)
        | (refine Inv_decRec _ _ _ _ (fun _ => ?_) (fun _ => ?_) <;> beta_reduce))
      | (lift_lets; intro jp; (have hjp : InvAll readError jp := ?_); clear_value jp)
      | (lift_lets; intro x; clear_value x)
      | (refine InvAll_intro _ _ (fun _ => ?_); unfold_let jp; beta_reduce)
      | split)

theorem Inv_writeBetweenExpr_step (n : Nat) (ih : InvAt n) :
    ∀ a b, Inv readError (writeBetweenExpr (n + 1) a b) := by
  obtain ⟨ih_writeSelect, ih_writeLimit, ih_writeFrom, ih_writeFromTable, ih_writeJoins, ih_writeJoin, ih_writeExpr, ih_writeBetweenExpr, ih_writeInExpr, ih_writeGroupConcat, ih_writeGroupConcatSqlite, ih_writeFuncCallExpr, ih_writeConcatSqlite, ih_writeOrderBy, ih_writeOrderColumn, ih_writeSelectColumnExpr, ih_writeParenExpr, ih_writeUnaryExpr, ih_handleNullEquality, ih_writeBinaryExpr⟩ := ih
  intro a b
  rw [writeBetweenExpr]
  repeat' (first
    | with_reducible (first
      | exact Inv_WriteString _ _
      | exact Inv_WriteRune _ _
      | (refine Inv_bind _ _ _ ?_ (fun _ => ?_))
      | (refine Inv_Wbind _ _ _ ?_ (fun _ => ?_))
      | exact Inv_pure _ _
      | exact Inv_Wpure _ _
      | exact Inv_goPanic _ _
      | exact Inv_outOfFuel _
      | exact Inv_getW _
      | exact Inv_removeAt _
      | exact Inv_cursor _
      | exact Inv_current _ _ (by decide!)
      | exact Inv_setCurrentQuery _ _ (by decide!)
      | exact Inv_writeIdentifier _
      | exact Inv_validateSeparator _
      | exact Inv_writeTable_read _ _
      | exact Inv_fail _ _ (readError_of _ (by decide!))
      | exact Inv_fail _ _ (readError_of _ (Diverges_append _ _ (by decide!)))
      | exact Inv_fail _ _ (readError_of _ (Diverges_append _ _ (Diverges_append _ _ (by decide!))))
      | exact Inv_fail _ _ (readError_of _ (Diverges_append _ _ (Diverges_append _ _ (Diverges_append _ _ (by decide!)))))
      | exact Inv_fail _ _ (readError_of _ (Diverges_append _ _ (Diverges_append _ _ (Diverges_append _ _ (Diverges_append _ _ (by decide!))))))
      | exact Inv_fail _ _ (readError_of _ (Diverges_append _ _ (Diverges_append _ _ (Diverges_append _ _ (Diverges_append _ _ (Diverges_append _ _ (by decide!)))))))
      | exact Inv_writeUnescapedAlphanumeric _
      | exact Inv_writeQuotedAlphanumeric _
      | exact Inv_writeInConstant _
      | exact Inv_replaceInParameter _
      | exact Inv_handleEmptyIN _
      | exact Inv_writeColumnNameExpr _
      | exact Inv_writeAllColumnsExpr _
      | exact Inv_writeParameterExpr
      | exact Inv_writeConstantExpr _ _ _
      | exact Inv_writeUTCTimestampSqlite _
      | exact ih_writeSelect _
      | exact ih_writeLimit _
      | exact ih_writeFrom _
      | exact ih_writeFromTable _
      | exact ih_writeJoins _
      | exact ih_writeJoin _
      | exact ih_writeExpr _
      | exact ih_writeBetweenExpr _ _
      | exact ih_writeInExpr _
      | exact ih_writeGroupConcat _ _ _ _
      | exact ih_writeGroupConcatSqlite _
      | exact ih_writeFuncCallExpr _ _
      | exact ih_writeConcatSqlite _
      | exact ih_writeOrderBy _
      | exact ih_writeOrderColumn _
      | exact ih_writeSelectColumnExpr _ _
      | exact ih_writeParenExpr _
      | exact ih_writeUnaryExpr _ _
      | exact ih_handleNullEquality _ _ _
      | exact ih_writeBinaryExpr _ _ _
      | (refine InvAll_app _ _ _ ?_; assumption)
      | (refine Inv_forRange _ _ (fun _ _ => ?_) _ _)
      | (refine Inv_ignoreErr _ _ ?_)
      | (refine Inv_decRec _ _ _ _ (fun _ => ?_) (fun _ => ?_) <;> beta_reduce))
    | (lift_lets; intro jp; (have hjp : InvAll readError jp := ?_); clear_value jp)
    | (lift_lets; intro x; clear_value x)
    | (refine InvAll_intro _ _ (fun _ => ?_); unfold_let jp; beta_reduce)
    | split)

theorem Inv_writeInExpr_step (n : Nat) (ih : InvAt n) :
    ∀ vs, Inv readError (writeInExpr (n + 1) vs) := by
  obtain ⟨ih_writeSelect, ih_writeLimit, ih_writeFrom, ih_writeFromTable, ih_writeJoins, ih_writeJoin, ih_writeExpr, ih_writeBetweenExpr, ih_writeInExpr, ih_writeGroupConcat, ih_writeGroupConcatSqlite, ih_writeFuncCallExpr, ih_writeConcatSqlite, ih_writeOrderBy, ih_writeOrderColumn, ih_writeSelectColumnExpr, ih_writeParenExpr, ih_writeUnaryExpr, ih_handleNullEquality, ih_writeBinaryExpr⟩ := ih
  intro vs
  rw [writeInExpr]
  repeat' (first
    | with_reducible (first
      | exact Inv_WriteString _ _
      | exact Inv_WriteRune _ _
      | (refine Inv_bind _ _ _ ?_ (fun _ => ?_))
      | (refine Inv_Wbind _ _ _ ?_ (fun _ => ?_))
      | exact Inv_pure _ _
      | exact Inv_Wpure _ _
      | exact Inv_goPanic _ _
      | exact Inv_outOfFuel _
      | exact Inv_getW _
      | exact Inv_removeAt _
      | exact Inv_cursor _
      | exact Inv_current _ _ (by decide!)
      | exact Inv_setCurrentQuery _ _ (by decide!)
      | exact Inv_writeIdentifier _
      | exact Inv_validateSeparator _
      | exact Inv_writeTable_read _ _
      | exact Inv_fail _ _ (readError_of _ (by decide!))
      | exact Inv_fail _ _ (readError_of _ (Diverges_append _ _ (by decide!)))
      | exact Inv_fail _ _ (readError_of _ (Diverges_append _ _ (Diverges_append _ _ (by decide!))))
      | exact Inv_fail _ _ (readError_of _ (Diverges_append _ _ (Diverges_append _ _ (Diverges_append _ _ (by decide!)))))
      | exact Inv_fail _ _ (readError_of _ (Diverges_append _ _ (Diverges_append _ _ (Diverges_append _ _ (Diverges_append _ _ (by decide!))))))
      | exact Inv_fail _ _ (readError_of _ (Diverges_append _ _ (Diverges_append _ _ (Diverges_append _ _ (Diverges_append _ _ (Diverges_append _ _ (by decide!)))))))
      | exact Inv_writeUnescapedAlphanumeric _
      | exact Inv_writeQuotedAlphanumeric _
      | exact Inv_writeInConstant _
      | exact Inv_replaceInParameter _
      | exact Inv_handleEmptyIN _
      | exact Inv_writeColumnNameExpr _
      | exact Inv_writeAllColumnsExpr _
      | exact Inv_writeParameterExpr
      | exact Inv_writeConstantExpr _ _ _
      | exact Inv_writeUTCTimestampSqlite _
      | exact ih_writeSelect _
      | exact ih_writeLimit _
      | exact ih_writeFrom _
      | exact ih_writeFromTable _
      | exact ih_writeJoins _
      | exact ih_writeJoin _
      | exact ih_writeExpr _
      | exact ih_writeBetweenExpr _ _
      | exact ih_writeInExpr _
      | exact ih_writeGroupConcat _ _ _ _
      | exact ih_writeGroupConcatSqlite _
      | exact ih_writeFuncCallExpr _ _
      | exact ih_writeConcatSqlite _
      | exact ih_writeOrderBy _
      | exact ih_writeOrderColumn _
      | exact ih_writeSelectColumnExpr _ _
      | exact ih_writeParenExpr _
      | exact ih_writeUnaryExpr _ _
      | exact ih_handleNullEquality _ _ _
      | exact ih_writeBinaryExpr _ _ _
      | (refine InvAll_app _ _ _ ?_; assumption)
      | (refine Inv_forRange _ _ (fun _ _ => ?_) _ _)
      | (refine Inv_ignoreErr _ _ ?_)
      | (refine Inv_decRec _ _ _ _ (fun _ => ?_) (fun _ => ?_) <;> beta_reduce))
    | (lift_lets; intro jp; (have hjp : InvAll readError jp := ?_); clear_value jp)
    | (lift_lets; intro x; clear_value x)
    | (refine InvAll_intro _ _ (fun _ => ?_); unfold_let jp; beta_reduce)
    | split)

theorem Inv_writeGroupConcat_step (n : Nat) (ih : InvAt n) :
    ∀ d es os s, Inv readError (writeGroupConcat (n + 1) d es os s) := by
  obtain ⟨ih_writeSelect, ih_writeLimit, ih_writeFrom, ih_writeFromTable, ih_writeJoins, ih_writeJoin, ih_writeExpr, ih_writeBetweenExpr, ih_writeInExpr, ih_writeGroupConcat, ih_writeGroupConcatSqlite, ih_writeFuncCallExpr, ih_writeConcatSqlite, ih_writeOrderBy, ih_writeOrderColumn, ih_writeSelectColumnExpr, ih_writeParenExpr, ih_writeUnaryExpr, ih_handleNullEquality, ih_writeBinaryExpr⟩ := ih
  intro d es os s
  rw [writeGroupConcat]
  repeat' (first
    | with_reducible (first
      | exact Inv_WriteString _ _
      | exact Inv_WriteRune _ _
      | (refine Inv_bind _ _ _ ?_ (fun _ => ?_))
      | (refine Inv_Wbind _ _ _ ?_ (fun _ => ?_))
      | exact Inv_pure _ _
      | exact Inv_Wpure _ _
      | exact Inv_goPanic _ _
      | exact Inv_outOfFuel _
      | exact Inv_getW _
      | exact Inv_removeAt _
      | exact Inv_cursor _
      | exact Inv_current _ _ (by decide!)
      | exact Inv_setCurrentQuery _ _ (by decide!)
      | exact Inv_writeIdentifier _
      | exact Inv_validateSeparator _
      | exact Inv_writeTable_read _ _
      | exact Inv_fail _ _ (readError_of _ (by decide!))
      | exact Inv_fail _ _ (readError_of _ (Diverges_append _ _ (by decide!)))
      | exact Inv_fail _ _ (readError_of _ (Diverges_append _ _ (Diverges_append _ _ (by decide!))))
      | exact Inv_fail _ _ (readError_of _ (Diverges_append _ _ (Diverges_append _ _ (Diverges_append _ _ (by decide!)))))
      | exact Inv_fail _ _ (readError_of _ (Diverges_append _ _ (Diverges_append _ _ (Diverges_append _ _ (Diverges_append _ _ (by decide!))))))
      | exact Inv_fail _ _ (readError_of _ (Diverges_append _ _ (Diverges_append _ _ (Diverges_append _ _ (Diverges_append _ _ (Diverges_append _ _ (by decide!)))))))
      | exact Inv_writeUnescapedAlphanumeric _
      | exact Inv_writeQuotedAlphanumeric _
      | exact Inv_writeInConstant _
      | exact Inv_replaceInParameter _
      | exact Inv_handleEmptyIN _
      | exact Inv_writeColumnNameExpr _
      | exact Inv_writeAllColumnsExpr _
      | exact Inv_writeParameterExpr
      | exact Inv_writeConstantExpr _ _ _
      | exact Inv_writeUTCTimestampSqlite _
      | exact ih_writeSelect _
      | exact ih_writeLimit _
      | exact ih_writeFrom _
      | exact ih_writeFromTable _
      | exact ih_writeJoins _
      | exact ih_writeJoin _
      | exact ih_writeExpr _
      | exact ih_writeBetweenExpr _ _
      | exact ih_writeInExpr _
      | exact ih_writeGroupConcat _ _ _ _
      | exact ih_writeGroupConcatSqlite _
      | exact ih_writeFuncCallExpr _ _
      | exact ih_writeConcatSqlite _
      | exact ih_writeOrderBy _
      | exact ih_writeOrderColumn _
      | exact ih_writeSelectColumnExpr _ _
      | exact ih_writeParenExpr _
      | exact ih_writeUnaryExpr _ _
      | exact ih_handleNullEquality _ _ _
      | exact ih_writeBinaryExpr _ _ _
      | (refine InvAll_app _ _ _ ?_; assumption)
      | (refine Inv_forRange _ _ (fun _ _ => ?_) _ _)
      | (refine Inv_ignoreErr _ _ ?_)
      | (refine Inv_decRec _ _ _ _ (fun _ => ?_) (fun _ => ?_) <;> beta_reduce))
    | (lift_lets; intro jp; (have hjp : InvAll readError jp := ?_); clear_value jp)
    | (lift_lets; intro x; clear_value x)
    | (refine InvAll_intro _ _ (fun _ => ?_); unfold_let jp; beta_reduce)
    | split)

theorem Inv_writeGroupConcatSqlite_step (n : Nat) (ih : InvAt n) :
    ∀ es, Inv readError (writeGroupConcatSqlite (n + 1) es) := by
  obtain ⟨ih_writeSelect, ih_writeLimit, ih_writeFrom, ih_writeFromTable, ih_writeJoins, ih_writeJoin, ih_writeExpr, ih_writeBetweenExpr, ih_writeInExpr, ih_writeGroupConcat, ih_writeGroupConcatSqlite, ih_writeFuncCallExpr, ih_writeConcatSqlite, ih_writeOrderBy, ih_writeOrderColumn, ih_writeSelectColumnExpr, ih_writeParenExpr, ih_writeUnaryExpr, ih_handleNullEquality, ih_writeBinaryExpr⟩ := ih
  intro es
  rw [writeGroupConcatSqlite]
  repeat' (first
    | with_reducible (first
      | exact Inv_WriteString _ _
      | exact Inv_WriteRune _ _
      | (refine Inv_bind _ _ _ ?_ (fun _ => ?_))
      | (refine Inv_Wbind _ _ _ ?_ (fun _ => ?_))
      | exact Inv_pure _ _
      | exact Inv_Wpure _ _
      | exact Inv_goPanic _ _
      | exact Inv_outOfFuel _
      | exact Inv_getW _
      | exact Inv_removeAt _
      | exact Inv_cursor _
      | exact Inv_current _ _ (by decide!)
      | exact Inv_setCurrentQuery _ _ (by decide!)
      | exact Inv_writeIdentifier _
      | exact Inv_validateSeparator _
      | exact Inv_writeTable_read _ _
      | exact Inv_fail _ _ (readError_of _ (by decide!))
      | exact Inv_fail _ _ (readError_of _ (Diverges_append _ _ (by decide!)))
      | exact Inv_fail _ _ (readError_of _ (Diverges_append _ _ (Diverges_append _ _ (by decide!))))
      | exact Inv_fail _ _ (readError_of _ (Diverges_append _ _ (Diverges_append _ _ (Diverges_append _ _ (by decide!)))))
      | exact Inv_fail _ _ (readError_of _ (Diverges_append _ _ (Diverges_append _ _ (Diverges_append _ _ (Diverges_append _ _ (by decide!))))))
      | exact Inv_fail _ _ (readError_of _ (Diverges_append _ _ (Diverges_append _ _ (Diverges_append _ _ (Diverges_append _ _ (Diverges_append _ _ (by decide!)))))))
      | exact Inv_writeUnescapedAlphanumeric _
      | exact Inv_writeQuotedAlphanumeric _
      | exact Inv_writeInConstant _
      | exact Inv_replaceInParameter _
      | exact Inv_handleEmptyIN _
      | exact Inv_writeColumnNameExpr _
      | exact Inv_writeAllColumnsExpr _
      | exact Inv_writeParameterExpr
      | exact Inv_writeConstantExpr _ _ _
      | exact Inv_writeUTCTimestampSqlite _
      | exact ih_writeSelect _
      | exact ih_writeLimit _
      | exact ih_writeFrom _
      | exact ih_writeFromTable _
      | exact ih_writeJoins _
      | exact ih_writeJoin _
      | exact ih_writeExpr _
      | exact ih_writeBetweenExpr _ _
      | exact ih_writeInExpr _
      | exact ih_writeGroupConcat _ _ _ _
      | exact ih_writeGroupConcatSqlite _
      | exact ih_writeFuncCallExpr _ _
      | exact ih_writeConcatSqlite _
      | exact ih_writeOrderBy _
      | exact ih_writeOrderColumn _
      | exact ih_writeSelectColumnExpr _ _
      | exact ih_writeParenExpr _
      | exact ih_writeUnaryExpr _ _
      | exact ih_handleNullEquality _ _ _
      | exact ih_writeBinaryExpr _ _ _
      | (refine InvAll_app _ _ _ ?_; assumption)
      | (refine Inv_forRange _ _ (fun _ _ => ?_) _ _)
      | (refine Inv_ignoreErr _ _ ?_)
      | (refine Inv_decRec _ _ _ _ (fun _ => ?_) (fun _ => ?_) <;> beta_reduce))
    | (lift_lets; intro jp; (have hjp : InvAll readError jp := ?_); clear_value jp)
    | (lift_lets; intro x; clear_value x)
    | (refine InvAll_intro _ _ (fun _ => ?_); unfold_let jp; beta_reduce)
    | split)

theorem Inv_writeFuncCallExpr_step (n : Nat) (ih : InvAt n) :
    ∀ name args, Inv readError (writeFuncCallExpr (n + 1) name args) := by
  obtain ⟨ih_writeSelect, ih_writeLimit, ih_writeFrom, ih_writeFromTable, ih_writeJoins, ih_writeJoin, ih_writeExpr, ih_writeBetweenExpr, ih_writeInExpr, ih_writeGroupConcat, ih_writeGroupConcatSqlite, ih_writeFuncCallExpr, ih_writeConcatSqlite, ih_writeOrderBy, ih_writeOrderColumn, ih_writeSelectColumnExpr, ih_writeParenExpr, ih_writeUnaryExpr, ih_handleNullEquality, ih_writeBinaryExpr⟩ := ih
  intro name args
  rw [writeFuncCallExpr]
  repeat' (first
    | with_reducible (first
      | exact Inv_WriteString _ _
      | exact Inv_WriteRune _ _
      | (refine Inv_bind _ _ _ ?_ (fun _ => ?_))
      | (refine Inv_Wbind _ _ _ ?_ (fun _ => ?_))
      | exact Inv_pure _ _
      | exact Inv_Wpure _ _
      | exact Inv_goPanic _ _
      | exact Inv_outOfFuel _
      | exact Inv_getW _
      | exact Inv_removeAt _
      | exact Inv_cursor _
      | exact Inv_current _ _ (by decide!)
      | exact Inv_setCurrentQuery _ _ (by decide!)
      | exact Inv_writeIdentifier _
      | exact Inv_validateSeparator _
      | exact Inv_writeTable_read _ _
      | exact Inv_fail _ _ (readError_of _ (by decide!))
      | exact Inv_fail _ _ (readError_of _ (Diverges_append _ _ (by decide!)))
      | exact Inv_fail _ _ (readError_of _ (Diverges_append _ _ (Diverges_append _ _ (by decide!))))
      | exact Inv_fail _ _ (readError_of _ (Diverges_append _ _ (Diverges_append _ _ (Diverges_append _ _ (by decide!)))))
      | exact Inv_fail _ _ (readError_of _ (Diverges_append _ _ (Diverges_append _ _ (Diverges_append _ _ (Diverges_append _ _ (by decide!))))))
      | exact Inv_fail _ _ (readError_of _ (Diverges_append _ _ (Diverges_append _ _ (Diverges_append _ _ (Diverges_append _ _ (Diverges_append _ _ (by decide!)))))))
      | exact Inv_writeUnescapedAlphanumeric _
      | exact Inv_writeQuotedAlphanumeric _
      | exact Inv_writeInConstant _
      | exact Inv_replaceInParameter _
      | exact Inv_handleEmptyIN _
      | exact Inv_writeColumnNameExpr _
      | exact Inv_writeAllColumnsExpr _
      | exact Inv_writeParameterExpr
      | exact Inv_writeConstantExpr _ _ _
      | exact Inv_writeUTCTimestampSqlite _
      | exact ih_writeSelect _
      | exact ih_writeLimit _
      | exact ih_writeFrom _
      | exact ih_writeFromTable _
      | exact ih_writeJoins _
      | exact ih_writeJoin _
      | exact ih_writeExpr _
      | exact ih_writeBetweenExpr _ _
      | exact ih_writeInExpr _
      | exact ih_writeGroupConcat _ _ _ _
      | exact ih_writeGroupConcatSqlite _
      | exact ih_writeFuncCallExpr _ _
      | exact ih_writeConcatSqlite _
      | exact ih_writeOrderBy _
      | exact ih_writeOrderColumn _
      | exact ih_writeSelectColumnExpr _ _
      | exact ih_writeParenExpr _
      | exact ih_writeUnaryExpr _ _
      | exact ih_handleNullEquality _ _ _
      | exact ih_writeBinaryExpr _ _ _
      | (refine InvAll_app _ _ _ ?_; assumption)
      | (refine Inv_forRange _ _ (fun _ _ => ?_) _ _)
      | (refine Inv_ignoreErr _ _ ?_)
      | (refine Inv_decRec _ _ _ _ (fun _ => ?_) (fun _ => ?_) <;> beta_reduce))
    | (lift_lets; intro jp; (have hjp : InvAll readError jp := ?_); clear_value jp)
    | (lift_lets; intro x; clear_value x)
    | (refine InvAll_intro _ _ (fun _ => ?_); unfold_let jp; beta_reduce)
    | split)

theorem Inv_writeConcatSqlite_step (n : Nat) (ih : InvAt n) :
    ∀ args, Inv readError (writeConcatSqlite (n + 1) args) := by
  obtain ⟨ih_writeSelect, ih_writeLimit, ih_writeFrom, ih_writeFromTable, ih_writeJoins, ih_writeJoin, ih_writeExpr, ih_writeBetweenExpr, ih_writeInExpr, ih_writeGroupConcat, ih_writeGroupConcatSqlite, ih_writeFuncCallExpr, ih_writeConcatSqlite, ih_writeOrderBy, ih_writeOrderColumn, ih_writeSelectColumnExpr, ih_writeParenExpr, ih_writeUnaryExpr, ih_handleNullEquality, ih_writeBinaryExpr⟩ := ih
  intro args
  rw [writeConcatSqlite]
  repeat' (first
    | with_reducible (first
      | exact Inv_WriteString _ _
      | exact Inv_WriteRune _ _
      | (refine Inv_bind _ _ _ ?_ (fun _ => ?_))
      | (refine Inv_Wbind _ _ _ ?_ (fun _ => ?_))
      | exact Inv_pure _ _
      | exact Inv_Wpure _ _
      | exact Inv_goPanic _ _
      | exact Inv_outOfFuel _
      | exact Inv_getW _
      | exact Inv_removeAt _
      | exact Inv_cursor _
      | exact Inv_current _ _ (by decide!)
      | exact Inv_setCurrentQuery _ _ (by decide!)
      | exact Inv_writeIdentifier _
      | exact Inv_validateSeparator _
      | exact Inv_writeTable_read _ _
      | exact Inv_fail _ _ (readError_of _ (by decide!))
      | exact Inv_fail _ _ (readError_of _ (Diverges_append _ _ (by decide!)))
      | exact Inv_fail _ _ (readError_of _ (Diverges_append _ _ (Diverges_append _ _ (by decide!))))
      | exact Inv_fail _ _ (readError_of _ (Diverges_append _ _ (Diverges_append _ _ (Diverges_append _ _ (by decide!)))))
      | exact Inv_fail _ _ (readError_of _ (Diverges_append _ _ (Diverges_append _ _ (Diverges_append _ _ (Diverges_append _ _ (by decide!))))))
      | exact Inv_fail _ _ (readError_of _ (Diverges_append _ _ (Diverges_append _ _ (Diverges_append _ _ (Diverges_append _ _ (Diverges_append _ _ (by decide!)))))))
      | exact Inv_writeUnescapedAlphanumeric _
      | exact Inv_writeQuotedAlphanumeric _
      | exact Inv_writeInConstant _
      | exact Inv_replaceInParameter _
      | exact Inv_handleEmptyIN _
      | exact Inv_writeColumnNameExpr _
      | exact Inv_writeAllColumnsExpr _
      | exact Inv_writeParameterExpr
      | exact Inv_writeConstantExpr _ _ _
      | exact Inv_writeUTCTimestampSqlite _
      | exact ih_writeSelect _
      | exact ih_writeLimit _
      | exact ih_writeFrom _
      | exact ih_writeFromTable _
      | exact ih_writeJoins _
      | exact ih_writeJoin _
      | exact ih_writeExpr _
      | exact ih_writeBetweenExpr _ _
      | exact ih_writeInExpr _
      | exact ih_writeGroupConcat _ _ _ _
      | exact ih_writeGroupConcatSqlite _
      | exact ih_writeFuncCallExpr _ _
      | exact ih_writeConcatSqlite _
      | exact ih_writeOrderBy _
      | exact ih_writeOrderColumn _
      | exact ih_writeSelectColumnExpr _ _
      | exact ih_writeParenExpr _
      | exact ih_writeUnaryExpr _ _
      | exact ih_handleNullEquality _ _ _
      | exact ih_writeBinaryExpr _ _ _
      | (refine InvAll_app _ _ _ ?_; assumption)
      | (refine Inv_forRange _ _ (fun _ _ => ?_) _ _)
      | (refine Inv_ignoreErr _ _ ?_)
      | (refine Inv_decRec _ _ _ _ (fun _ => ?_) (fun _ => ?_) <;> beta_reduce))
    | (lift_lets; intro jp; (have hjp : InvAll readError jp := ?_); clear_value jp)
    | (lift_lets; intro x; clear_value x)
    | (refine InvAll_intro _ _ (fun _ => ?_); unfold_let jp; beta_reduce)
    | split)

theorem Inv_writeOrderBy_step (n : Nat) (ih : InvAt n) :
    ∀ t, Inv readError (writeOrderBy (n + 1) t) := by
  obtain ⟨ih_writeSelect, ih_writeLimit, ih_writeFrom, ih_writeFromTable, ih_writeJoins, ih_writeJoin, ih_writeExpr, ih_writeBetweenExpr, ih_writeInExpr, ih_writeGroupConcat, ih_writeGroupConcatSqlite, ih_writeFuncCallExpr, ih_writeConcatSqlite, ih_writeOrderBy, ih_writeOrderColumn, ih_writeSelectColumnExpr, ih_writeParenExpr, ih_writeUnaryExpr, ih_handleNullEquality, ih_writeBinaryExpr⟩ := ih
  intro t
  rw [writeOrderBy]
  repeat' (first
    | with_reducible (first
      | exact Inv_WriteString _ _
      | exact Inv_WriteRune _ _
      | (refine Inv_bind _ _ _ ?_ (fun _ => ?_))
      | (refine Inv_Wbind _ _ _ ?_ (fun _ => ?_))
      | exact Inv_pure _ _
      | exact Inv_Wpure _ _
      | exact Inv_goPanic _ _
      | exact Inv_outOfFuel _
      | exact Inv_getW _
      | exact Inv_removeAt _
      | exact Inv_cursor _
      | exact Inv_current _ _ (by decide!)
      | exact Inv_setCurrentQuery _ _ (by decide!)
      | exact Inv_writeIdentifier _
      | exact Inv_validateSeparator _
      | exact Inv_writeTable_read _ _
      | exact Inv_fail _ _ (readError_of _ (by decide!))
      | exact Inv_fail _ _ (readError_of _ (Diverges_append _ _ (by decide!)))
      | exact Inv_fail _ _ (readError_of _ (Diverges_append _ _ (Diverges_append _ _ (by decide!))))
      | exact Inv_fail _ _ (readError_of _ (Diverges_append _ _ (Diverges_append _ _ (Diverges_append _ _ (by decide!)))))
      | exact Inv_fail _ _ (readError_of _ (Diverges_append _ _ (Diverges_append _ _ (Diverges_append _ _ (Diverges_append _ _ (by decide!))))))
      | exact Inv_fail _ _ (readError_of _ (Diverges_append _ _ (Diverges_append _ _ (Diverges_append _ _ (Diverges_append _ _ (Diverges_append _ _ (by decide!)))))))
      | exact Inv_writeUnescapedAlphanumeric _
      | exact Inv_writeQuotedAlphanumeric _
      | exact Inv_writeInConstant _
      | exact Inv_replaceInParameter _
      | exact Inv_handleEmptyIN _
      | exact Inv_writeColumnNameExpr _
      | exact Inv_writeAllColumnsExpr _
      | exact Inv_writeParameterExpr
      | exact Inv_writeConstantExpr _ _ _
      | exact Inv_writeUTCTimestampSqlite _
      | exact ih_writeSelect _
      | exact ih_writeLimit _
      | exact ih_writeFrom _
      | exact ih_writeFromTable _
      | exact ih_writeJoins _
      | exact ih_writeJoin _
      | exact ih_writeExpr _
      | exact ih_writeBetweenExpr _ _
      | exact ih_writeInExpr _
      | exact ih_writeGroupConcat _ _ _ _
      | exact ih_writeGroupConcatSqlite _
      | exact ih_writeFuncCallExpr _ _
      | exact ih_writeConcatSqlite _
      | exact ih_writeOrderBy _
      | exact ih_writeOrderColumn _
      | exact ih_writeSelectColumnExpr _ _
      | exact ih_writeParenExpr _
      | exact ih_writeUnaryExpr _ _
      | exact ih_handleNullEquality _ _ _
      | exact ih_writeBinaryExpr _ _ _
      | (refine InvAll_app _ _ _ ?_; assumption)
      | (refine Inv_forRange _ _ (fun _ _ => ?_) _ _)
      | (refine Inv_ignoreErr _ _ ?_)
      | (refine Inv_decRec _ _ _ _ (fun _ => ?_) (fun _ => ?_) <;> beta_reduce))
    | (lift_lets; intro jp; (have hjp : InvAll readError jp := ?_); clear_value jp)
    | (lift_lets; intro x; clear_value x)
    | (refine InvAll_intro _ _ (fun _ => ?_); unfold_let jp; beta_reduce)
    | split)

theorem Inv_writeOrderColumn_step (n : Nat) (ih : InvAt n) :
    ∀ c, Inv readError (writeOrderColumn (n + 1) c) := by
  obtain ⟨ih_writeSelect, ih_writeLimit, ih_writeFrom, ih_writeFromTable, ih_writeJoins, ih_writeJoin, ih_writeExpr, ih_writeBetweenExpr, ih_writeInExpr, ih_writeGroupConcat, ih_writeGroupConcatSqlite, ih_writeFuncCallExpr, ih_writeConcatSqlite, ih_writeOrderBy, ih_writeOrderColumn, ih_writeSelectColumnExpr, ih_writeParenExpr, ih_writeUnaryExpr, ih_handleNullEquality, ih_writeBinaryExpr⟩ := ih
  intro c
  unfold writeOrderColumn
  split
  all_goals (try (cases ‹n + 1 = _›))
  all_goals
    repeat' (first
      | with_reducible (first
        | exact Inv_WriteString _ _
        | exact Inv_WriteRune _ _
        | (refine Inv_bind _ _ _ ?_ (fun _ => ?_))
        | (refine Inv_Wbind _ _ _ ?_ (fun _ => ?_))
        | exact Inv_pure _ _
        | exact Inv_Wpure _ _
        | exact Inv_goPanic _ _
        | exact Inv_outOfFuel _
        | exact Inv_getW _
        | exact Inv_removeAt _
        | exact Inv_cursor _
        | exact Inv_current _ _ (by decide!)
        | exact Inv_setCurrentQuery _ _ (by decide!)
        | exact Inv_writeIdentifier _
        | exact Inv_validateSeparator _
        | exact Inv_writeTable_read _ _
        | exact Inv_fail _ _ (readError_of _ (by decide!))
        | exact Inv_fail _ _ (readError_of _ (Diverges_append _ _ (by decide!)))
        | exact Inv_fail _ _ (readError_of _ (Diverges_append _ _ (Diverges_append _ _ (by decide!))))
        | exact Inv_fail _ _ (readError_of _ (Diverges_append _ _ (Diverges_append _ _ (Diverges_append _ _ (by decide!)))))
        | exact Inv_fail _ _ (readError_of _ (Diverges_append _ _ (Diverges_append _ _ (Diverges_append _ _ (Diverges_append _ _ (by decide!))))))
        | exact Inv_fail _ _ (readError_of _ (Diverges_append _ _ (Diverges_append _ _ (Diverges_append _ _ (Diverges_append _ _ (Diverges_append _ _ (by decide!)))))))
        | exact Inv_writeUnescapedAlphanumeric _
        | exact Inv_writeQuotedAlphanumeric _
        | exact Inv_writeInConstant _
        | exact Inv_replaceInParameter _
        | exact Inv_handleEmptyIN _
        | exact Inv_writeColumnNameExpr _
        | exact Inv_writeAllColumnsExpr _
        | exact Inv_writeParameterExpr
        | exact Inv_writeConstantExpr _ _ _
        | exact Inv_writeUTCTimestampSqlite _
        | exact ih_writeSelect _
        | exact ih_writeLimit _
        | exact ih_writeFrom _
        | exact ih_writeFromTable _
        | exact ih_writeJoins _
        | exact ih_writeJoin _
        | exact ih_writeExpr _
        | exact ih_writeBetweenExpr _ _
        | exact ih_writeInExpr _
        | exact ih_writeGroupConcat _ _ _ _
        | exact ih_writeGroupConcatSqlite _
        | exact ih_writeFuncCallExpr _ _
        | exact ih_writeConcatSqlite _
        | exact ih_writeOrderBy _
        | exact ih_writeOrderColumn _
        | exact ih_writeSelectColumnExpr _ _
        | exact ih_writeParenExpr _
        | exact ih_writeUnaryExpr _ _
        | exact ih_handleNullEquality _ _ _
        | exact ih_writeBinaryExpr _ _ _
        | (refine InvAll_app _ _ _ ?_; assumption)
        | (refine Inv_forRange _ _ (fun _ _ => ?_) _ _)
        | (refine Inv_ignoreErr _ _ ?_)
        | (refine Inv_decRec _ _ _ _ (fun _ => ?_) (fun _ => ?_) <;> beta_reduce))
      | (lift_lets; intro jp; (have hjp : InvAll readError jp := ?_); clear_value jp)
      | (lift_lets; intro x; clear_value x)
      | (refine InvAll_intro _ _ (fun _ => ?_); unfold_let jp; beta_reduce)
      | split)

theorem Inv_writeSelectColumnExpr_step (n : Nat) (ih : InvAt n) :
    ∀ e a, Inv readError (writeSelectColumnExpr (n + 1) e a) := by
  obtain ⟨ih_writeSelect, ih_writeLimit, ih_writeFrom, ih_writeFromTable, ih_writeJoins, ih_writeJoin, ih_writeExpr, ih_writeBetweenExpr, ih_writeInExpr, ih_writeGroupConcat, ih_writeGroupConcatSqlite, ih_writeFuncCallExpr, ih_writeConcatSqlite, ih_writeOrderBy, ih_writeOrderColumn, ih_writeSelectColumnExpr, ih_writeParenExpr, ih_writeUnaryExpr, ih_handleNullEquality, ih_writeBinaryExpr⟩ := ih
  intro e a
  rw [writeSelectColumnExpr]
  repeat' (first
    | with_reducible (first
      | exact Inv_WriteString _ _
      | exact Inv_WriteRune _ _
      | (refine Inv_bind _ _ _ ?_ (fun _ => ?_))
      | (refine Inv_Wbind _ _ _ ?_ (fun _ => ?_))
      | exact Inv_pure _ _
      | exact Inv_Wpure _ _
      | exact Inv_goPanic _ _
      | exact Inv_outOfFuel _
      | exact Inv_getW _
      | exact Inv_removeAt _
      | exact Inv_cursor _
      | exact Inv_current _ _ (by decide!)
      | exact Inv_setCurrentQuery _ _ (by decide!)
      | exact Inv_writeIdentifier _
      | exact Inv_validateSeparator _
      | exact Inv_writeTable_read _ _
      | exact Inv_fail _ _ (readError_of _ (by decide!))
      | exact Inv_fail _ _ (readError_of _ (Diverges_append _ _ (by decide!)))
      | exact Inv_fail _ _ (readError_of _ (Diverges_append _ _ (Diverges_append _ _ (by decide!))))
      | exact Inv_fail _ _ (readError_of _ (Diverges_append _ _ (Diverges_append _ _ (Diverges_append _ _ (by decide!)))))
      | exact Inv_fail _ _ (readError_of _ (Diverges_append _ _ (Diverges_append _ _ (Diverges_append _ _ (Diverges_append _ _ (by decide!))))))
      | exact Inv_fail _ _ (readError_of _ (Diverges_append _ _ (Diverges_append _ _ (Diverges_append _ _ (Diverges_append _ _ (Diverges_append _ _ (by decide!)))))))
      | exact Inv_writeUnescapedAlphanumeric _
      | exact Inv_writeQuotedAlphanumeric _
      | exact Inv_writeInConstant _
      | exact Inv_replaceInParameter _
      | exact Inv_handleEmptyIN _
      | exact Inv_writeColumnNameExpr _
      | exact Inv_writeAllColumnsExpr _
      | exact Inv_writeParameterExpr
      | exact Inv_writeConstantExpr _ _ _
      | exact Inv_writeUTCTimestampSqlite _
      | exact ih_writeSelect _
      | exact ih_writeLimit _
      | exact ih_writeFrom _
      | exact ih_writeFromTable _
      | exact ih_writeJoins _
      | exact ih_writeJoin _
      | exact ih_writeExpr _
      | exact ih_writeBetweenExpr _ _
      | exact ih_writeInExpr _
      | exact ih_writeGroupConcat _ _ _ _
      | exact ih_writeGroupConcatSqlite _
      | exact ih_writeFuncCallExpr _ _
      | exact ih_writeConcatSqlite _
      | exact ih_writeOrderBy _
      | exact ih_writeOrderColumn _
      | exact ih_writeSelectColumnExpr _ _
      | exact ih_writeParenExpr _
      | exact ih_writeUnaryExpr _ _
      | exact ih_handleNullEquality _ _ _
      | exact ih_writeBinaryExpr _ _ _
      | (refine InvAll_app _ _ _ ?_; assumption)
      | (refine Inv_forRange _ _ (fun _ _ => ?_) _ _)
      | (refine Inv_ignoreErr _ _ ?_)
      | (refine Inv_decRec _ _ _ _ (fun _ => ?_) (fun _ => ?_) <;> beta_reduce))
    | (lift_lets; intro jp; (have hjp : InvAll readError jp := ?_); clear_value jp)
    | (lift_lets; intro x; clear_value x)
    | (refine InvAll_intro _ _ (fun _ => ?_); unfold_let jp; beta_reduce)
    | split)

theorem Inv_writeParenExpr_step (n : Nat) (ih : InvAt n) :
    ∀ x, Inv readError (writeParenExpr (n + 1) x) := by
  obtain ⟨ih_writeSelect, ih_writeLimit, ih_writeFrom, ih_writeFromTable, ih_writeJoins, ih_writeJoin, ih_writeExpr, ih_writeBetweenExpr, ih_writeInExpr, ih_writeGroupConcat, ih_writeGroupConcatSqlite, ih_writeFuncCallExpr, ih_writeConcatSqlite, ih_writeOrderBy, ih_writeOrderColumn, ih_writeSelectColumnExpr, ih_writeParenExpr, ih_writeUnaryExpr, ih_handleNullEquality, ih_writeBinaryExpr⟩ := ih
  intro x
  rw [writeParenExpr]
  repeat' (first
    | with_reducible (first
      | exact Inv_WriteString _ _
      | exact Inv_WriteRune _ _
      | (refine Inv_bind _ _ _ ?_ (fun _ => ?_))
      | (refine Inv_Wbind _ _ _ ?_ (fun _ => ?_))
      | exact Inv_pure _ _
      | exact Inv_Wpure _ _
      | exact Inv_goPanic _ _
      | exact Inv_outOfFuel _
      | exact Inv_getW _
      | exact Inv_removeAt _
      | exact Inv_cursor _
      | exact Inv_current _ _ (by decide!)
      | exact Inv_setCurrentQuery _ _ (by decide!)
      | exact Inv_writeIdentifier _
      | exact Inv_validateSeparator _
      | exact Inv_writeTable_read _ _
      | exact Inv_fail _ _ (readError_of _ (by decide!))
      | exact Inv_fail _ _ (readError_of _ (Diverges_append _ _ (by decide!)))
      | exact Inv_fail _ _ (readError_of _ (Diverges_append _ _ (Diverges_append _ _ (by decide!))))
      | exact Inv_fail _ _ (readError_of _ (Diverges_append _ _ (Diverges_append _ _ (Diverges_append _ _ (by decide!)))))
      | exact Inv_fail _ _ (readError_of _ (Diverges_append _ _ (Diverges_append _ _ (Diverges_append _ _ (Diverges_append _ _ (by decide!))))))
      | exact Inv_fail _ _ (readError_of _ (Diverges_append _ _ (Diverges_append _ _ (Diverges_append _ _ (Diverges_append _ _ (Diverges_append _ _ (by decide!)))))))
      | exact Inv_writeUnescapedAlphanumeric _
      | exact Inv_writeQuotedAlphanumeric _
      | exact Inv_writeInConstant _
      | exact Inv_replaceInParameter _
      | exact Inv_handleEmptyIN _
      | exact Inv_writeColumnNameExpr _
      | exact Inv_writeAllColumnsExpr _
      | exact Inv_writeParameterExpr
      | exact Inv_writeConstantExpr _ _ _
      | exact Inv_writeUTCTimestampSqlite _
      | exact ih_writeSelect _
      | exact ih_writeLimit _
      | exact ih_writeFrom _
      | exact ih_writeFromTable _
      | exact ih_writeJoins _
      | exact ih_writeJoin _
      | exact ih_writeExpr _
      | exact ih_writeBetweenExpr _ _
      | exact ih_writeInExpr _
      | exact ih_writeGroupConcat _ _ _ _
      | exact ih_writeGroupConcatSqlite _
      | exact ih_writeFuncCallExpr _ _
      | exact ih_writeConcatSqlite _
      | exact ih_writeOrderBy _
      | exact ih_writeOrderColumn _
      | exact ih_writeSelectColumnExpr _ _
      | exact ih_writeParenExpr _
      | exact ih_writeUnaryExpr _ _
      | exact ih_handleNullEquality _ _ _
      | exact ih_writeBinaryExpr _ _ _
      | (refine InvAll_app _ _ _ ?_; assumption)
      | (refine Inv_forRange _ _ (fun _ _ => ?_) _ _)
      | (refine Inv_ignoreErr _ _ ?_)
      | (refine Inv_decRec _ _ _ _ (fun _ => ?_) (fun _ => ?_) <;> beta_reduce))
    | (lift_lets; intro jp; (have hjp : InvAll readError jp := ?_); clear_value jp)
    | (lift_lets; intro x; clear_value x)
    | (refine InvAll_intro _ _ (fun _ => ?_); unfold_let jp; beta_reduce)
    | split)

theorem Inv_writeUnaryExpr_step (n : Nat) (ih : InvAt n) :
    ∀ op e, Inv readError (writeUnaryExpr (n + 1) op e) := by
  obtain ⟨ih_writeSelect, ih_writeLimit, ih_writeFrom, ih_writeFromTable, ih_writeJoins, ih_writeJoin, ih_writeExpr, ih_writeBetweenExpr, ih_writeInExpr, ih_writeGroupConcat, ih_writeGroupConcatSqlite, ih_writeFuncCallExpr, ih_writeConcatSqlite, ih_writeOrderBy, ih_writeOrderColumn, ih_writeSelectColumnExpr, ih_writeParenExpr, ih_writeUnaryExpr, ih_handleNullEquality, ih_writeBinaryExpr⟩ := ih
  intro op e
  unfold writeUnaryExpr
  split
  all_goals (try (cases ‹n + 1 = _›))
  all_goals
    repeat' (first
      | with_reducible (first
        | exact Inv_WriteString _ _
        | exact Inv_WriteRune _ _
        | (refine Inv_bind _ _ _ ?_ (fun _ => ?_))
        | (refine Inv_Wbind _ _ _ ?_ (fun _ => ?_))
        | exact Inv_pure _ _
        | exact Inv_Wpure _ _
        | exact Inv_goPanic _ _
        | exact Inv_outOfFuel _
        | exact Inv_getW _
        | exact Inv_removeAt _
        | exact Inv_cursor _
        | exact Inv_current _ _ (by decide!)
        | exact Inv_setCurrentQuery _ _ (by decide!)
        | exact Inv_writeIdentifier _
        | exact Inv_validateSeparator _
        | exact Inv_writeTable_read _ _
        | exact Inv_fail _ _ (readError_of _ (by decide!))
        | exact Inv_fail _ _ (readError_of _ (Diverges_append _ _ (by decide!)))
        | exact Inv_fail _ _ (readError_of _ (Diverges_append _ _ (Diverges_append _ _ (by decide!))))
        | exact Inv_fail _ _ (readError_of _ (Diverges_append _ _ (Diverges_append _ _ (Diverges_append _ _ (by decide!)))))
        | exact Inv_fail _ _ (readError_of _ (Diverges_append _ _ (Diverges_append _ _ (Diverges_append _ _ (Diverges_append _ _ (by decide!))))))
        | exact Inv_fail _ _ (readError_of _ (Diverges_append _ _ (Diverges_append _ _ (Diverges_append _ _ (Diverges_append _ _ (Diverges_append _ _ (by decide!)))))))
        | exact Inv_writeUnescapedAlphanumeric _
        | exact Inv_writeQuotedAlphanumeric _
        | exact Inv_writeInConstant _
        | exact Inv_replaceInParameter _
        | exact Inv_handleEmptyIN _
        | exact Inv_writeColumnNameExpr _
        | exact Inv_writeAllColumnsExpr _
        | exact Inv_writeParameterExpr
        | exact Inv_writeConstantExpr _ _ _
        | exact Inv_writeUTCTimestampSqlite _
        | exact ih_writeSelect _
        | exact ih_writeLimit _
        | exact ih_writeFrom _
        | exact ih_writeFromTable _
        | exact ih_writeJoins _
        | exact ih_writeJoin _
        | exact ih_writeExpr _
        | exact ih_writeBetweenExpr _ _
        | exact ih_writeInExpr _
        | exact ih_writeGroupConcat _ _ _ _
        | exact ih_writeGroupConcatSqlite _
        | exact ih_writeFuncCallExpr _ _
        | exact ih_writeConcatSqlite _
        | exact ih_writeOrderBy _
        | exact ih_writeOrderColumn _
        | exact ih_writeSelectColumnExpr _ _
        | exact ih_writeParenExpr _
        | exact ih_writeUnaryExpr _ _
        | exact ih_handleNullEquality _ _ _
        | exact ih_writeBinaryExpr _ _ _
        | (refine InvAll_app _ _ _ ?_; assumption)
        | (refine Inv_forRange _ _ (fun _ _ => ?_) _ _)
        | (refine Inv_ignoreErr _ _ ?_)
        | (refine Inv_decRec _ _ _ _ (fun _ => ?_) (fun _ => ?_) <;> beta_reduce))
      | (lift_lets; intro jp; (have hjp : InvAll readError jp := ?_); clear_value jp)
      | (lift_lets; intro x; clear_value x)
      | (refine InvAll_intro _ _ (fun _ => ?_); unfold_let jp; beta_reduce)
      | split)

theorem Inv_handleNullEquality_step (n : Nat) (ih : InvAt n) :
    ∀ l r eq, Inv readError (handleNullEquality (n + 1) l r eq) := by
  obtain ⟨ih_writeSelect, ih_writeLimit, ih_writeFrom, ih_writeFromTable, ih_writeJoins, ih_writeJoin, ih_writeExpr, ih_writeBetweenExpr, ih_writeInExpr, ih_writeGroupConcat, ih_writeGroupConcatSqlite, ih_writeFuncCallExpr, ih_writeConcatSqlite, ih_writeOrderBy, ih_writeOrderColumn, ih_writeSelectColumnExpr, ih_writeParenExpr, ih_writeUnaryExpr, ih_handleNullEquality, ih_writeBinaryExpr⟩ := ih
  intro l r eq
  rw [handleNullEquality]
  repeat' (first
    | with_reducible (first
      | exact Inv_WriteString _ _
      | exact Inv_WriteRune _ _
      | (refine Inv_bind _ _ _ ?_ (fun _ => ?_))
      | (refine Inv_Wbind _ _ _ ?_ (fun _ => ?_))
      | exact Inv_pure _ _
      | exact Inv_Wpure _ _
      | exact Inv_goPanic _ _
      | exact Inv_outOfFuel _
      | exact Inv_getW _
      | exact Inv_removeAt _
      | exact Inv_cursor _
      | exact Inv_current _ _ (by decide!)
      | exact Inv_setCurrentQuery _ _ (by decide!)
      | exact Inv_writeIdentifier _
      | exact Inv_validateSeparator _
      | exact Inv_writeTable_read _ _
      | exact Inv_fail _ _ (readError_of _ (by decide!))
      | exact Inv_fail _ _ (readError_of _ (Diverges_append _ _ (by decide!)))
      | exact Inv_fail _ _ (readError_of _ (Diverges_append _ _ (Diverges_append _ _ (by decide!))))
      | exact Inv_fail _ _ (readError_of _ (Diverges_append _ _ (Diverges_append _ _ (Diverges_append _ _ (by decide!)))))
      | exact Inv_fail _ _ (readError_of _ (Diverges_append _ _ (Diverges_append _ _ (Diverges_append _ _ (Diverges_append _ _ (by decide!))))))
      | exact Inv_fail _ _ (readError_of _ (Diverges_append _ _ (Diverges_append _ _ (Diverges_append _ _ (Diverges_append _ _ (Diverges_append _ _ (by decide!)))))))
      | exact Inv_writeUnescapedAlphanumeric _
      | exact Inv_writeQuotedAlphanumeric _
      | exact Inv_writeInConstant _
      | exact Inv_replaceInParameter _
      | exact Inv_handleEmptyIN _
      | exact Inv_writeColumnNameExpr _
      | exact Inv_writeAllColumnsExpr _
      | exact Inv_writeParameterExpr
      | exact Inv_writeConstantExpr _ _ _
      | exact Inv_writeUTCTimestampSqlite _
      | exact ih_writeSelect _
      | exact ih_writeLimit _
      | exact ih_writeFrom _
      | exact ih_writeFromTable _
      | exact ih_writeJoins _
      | exact ih_writeJoin _
      | exact ih_writeExpr _
      | exact ih_writeBetweenExpr _ _
      | exact ih_writeInExpr _
      | exact ih_writeGroupConcat _ _ _ _
      | exact ih_writeGroupConcatSqlite _
      | exact ih_writeFuncCallExpr _ _
      | exact ih_writeConcatSqlite _
      | exact ih_writeOrderBy _
      | exact ih_writeOrderColumn _
      | exact ih_writeSelectColumnExpr _ _
      | exact ih_writeParenExpr _
      | exact ih_writeUnaryExpr _ _
      | exact ih_handleNullEquality _ _ _
      | exact ih_writeBinaryExpr _ _ _
      | (refine InvAll_app _ _ _ ?_; assumption)
      | (refine Inv_forRange _ _ (fun _ _ => ?_) _ _)
      | (refine Inv_ignoreErr _ _ ?_)
      | (refine Inv_decRec _ _ _ _ (fun _ => ?_) (fun _ => ?_) <;> beta_reduce))
    | (lift_lets; intro jp; (have hjp : InvAll readError jp := ?_); clear_value jp)
    | (lift_lets; intro x; clear_value x)
    | (refine InvAll_intro _ _ (fun _ => ?_); unfold_let jp; beta_reduce)
    | split)

theorem Inv_writeBinaryExpr_step (n : Nat) (ih : InvAt n) :
    ∀ op l r, Inv readError (writeBinaryExpr (n + 1) op l r) := by
  obtain ⟨ih_writeSelect, ih_writeLimit, ih_writeFrom, ih_writeFromTable, ih_writeJoins, ih_writeJoin, ih_writeExpr, ih_writeBetweenExpr, ih_writeInExpr, ih_writeGroupConcat, ih_writeGroupConcatSqlite, ih_writeFuncCallExpr, ih_writeConcatSqlite, ih_writeOrderBy, ih_writeOrderColumn, ih_writeSelectColumnExpr, ih_writeParenExpr, ih_writeUnaryExpr, ih_handleNullEquality, ih_writeBinaryExpr⟩ := ih
  intro op l r
  unfold writeBinaryExpr
  split
  all_goals (try (cases ‹n + 1 = _›))
  all_goals
    repeat' (first
      | with_reducible (first
        | exact Inv_WriteString _ _
        | exact Inv_WriteRune _ _
        | (refine Inv_bind _ _ _ ?_ (fun _ => ?_))
        | (refine Inv_Wbind _ _ _ ?_ (fun _ => ?_))
        | exact Inv_pure _ _
        | exact Inv_Wpure _ _
        | exact Inv_goPanic _ _
        | exact Inv_outOfFuel _
        | exact Inv_getW _
        | exact Inv_removeAt _
        | exact Inv_cursor _
        | exact Inv_current _ _ (by decide!)
        | exact Inv_setCurrentQuery _ _ (by decide!)
        | exact Inv_writeIdentifier _
        | exact Inv_validateSeparator _
        | exact Inv_writeTable_read _ _
        | exact Inv_fail _ _ (readError_of _ (by decide!))
        | exact Inv_fail _ _ (readError_of _ (Diverges_append _ _ (by decide!)))
        | exact Inv_fail _ _ (readError_of _ (Diverges_append _ _ (Diverges_append _ _ (by decide!))))
        | exact Inv_fail _ _ (readError_of _ (Diverges_append _ _ (Diverges_append _ _ (Diverges_append _ _ (by decide!)))))
        | exact Inv_fail _ _ (readError_of _ (Diverges_append _ _ (Diverges_append _ _ (Diverges_append _ _ (Diverges_append _ _ (by decide!))))))
        | exact Inv_fail _ _ (readError_of _ (Diverges_append _ _ (Diverges_append _ _ (Diverges_append _ _ (Diverges_append _ _ (Diverges_append _ _ (by decide!)))))))
        | exact Inv_writeUnescapedAlphanumeric _
        | exact Inv_writeQuotedAlphanumeric _
        | exact Inv_writeInConstant _
        | exact Inv_replaceInParameter _
        | exact Inv_handleEmptyIN _
        | exact Inv_writeColumnNameExpr _
        | exact Inv_writeAllColumnsExpr _
        | exact Inv_writeParameterExpr
        | exact Inv_writeConstantExpr _ _ _
        | exact Inv_writeUTCTimestampSqlite _
        | exact ih_writeSelect _
        | exact ih_writeLimit _
        | exact ih_writeFrom _
        | exact ih_writeFromTable _
        | exact ih_writeJoins _
        | exact ih_writeJoin _
        | exact ih_writeExpr _
        | exact ih_writeBetweenExpr _ _
        | exact ih_writeInExpr _
        | exact ih_writeGroupConcat _ _ _ _
        | exact ih_writeGroupConcatSqlite _
        | exact ih_writeFuncCallExpr _ _
        | exact ih_writeConcatSqlite _
        | exact ih_writeOrderBy _
        | exact ih_writeOrderColumn _
        | exact ih_writeSelectColumnExpr _ _
        | exact ih_writeParenExpr _
        | exact ih_writeUnaryExpr _ _
        | exact ih_handleNullEquality _ _ _
        | exact ih_writeBinaryExpr _ _ _
        | (refine InvAll_app _ _ _ ?_; assumption)
        | (refine Inv_forRange _ _ (fun _ _ => ?_) _ _)
        | (refine Inv_ignoreErr _ _ ?_)
        | (refine Inv_decRec _ _ _ _ (fun _ => ?_) (fun _ => ?_) <;> beta_reduce))
      | (lift_lets; intro jp; (have hjp : InvAll readError jp := ?_); clear_value jp)
      | (lift_lets; intro x; clear_value x)
      | (refine InvAll_intro _ _ (fun _ => ?_); unfold_let jp; beta_reduce)
      | split)

theorem Inv_writers (n : Nat) : InvAt n := by
  induction n with
  | zero =>
    refine ⟨?_, ?_, ?_, ?_, ?_, ?_, ?_, ?_, ?_, ?_, ?_, ?_, ?_, ?_, ?_, ?_, ?_, ?_, ?_, ?_⟩ <;> intros <;> exact Inv_outOfFuel _
  | succ n ih =>
    exact ⟨Inv_writeSelect_step n ih,
      Inv_writeLimit_step n ih,
      Inv_writeFrom_step n ih,
      Inv_writeFromTable_step n ih,
      Inv_writeJoins_step n ih,
      Inv_writeJoin_step n ih,
      Inv_writeExpr_step n ih,
      Inv_writeBetweenExpr_step n ih,
      Inv_writeInExpr_step n ih,
      Inv_writeGroupConcat_step n ih,
      Inv_writeGroupConcatSqlite_step n ih,
      Inv_writeFuncCallExpr_step n ih,
      Inv_writeConcatSqlite_step n ih,
      Inv_writeOrderBy_step n ih,
      Inv_writeOrderColumn_step n ih,
      Inv_writeSelectColumnExpr_step n ih,
      Inv_writeParenExpr_step n ih,
      Inv_writeUnaryExpr_step n ih,
      Inv_handleNullEquality_step n ih,
      Inv_writeBinaryExpr_step n ih⟩

theorem Inv_writeSelect (n : Nat) (q : SelectQuery) : Inv readError (writeSelect n q) :=
  (Inv_writers n).1 q

theorem Inv_writeLimit (n : Nat) (l : Limit) : Inv readError (writeLimit n l) :=
  (Inv_writers n).2.1 l

theorem Inv_writeFrom (n : Nat) (f : SqlFrom) : Inv readError (writeFrom n f) :=
  (Inv_writers n).2.2.1 f

theorem Inv_writeFromTable (n : Nat) (t : Table) : Inv readError (writeFromTable n t false) :=
  (Inv_writers n).2.2.2.1 t

theorem Inv_writeJoins (n : Nat) (js : List Join) : Inv readError (writeJoins n js) :=
  (Inv_writers n).2.2.2.2.1 js

theorem Inv_writeJoin (n : Nat) (j : Join) : Inv readError (writeJoin n j) :=
  (Inv_writers n).2.2.2.2.2.1 j

theorem Inv_writeExpr (n : Nat) (e : Expr) : Inv readError (writeExpr n e) :=
  (Inv_writers n).2.2.2.2.2.2.1 e

theorem Inv_writeOrderBy (n : Nat) (t : List OrderColumn) : Inv readError (writeOrderBy n t) :=
  (Inv_writers n).2.2.2.2.2.2.2.2.2.2.2.2.2.1 t


theorem Inv_writeColumnValue (n : Nat) (t : ColumnValue) : Inv anyError (writeColumnValue n t) := by
  unfold writeColumnValue
  repeat' (first
    | with_reducible (first
      | exact Inv_WriteString _ _
      | exact Inv_WriteRune _ _
      | (refine Inv_bind _ _ _ ?_ (fun _ => ?_))
      | (refine Inv_Wbind _ _ _ ?_ (fun _ => ?_))
      | exact Inv_pure _ _
      | exact Inv_Wpure _ _
      | exact Inv_goPanic _ _
      | exact Inv_outOfFuel _
      | exact Inv_getW _
      | exact Inv_removeAt _
      | exact Inv_cursor _
      | exact Inv_current _ _ (by decide!)
      | exact Inv_setCurrentQuery _ _ (by decide!)
      | exact Inv_fail _ _ trivial
      | exact Inv_any _ _ (Inv_writeIdentifier _)
      | exact Inv_writeTable _ _ _
      | exact Inv_any _ _ (Inv_writeUnescapedAlphanumeric _)
      | exact Inv_any _ _ (Inv_writeQuotedAlphanumeric _)
      | exact Inv_any _ _ (Inv_writeInConstant _)
      | exact Inv_any _ _ (Inv_replaceInParameter _)
      | exact Inv_any _ _ (Inv_handleEmptyIN _)
      | exact Inv_any _ _ (Inv_writeColumnNameExpr _)
      | exact Inv_any _ _ (Inv_writeAllColumnsExpr _)
      | exact Inv_any _ _ (Inv_writeParameterExpr)
      | exact Inv_any _ _ (Inv_writeConstantExpr _ _ _)
      | exact Inv_any _ _ (Inv_writeUTCTimestampSqlite _)
      | exact Inv_any _ _ (Inv_writeSelect _ _)
      | exact Inv_any _ _ (Inv_writeLimit _ _)
      | exact Inv_any _ _ (Inv_writeExpr _ _)
      | exact Inv_any _ _ (Inv_writeJoins _ _)
      | (refine InvAll_app _ _ _ ?_; assumption)
      | (refine Inv_forRange _ _ (fun _ _ => ?_) _ _)
      | (refine Inv_ignoreErr _ _ ?_)
      | (refine Inv_decRec _ _ _ _ (fun _ => ?_) (fun _ => ?_) <;> beta_reduce))
    | (lift_lets; intro jp; (have hjp : InvAll anyError jp := ?_); clear_value jp)
    | (lift_lets; intro x; clear_value x)
    | (refine InvAll_intro _ _ (fun _ => ?_); unfold_let jp; beta_reduce)
    | split)

theorem Inv_writeCreateColumnMySQL (c : CreateColumn) : Inv anyError (writeCreateColumnMySQL c) := by
  unfold writeCreateColumnMySQL
  repeat' (first
    | with_reducible (first
      | exact Inv_WriteString _ _
      | exact Inv_WriteRune _ _
      | (refine Inv_bind _ _ _ ?_ (fun _ => ?_))
      | (refine Inv_Wbind _ _ _ ?_ (fun _ => ?_))
      | exact Inv_pure _ _
      | exact Inv_Wpure _ _
      | exact Inv_goPanic _ _
      | exact Inv_outOfFuel _
      | exact Inv_getW _
      | exact Inv_removeAt _
      | exact Inv_cursor _
      | exact Inv_current _ _ (by decide!)
      | exact Inv_setCurrentQuery _ _ (by decide!)
      | exact Inv_fail _ _ trivial
      | exact Inv_any _ _ (Inv_writeIdentifier _)
      | exact Inv_writeTable _ _ _
      | exact Inv_any _ _ (Inv_writeUnescapedAlphanumeric _)
      | exact Inv_any _ _ (Inv_writeQuotedAlphanumeric _)
      | exact Inv_any _ _ (Inv_writeInConstant _)
      | exact Inv_any _ _ (Inv_replaceInParameter _)
      | exact Inv_any _ _ (Inv_handleEmptyIN _)
      | exact Inv_any _ _ (Inv_writeColumnNameExpr _)
      | exact Inv_any _ _ (Inv_writeAllColumnsExpr _)
      | exact Inv_any _ _ (Inv_writeParameterExpr)
      | exact Inv_any _ _ (Inv_writeConstantExpr _ _ _)
      | exact Inv_any _ _ (Inv_writeUTCTimestampSqlite _)
      | exact Inv_any _ _ (Inv_writeSelect _ _)
      | exact Inv_any _ _ (Inv_writeLimit _ _)
      | exact Inv_any _ _ (Inv_writeExpr _ _)
      | exact Inv_any _ _ (Inv_writeJoins _ _)
      | exact Inv_writeColumnValue _ _
      | (refine InvAll_app _ _ _ ?_; assumption)
      | (refine Inv_forRange _ _ (fun _ _ => ?_) _ _)
      | (refine Inv_ignoreErr _ _ ?_)
      | (refine Inv_decRec _ _ _ _ (fun _ => ?_) (fun _ => ?_) <;> beta_reduce))
    | (lift_lets; intro jp; (have hjp : InvAll anyError jp := ?_); clear_value jp)
    | (lift_lets; intro x; clear_value x)
    | (refine InvAll_intro _ _ (fun _ => ?_); unfold_let jp; beta_reduce)
    | split)

theorem Inv_writeCreateColumnSqlite3 (c : CreateColumn) : Inv anyError (writeCreateColumnSqlite3 c) := by
  unfold writeCreateColumnSqlite3
  repeat' (first
    | with_reducible (first
      | exact Inv_WriteString _ _
      | exact Inv_WriteRune _ _
      | (refine Inv_bind _ _ _ ?_ (fun _ => ?_))
      | (refine Inv_Wbind _ _ _ ?_ (fun _ => ?_))
      | exact Inv_pure _ _
      | exact Inv_Wpure _ _
      | exact Inv_goPanic _ _
      | exact Inv_outOfFuel _
      | exact Inv_getW _
      | exact Inv_removeAt _
      | exact Inv_cursor _
      | exact Inv_current _ _ (by decide!)
      | exact Inv_setCurrentQuery _ _ (by decide!)
      | exact Inv_fail _ _ trivial
      | exact Inv_any _ _ (Inv_writeIdentifier _)
      | exact Inv_writeTable _ _ _
      | exact Inv_any _ _ (Inv_writeUnescapedAlphanumeric _)
      | exact Inv_any _ _ (Inv_writeQuotedAlphanumeric _)
      | exact Inv_any _ _ (Inv_writeInConstant _)
      | exact Inv_any _ _ (Inv_replaceInParameter _)
      | exact Inv_any _ _ (Inv_handleEmptyIN _)
      | exact Inv_any _ _ (Inv_writeColumnNameExpr _)
      | exact Inv_any _ _ (Inv_writeAllColumnsExpr _)
      | exact Inv_any _ _ (Inv_writeParameterExpr)
      | exact Inv_any _ _ (Inv_writeConstantExpr _ _ _)
      | exact Inv_any _ _ (Inv_writeUTCTimestampSqlite _)
      | exact Inv_any _ _ (Inv_writeSelect _ _)
      | exact Inv_any _ _ (Inv_writeLimit _ _)
      | exact Inv_any _ _ (Inv_writeExpr _ _)
      | exact Inv_any _ _ (Inv_writeJoins _ _)
      | exact Inv_writeColumnValue _ _
      | exact Inv_writeCreateColumnMySQL _
      | (refine InvAll_app _ _ _ ?_; assumption)
      | (refine Inv_forRange _ _ (fun _ _ => ?_) _ _)
      | (refine Inv_ignoreErr _ _ ?_)
      | (refine Inv_decRec _ _ _ _ (fun _ => ?_) (fun _ => ?_) <;> beta_reduce))
    | (lift_lets; intro jp; (have hjp : InvAll anyError jp := ?_); clear_value jp)
    | (lift_lets; intro x; clear_value x)
    | (refine InvAll_intro _ _ (fun _ => ?_); unfold_let jp; beta_reduce)
    | split)

theorem Inv_writeCreateColumn (c : CreateColumn) : Inv anyError (writeCreateColumn c) := by
  unfold writeCreateColumn
  repeat' (first
    | with_reducible (first
      | exact Inv_WriteString _ _
      | exact Inv_WriteRune _ _
      | (refine Inv_bind _ _ _ ?_ (fun _ => ?_))
      | (refine Inv_Wbind _ _ _ ?_ (fun _ => ?_))
      | exact Inv_pure _ _
      | exact Inv_Wpure _ _
      | exact Inv_goPanic _ _
      | exact Inv_outOfFuel _
      | exact Inv_getW _
      | exact Inv_removeAt _
      | exact Inv_cursor _
      | exact Inv_current _ _ (by decide!)
      | exact Inv_setCurrentQuery _ _ (by decide!)
      | exact Inv_fail _ _ trivial
      | exact Inv_any _ _ (Inv_writeIdentifier _)
      | exact Inv_writeTable _ _ _
      | exact Inv_any _ _ (Inv_writeUnescapedAlphanumeric _)
      | exact Inv_any _ _ (Inv_writeQuotedAlphanumeric _)
      | exact Inv_any _ _ (Inv_writeInConstant _)
      | exact Inv_any _ _ (Inv_replaceInParameter _)
      | exact Inv_any _ _ (Inv_handleEmptyIN _)
      | exact Inv_any _ _ (Inv_writeColumnNameExpr _)
      | exact Inv_any _ _ (Inv_writeAllColumnsExpr _)
      | exact Inv_any _ _ (Inv_writeParameterExpr)
      | exact Inv_any _ _ (Inv_writeConstantExpr _ _ _)
      | exact Inv_any _ _ (Inv_writeUTCTimestampSqlite _)
      | exact Inv_any _ _ (Inv_writeSelect _ _)
      | exact Inv_any _ _ (Inv_writeLimit _ _)
      | exact Inv_any _ _ (Inv_writeExpr _ _)
      | exact Inv_any _ _ (Inv_writeJoins _ _)
      | exact Inv_writeColumnValue _ _
      | exact Inv_writeCreateColumnMySQL _
      | exact Inv_writeCreateColumnSqlite3 _
      | (refine InvAll_app _ _ _ ?_; assumption)
      | (refine Inv_forRange _ _ (fun _ _ => ?_) _ _)
      | (refine Inv_ignoreErr _ _ ?_)
      | (refine Inv_decRec _ _ _ _ (fun _ => ?_) (fun _ => ?_) <;> beta_reduce))
    | (lift_lets; intro jp; (have hjp : InvAll anyError jp := ?_); clear_value jp)
    | (lift_lets; intro x; clear_value x)
    | (refine InvAll_intro _ _ (fun _ => ?_); unfold_let jp; beta_reduce)
    | split)

theorem Inv_writeFKConstraint (s : ForeginKey) : Inv anyError (writeFKConstraint s) := by
  unfold writeFKConstraint
  repeat' (first
    | with_reducible (first
      | exact Inv_WriteString _ _
      | exact Inv_WriteRune _ _
      | (refine Inv_bind _ _ _ ?_ (fun _ => ?_))
      | (refine Inv_Wbind _ _ _ ?_ (fun _ => ?_))
      | exact Inv_pure _ _
      | exact Inv_Wpure _ _
      | exact Inv_goPanic _ _
      | exact Inv_outOfFuel _
      | exact Inv_getW _
      | exact Inv_removeAt _
      | exact Inv_cursor _
      | exact Inv_current _ _ (by decide!)
      | exact Inv_setCurrentQuery _ _ (by decide!)
      | exact Inv_fail _ _ trivial
      | exact Inv_any _ _ (Inv_writeIdentifier _)
      | exact Inv_writeTable _ _ _
      | exact Inv_any _ _ (Inv_writeUnescapedAlphanumeric _)
      | exact Inv_any _ _ (Inv_writeQuotedAlphanumeric _)
      | exact Inv_any _ _ (Inv_writeInConstant _)
      | exact Inv_any _ _ (Inv_replaceInParameter _)
      | exact Inv_any _ _ (Inv_handleEmptyIN _)
      | exact Inv_any _ _ (Inv_writeColumnNameExpr _)
      | exact Inv_any _ _ (Inv_writeAllColumnsExpr _)
      | exact Inv_any _ _ (Inv_writeParameterExpr)
      | exact Inv_any _ _ (Inv_writeConstantExpr _ _ _)
      | exact Inv_any _ _ (Inv_writeUTCTimestampSqlite _)
      | exact Inv_any _ _ (Inv_writeSelect _ _)
      | exact Inv_any _ _ (Inv_writeLimit _ _)
      | exact Inv_any _ _ (Inv_writeExpr _ _)
      | exact Inv_any _ _ (Inv_writeJoins _ _)
      | exact Inv_writeColumnValue _ _
      | exact Inv_writeCreateColumnMySQL _
      | exact Inv_writeCreateColumnSqlite3 _
      | exact Inv_writeCreateColumn _
      | (refine InvAll_app _ _ _ ?_; assumption)
      | (refine Inv_forRange _ _ (fun _ _ => ?_) _ _)
      | (refine Inv_ignoreErr _ _ ?_)
      | (refine Inv_decRec _ _ _ _ (fun _ => ?_) (fun _ => ?_) <;> beta_reduce))
    | (lift_lets; intro jp; (have hjp : InvAll anyError jp := ?_); clear_value jp)
    | (lift_lets; intro x; clear_value x)
    | (refine InvAll_intro _ _ (fun _ => ?_); unfold_let jp; beta_reduce)
    | split)

theorem Inv_writeConstraint (s : Constraint) : Inv anyError (writeConstraint s) := by
  unfold writeConstraint
  repeat' (first
    | with_reducible (first
      | exact Inv_WriteString _ _
      | exact Inv_WriteRune _ _
      | (refine Inv_bind _ _ _ ?_ (fun _ => ?_))
      | (refine Inv_Wbind _ _ _ ?_ (fun _ => ?_))
      | exact Inv_pure _ _
      | exact Inv_Wpure _ _
      | exact Inv_goPanic _ _
      | exact Inv_outOfFuel _
      | exact Inv_getW _
      | exact Inv_removeAt _
      | exact Inv_cursor _
      | exact Inv_current _ _ (by decide!)
      | exact Inv_setCurrentQuery _ _ (by decide!)
      | exact Inv_fail _ _ trivial
      | exact Inv_any _ _ (Inv_writeIdentifier _)
      | exact Inv_writeTable _ _ _
      | exact Inv_any _ _ (Inv_writeUnescapedAlphanumeric _)
      | exact Inv_any _ _ (Inv_writeQuotedAlphanumeric _)
      | exact Inv_any _ _ (Inv_writeInConstant _)
      | exact Inv_any _ _ (Inv_replaceInParameter _)
      | exact Inv_any _ _ (Inv_handleEmptyIN _)
      | exact Inv_any _ _ (Inv_writeColumnNameExpr _)
      | exact Inv_any _ _ (Inv_writeAllColumnsExpr _)
      | exact Inv_any _ _ (Inv_writeParameterExpr)
      | exact Inv_any _ _ (Inv_writeConstantExpr _ _ _)
      | exact Inv_any _ _ (Inv_writeUTCTimestampSqlite _)
      | exact Inv_any _ _ (Inv_writeSelect _ _)
      | exact Inv_any _ _ (Inv_writeLimit _ _)
      | exact Inv_any _ _ (Inv_writeExpr _ _)
      | exact Inv_any _ _ (Inv_writeJoins _ _)
      | exact Inv_writeColumnValue _ _
      | exact Inv_writeCreateColumnMySQL _
      | exact Inv_writeCreateColumnSqlite3 _
      | exact Inv_writeCreateColumn _
      | exact Inv_writeFKConstraint _
      | (refine InvAll_app _ _ _ ?_; assumption)
      | (refine Inv_forRange _ _ (fun _ _ => ?_) _ _)
      | (refine Inv_ignoreErr _ _ ?_)
      | (refine Inv_decRec _ _ _ _ (fun _ => ?_) (fun _ => ?_) <;> beta_reduce))
    | (lift_lets; intro jp; (have hjp : InvAll anyError jp := ?_); clear_value jp)
    | (lift_lets; intro x; clear_value x)
    | (refine InvAll_intro _ _ (fun _ => ?_); unfold_let jp; beta_reduce)
    | split)

theorem settings_fields {w w1 : writer} (h : w1.settings = w.settings) :
    w1.Database = w.Database ∧ w1.NamespaceWriteAll = w.NamespaceWriteAll ∧
    w1.Namespace = w.Namespace ∧ w1.IgnoreNamespaces = w.IgnoreNamespaces ∧
    w1.Format = w.Format ∧ w1.EscapeIdents = w.EscapeIdents ∧
    w1.WhitelistFuncs = w.WhitelistFuncs ∧ w1.driver = w.driver ∧
    w1.globalWhitelistFuncs = w.globalWhitelistFuncs := by
  simpa only [writer.settings, Prod.mk.injEq] using h

theorem validateDatabase_congr {w w1 : writer} (h : w1.settings = w.settings) (d : String) :
    w1.validateDatabase d = w.validateDatabase d := by
  have := settings_fields h
  simp only [writer.validateDatabase, this.1]

theorem prefixTableName_inStatement (w : writer) (table : String) (isWrite : Bool)
    (hq : w.inStatement = true) :
    w.prefixTableName table isWrite = w.resolve table isWrite := by
  unfold writer.inStatement at hq
  cases hc : w.currentQuery with
  | none => rw [hc] at hq; cases hq
  | some t =>
    rw [hc] at hq
    simp only at hq
    unfold writer.resolve writer.prefixTableName writer.ValidateNamespace writer.addNamespace
      writer.namespaceToSQL
    simp only [hc]
    cases t <;> first | rfl | cases hq

theorem prefixTableName_resolve (w : writer) (table : String) (isWrite : Bool) (t : String)
    (h : w.prefixTableName table isWrite = .ok t) : w.resolve table isWrite = .ok t := by
  by_cases hq : w.inStatement = true
  · rw [← prefixTableName_inStatement w table isWrite hq]
    exact h
  · by_cases hI : w.IgnoreNamespaces = true
    · simp only [writer.prefixTableName, writer.resolve, hI, if_true] at h ⊢
      exact h
    · by_cases hn : (w.Namespace == "") = true
      · simp only [writer.prefixTableName, writer.resolve, hI, hn, if_true, if_false] at h ⊢
        exact h
      · exfalso
        unfold writer.prefixTableName at h
        simp only [hI, hn, if_false] at h
        unfold writer.inStatement at hq
        cases hv : w.ValidateNamespace w.Namespace with
        | error e => rw [hv] at h; cases h
        | ok u =>
          rw [hv] at h
          cases hc : w.currentQuery with
          | none => rw [hc] at h; cases h
          | some q =>
            rw [hc] at h hq
            cases q <;> first
              | cases h
              | exact hq rfl

theorem resolve_congr {w w1 : writer} (h : w1.settings = w.settings) (table : String)
    (isWrite : Bool) : w1.resolve table isWrite = w.resolve table isWrite := by
  have := settings_fields h
  simp only [writer.resolve, writer.prefixTableName, writer.ValidateNamespace,
    writer.addNamespace, writer.namespaceToSQL, this.1, this.2.1, this.2.2.1, this.2.2.2.1]

theorem tableText_congr {w w1 : writer} (h : w1.settings = w.settings) (d t : String) :
    tableText w1 d t = tableText w d t := by
  have := settings_fields h
  simp only [tableText, this.1, this.2.2.2.2.2.1, this.2.2.2.2.2.2.2.1]

theorem writeIdentifier_ok_buf (s : String) (w w1 : writer) (h : writeIdentifier s w = .ok () w1) :
    w1 = { w with buf := w.buf ++ identText w.EscapeIdents s } :=
  writeIdentifier_ok s w w1 h

theorem writeTable_ok (w w1 : writer) (database table : String) (isWrite : Bool)
    (h : writeTable database table isWrite w = .ok () w1) :
    w.validateDatabase database = true ∧ ∃ t, w.prefixTableName table isWrite = .ok t ∧
      w1 = { w with buf := w.buf ++ tableText w database t } := by
  unfold writeTable at h
  by_cases hv : w.validateDatabase database = true
  · refine ⟨hv, ?_⟩
    simp only [hv, Bool.not_true, Bool.false_eq_true, if_false] at h
    cases hp : w.prefixTableName table isWrite with
    | error e => rw [hp] at h; cases h
    | ok t =>
      rw [hp] at h
      refine ⟨t, rfl, ?_⟩
      simp only at h
      unfold tableText
      by_cases hd : ((if (database == "") = true then w.Database else database) != "") = true
      · simp only [hd, if_true] at h ⊢
        by_cases hs : w.driver = "sqlite3"
        · have hs1 : (w.driver == "sqlite3") = true := by simpa using hs
          simp only [hs1, if_true] at h ⊢
          exact writeIdentifier_ok _ _ _ h
        · have hs1 : (w.driver == "sqlite3") = false := by simpa using hs
          simp only [hs1, Bool.false_eq_true, if_false] at h ⊢
          simp only [W.bind] at h
          split at h
          · rename_i a w2 h1
            have e1 := writeIdentifier_ok _ _ _ h1
            simp only [WriteString_apply] at h
            have e2 := writeIdentifier_ok _ _ _ h
            rw [e2, e1]
            simp [String.append_assoc]
          · cases h
          · cases h
          · cases h
      · simp only [hd, if_false] at h ⊢
        exact writeIdentifier_ok _ _ _ h
  · simp [hv] at h

/-- What `writeTable` appended, with the name resolved inside a statement. -/
theorem writeTable_emits (w w1 : writer) (database table : String) (isWrite : Bool)
    (h : writeTable database table isWrite w = .ok () w1) :
    w.validateDatabase database = true ∧ ∃ t, w.resolve table isWrite = .ok t ∧
      w1 = { w with buf := w.buf ++ tableText w database t } := by
  obtain ⟨hv, t, ht, h1⟩ := writeTable_ok w w1 database table isWrite h
  exact ⟨hv, t, prefixTableName_resolve w table isWrite t ht, h1⟩


theorem W_bind_ok_inv {α β : Type} (m : W α) (f : α → W β) (w w1 : writer) (b : β)
    (h : (m >>= f) w = .ok b w1) : ∃ a w0, m w = .ok a w0 ∧ f a w0 = .ok b w1 := by
  rw [W_bind_apply] at h
  cases hm : m w with
  | ok a w0 => rw [hm] at h; exact ⟨a, w0, rfl, h⟩
  | err e w0 => rw [hm] at h; cases h
  | panic msg => rw [hm] at h; cases h
  | fuel => rw [hm] at h; cases h

theorem W_bind_assoc {α β γ : Type} (m : W α) (f : α → W β) (g : β → W γ) :
    ((m >>= f) >>= g) = (m >>= fun a => f a >>= g) := by
  funext w
  simp only [W_bind_apply]
  cases m w <;> rfl

theorem emits_of_bind (w w0 w1 : writer) (database table : String) (isWrite : Bool)
    (k : PUnit → W Unit) (pre : String)
    (h : (writeTable database table isWrite >>= k) w0 = .ok () w1)
    (h0 : w0.settings = w.settings ∧ w0.buf = w.buf ++ pre)
    (hk : ∀ u, Inv anyError (k u)) :
    w.validateDatabase database = true ∧ ∃ t rest, w.resolve table isWrite = .ok t ∧
      w1.buf = w.buf ++ pre ++ tableText w database t ++ rest := by
  rw [W_bind_apply] at h
  cases ht : writeTable database table isWrite w0 with
  | ok u w2 =>
    rw [ht] at h
    simp only at h
    obtain ⟨hv, t, hr, h2⟩ := writeTable_emits w0 w2 database table isWrite ht
    obtain ⟨_, ⟨rest, hrest⟩, _⟩ := Inv_ok anyError (k u) (hk u) w2 w1 () h
    refine ⟨by rw [← validateDatabase_congr h0.1]; exact hv, t, rest,
      by rw [← resolve_congr h0.1]; exact hr, ?_⟩
    rw [hrest, h2]
    simp only [h0.2, tableText_congr h0.1]
  | err e w2 => rw [ht] at h; cases h
  | panic msg => rw [ht] at h; cases h
  | fuel => rw [ht] at h; cases h

theorem W_bind_pure_right (m : W Unit) : (m >>= fun _ => pure ()) = m := by
  funext w
  rw [W_bind_apply]
  cases m w <;> rfl

theorem setCurrentQuery_apply (t : QueryType) (w : writer) :
    setCurrentQuery t w = .ok () { w with currentQuery := some t } := rfl

theorem site_fromTable (n : Nat) (t : Table) (isWrite : Bool) (w w1 : writer)
    (h : writeFromTable (n + 1) t isWrite w = .ok () w1) :
    w.validateDatabase t.Database = true ∧ ∃ r rest, w.resolve t.Name isWrite = .ok r ∧
      w1.buf = w.buf ++ "" ++ tableText w t.Database r ++ rest := by
  rw [writeFromTable] at h
  refine emits_of_bind w w w1 _ _ _ _ "" h ⟨rfl, (String.append_empty _).symm⟩ (fun u => ?_)
  repeat' (first
    | with_reducible (first
      | exact Inv_WriteString _ _
      | exact Inv_WriteRune _ _
      | (refine Inv_bind _ _ _ ?_ (fun _ => ?_))
      | (refine Inv_Wbind _ _ _ ?_ (fun _ => ?_))
      | exact Inv_pure _ _
      | exact Inv_Wpure _ _
      | exact Inv_goPanic _ _
      | exact Inv_outOfFuel _
      | exact Inv_getW _
      | exact Inv_removeAt _
      | exact Inv_cursor _
      | exact Inv_current _ _ (by decide!)
      | exact Inv_setCurrentQuery _ _ (by decide!)
      | exact Inv_fail _ _ trivial
      | exact Inv_any _ _ (Inv_writeIdentifier _)
      | exact Inv_writeTable _ _ _
      | exact Inv_any _ _ (Inv_writeUnescapedAlphanumeric _)
      | exact Inv_any _ _ (Inv_writeQuotedAlphanumeric _)
      | exact Inv_any _ _ (Inv_writeInConstant _)
      | exact Inv_any _ _ (Inv_replaceInParameter _)
      | exact Inv_any _ _ (Inv_handleEmptyIN _)
      | exact Inv_any _ _ (Inv_writeColumnNameExpr _)
      | exact Inv_any _ _ (Inv_writeAllColumnsExpr _)
      | exact Inv_any _ _ (Inv_writeParameterExpr)
      | exact Inv_any _ _ (Inv_writeConstantExpr _ _ _)
      | exact Inv_any _ _ (Inv_writeUTCTimestampSqlite _)
      | exact Inv_any _ _ (Inv_writeSelect _ _)
      | exact Inv_any _ _ (Inv_writeLimit _ _)
      | exact Inv_any _ _ (Inv_writeExpr _ _)
      | exact Inv_any _ _ (Inv_writeJoins _ _)
      | exact Inv_any _ _ (Inv_writeOrderBy _ _)
      | exact Inv_any _ _ (Inv_writeFrom _ _)
      | exact Inv_writeColumnValue _ _
      | exact Inv_writeCreateColumn _
      | exact Inv_writeFKConstraint _
      | exact Inv_writeConstraint _
      | (refine InvAll_app _ _ _ ?_; assumption)
      | (refine Inv_forRange _ _ (fun _ _ => ?_) _ _)
      | (refine Inv_ignoreErr _ _ ?_)
      | (refine Inv_decRec _ _ _ _ (fun _ => ?_) (fun _ => ?_) <;> beta_reduce))
    | (lift_lets; intro jp; (have hjp : InvAll anyError jp := ?_); clear_value jp)
    | (lift_lets; intro x; clear_value x)
    | (refine InvAll_intro _ _ (fun _ => ?_); unfold_let jp; beta_reduce)
    | split)

theorem writeJoin_eq (n : Nat) (pos : Position) (typ : Typ) (table al database : String)
    (onExpr : Option Expr) :
    writeJoin (n + 1) (.mk pos typ table al database onExpr) =
      (getW >>= fun p => (if p.Format = true then WriteRune '\n' else WriteRune ' ') >>= fun _ =>
        (match typ with
          | .LEFT => WriteString "LEFT JOIN "
          | .RIGHT => WriteString "RIGHT JOIN "
          | .INNER => WriteString "INNER JOIN "
          | .OUTER => WriteString "OUTER JOIN "
          | .CROSS => WriteString "CROSS JOIN "
          | .JOIN => WriteString "JOIN "
          | _ => fail ("Invalid join type: " ++ typ.String) : W Unit) >>= fun _ =>
        writeTable database table false >>= fun _ =>
          ((if (al != "") = true then WriteString " AS " >>= fun _ => writeIdentifier al
            else pure PUnit.unit) >>= fun _ =>
            (match onExpr with
              | none => pure ()
              | some e => WriteString " ON " >>= fun _ => writeExpr n e : W Unit))) := by
  funext w
  rw [writeJoin_succ]
  simp only [W_bind_apply, getW_apply]
  cases hF : w.Format <;> cases ha : (al != "") <;> cases typ <;> rfl

theorem joinWord_run (typ : Typ) (w w1 : writer)
    (h : (match typ with
      | .LEFT => WriteString "LEFT JOIN "
      | .RIGHT => WriteString "RIGHT JOIN "
      | .INNER => WriteString "INNER JOIN "
      | .OUTER => WriteString "OUTER JOIN "
      | .CROSS => WriteString "CROSS JOIN "
      | .JOIN => WriteString "JOIN "
      | _ => fail ("Invalid join type: " ++ typ.String) : W Unit) w = .ok () w1) :
    w1 = { w with buf := w.buf ++ joinWord typ } := by
  cases typ <;> simp only [WriteString_apply, fail_apply, Res.ok.injEq, true_and] at h <;>
    first
    | exact h.symm
    | cases h

theorem format_run (w w1 : writer)
    (h : (if w.Format = true then WriteRune '\n' else WriteRune ' ') w = .ok () w1) :
    w1 = { w with buf := w.buf ++ (if w.Format then "\n" else " ") } := by
  by_cases hF : w.Format = true
  · rw [if_pos hF] at h
    rw [if_pos hF]
    simp only [WriteRune_apply, Res.ok.injEq, true_and] at h
    exact h.symm
  · rw [if_neg hF] at h
    rw [if_neg hF]
    simp only [WriteRune_apply, Res.ok.injEq, true_and] at h
    exact h.symm

theorem site_join (n : Nat) (pos : Position) (typ : Typ) (table al database : String)
    (onExpr : Option Expr) (w w1 : writer)
    (h : writeJoin (n + 1) (.mk pos typ table al database onExpr) w = .ok () w1) :
    w.validateDatabase database = true ∧ ∃ r rest, w.resolve table false = .ok r ∧
      w1.buf = w.buf ++ ((if w.Format then "\n" else " ") ++ joinWord typ) ++
        tableText w database r ++ rest := by
  rw [writeJoin_eq] at h
  rw [W_bind_ok _ _ _ _ _ (getW_apply w)] at h
  obtain ⟨_, wa, h1, h⟩ := W_bind_ok_inv _ _ _ _ _ h
  have e1 := format_run w wa h1
  obtain ⟨_, wb, h2, h⟩ := W_bind_ok_inv _ _ _ _ _ h
  have e2 := joinWord_run typ wa wb h2
  subst e1
  subst e2
  refine emits_of_bind w _ w1 _ _ _ _ _ h ⟨rfl, String.append_assoc _ _ _⟩ (fun u => ?_)
  repeat' (first
    | with_reducible (first
      | exact Inv_WriteString _ _
      | exact Inv_WriteRune _ _
      | (refine Inv_bind _ _ _ ?_ (fun _ => ?_))
      | (refine Inv_Wbind _ _ _ ?_ (fun _ => ?_))
      | exact Inv_pure _ _
      | exact Inv_Wpure _ _
      | exact Inv_goPanic _ _
      | exact Inv_outOfFuel _
      | exact Inv_getW _
      | exact Inv_removeAt _
      | exact Inv_cursor _
      | exact Inv_current _ _ (by decide!)
      | exact Inv_setCurrentQuery _ _ (by decide!)
      | exact Inv_fail _ _ trivial
      | exact Inv_any _ _ (Inv_writeIdentifier _)
      | exact Inv_writeTable _ _ _
      | exact Inv_any _ _ (Inv_writeUnescapedAlphanumeric _)
      | exact Inv_any _ _ (Inv_writeQuotedAlphanumeric _)
      | exact Inv_any _ _ (Inv_writeInConstant _)
      | exact Inv_any _ _ (Inv_replaceInParameter _)
      | exact Inv_any _ _ (Inv_handleEmptyIN _)
      | exact Inv_any _ _ (Inv_writeColumnNameExpr _)
      | exact Inv_any _ _ (Inv_writeAllColumnsExpr _)
      | exact Inv_any _ _ (Inv_writeParameterExpr)
      | exact Inv_any _ _ (Inv_writeConstantExpr _ _ _)
      | exact Inv_any _ _ (Inv_writeUTCTimestampSqlite _)
      | exact Inv_any _ _ (Inv_writeSelect _ _)
      | exact Inv_any _ _ (Inv_writeLimit _ _)
      | exact Inv_any _ _ (Inv_writeExpr _ _)
      | exact Inv_any _ _ (Inv_writeJoins _ _)
      | exact Inv_any _ _ (Inv_writeOrderBy _ _)
      | exact Inv_any _ _ (Inv_writeFrom _ _)
      | exact Inv_writeColumnValue _ _
      | exact Inv_writeCreateColumn _
      | exact Inv_writeFKConstraint _
      | exact Inv_writeConstraint _
      | (refine InvAll_app _ _ _ ?_; assumption)
      | (refine Inv_forRange _ _ (fun _ _ => ?_) _ _)
      | (refine Inv_ignoreErr _ _ ?_)
      | (refine Inv_decRec _ _ _ _ (fun _ => ?_) (fun _ => ?_) <;> beta_reduce))
    | (lift_lets; intro jp; (have hjp : InvAll anyError jp := ?_); clear_value jp)
    | (lift_lets; intro x; clear_value x)
    | (refine InvAll_intro _ _ (fun _ => ?_); unfold_let jp; beta_reduce)
    | split)

theorem site_insert (n : Nat) (s : InsertQuery) (w w1 : writer)
    (h : writeInsert n s w = .ok () w1) :
    w.validateDatabase s.Table.Database = true ∧ ∃ t rest,
      w.resolve s.Table.Name true = .ok t ∧
      w1.buf = w.buf ++ "INSERT INTO " ++ tableText w s.Table.Database t ++ rest := by
  unfold writeInsert at h
  rw [W_bind_ok _ _ _ _ _ (setCurrentQuery_apply _ _)] at h
  rw [W_bind_ok _ _ _ _ _ (WriteString_apply _ _)] at h
  refine emits_of_bind w _ w1 _ _ _ _ "INSERT INTO " h ⟨rfl, rfl⟩ (fun u => ?_)
  repeat' (first
    | with_reducible (first
      | exact Inv_WriteString _ _
      | exact Inv_WriteRune _ _
      | (refine Inv_bind _ _ _ ?_ (fun _ => ?_))
      | (refine Inv_Wbind _ _ _ ?_ (fun _ => ?_))
      | exact Inv_pure _ _
      | exact Inv_Wpure _ _
      | exact Inv_goPanic _ _
      | exact Inv_outOfFuel _
      | exact Inv_getW _
      | exact Inv_removeAt _
      | exact Inv_cursor _
      | exact Inv_current _ _ (by decide!)
      | exact Inv_setCurrentQuery _ _ (by decide!)
      | exact Inv_fail _ _ trivial
      | exact Inv_any _ _ (Inv_writeIdentifier _)
      | exact Inv_writeTable _ _ _
      | exact Inv_any _ _ (Inv_writeUnescapedAlphanumeric _)
      | exact Inv_any _ _ (Inv_writeQuotedAlphanumeric _)
      | exact Inv_any _ _ (Inv_writeInConstant _)
      | exact Inv_any _ _ (Inv_replaceInParameter _)
      | exact Inv_any _ _ (Inv_handleEmptyIN _)
      | exact Inv_any _ _ (Inv_writeColumnNameExpr _)
      | exact Inv_any _ _ (Inv_writeAllColumnsExpr _)
      | exact Inv_any _ _ (Inv_writeParameterExpr)
      | exact Inv_any _ _ (Inv_writeConstantExpr _ _ _)
      | exact Inv_any _ _ (Inv_writeUTCTimestampSqlite _)
      | exact Inv_any _ _ (Inv_writeSelect _ _)
      | exact Inv_any _ _ (Inv_writeLimit _ _)
      | exact Inv_any _ _ (Inv_writeExpr _ _)
      | exact Inv_any _ _ (Inv_writeJoins _ _)
      | exact Inv_any _ _ (Inv_writeOrderBy _ _)
      | exact Inv_any _ _ (Inv_writeFrom _ _)
      | exact Inv_writeColumnValue _ _
      | exact Inv_writeCreateColumn _
      | exact Inv_writeFKConstraint _
      | exact Inv_writeConstraint _
      | (refine InvAll_app _ _ _ ?_; assumption)
      | (refine Inv_forRange _ _ (fun _ _ => ?_) _ _)
      | (refine Inv_ignoreErr _ _ ?_)
      | (refine Inv_decRec _ _ _ _ (fun _ => ?_) (fun _ => ?_) <;> beta_reduce))
    | (lift_lets; intro jp; (have hjp : InvAll anyError jp := ?_); clear_value jp)
    | (lift_lets; intro x; clear_value x)
    | (refine InvAll_intro _ _ (fun _ => ?_); unfold_let jp; beta_reduce)
    | split)

theorem site_update (n : Nat) (s : UpdateQuery) (w w1 : writer)
    (h : writeUpdate (n + 1) s w = .ok () w1) :
    w.validateDatabase s.Table.Database = true ∧ ∃ t rest,
      w.resolve s.Table.Name true = .ok t ∧
      w1.buf = w.buf ++ "UPDATE " ++ tableText w s.Table.Database t ++ rest := by
  unfold writeUpdate at h
  rw [W_bind_ok _ _ _ _ _ (setCurrentQuery_apply _ _)] at h
  rw [W_bind_ok _ _ _ _ _ (getW_apply _)] at h
  split at h
  · cases h
  · split at h
    · cases h
    · rw [W_bind_ok _ _ _ _ _ (WriteString_apply _ _)] at h
      rw [writeFromTable, W_bind_assoc] at h
      refine emits_of_bind w _ w1 _ _ _ _ "UPDATE " h ⟨rfl, rfl⟩ (fun u => ?_)
      repeat' (first
        | with_reducible (first
          | exact Inv_WriteString _ _
          | exact Inv_WriteRune _ _
          | (refine Inv_bind _ _ _ ?_ (fun _ => ?_))
          | (refine Inv_Wbind _ _ _ ?_ (fun _ => ?_))
          | exact Inv_pure _ _
          | exact Inv_Wpure _ _
          | exact Inv_goPanic _ _
          | exact Inv_outOfFuel _
          | exact Inv_getW _
          | exact Inv_removeAt _
          | exact Inv_cursor _
          | exact Inv_current _ _ (by decide!)
          | exact Inv_setCurrentQuery _ _ (by decide!)
          | exact Inv_fail _ _ trivial
          | exact Inv_any _ _ (Inv_writeIdentifier _)
          | exact Inv_writeTable _ _ _
          | exact Inv_any _ _ (Inv_writeUnescapedAlphanumeric _)
          | exact Inv_any _ _ (Inv_writeQuotedAlphanumeric _)
          | exact Inv_any _ _ (Inv_writeInConstant _)
          | exact Inv_any _ _ (Inv_replaceInParameter _)
          | exact Inv_any _ _ (Inv_handleEmptyIN _)
          | exact Inv_any _ _ (Inv_writeColumnNameExpr _)
          | exact Inv_any _ _ (Inv_writeAllColumnsExpr _)
          | exact Inv_any _ _ (Inv_writeParameterExpr)
          | exact Inv_any _ _ (Inv_writeConstantExpr _ _ _)
          | exact Inv_any _ _ (Inv_writeUTCTimestampSqlite _)
          | exact Inv_any _ _ (Inv_writeSelect _ _)
          | exact Inv_any _ _ (Inv_writeLimit _ _)
          | exact Inv_any _ _ (Inv_writeExpr _ _)
          | exact Inv_any _ _ (Inv_writeJoins _ _)
          | exact Inv_any _ _ (Inv_writeOrderBy _ _)
          | exact Inv_any _ _ (Inv_writeFrom _ _)
          | exact Inv_writeColumnValue _ _
          | exact Inv_writeCreateColumn _
          | exact Inv_writeFKConstraint _
          | exact Inv_writeConstraint _
          | (refine InvAll_app _ _ _ ?_; assumption)
          | (refine Inv_forRange _ _ (fun _ _ => ?_) _ _)
          | (refine Inv_ignoreErr _ _ ?_)
          | (refine Inv_decRec _ _ _ _ (fun _ => ?_) (fun _ => ?_) <;> beta_reduce))
        | (lift_lets; intro jp; (have hjp : InvAll anyError jp := ?_); clear_value jp)
        | (lift_lets; intro x; clear_value x)
        | (refine InvAll_intro _ _ (fun _ => ?_); unfold_let jp; beta_reduce)
        | split)

theorem alias_run (body : Nat → String → W Unit)
    (hb : ∀ i a w w1, body i a w = .ok () w1 →
      w1 = { w with buf := w.buf ++ ((if i > 0 then ", " else "") ++ identText w.EscapeIdents a) }) :
    ∀ (l : List String) (i : Nat) (w w1 : writer), forRange body l i w = .ok () w1 →
      w1 = { w with buf := w.buf ++ aliasText w.EscapeIdents i l } := by
  intro l
  induction l with
  | nil =>
    intro i w w1 h
    simp only [forRange, W_pure_apply2, Res.ok.injEq, true_and] at h
    rw [← h]
    simp [aliasText]
  | cons a as ih =>
    intro i w w1 h
    simp only [forRange] at h
    obtain ⟨_, wa, h1, h2⟩ := W_bind_ok_inv _ _ _ _ _ h
    have e1 := hb i a w wa h1
    have e2 := ih (i + 1) wa w1 h2
    rw [e2, e1]
    simp [aliasText, String.append_assoc]

theorem site_delete (n : Nat) (s : DeleteQuery) (w w1 : writer)
    (h : writeDelete (n + 1) s w = .ok () w1) :
    w.validateDatabase s.Table.Database = true ∧ ∃ t rest,
      w.resolve s.Table.Name true = .ok t ∧
      w1.buf = w.buf ++ ("DELETE" ++ (if s.Alias.length > 1 then
          " " ++ aliasText w.EscapeIdents 0 s.Alias else "") ++ " FROM ") ++
        tableText w s.Table.Database t ++ rest := by
  unfold writeDelete at h
  rw [W_bind_ok _ _ _ _ _ (setCurrentQuery_apply _ _)] at h
  rw [W_bind_ok _ _ _ _ _ (getW_apply _)] at h
  split at h
  · cases h
  · split at h
    · cases h
    · rw [W_bind_ok _ _ _ _ _ (WriteString_apply _ _)] at h
      have hb : ∀ (i : Nat) (a : String) (w w1 : writer),
          (let __do_jp := fun (_ : PUnit) => writeIdentifier a;
            if i > 0 then do
              let y ← WriteString ", "
              __do_jp y
            else do
              let y ← pure PUnit.unit
              __do_jp y : W Unit) w = .ok () w1 →
          w1 = { w with buf := w.buf ++
            ((if i > 0 then ", " else "") ++ identText w.EscapeIdents a) } := by
        intro i a w w1 hb
        by_cases hi : i > 0
        · simp only [hi, if_true] at hb ⊢
          rw [W_bind_ok _ _ _ _ _ (WriteString_apply _ _)] at hb
          rw [writeIdentifier_ok _ _ _ hb]
          simp [String.append_assoc]
        · simp only [hi, if_false] at hb ⊢
          rw [W_bind_ok _ _ _ _ _ (W_pure_apply _ _)] at hb
          rw [writeIdentifier_ok _ _ _ hb]
          simp
      split at h
      · rename_i hc
        rw [W_bind_ok _ _ _ _ _ (WriteRune_apply _ _)] at h
        obtain ⟨_, wa, hloop, h⟩ := W_bind_ok_inv _ _ _ _ _ h
        have e := alias_run _ hb _ _ _ _ hloop
        subst e
        beta_reduce at h
        rw [W_bind_ok _ _ _ _ _ (WriteString_apply _ _)] at h
        rw [writeFromTable, W_bind_assoc] at h
        rw [if_pos hc]
        refine emits_of_bind w _ w1 _ _ _ _ _ h ⟨rfl, ?_⟩ (fun u => ?_)
        · show _ ++ String.singleton ' ' ++ _ ++ " FROM " = _
          simp only [String.append_assoc]
          rfl
        repeat' (first
          | with_reducible (first
            | exact Inv_WriteString _ _
            | exact Inv_WriteRune _ _
            | (refine Inv_bind _ _ _ ?_ (fun _ => ?_))
            | (refine Inv_Wbind _ _ _ ?_ (fun _ => ?_))
            | exact Inv_pure _ _
            | exact Inv_Wpure _ _
            | exact Inv_goPanic _ _
            | exact Inv_outOfFuel _
            | exact Inv_getW _
            | exact Inv_removeAt _
            | exact Inv_cursor _
            | exact Inv_current _ _ (by decide!)
            | exact Inv_setCurrentQuery _ _ (by decide!)
            | exact Inv_fail _ _ trivial
            | exact Inv_any _ _ (Inv_writeIdentifier _)
            | exact Inv_writeTable _ _ _
            | exact Inv_any _ _ (Inv_writeUnescapedAlphanumeric _)
            | exact Inv_any _ _ (Inv_writeQuotedAlphanumeric _)
            | exact Inv_any _ _ (Inv_writeInConstant _)
            | exact Inv_any _ _ (Inv_replaceInParameter _)
            | exact Inv_any _ _ (Inv_handleEmptyIN _)
            | exact Inv_any _ _ (Inv_writeColumnNameExpr _)
            | exact Inv_any _ _ (Inv_writeAllColumnsExpr _)
            | exact Inv_any _ _ (Inv_writeParameterExpr)
            | exact Inv_any _ _ (Inv_writeConstantExpr _ _ _)
            | exact Inv_any _ _ (Inv_writeUTCTimestampSqlite _)
            | exact Inv_any _ _ (Inv_writeSelect _ _)
            | exact Inv_any _ _ (Inv_writeLimit _ _)
            | exact Inv_any _ _ (Inv_writeExpr _ _)
            | exact Inv_any _ _ (Inv_writeJoins _ _)
            | exact Inv_any _ _ (Inv_writeOrderBy _ _)
            | exact Inv_any _ _ (Inv_writeFrom _ _)
            | exact Inv_writeColumnValue _ _
            | exact Inv_writeCreateColumn _
            | exact Inv_writeFKConstraint _
            | exact Inv_writeConstraint _
            | (refine InvAll_app _ _ _ ?_; assumption)
            | (refine Inv_forRange _ _ (fun _ _ => ?_) _ _)
            | (refine Inv_ignoreErr _ _ ?_)
            | (refine Inv_decRec _ _ _ _ (fun _ => ?_) (fun _ => ?_) <;> beta_reduce))
          | (lift_lets; intro jp; (have hjp : InvAll anyError jp := ?_); clear_value jp)
          | (lift_lets; intro x; clear_value x)
          | (refine InvAll_intro _ _ (fun _ => ?_); unfold_let jp; beta_reduce)
          | split)
      · rename_i hc
        rw [W_bind_ok _ _ _ _ _ (W_pure_apply _ _)] at h
        beta_reduce at h
        rw [W_bind_ok _ _ _ _ _ (WriteString_apply _ _)] at h
        rw [writeFromTable, W_bind_assoc] at h
        rw [if_neg hc]
        refine emits_of_bind w _ w1 _ _ _ _ _ h ⟨rfl, ?_⟩ (fun u => ?_)
        · show _ ++ "DELETE" ++ " FROM " = _
          simp only [String.append_assoc]
          rfl
        repeat' (first
          | with_reducible (first
            | exact Inv_WriteString _ _
            | exact Inv_WriteRune _ _
            | (refine Inv_bind _ _ _ ?_ (fun _ => ?_))
            | (refine Inv_Wbind _ _ _ ?_ (fun _ => ?_))
            | exact Inv_pure _ _
            | exact Inv_Wpure _ _
            | exact Inv_goPanic _ _
            | exact Inv_outOfFuel _
            | exact Inv_getW _
            | exact Inv_removeAt _
            | exact Inv_cursor _
            | exact Inv_current _ _ (by decide!)
            | exact Inv_setCurrentQuery _ _ (by decide!)
            | exact Inv_fail _ _ trivial
            | exact Inv_any _ _ (Inv_writeIdentifier _)
            | exact Inv_writeTable _ _ _
            | exact Inv_any _ _ (Inv_writeUnescapedAlphanumeric _)
            | exact Inv_any _ _ (Inv_writeQuotedAlphanumeric _)
            | exact Inv_any _ _ (Inv_writeInConstant _)
            | exact Inv_any _ _ (Inv_replaceInParameter _)
            | exact Inv_any _ _ (Inv_handleEmptyIN _)
            | exact Inv_any _ _ (Inv_writeColumnNameExpr _)
            | exact Inv_any _ _ (Inv_writeAllColumnsExpr _)
            | exact Inv_any _ _ (Inv_writeParameterExpr)
            | exact Inv_any _ _ (Inv_writeConstantExpr _ _ _)
            | exact Inv_any _ _ (Inv_writeUTCTimestampSqlite _)
            | exact Inv_any _ _ (Inv_writeSelect _ _)
            | exact Inv_any _ _ (Inv_writeLimit _ _)
            | exact Inv_any _ _ (Inv_writeExpr _ _)
            | exact Inv_any _ _ (Inv_writeJoins _ _)
            | exact Inv_any _ _ (Inv_writeOrderBy _ _)
            | exact Inv_any _ _ (Inv_writeFrom _ _)
            | exact Inv_writeColumnValue _ _
            | exact Inv_writeCreateColumn _
            | exact Inv_writeFKConstraint _
            | exact Inv_writeConstraint _
            | (refine InvAll_app _ _ _ ?_; assumption)
            | (refine Inv_forRange _ _ (fun _ _ => ?_) _ _)
            | (refine Inv_ignoreErr _ _ ?_)
            | (refine Inv_decRec _ _ _ _ (fun _ => ?_) (fun _ => ?_) <;> beta_reduce))
          | (lift_lets; intro jp; (have hjp : InvAll anyError jp := ?_); clear_value jp)
          | (lift_lets; intro x; clear_value x)
          | (refine InvAll_intro _ _ (fun _ => ?_); unfold_let jp; beta_reduce)
          | split)

theorem site_createTable (s : CreateTableQuery) (w w1 : writer)
    (h : writeCreateTable s w = .ok () w1) :
    w.validateDatabase w.Database = true ∧ ∃ t rest,
      w.resolve s.Name true = .ok t ∧
      w1.buf = w.buf ++ ("CREATE TABLE " ++ (if s.IfNotExists then "IF NOT EXISTS " else "")) ++
        tableText w w.Database t ++ rest := by
  unfold writeCreateTable at h
  rw [W_bind_ok _ _ _ _ _ (setCurrentQuery_apply _ _)] at h
  rw [W_bind_ok _ _ _ _ _ (WriteString_apply _ _)] at h
  split at h
  · rename_i hc
    rw [W_bind_ok _ _ _ _ _ (WriteString_apply _ _)] at h
    beta_reduce at h
    rw [W_bind_ok _ _ _ _ _ (getW_apply _)] at h
    rw [if_pos hc]
    refine emits_of_bind w _ w1 _ _ _ _ _ h ⟨rfl, ?_⟩ (fun u => ?_)
    · show _ ++ "CREATE TABLE " ++ "IF NOT EXISTS " = _
      simp only [String.append_assoc]
    repeat' (first
      | with_reducible (first
        | exact Inv_WriteString _ _
        | exact Inv_WriteRune _ _
        | (refine Inv_bind _ _ _ ?_ (fun _ => ?_))
        | (refine Inv_Wbind _ _ _ ?_ (fun _ => ?_))
        | exact Inv_pure _ _
        | exact Inv_Wpure _ _
        | exact Inv_goPanic _ _
        | exact Inv_outOfFuel _
        | exact Inv_getW _
        | exact Inv_removeAt _
        | exact Inv_cursor _
        | exact Inv_current _ _ (by decide!)
        | exact Inv_setCurrentQuery _ _ (by decide!)
        | exact Inv_fail _ _ trivial
        | exact Inv_any _ _ (Inv_writeIdentifier _)
        | exact Inv_writeTable _ _ _
        | exact Inv_any _ _ (Inv_writeUnescapedAlphanumeric _)
        | exact Inv_any _ _ (Inv_writeQuotedAlphanumeric _)
        | exact Inv_any _ _ (Inv_writeInConstant _)
        | exact Inv_any _ _ (Inv_replaceInParameter _)
        | exact Inv_any _ _ (Inv_handleEmptyIN _)
        | exact Inv_any _ _ (Inv_writeColumnNameExpr _)
        | exact Inv_any _ _ (Inv_writeAllColumnsExpr _)
        | exact Inv_any _ _ (Inv_writeParameterExpr)
        | exact Inv_any _ _ (Inv_writeConstantExpr _ _ _)
        | exact Inv_any _ _ (Inv_writeUTCTimestampSqlite _)
        | exact Inv_any _ _ (Inv_writeSelect _ _)
        | exact Inv_any _ _ (Inv_writeLimit _ _)
        | exact Inv_any _ _ (Inv_writeExpr _ _)
        | exact Inv_any _ _ (Inv_writeJoins _ _)
        | exact Inv_any _ _ (Inv_writeOrderBy _ _)
        | exact Inv_any _ _ (Inv_writeFrom _ _)
        | exact Inv_writeColumnValue _ _
        | exact Inv_writeCreateColumn _
        | exact Inv_writeFKConstraint _
        | exact Inv_writeConstraint _
        | (refine InvAll_app _ _ _ ?_; assumption)
        | (refine Inv_forRange _ _ (fun _ _ => ?_) _ _)
        | (refine Inv_ignoreErr _ _ ?_)
        | (refine Inv_decRec _ _ _ _ (fun _ => ?_) (fun _ => ?_) <;> beta_reduce))
      | (lift_lets; intro jp; (have hjp : InvAll anyError jp := ?_); clear_value jp)
      | (lift_lets; intro x; clear_value x)
      | (refine InvAll_intro _ _ (fun _ => ?_); unfold_let jp; beta_reduce)
      | split)
  · rename_i hc
    rw [W_bind_ok _ _ _ _ _ (W_pure_apply _ _)] at h
    beta_reduce at h
    rw [W_bind_ok _ _ _ _ _ (getW_apply _)] at h
    rw [if_neg hc]
    refine emits_of_bind w _ w1 _ _ _ _ _ h ⟨rfl, ?_⟩ (fun u => ?_)
    · show _ ++ "CREATE TABLE " = _
      simp only [String.append_assoc, String.append_empty]
    repeat' (first
      | with_reducible (first
        | exact Inv_WriteString _ _
        | exact Inv_WriteRune _ _
        | (refine Inv_bind _ _ _ ?_ (fun _ => ?_))
        | (refine Inv_Wbind _ _ _ ?_ (fun _ => ?_))
        | exact Inv_pure _ _
        | exact Inv_Wpure _ _
        | exact Inv_goPanic _ _
        | exact Inv_outOfFuel _
        | exact Inv_getW _
        | exact Inv_removeAt _
        | exact Inv_cursor _
        | exact Inv_current _ _ (by decide!)
        | exact Inv_setCurrentQuery _ _ (by decide!)
        | exact Inv_fail _ _ trivial
        | exact Inv_any _ _ (Inv_writeIdentifier _)
        | exact Inv_writeTable _ _ _
        | exact Inv_any _ _ (Inv_writeUnescapedAlphanumeric _)
        | exact Inv_any _ _ (Inv_writeQuotedAlphanumeric _)
        | exact Inv_any _ _ (Inv_writeInConstant _)
        | exact Inv_any _ _ (Inv_replaceInParameter _)
        | exact Inv_any _ _ (Inv_handleEmptyIN _)
        | exact Inv_any _ _ (Inv_writeColumnNameExpr _)
        | exact Inv_any _ _ (Inv_writeAllColumnsExpr _)
        | exact Inv_any _ _ (Inv_writeParameterExpr)
        | exact Inv_any _ _ (Inv_writeConstantExpr _ _ _)
        | exact Inv_any _ _ (Inv_writeUTCTimestampSqlite _)
        | exact Inv_any _ _ (Inv_writeSelect _ _)
        | exact Inv_any _ _ (Inv_writeLimit _ _)
        | exact Inv_any _ _ (Inv_writeExpr _ _)
        | exact Inv_any _ _ (Inv_writeJoins _ _)
        | exact Inv_any _ _ (Inv_writeOrderBy _ _)
        | exact Inv_any _ _ (Inv_writeFrom _ _)
        | exact Inv_writeColumnValue _ _
        | exact Inv_writeCreateColumn _
        | exact Inv_writeFKConstraint _
        | exact Inv_writeConstraint _
        | (refine InvAll_app _ _ _ ?_; assumption)
        | (refine Inv_forRange _ _ (fun _ _ => ?_) _ _)
        | (refine Inv_ignoreErr _ _ ?_)
        | (refine Inv_decRec _ _ _ _ (fun _ => ?_) (fun _ => ?_) <;> beta_reduce))
      | (lift_lets; intro jp; (have hjp : InvAll anyError jp := ?_); clear_value jp)
      | (lift_lets; intro x; clear_value x)
      | (refine InvAll_intro _ _ (fun _ => ?_); unfold_let jp; beta_reduce)
      | split)

theorem site_dropTable (s : DropTableQuery) (w w1 : writer)
    (h : writeDropTable s w = .ok () w1) :
    w.validateDatabase s.Database = true ∧ ∃ t rest,
      w.resolve s.Table true = .ok t ∧
      w1.buf = w.buf ++ ("DROP TABLE " ++ (if s.IfExists then "IF EXISTS " else "")) ++
        tableText w s.Database t ++ rest := by
  unfold writeDropTable at h
  rw [W_bind_ok _ _ _ _ _ (setCurrentQuery_apply _ _)] at h
  rw [W_bind_ok _ _ _ _ _ (WriteString_apply _ _)] at h
  split at h
  · rename_i hc
    rw [W_bind_ok _ _ _ _ _ (WriteString_apply _ _)] at h
    beta_reduce at h
    rw [if_pos hc]
    rw [← W_bind_pure_right (writeTable s.Database s.Table true)] at h
    refine emits_of_bind w _ w1 _ _ _ _ _ h ⟨rfl, ?_⟩ (fun u => ?_)
    · show _ ++ "DROP TABLE " ++ "IF EXISTS " = _
      simp only [String.append_assoc]
    · exact Inv_pure _ _
  · rename_i hc
    rw [W_bind_ok _ _ _ _ _ (W_pure_apply _ _)] at h
    beta_reduce at h
    rw [if_neg hc]
    rw [← W_bind_pure_right (writeTable s.Database s.Table true)] at h
    refine emits_of_bind w _ w1 _ _ _ _ _ h ⟨rfl, ?_⟩ (fun u => ?_)
    · show _ ++ "DROP TABLE " = _
      simp only [String.append_assoc, String.append_empty]
    · exact Inv_pure _ _

theorem site_writeRenameColumnQuery (q : RenameColumnQuery) (w w1 : writer)
    (h : writeRenameColumnQuery q w = .ok () w1) :
    w.validateDatabase q.Database = true ∧ ∃ t rest,
      w.resolve q.Table true = .ok t ∧
      w1.buf = w.buf ++ "ALTER TABLE " ++ tableText w q.Database t ++ rest := by
  unfold writeRenameColumnQuery at h
  rw [W_bind_ok _ _ _ _ _ (WriteString_apply _ _)] at h
  refine emits_of_bind w _ w1 _ _ _ _ "ALTER TABLE " h ⟨rfl, rfl⟩ (fun u => ?_)
  repeat' (first
    | with_reducible (first
      | exact Inv_WriteString _ _
      | exact Inv_WriteRune _ _
      | (refine Inv_bind _ _ _ ?_ (fun _ => ?_))
      | (refine Inv_Wbind _ _ _ ?_ (fun _ => ?_))
      | exact Inv_pure _ _
      | exact Inv_Wpure _ _
      | exact Inv_goPanic _ _
      | exact Inv_outOfFuel _
      | exact Inv_getW _
      | exact Inv_removeAt _
      | exact Inv_cursor _
      | exact Inv_current _ _ (by decide!)
      | exact Inv_setCurrentQuery _ _ (by decide!)
      | exact Inv_fail _ _ trivial
      | exact Inv_any _ _ (Inv_writeIdentifier _)
      | exact Inv_writeTable _ _ _
      | exact Inv_any _ _ (Inv_writeUnescapedAlphanumeric _)
      | exact Inv_any _ _ (Inv_writeQuotedAlphanumeric _)
      | exact Inv_any _ _ (Inv_writeInConstant _)
      | exact Inv_any _ _ (Inv_replaceInParameter _)
      | exact Inv_any _ _ (Inv_handleEmptyIN _)
      | exact Inv_any _ _ (Inv_writeColumnNameExpr _)
      | exact Inv_any _ _ (Inv_writeAllColumnsExpr _)
      | exact Inv_any _ _ (Inv_writeParameterExpr)
      | exact Inv_any _ _ (Inv_writeConstantExpr _ _ _)
      | exact Inv_any _ _ (Inv_writeUTCTimestampSqlite _)
      | exact Inv_any _ _ (Inv_writeSelect _ _)
      | exact Inv_any _ _ (Inv_writeLimit _ _)
      | exact Inv_any _ _ (Inv_writeExpr _ _)
      | exact Inv_any _ _ (Inv_writeJoins _ _)
      | exact Inv_any _ _ (Inv_writeOrderBy _ _)
      | exact Inv_any _ _ (Inv_writeFrom _ _)
      | exact Inv_writeColumnValue _ _
      | exact Inv_writeCreateColumn _
      | exact Inv_writeFKConstraint _
      | exact Inv_writeConstraint _
      | (refine InvAll_app _ _ _ ?_; assumption)
      | (refine Inv_forRange _ _ (fun _ _ => ?_) _ _)
      | (refine Inv_ignoreErr _ _ ?_)
      | (refine Inv_decRec _ _ _ _ (fun _ => ?_) (fun _ => ?_) <;> beta_reduce))
    | (lift_lets; intro jp; (have hjp : InvAll anyError jp := ?_); clear_value jp)
    | (lift_lets; intro x; clear_value x)
    | (refine InvAll_intro _ _ (fun _ => ?_); unfold_let jp; beta_reduce)
    | split)

theorem site_writeAddColumnQuery (q : AddColumnQuery) (w w1 : writer)
    (h : writeAddColumnQuery q w = .ok () w1) :
    w.validateDatabase q.Database = true ∧ ∃ t rest,
      w.resolve q.Table true = .ok t ∧
      w1.buf = w.buf ++ "ALTER TABLE " ++ tableText w q.Database t ++ rest := by
  unfold writeAddColumnQuery at h
  rw [W_bind_ok _ _ _ _ _ (WriteString_apply _ _)] at h
  refine emits_of_bind w _ w1 _ _ _ _ "ALTER TABLE " h ⟨rfl, rfl⟩ (fun u => ?_)
  repeat' (first
    | with_reducible (first
      | exact Inv_WriteString _ _
      | exact Inv_WriteRune _ _
      | (refine Inv_bind _ _ _ ?_ (fun _ => ?_))
      | (refine Inv_Wbind _ _ _ ?_ (fun _ => ?_))
      | exact Inv_pure _ _
      | exact Inv_Wpure _ _
      | exact Inv_goPanic _ _
      | exact Inv_outOfFuel _
      | exact Inv_getW _
      | exact Inv_removeAt _
      | exact Inv_cursor _
      | exact Inv_current _ _ (by decide!)
      | exact Inv_setCurrentQuery _ _ (by decide!)
      | exact Inv_fail _ _ trivial
      | exact Inv_any _ _ (Inv_writeIdentifier _)
      | exact Inv_writeTable _ _ _
      | exact Inv_any _ _ (Inv_writeUnescapedAlphanumeric _)
      | exact Inv_any _ _ (Inv_writeQuotedAlphanumeric _)
      | exact Inv_any _ _ (Inv_writeInConstant _)
      | exact Inv_any _ _ (Inv_replaceInParameter _)
      | exact Inv_any _ _ (Inv_handleEmptyIN _)
      | exact Inv_any _ _ (Inv_writeColumnNameExpr _)
      | exact Inv_any _ _ (Inv_writeAllColumnsExpr _)
      | exact Inv_any _ _ (Inv_writeParameterExpr)
      | exact Inv_any _ _ (Inv_writeConstantExpr _ _ _)
      | exact Inv_any _ _ (Inv_writeUTCTimestampSqlite _)
      | exact Inv_any _ _ (Inv_writeSelect _ _)
      | exact Inv_any _ _ (Inv_writeLimit _ _)
      | exact Inv_any _ _ (Inv_writeExpr _ _)
      | exact Inv_any _ _ (Inv_writeJoins _ _)
      | exact Inv_any _ _ (Inv_writeOrderBy _ _)
      | exact Inv_any _ _ (Inv_writeFrom _ _)
      | exact Inv_writeColumnValue _ _
      | exact Inv_writeCreateColumn _
      | exact Inv_writeFKConstraint _
      | exact Inv_writeConstraint _
      | (refine InvAll_app _ _ _ ?_; assumption)
      | (refine Inv_forRange _ _ (fun _ _ => ?_) _ _)
      | (refine Inv_ignoreErr _ _ ?_)
      | (refine Inv_decRec _ _ _ _ (fun _ => ?_) (fun _ => ?_) <;> beta_reduce))
    | (lift_lets; intro jp; (have hjp : InvAll anyError jp := ?_); clear_value jp)
    | (lift_lets; intro x; clear_value x)
    | (refine InvAll_intro _ _ (fun _ => ?_); unfold_let jp; beta_reduce)
    | split)

theorem site_writeAlterDropQuery (q : AlterDropQuery) (w w1 : writer)
    (h : writeAlterDropQuery q w = .ok () w1) :
    w.validateDatabase q.Database = true ∧ ∃ t rest,
      w.resolve q.Table true = .ok t ∧
      w1.buf = w.buf ++ "ALTER TABLE " ++ tableText w q.Database t ++ rest := by
  unfold writeAlterDropQuery at h
  rw [W_bind_ok _ _ _ _ _ (WriteString_apply _ _)] at h
  refine emits_of_bind w _ w1 _ _ _ _ "ALTER TABLE " h ⟨rfl, rfl⟩ (fun u => ?_)
  repeat' (first
    | with_reducible (first
      | exact Inv_WriteString _ _
      | exact Inv_WriteRune _ _
      | (refine Inv_bind _ _ _ ?_ (fun _ => ?_))
      | (refine Inv_Wbind _ _ _ ?_ (fun _ => ?_))
      | exact Inv_pure _ _
      | exact Inv_Wpure _ _
      | exact Inv_goPanic _ _
      | exact Inv_outOfFuel _
      | exact Inv_getW _
      | exact Inv_removeAt _
      | exact Inv_cursor _
      | exact Inv_current _ _ (by decide!)
      | exact Inv_setCurrentQuery _ _ (by decide!)
      | exact Inv_fail _ _ trivial
      | exact Inv_any _ _ (Inv_writeIdentifier _)
      | exact Inv_writeTable _ _ _
      | exact Inv_any _ _ (Inv_writeUnescapedAlphanumeric _)
      | exact Inv_any _ _ (Inv_writeQuotedAlphanumeric _)
      | exact Inv_any _ _ (Inv_writeInConstant _)
      | exact Inv_any _ _ (Inv_replaceInParameter _)
      | exact Inv_any _ _ (Inv_handleEmptyIN _)
      | exact Inv_any _ _ (Inv_writeColumnNameExpr _)
      | exact Inv_any _ _ (Inv_writeAllColumnsExpr _)
      | exact Inv_any _ _ (Inv_writeParameterExpr)
      | exact Inv_any _ _ (Inv_writeConstantExpr _ _ _)
      | exact Inv_any _ _ (Inv_writeUTCTimestampSqlite _)
      | exact Inv_any _ _ (Inv_writeSelect _ _)
      | exact Inv_any _ _ (Inv_writeLimit _ _)
      | exact Inv_any _ _ (Inv_writeExpr _ _)
      | exact Inv_any _ _ (Inv_writeJoins _ _)
      | exact Inv_any _ _ (Inv_writeOrderBy _ _)
      | exact Inv_any _ _ (Inv_writeFrom _ _)
      | exact Inv_writeColumnValue _ _
      | exact Inv_writeCreateColumn _
      | exact Inv_writeFKConstraint _
      | exact Inv_writeConstraint _
      | (refine InvAll_app _ _ _ ?_; assumption)
      | (refine Inv_forRange _ _ (fun _ _ => ?_) _ _)
      | (refine Inv_ignoreErr _ _ ?_)
      | (refine Inv_decRec _ _ _ _ (fun _ => ?_) (fun _ => ?_) <;> beta_reduce))
    | (lift_lets; intro jp; (have hjp : InvAll anyError jp := ?_); clear_value jp)
    | (lift_lets; intro x; clear_value x)
    | (refine InvAll_intro _ _ (fun _ => ?_); unfold_let jp; beta_reduce)
    | split)

theorem site_writeModifyColumnQuery (q : ModifyColumnQuery) (w w1 : writer)
    (h : writeModifyColumnQuery q w = .ok () w1) :
    w.validateDatabase q.Database = true ∧ ∃ t rest,
      w.resolve q.Table true = .ok t ∧
      w1.buf = w.buf ++ "ALTER TABLE " ++ tableText w q.Database t ++ rest := by
  unfold writeModifyColumnQuery at h
  rw [W_bind_ok _ _ _ _ _ (WriteString_apply _ _)] at h
  refine emits_of_bind w _ w1 _ _ _ _ "ALTER TABLE " h ⟨rfl, rfl⟩ (fun u => ?_)
  repeat' (first
    | with_reducible (first
      | exact Inv_WriteString _ _
      | exact Inv_WriteRune _ _
      | (refine Inv_bind _ _ _ ?_ (fun _ => ?_))
      | (refine Inv_Wbind _ _ _ ?_ (fun _ => ?_))
      | exact Inv_pure _ _
      | exact Inv_Wpure _ _
      | exact Inv_goPanic _ _
      | exact Inv_outOfFuel _
      | exact Inv_getW _
      | exact Inv_removeAt _
      | exact Inv_cursor _
      | exact Inv_current _ _ (by decide!)
      | exact Inv_setCurrentQuery _ _ (by decide!)
      | exact Inv_fail _ _ trivial
      | exact Inv_any _ _ (Inv_writeIdentifier _)
      | exact Inv_writeTable _ _ _
      | exact Inv_any _ _ (Inv_writeUnescapedAlphanumeric _)
      | exact Inv_any _ _ (Inv_writeQuotedAlphanumeric _)
      | exact Inv_any _ _ (Inv_writeInConstant _)
      | exact Inv_any _ _ (Inv_replaceInParameter _)
      | exact Inv_any _ _ (Inv_handleEmptyIN _)
      | exact Inv_any _ _ (Inv_writeColumnNameExpr _)
      | exact Inv_any _ _ (Inv_writeAllColumnsExpr _)
      | exact Inv_any _ _ (Inv_writeParameterExpr)
      | exact Inv_any _ _ (Inv_writeConstantExpr _ _ _)
      | exact Inv_any _ _ (Inv_writeUTCTimestampSqlite _)
      | exact Inv_any _ _ (Inv_writeSelect _ _)
      | exact Inv_any _ _ (Inv_writeLimit _ _)
      | exact Inv_any _ _ (Inv_writeExpr _ _)
      | exact Inv_any _ _ (Inv_writeJoins _ _)
      | exact Inv_any _ _ (Inv_writeOrderBy _ _)
      | exact Inv_any _ _ (Inv_writeFrom _ _)
      | exact Inv_writeColumnValue _ _
      | exact Inv_writeCreateColumn _
      | exact Inv_writeFKConstraint _
      | exact Inv_writeConstraint _
      | (refine InvAll_app _ _ _ ?_; assumption)
      | (refine Inv_forRange _ _ (fun _ _ => ?_) _ _)
      | (refine Inv_ignoreErr _ _ ?_)
      | (refine Inv_decRec _ _ _ _ (fun _ => ?_) (fun _ => ?_) <;> beta_reduce))
    | (lift_lets; intro jp; (have hjp : InvAll anyError jp := ?_); clear_value jp)
    | (lift_lets; intro x; clear_value x)
    | (refine InvAll_intro _ _ (fun _ => ?_); unfold_let jp; beta_reduce)
    | split)

theorem site_writeAddContraint (s : AddConstraintQuery) (w w1 : writer)
    (h : writeAddContraint s w = .ok () w1) :
    w.validateDatabase s.Database = true ∧ ∃ t rest,
      w.resolve s.Table true = .ok t ∧
      w1.buf = w.buf ++ "ALTER TABLE " ++ tableText w s.Database t ++ rest := by
  unfold writeAddContraint at h
  rw [W_bind_ok _ _ _ _ _ (WriteString_apply _ _)] at h
  refine emits_of_bind w _ w1 _ _ _ _ "ALTER TABLE " h ⟨rfl, rfl⟩ (fun u => ?_)
  repeat' (first
    | with_reducible (first
      | exact Inv_WriteString _ _
      | exact Inv_WriteRune _ _
      | (refine Inv_bind _ _ _ ?_ (fun _ => ?_))
      | (refine Inv_Wbind _ _ _ ?_ (fun _ => ?_))
      | exact Inv_pure _ _
      | exact Inv_Wpure _ _
      | exact Inv_goPanic _ _
      | exact Inv_outOfFuel _
      | exact Inv_getW _
      | exact Inv_removeAt _
      | exact Inv_cursor _
      | exact Inv_current _ _ (by decide!)
      | exact Inv_setCurrentQuery _ _ (by decide!)
      | exact Inv_fail _ _ trivial
      | exact Inv_any _ _ (Inv_writeIdentifier _)
      | exact Inv_writeTable _ _ _
      | exact Inv_any _ _ (Inv_writeUnescapedAlphanumeric _)
      | exact Inv_any _ _ (Inv_writeQuotedAlphanumeric _)
      | exact Inv_any _ _ (Inv_writeInConstant _)
      | exact Inv_any _ _ (Inv_replaceInParameter _)
      | exact Inv_any _ _ (Inv_handleEmptyIN _)
      | exact Inv_any _ _ (Inv_writeColumnNameExpr _)
      | exact Inv_any _ _ (Inv_writeAllColumnsExpr _)
      | exact Inv_any _ _ (Inv_writeParameterExpr)
      | exact Inv_any _ _ (Inv_writeConstantExpr _ _ _)
      | exact Inv_any _ _ (Inv_writeUTCTimestampSqlite _)
      | exact Inv_any _ _ (Inv_writeSelect _ _)
      | exact Inv_any _ _ (Inv_writeLimit _ _)
      | exact Inv_any _ _ (Inv_writeExpr _ _)
      | exact Inv_any _ _ (Inv_writeJoins _ _)
      | exact Inv_any _ _ (Inv_writeOrderBy _ _)
      | exact Inv_any _ _ (Inv_writeFrom _ _)
      | exact Inv_writeColumnValue _ _
      | exact Inv_writeCreateColumn _
      | exact Inv_writeFKConstraint _
      | exact Inv_writeConstraint _
      | (refine InvAll_app _ _ _ ?_; assumption)
      | (refine Inv_forRange _ _ (fun _ _ => ?_) _ _)
      | (refine Inv_ignoreErr _ _ ?_)
      | (refine Inv_decRec _ _ _ _ (fun _ => ?_) (fun _ => ?_) <;> beta_reduce))
    | (lift_lets; intro jp; (have hjp : InvAll anyError jp := ?_); clear_value jp)
    | (lift_lets; intro x; clear_value x)
    | (refine InvAll_intro _ _ (fun _ => ?_); unfold_let jp; beta_reduce)
    | split)

theorem site_writeAddFK (s : AddFKQuery) (w w1 : writer)
    (h : writeAddFK s w = .ok () w1) :
    w.validateDatabase s.Database = true ∧ ∃ t rest,
      w.resolve s.Table true = .ok t ∧
      w1.buf = w.buf ++ "ALTER TABLE " ++ tableText w s.Database t ++ rest := by
  unfold writeAddFK at h
  rw [W_bind_ok _ _ _ _ _ (WriteString_apply _ _)] at h
  refine emits_of_bind w _ w1 _ _ _ _ "ALTER TABLE " h ⟨rfl, rfl⟩ (fun u => ?_)
  repeat' (first
    | with_reducible (first
      | exact Inv_WriteString _ _
      | exact Inv_WriteRune _ _
      | (refine Inv_bind _ _ _ ?_ (fun _ => ?_))
      | (refine Inv_Wbind _ _ _ ?_ (fun _ => ?_))
      | exact Inv_pure _ _
      | exact Inv_Wpure _ _
      | exact Inv_goPanic _ _
      | exact Inv_outOfFuel _
      | exact Inv_getW _
      | exact Inv_removeAt _
      | exact Inv_cursor _
      | exact Inv_current _ _ (by decide!)
      | exact Inv_setCurrentQuery _ _ (by decide!)
      | exact Inv_fail _ _ trivial
      | exact Inv_any _ _ (Inv_writeIdentifier _)
      | exact Inv_writeTable _ _ _
      | exact Inv_any _ _ (Inv_writeUnescapedAlphanumeric _)
      | exact Inv_any _ _ (Inv_writeQuotedAlphanumeric _)
      | exact Inv_any _ _ (Inv_writeInConstant _)
      | exact Inv_any _ _ (Inv_replaceInParameter _)
      | exact Inv_any _ _ (Inv_handleEmptyIN _)
      | exact Inv_any _ _ (Inv_writeColumnNameExpr _)
      | exact Inv_any _ _ (Inv_writeAllColumnsExpr _)
      | exact Inv_any _ _ (Inv_writeParameterExpr)
      | exact Inv_any _ _ (Inv_writeConstantExpr _ _ _)
      | exact Inv_any _ _ (Inv_writeUTCTimestampSqlite _)
      | exact Inv_any _ _ (Inv_writeSelect _ _)
      | exact Inv_any _ _ (Inv_writeLimit _ _)
      | exact Inv_any _ _ (Inv_writeExpr _ _)
      | exact Inv_any _ _ (Inv_writeJoins _ _)
      | exact Inv_any _ _ (Inv_writeOrderBy _ _)
      | exact Inv_any _ _ (Inv_writeFrom _ _)
      | exact Inv_writeColumnValue _ _
      | exact Inv_writeCreateColumn _
      | exact Inv_writeFKConstraint _
      | exact Inv_writeConstraint _
      | (refine InvAll_app _ _ _ ?_; assumption)
      | (refine Inv_forRange _ _ (fun _ _ => ?_) _ _)
      | (refine Inv_ignoreErr _ _ ?_)
      | (refine Inv_decRec _ _ _ _ (fun _ => ?_) (fun _ => ?_) <;> beta_reduce))
    | (lift_lets; intro jp; (have hjp : InvAll anyError jp := ?_); clear_value jp)
    | (lift_lets; intro x; clear_value x)
    | (refine InvAll_intro _ _ (fun _ => ?_); unfold_let jp; beta_reduce)
    | split)

theorem resolved_of_ok (w : writer) (table t : String) (isWrite : Bool)
    (h : w.resolve table isWrite = .ok t) : w.resolved table isWrite = t := by
  simp only [writer.resolved, h]

theorem site_addFKReferences (s : AddFKQuery) (w w1 : writer)
    (h : writeAddFK s w = .ok () w1) :
    w.validateDatabase s.RefDatabase = true ∧ ∃ t rest,
      w.resolve s.RefTable false = .ok t ∧
      w1.buf = w.buf ++ ("ALTER TABLE " ++ tableText w s.Database (w.resolved s.Table true) ++
          " ADD CONSTRAINT " ++ identText w.EscapeIdents s.Name ++ " FOREIGN KEY(" ++
          identText w.EscapeIdents s.Column ++ ") REFERENCES ") ++
        tableText w s.RefDatabase t ++ rest := by
  unfold writeAddFK at h
  rw [W_bind_ok _ _ _ _ _ (WriteString_apply _ _)] at h
  obtain ⟨_, wa, h1, h⟩ := W_bind_ok_inv _ _ _ _ _ h
  obtain ⟨_, t, ht, e1⟩ :=
    writeTable_emits { w with buf := w.buf ++ "ALTER TABLE " } _ _ _ _ h1
  have ht2 : w.resolved s.Table true = t :=
    resolved_of_ok w _ _ _ (ht : w.resolve s.Table true = .ok t)
  subst e1
  rw [W_bind_ok _ _ _ _ _ (WriteString_apply _ _)] at h
  obtain ⟨_, wb, h2, h⟩ := W_bind_ok_inv _ _ _ _ _ h
  have e2 := writeIdentifier_ok _ _ _ h2
  subst e2
  rw [W_bind_ok _ _ _ _ _ (WriteString_apply _ _)] at h
  obtain ⟨_, wc, h3, h⟩ := W_bind_ok_inv _ _ _ _ _ h
  have e3 := writeIdentifier_ok _ _ _ h3
  subst e3
  rw [W_bind_ok _ _ _ _ _ (WriteString_apply _ _)] at h
  rw [ht2]
  refine emits_of_bind w _ w1 _ _ _ _ _ h ⟨rfl, ?_⟩ (fun u => ?_)
  · simp only [String.append_assoc] <;> rfl
  repeat' (first
    | with_reducible (first
      | exact Inv_WriteString _ _
      | exact Inv_WriteRune _ _
      | (refine Inv_bind _ _ _ ?_ (fun _ => ?_))
      | (refine Inv_Wbind _ _ _ ?_ (fun _ => ?_))
      | exact Inv_pure _ _
      | exact Inv_Wpure _ _
      | exact Inv_goPanic _ _
      | exact Inv_outOfFuel _
      | exact Inv_getW _
      | exact Inv_removeAt _
      | exact Inv_cursor _
      | exact Inv_current _ _ (by decide!)
      | exact Inv_setCurrentQuery _ _ (by decide!)
      | exact Inv_fail _ _ trivial
      | exact Inv_any _ _ (Inv_writeIdentifier _)
      | exact Inv_writeTable _ _ _
      | exact Inv_any _ _ (Inv_writeUnescapedAlphanumeric _)
      | exact Inv_any _ _ (Inv_writeQuotedAlphanumeric _)
      | exact Inv_any _ _ (Inv_writeInConstant _)
      | exact Inv_any _ _ (Inv_replaceInParameter _)
      | exact Inv_any _ _ (Inv_handleEmptyIN _)
      | exact Inv_any _ _ (Inv_writeColumnNameExpr _)
      | exact Inv_any _ _ (Inv_writeAllColumnsExpr _)
      | exact Inv_any _ _ (Inv_writeParameterExpr)
      | exact Inv_any _ _ (Inv_writeConstantExpr _ _ _)
      | exact Inv_any _ _ (Inv_writeUTCTimestampSqlite _)
      | exact Inv_any _ _ (Inv_writeSelect _ _)
      | exact Inv_any _ _ (Inv_writeLimit _ _)
      | exact Inv_any _ _ (Inv_writeExpr _ _)
      | exact Inv_any _ _ (Inv_writeJoins _ _)
      | exact Inv_any _ _ (Inv_writeOrderBy _ _)
      | exact Inv_any _ _ (Inv_writeFrom _ _)
      | exact Inv_writeColumnValue _ _
      | exact Inv_writeCreateColumn _
      | exact Inv_writeFKConstraint _
      | exact Inv_writeConstraint _
      | (refine InvAll_app _ _ _ ?_; assumption)
      | (refine Inv_forRange _ _ (fun _ _ => ?_) _ _)
      | (refine Inv_ignoreErr _ _ ?_)
      | (refine Inv_decRec _ _ _ _ (fun _ => ?_) (fun _ => ?_) <;> beta_reduce))
    | (lift_lets; intro jp; (have hjp : InvAll anyError jp := ?_); clear_value jp)
    | (lift_lets; intro x; clear_value x)
    | (refine InvAll_intro _ _ (fun _ => ?_); unfold_let jp; beta_reduce)
    | split)

theorem site_references (c : ForeginKey) (w w1 : writer)
    (h : writeFKConstraint c w = .ok () w1) :
    w.validateDatabase w.Database = true ∧ ∃ t rest,
      w.resolve c.RefTable false = .ok t ∧
      w1.buf = w.buf ++ (", CONSTRAINT " ++ identText w.EscapeIdents c.Name ++
          " FOREIGN KEY (" ++ identText w.EscapeIdents c.Column ++ ") REFERENCES ") ++
        tableText w w.Database t ++ rest := by
  unfold writeFKConstraint at h
  rw [W_bind_ok _ _ _ _ _ (WriteString_apply _ _)] at h
  obtain ⟨_, wb, h2, h⟩ := W_bind_ok_inv _ _ _ _ _ h
  have e2 := writeIdentifier_ok _ _ _ h2
  subst e2
  rw [W_bind_ok _ _ _ _ _ (WriteString_apply _ _)] at h
  obtain ⟨_, wc, h3, h⟩ := W_bind_ok_inv _ _ _ _ _ h
  have e3 := writeIdentifier_ok _ _ _ h3
  subst e3
  rw [W_bind_ok _ _ _ _ _ (WriteString_apply _ _)] at h
  rw [W_bind_ok _ _ _ _ _ (getW_apply _)] at h
  refine emits_of_bind w _ w1 _ _ _ _ _ h ⟨rfl, ?_⟩ (fun u => ?_)
  · simp only [String.append_assoc] <;> rfl
  repeat' (first
    | with_reducible (first
      | exact Inv_WriteString _ _
      | exact Inv_WriteRune _ _
      | (refine Inv_bind _ _ _ ?_ (fun _ => ?_))
      | (refine Inv_Wbind _ _ _ ?_ (fun _ => ?_))
      | exact Inv_pure _ _
      | exact Inv_Wpure _ _
      | exact Inv_goPanic _ _
      | exact Inv_outOfFuel _
      | exact Inv_getW _
      | exact Inv_removeAt _
      | exact Inv_cursor _
      | exact Inv_current _ _ (by decide!)
      | exact Inv_setCurrentQuery _ _ (by decide!)
      | exact Inv_fail _ _ trivial
      | exact Inv_any _ _ (Inv_writeIdentifier _)
      | exact Inv_writeTable _ _ _
      | exact Inv_any _ _ (Inv_writeUnescapedAlphanumeric _)
      | exact Inv_any _ _ (Inv_writeQuotedAlphanumeric _)
      | exact Inv_any _ _ (Inv_writeInConstant _)
      | exact Inv_any _ _ (Inv_replaceInParameter _)
      | exact Inv_any _ _ (Inv_handleEmptyIN _)
      | exact Inv_any _ _ (Inv_writeColumnNameExpr _)
      | exact Inv_any _ _ (Inv_writeAllColumnsExpr _)
      | exact Inv_any _ _ (Inv_writeParameterExpr)
      | exact Inv_any _ _ (Inv_writeConstantExpr _ _ _)
      | exact Inv_any _ _ (Inv_writeUTCTimestampSqlite _)
      | exact Inv_any _ _ (Inv_writeSelect _ _)
      | exact Inv_any _ _ (Inv_writeLimit _ _)
      | exact Inv_any _ _ (Inv_writeExpr _ _)
      | exact Inv_any _ _ (Inv_writeJoins _ _)
      | exact Inv_any _ _ (Inv_writeOrderBy _ _)
      | exact Inv_any _ _ (Inv_writeFrom _ _)
      | exact Inv_writeColumnValue _ _
      | exact Inv_writeCreateColumn _
      | exact Inv_writeFKConstraint _
      | exact Inv_writeConstraint _
      | (refine InvAll_app _ _ _ ?_; assumption)
      | (refine Inv_forRange _ _ (fun _ _ => ?_) _ _)
      | (refine Inv_ignoreErr _ _ ?_)
      | (refine Inv_decRec _ _ _ _ (fun _ => ?_) (fun _ => ?_) <;> beta_reduce))
    | (lift_lets; intro jp; (have hjp : InvAll anyError jp := ?_); clear_value jp)
    | (lift_lets; intro x; clear_value x)
    | (refine InvAll_intro _ _ (fun _ => ?_); unfold_let jp; beta_reduce)
    | split)

theorem site_showColumns (q : ShowQuery) (hc : stringsToLower q.Typ = "columns")
    (w w1 : writer) (h : writeShow q w = .ok () w1) :
    w.validateDatabase q.Database = true ∧ ∃ t rest,
      w.resolve q.Table false = .ok t ∧
      w1.buf = w.buf ++
        (if w.driver == "sqlite3" then "PRAGMA table_info(" else "SHOW COLUMNS FROM ") ++
        tableText w q.Database t ++ rest := by
  unfold writeShow at h
  rw [W_bind_ok _ _ _ _ _ (setCurrentQuery_apply _ _)] at h
  simp only [hc] at h
  rw [if_neg (by decide!), if_neg (by decide!), if_pos (by decide!)] at h
  unfold writeShowColumns at h
  rw [W_bind_ok _ _ _ _ _ (getW_apply _)] at h
  split at h
  · rename_i hd
    have hd1 : (w.driver == "sqlite3") = true := hd
    rw [W_bind_ok _ _ _ _ _ (WriteString_apply _ _)] at h
    rw [if_pos hd1]
    refine emits_of_bind w _ w1 _ _ _ _ _ h ⟨rfl, rfl⟩ (fun u => ?_)
    repeat' (first
      | with_reducible (first
        | exact Inv_WriteString _ _
        | exact Inv_WriteRune _ _
        | (refine Inv_bind _ _ _ ?_ (fun _ => ?_))
        | (refine Inv_Wbind _ _ _ ?_ (fun _ => ?_))
        | exact Inv_pure _ _
        | exact Inv_Wpure _ _
        | exact Inv_goPanic _ _
        | exact Inv_outOfFuel _
        | exact Inv_getW _
        | exact Inv_removeAt _
        | exact Inv_cursor _
        | exact Inv_current _ _ (by decide!)
        | exact Inv_setCurrentQuery _ _ (by decide!)
        | exact Inv_fail _ _ trivial
        | exact Inv_any _ _ (Inv_writeIdentifier _)
        | exact Inv_writeTable _ _ _
        | exact Inv_any _ _ (Inv_writeUnescapedAlphanumeric _)
        | exact Inv_any _ _ (Inv_writeQuotedAlphanumeric _)
        | exact Inv_any _ _ (Inv_writeInConstant _)
        | exact Inv_any _ _ (Inv_replaceInParameter _)
        | exact Inv_any _ _ (Inv_handleEmptyIN _)
        | exact Inv_any _ _ (Inv_writeColumnNameExpr _)
        | exact Inv_any _ _ (Inv_writeAllColumnsExpr _)
        | exact Inv_any _ _ (Inv_writeParameterExpr)
        | exact Inv_any _ _ (Inv_writeConstantExpr _ _ _)
        | exact Inv_any _ _ (Inv_writeUTCTimestampSqlite _)
        | exact Inv_any _ _ (Inv_writeSelect _ _)
        | exact Inv_any _ _ (Inv_writeLimit _ _)
        | exact Inv_any _ _ (Inv_writeExpr _ _)
        | exact Inv_any _ _ (Inv_writeJoins _ _)
        | exact Inv_any _ _ (Inv_writeOrderBy _ _)
        | exact Inv_any _ _ (Inv_writeFrom _ _)
        | exact Inv_writeColumnValue _ _
        | exact Inv_writeCreateColumn _
        | exact Inv_writeFKConstraint _
        | exact Inv_writeConstraint _
        | (refine InvAll_app _ _ _ ?_; assumption)
        | (refine Inv_forRange _ _ (fun _ _ => ?_) _ _)
        | (refine Inv_ignoreErr _ _ ?_)
        | (refine Inv_decRec _ _ _ _ (fun _ => ?_) (fun _ => ?_) <;> beta_reduce))
      | (lift_lets; intro jp; (have hjp : InvAll anyError jp := ?_); clear_value jp)
      | (lift_lets; intro x; clear_value x)
      | (refine InvAll_intro _ _ (fun _ => ?_); unfold_let jp; beta_reduce)
      | split)
  · rename_i hd
    have hd1 : ¬(w.driver == "sqlite3") = true := hd
    rw [W_bind_ok _ _ _ _ _ (WriteString_apply _ _)] at h
    rw [if_neg hd1]
    rw [← W_bind_pure_right (writeTable q.Database q.Table false)] at h
    refine emits_of_bind w _ w1 _ _ _ _ _ h ⟨rfl, rfl⟩ (fun u => ?_)
    exact Inv_pure _ _

theorem site_showIndex (q : ShowQuery) (hc : stringsToLower q.Typ = "index")
    (w w1 : writer) (h : writeShow q w = .ok () w1) :
    w.validateDatabase q.Database = true ∧ ∃ t rest,
      w.resolve q.Table false = .ok t ∧
      w1.buf = w.buf ++
        (if w.driver == "sqlite3" then "PRAGMA index_list(" else "SHOW INDEX FROM ") ++
        tableText w q.Database t ++ rest := by
  unfold writeShow at h
  rw [W_bind_ok _ _ _ _ _ (setCurrentQuery_apply _ _)] at h
  simp only [hc] at h
  rw [if_neg (by decide!), if_neg (by decide!), if_neg (by decide!), if_pos (by decide!)] at h
  unfold writeShowIndex at h
  rw [W_bind_ok _ _ _ _ _ (getW_apply _)] at h
  split at h
  · rename_i hd
    have hd1 : (w.driver == "sqlite3") = true := hd
    rw [W_bind_ok _ _ _ _ _ (WriteString_apply _ _)] at h
    rw [if_pos hd1]
    refine emits_of_bind w _ w1 _ _ _ _ _ h ⟨rfl, rfl⟩ (fun u => ?_)
    repeat' (first
      | with_reducible (first
        | exact Inv_WriteString _ _
        | exact Inv_WriteRune _ _
        | (refine Inv_bind _ _ _ ?_ (fun _ => ?_))
        | (refine Inv_Wbind _ _ _ ?_ (fun _ => ?_))
        | exact Inv_pure _ _
        | exact Inv_Wpure _ _
        | exact Inv_goPanic _ _
        | exact Inv_outOfFuel _
        | exact Inv_getW _
        | exact Inv_removeAt _
        | exact Inv_cursor _
        | exact Inv_current _ _ (by decide!)
        | exact Inv_setCurrentQuery _ _ (by decide!)
        | exact Inv_fail _ _ trivial
        | exact Inv_any _ _ (Inv_writeIdentifier _)
        | exact Inv_writeTable _ _ _
        | exact Inv_any _ _ (Inv_writeUnescapedAlphanumeric _)
        | exact Inv_any _ _ (Inv_writeQuotedAlphanumeric _)
        | exact Inv_any _ _ (Inv_writeInConstant _)
        | exact Inv_any _ _ (Inv_replaceInParameter _)
        | exact Inv_any _ _ (Inv_handleEmptyIN _)
        | exact Inv_any _ _ (Inv_writeColumnNameExpr _)
        | exact Inv_any _ _ (Inv_writeAllColumnsExpr _)
        | exact Inv_any _ _ (Inv_writeParameterExpr)
        | exact Inv_any _ _ (Inv_writeConstantExpr _ _ _)
        | exact Inv_any _ _ (Inv_writeUTCTimestampSqlite _)
        | exact Inv_any _ _ (Inv_writeSelect _ _)
        | exact Inv_any _ _ (Inv_writeLimit _ _)
        | exact Inv_any _ _ (Inv_writeExpr _ _)
        | exact Inv_any _ _ (Inv_writeJoins _ _)
        | exact Inv_any _ _ (Inv_writeOrderBy _ _)
        | exact Inv_any _ _ (Inv_writeFrom _ _)
        | exact Inv_writeColumnValue _ _
        | exact Inv_writeCreateColumn _
        | exact Inv_writeFKConstraint _
        | exact Inv_writeConstraint _
        | (refine InvAll_app _ _ _ ?_; assumption)
        | (refine Inv_forRange _ _ (fun _ _ => ?_) _ _)
        | (refine Inv_ignoreErr _ _ ?_)
        | (refine Inv_decRec _ _ _ _ (fun _ => ?_) (fun _ => ?_) <;> beta_reduce))
      | (lift_lets; intro jp; (have hjp : InvAll anyError jp := ?_); clear_value jp)
      | (lift_lets; intro x; clear_value x)
      | (refine InvAll_intro _ _ (fun _ => ?_); unfold_let jp; beta_reduce)
      | split)
  · rename_i hd
    have hd1 : ¬(w.driver == "sqlite3") = true := hd
    rw [W_bind_ok _ _ _ _ _ (WriteString_apply _ _)] at h
    rw [if_neg hd1]
    rw [← W_bind_pure_right (writeTable q.Database q.Table false)] at h
    refine emits_of_bind w _ w1 _ _ _ _ _ h ⟨rfl, rfl⟩ (fun u => ?_)
    exact Inv_pure _ _

/-- Every place where a statement names a table appends, after the text before the table,
the text of the table: the name as `prefixTableName` resolves it, scoped by the database
in force; and the database qualifier of the table has passed the database check. -/
theorem site_emits (s : Site) (hs : IsSite s) (w w1 : writer)
    (h : s.run w = .ok () w1) :
    w.validateDatabase (s.database w) = true ∧ ∃ t rest,
      w.resolve s.table s.isWrite = .ok t ∧
      w1.buf = w.buf ++ s.pre w ++ tableText w (s.database w) t ++ rest := by
  cases hs with
  | fromTable n t isWrite => exact site_fromTable n t isWrite w w1 h
  | join n pos typ table al database onExpr =>
    exact site_join n pos typ table al database onExpr w w1 h
  | insert n s => exact site_insert n s w w1 h
  | update n s => exact site_update n s w w1 h
  | delete n s => exact site_delete n s w w1 h
  | createTable s => exact site_createTable s w w1 h
  | dropTable s => exact site_dropTable s w w1 h
  | renameColumn q => exact site_writeRenameColumnQuery q w w1 h
  | addColumn q => exact site_writeAddColumnQuery q w w1 h
  | alterDrop q => exact site_writeAlterDropQuery q w w1 h
  | modifyColumn q => exact site_writeModifyColumnQuery q w w1 h
  | addConstraint s => exact site_writeAddContraint s w w1 h
  | addFK s => exact site_writeAddFK s w w1 h
  | addFKReferences s => exact site_addFKReferences s w w1 h
  | references c => exact site_references c w w1 h
  | showColumns q hc => exact site_showColumns q hc w w1 h
  | showIndex q hc => exact site_showIndex q hc w w1 h

theorem ite_bind_jp {c : Prop} [Decidable c] (A B : W PUnit) (k : PUnit → W Unit) :
    (if c then A >>= k else B >>= k) = ((if c then A else B) >>= k) := by
  split <;> rfl

theorem W_bind_eq {α β : Type} (m : W α) (f : α → W β) : W.bind m f = (m >>= f) := rfl

theorem W_pure_bind {α β : Type} (a : α) (f : α → W β) : (pure a >>= f) = f a := rfl

theorem select_first_table (n : Nat) (pos : Position) (distinct forUpdate : Bool)
    (cols : List Expr) (t : Table) (fs : List SqlFrom) (wh : Option WherePart)
    (gb : List Expr) (hv : Option WherePart) (ob : List OrderColumn) (lim : Option Limit)
    (un : List SelectQuery) (ps : List Value) (w w1 : writer)
    (h : writeSelect (n + 3) (.mk pos distinct forUpdate cols (some (.Table t :: fs)) wh gb hv
      ob lim un ps) w = .ok () w1) :
    w.validateDatabase t.Database = true ∧ ∃ before r rest,
      w.resolve t.Name false = .ok r ∧
      w1.buf = w.buf ++ "SELECT " ++ before ++ "FROM " ++ tableText w t.Database r ++ rest := by
  rw [writeSelect] at h
  rw [W_bind_ok _ _ _ _ _ (modifyW_apply _ _)] at h
  rw [W_bind_ok _ _ _ _ _ (WriteString_apply _ _)] at h
  rw [ite_bind_jp] at h
  obtain ⟨_, wa, h1, h⟩ := W_bind_ok_inv _ _ _ _ _ h
  beta_reduce at h
  obtain ⟨_, wb, h2, h⟩ := W_bind_ok_inv _ _ _ _ _ h
  revert h
  beta_reduce
  lift_lets
  repeat (
    intro jp
    have hjp : InvAll anyError jp := by
      refine InvAll_intro _ _ (fun _ => ?_)
      unfold_let jp
      beta_reduce
      repeat' (first
        | with_reducible (first
          | exact Inv_WriteString _ _
          | exact Inv_WriteRune _ _
          | (refine Inv_bind _ _ _ ?_ (fun _ => ?_))
          | (refine Inv_Wbind _ _ _ ?_ (fun _ => ?_))
          | exact Inv_pure _ _
          | exact Inv_Wpure _ _
          | exact Inv_goPanic _ _
          | exact Inv_outOfFuel _
          | exact Inv_getW _
          | exact Inv_removeAt _
          | exact Inv_cursor _
          | exact Inv_current _ _ (by decide!)
          | exact Inv_setCurrentQuery _ _ (by decide!)
          | exact Inv_fail _ _ trivial
          | exact Inv_any _ _ (Inv_writeIdentifier _)
          | exact Inv_writeTable _ _ _
          | exact Inv_any _ _ (Inv_writeUnescapedAlphanumeric _)
          | exact Inv_any _ _ (Inv_writeQuotedAlphanumeric _)
          | exact Inv_any _ _ (Inv_writeInConstant _)
          | exact Inv_any _ _ (Inv_replaceInParameter _)
          | exact Inv_any _ _ (Inv_handleEmptyIN _)
          | exact Inv_any _ _ (Inv_writeColumnNameExpr _)
          | exact Inv_any _ _ (Inv_writeAllColumnsExpr _)
          | exact Inv_any _ _ (Inv_writeParameterExpr)
          | exact Inv_any _ _ (Inv_writeConstantExpr _ _ _)
          | exact Inv_any _ _ (Inv_writeUTCTimestampSqlite _)
          | exact Inv_any _ _ (Inv_writeSelect _ _)
          | exact Inv_any _ _ (Inv_writeLimit _ _)
          | exact Inv_any _ _ (Inv_writeExpr _ _)
          | exact Inv_any _ _ (Inv_writeJoins _ _)
          | exact Inv_any _ _ (Inv_writeOrderBy _ _)
          | exact Inv_any _ _ (Inv_writeFrom _ _)
          | exact Inv_writeColumnValue _ _
          | exact Inv_writeCreateColumn _
          | exact Inv_writeFKConstraint _
          | exact Inv_writeConstraint _
          | (refine InvAll_app _ _ _ ?_; assumption)
          | (refine Inv_forRange _ _ (fun _ _ => ?_) _ _)
          | (refine Inv_ignoreErr _ _ ?_)
          | (refine Inv_decRec _ _ _ _ (fun _ => ?_) (fun _ => ?_) <;> beta_reduce))
        | (lift_lets; intro jp; (have hjp : InvAll anyError jp := ?_); clear_value jp)
        | (lift_lets; intro x; clear_value x)
        | (refine InvAll_intro _ _ (fun _ => ?_); unfold_let jp; beta_reduce)
        | split)
    clear_value jp)
  intro h
  dsimp only at h
  rw [W_bind_ok _ _ _ _ _ (getW_apply _)] at h
  rw [ite_bind_jp] at h
  obtain ⟨_, wc, h3, h⟩ := W_bind_ok_inv _ _ _ _ _ h
  rw [W_bind_ok _ _ _ _ _ (WriteString_apply _ _)] at h
  rw [forRange, W_bind_eq] at h
  beta_reduce at h
  rw [if_neg (by decide!), W_pure_bind, writeFrom, writeFromTable, W_bind_assoc,
    W_bind_assoc] at h
  have x1 : Extends _ wa := Inv_ok anyError _ (by
    repeat' (first
      | with_reducible (first
        | exact Inv_WriteString _ _
        | exact Inv_WriteRune _ _
        | (refine Inv_bind _ _ _ ?_ (fun _ => ?_))
        | (refine Inv_Wbind _ _ _ ?_ (fun _ => ?_))
        | exact Inv_pure _ _
        | exact Inv_Wpure _ _
        | exact Inv_goPanic _ _
        | exact Inv_outOfFuel _
        | exact Inv_getW _
        | exact Inv_removeAt _
        | exact Inv_cursor _
        | exact Inv_current _ _ (by decide!)
        | exact Inv_setCurrentQuery _ _ (by decide!)
        | exact Inv_fail _ _ trivial
        | exact Inv_any _ _ (Inv_writeIdentifier _)
        | exact Inv_writeTable _ _ _
        | exact Inv_any _ _ (Inv_writeUnescapedAlphanumeric _)
        | exact Inv_any _ _ (Inv_writeQuotedAlphanumeric _)
        | exact Inv_any _ _ (Inv_writeInConstant _)
        | exact Inv_any _ _ (Inv_replaceInParameter _)
        | exact Inv_any _ _ (Inv_handleEmptyIN _)
        | exact Inv_any _ _ (Inv_writeColumnNameExpr _)
        | exact Inv_any _ _ (Inv_writeAllColumnsExpr _)
        | exact Inv_any _ _ (Inv_writeParameterExpr)
        | exact Inv_any _ _ (Inv_writeConstantExpr _ _ _)
        | exact Inv_any _ _ (Inv_writeUTCTimestampSqlite _)
        | exact Inv_any _ _ (Inv_writeSelect _ _)
        | exact Inv_any _ _ (Inv_writeLimit _ _)
        | exact Inv_any _ _ (Inv_writeExpr _ _)
        | exact Inv_any _ _ (Inv_writeJoins _ _)
        | exact Inv_any _ _ (Inv_writeOrderBy _ _)
        | exact Inv_any _ _ (Inv_writeFrom _ _)
        | exact Inv_writeColumnValue _ _
        | exact Inv_writeCreateColumn _
        | exact Inv_writeFKConstraint _
        | exact Inv_writeConstraint _
        | (refine InvAll_app _ _ _ ?_; assumption)
        | (refine Inv_forRange _ _ (fun _ _ => ?_) _ _)
        | (refine Inv_ignoreErr _ _ ?_)
        | (refine Inv_decRec _ _ _ _ (fun _ => ?_) (fun _ => ?_) <;> beta_reduce))
      | (lift_lets; intro jp; (have hjp : InvAll anyError jp := ?_); clear_value jp)
      | (lift_lets; intro x; clear_value x)
      | (refine InvAll_intro _ _ (fun _ => ?_); unfold_let jp; beta_reduce)
      | split)) _ _ _ h1
  have x2 : Extends wa wb := Inv_ok anyError _ (by
    repeat' (first
      | with_reducible (first
        | exact Inv_WriteString _ _
        | exact Inv_WriteRune _ _
        | (refine Inv_bind _ _ _ ?_ (fun _ => ?_))
        | (refine Inv_Wbind _ _ _ ?_ (fun _ => ?_))
        | exact Inv_pure _ _
        | exact Inv_Wpure _ _
        | exact Inv_goPanic _ _
        | exact Inv_outOfFuel _
        | exact Inv_getW _
        | exact Inv_removeAt _
        | exact Inv_cursor _
        | exact Inv_current _ _ (by decide!)
        | exact Inv_setCurrentQuery _ _ (by decide!)
        | exact Inv_fail _ _ trivial
        | exact Inv_any _ _ (Inv_writeIdentifier _)
        | exact Inv_writeTable _ _ _
        | exact Inv_any _ _ (Inv_writeUnescapedAlphanumeric _)
        | exact Inv_any _ _ (Inv_writeQuotedAlphanumeric _)
        | exact Inv_any _ _ (Inv_writeInConstant _)
        | exact Inv_any _ _ (Inv_replaceInParameter _)
        | exact Inv_any _ _ (Inv_handleEmptyIN _)
        | exact Inv_any _ _ (Inv_writeColumnNameExpr _)
        | exact Inv_any _ _ (Inv_writeAllColumnsExpr _)
        | exact Inv_any _ _ (Inv_writeParameterExpr)
        | exact Inv_any _ _ (Inv_writeConstantExpr _ _ _)
        | exact Inv_any _ _ (Inv_writeUTCTimestampSqlite _)
        | exact Inv_any _ _ (Inv_writeSelect _ _)
        | exact Inv_any _ _ (Inv_writeLimit _ _)
        | exact Inv_any _ _ (Inv_writeExpr _ _)
        | exact Inv_any _ _ (Inv_writeJoins _ _)
        | exact Inv_any _ _ (Inv_writeOrderBy _ _)
        | exact Inv_any _ _ (Inv_writeFrom _ _)
        | exact Inv_writeColumnValue _ _
        | exact Inv_writeCreateColumn _
        | exact Inv_writeFKConstraint _
        | exact Inv_writeConstraint _
        | (refine InvAll_app _ _ _ ?_; assumption)
        | (refine Inv_forRange _ _ (fun _ _ => ?_) _ _)
        | (refine Inv_ignoreErr _ _ ?_)
        | (refine Inv_decRec _ _ _ _ (fun _ => ?_) (fun _ => ?_) <;> beta_reduce))
      | (lift_lets; intro jp; (have hjp : InvAll anyError jp := ?_); clear_value jp)
      | (lift_lets; intro x; clear_value x)
      | (refine InvAll_intro _ _ (fun _ => ?_); unfold_let jp; beta_reduce)
      | split)) _ _ _ h2
  have e3 := format_run wb wc h3
  subst e3
  obtain ⟨s1, ⟨b1, hb1⟩, i1⟩ := x1
  obtain ⟨s2, ⟨b2, hb2⟩, i2⟩ := x2
  obtain ⟨hv1, r, rest, hr, hbuf⟩ := emits_of_bind w _ w1 _ _ _ _
    ("SELECT " ++ (b1 ++ b2 ++ (if wb.Format then "\n" else " ")) ++ "FROM ") h
    ⟨s2.trans s1, by
      show wb.buf ++ _ ++ "FROM " = _
      rw [hb2, hb1]
      simp only [String.append_assoc]⟩ (fun u => by
    repeat' (first
      | with_reducible (first
        | exact Inv_WriteString _ _
        | exact Inv_WriteRune _ _
        | (refine Inv_bind _ _ _ ?_ (fun _ => ?_))
        | (refine Inv_Wbind _ _ _ ?_ (fun _ => ?_))
        | exact Inv_pure _ _
        | exact Inv_Wpure _ _
        | exact Inv_goPanic _ _
        | exact Inv_outOfFuel _
        | exact Inv_getW _
        | exact Inv_removeAt _
        | exact Inv_cursor _
        | exact Inv_current _ _ (by decide!)
        | exact Inv_setCurrentQuery _ _ (by decide!)
        | exact Inv_fail _ _ trivial
        | exact Inv_any _ _ (Inv_writeIdentifier _)
        | exact Inv_writeTable _ _ _
        | exact Inv_any _ _ (Inv_writeUnescapedAlphanumeric _)
        | exact Inv_any _ _ (Inv_writeQuotedAlphanumeric _)
        | exact Inv_any _ _ (Inv_writeInConstant _)
        | exact Inv_any _ _ (Inv_replaceInParameter _)
        | exact Inv_any _ _ (Inv_handleEmptyIN _)
        | exact Inv_any _ _ (Inv_writeColumnNameExpr _)
        | exact Inv_any _ _ (Inv_writeAllColumnsExpr _)
        | exact Inv_any _ _ (Inv_writeParameterExpr)
        | exact Inv_any _ _ (Inv_writeConstantExpr _ _ _)
        | exact Inv_any _ _ (Inv_writeUTCTimestampSqlite _)
        | exact Inv_any _ _ (Inv_writeSelect _ _)
        | exact Inv_any _ _ (Inv_writeLimit _ _)
        | exact Inv_any _ _ (Inv_writeExpr _ _)
        | exact Inv_any _ _ (Inv_writeJoins _ _)
        | exact Inv_any _ _ (Inv_writeOrderBy _ _)
        | exact Inv_any _ _ (Inv_writeFrom _ _)
        | exact Inv_writeColumnValue _ _
        | exact Inv_writeCreateColumn _
        | exact Inv_writeFKConstraint _
        | exact Inv_writeConstraint _
        | (refine InvAll_app _ _ _ ?_; assumption)
        | (refine Inv_forRange _ _ (fun _ _ => ?_) _ _)
        | (refine Inv_ignoreErr _ _ ?_)
        | (refine Inv_decRec _ _ _ _ (fun _ => ?_) (fun _ => ?_) <;> beta_reduce))
      | (lift_lets; intro jp; (have hjp : InvAll anyError jp := ?_); clear_value jp)
      | (lift_lets; intro x; clear_value x)
      | (refine InvAll_intro _ _ (fun _ => ?_); unfold_let jp; beta_reduce)
      | split))
  refine ⟨hv1, b1 ++ b2 ++ (if wb.Format then "\n" else " "), r, rest, hr, ?_⟩
  rw [hbuf]
  simp only [String.append_assoc]

/-! ## Database scoping -/

/-! ## Tables in the output: database, namespace -/

theorem tableText_database (w : writer) (database t : String) (hD : w.Database ≠ "")
    (hv : w.validateDatabase database = true) :
    tableText w database t =
      (if w.driver = "sqlite3" then identText w.EscapeIdents (w.Database ++ "_" ++ t)
       else identText w.EscapeIdents w.Database ++ "." ++ identText w.EscapeIdents t) := by
  have hdb : (if (database == "") = true then w.Database else database) = w.Database := by
    unfold writer.validateDatabase at hv
    by_cases hd : database = ""
    · simp [hd]
    · have : (database == "") = false := by simpa using hd
      simp only [this, Bool.false_eq_true, if_false]
      by_contra hne
      simp [hD, hd, hne] at hv
  have hD2 : (w.Database != "") = true := by simpa using hD
  unfold tableText
  simp only [hdb, hD2, if_true]
  by_cases hs : w.driver = "sqlite3"
  · have : (w.driver == "sqlite3") = true := by simpa using hs
    rw [if_pos this, if_pos hs]
  · have : ¬(w.driver == "sqlite3") = true := by simpa using hs
    rw [if_neg this, if_neg hs]

theorem resolve_eq (w : writer) (table : String) (isWrite : Bool) :
    w.resolve table isWrite =
      if w.IgnoreNamespaces = true then .ok table
      else if (w.Namespace == "") = true then
        .ok (if stringsContainsRune table ':' = true then stringsReplace table ':' "_"
          else table)
      else
        match w.ValidateNamespace w.Namespace with
        | .error e => .error e
        | .ok _ => w.addNamespace table isWrite := by
  rfl

theorem resolve_ok_valid (w : writer) (table : String) (isWrite : Bool) (t : String)
    (hI : w.IgnoreNamespaces = false) (h : w.resolve table isWrite = .ok t) :
    w.ValidateNamespace w.Namespace = .ok () := by
  by_cases hn : w.Namespace = ""
  · unfold writer.ValidateNamespace
    rw [hI, hn]
    rfl
  · rw [resolve_eq] at h
    have hn1 : (w.Namespace == "") = false := by simpa using hn
    rw [if_neg (by simp [hI]), if_neg (by simp [hn1])] at h
    cases hv : w.ValidateNamespace w.Namespace with
    | error e => rw [hv] at h; cases h
    | ok u => rfl

theorem Write_ok_inv (w : writer) (n : Nat) (sql : String) (ps : List Value)
    (h : w.Write n = .ok sql ps) :
    ∃ q w1, w.query = some q ∧ writeQuery n q w = .ok () w1 ∧ sql = w1.buf := by
  unfold writer.Write at h
  split at h
  · cases h
  · split at h
    · cases h
    · rename_i q hq
      split at h
      · rename_i u w1 hw
        simp only [WriteResult.ok.injEq] at h
        exact ⟨q, w1, hq, hw, h.1.symm⟩
      · cases h
      · cases h
      · cases h

theorem Write_error_inv (w : writer) (n : Nat) (e : String) (h : w.Write n = .error e) :
    w.ValidateNamespace w.Namespace = .error e ∨ (w.query = none ∧ e = "Empty query") ∨
      ∃ q w1, w.query = some q ∧ writeQuery n q w = .err e w1 := by
  unfold writer.Write at h
  split at h
  · rename_i e1 hv
    simp only [WriteResult.error.injEq] at h
    subst h
    exact Or.inl hv
  · split at h
    · rename_i hq
      simp only [WriteResult.error.injEq] at h
      exact Or.inr (Or.inl ⟨hq, h.symm⟩)
    · rename_i q hq
      split at h
      · cases h
      · rename_i e1 w1 hw
        simp only [WriteResult.error.injEq] at h
        subst h
        exact Or.inr (Or.inr ⟨q, w1, hq, hw⟩)
      · cases h
      · cases h

/-- C9 (counterexample): with the database `foo` the statement `select cars.id from cars`
is written with the table of FROM scoped and with the table qualifier of the column as it
stands: `cars.id`, not `foo_cars.id` (sqlite3) or `foo.cars.id` (mysql). -/
theorem write_column_qualifier_unscoped :
    writeParsed "select cars.id from cars" [] "foo" "sqlite3" =
      some "SELECT cars.id FROM foo_cars" ∧
    writeParsed "select cars.id from cars" [] "foo" "mysql" =
      some "SELECT cars.id FROM foo.cars" := by
  decide!

set_option maxRecDepth 10000 in
/-- C9 (amended): when `Database` is a non-empty `D`, every place where a statement names a
table (`IsSite`: FROM, JOIN, the target of INSERT, UPDATE, DELETE, CREATE TABLE, DROP TABLE
and ALTER TABLE, SHOW COLUMNS, SHOW INDEX, REFERENCES), once written, has appended the
name `t` that the namespace rules give the table as the single identifier `D_t` under
sqlite3 and as the identifiers `D` and `t` around a `.` under the other drivers; so has the
SQL that `Write` returns for such a statement, and for a select whose first FROM item is a
table.  `TestDbPrefix`, `TestDbPrefix3` and a JOIN are instances.  The writer is any
writer, and the select and expression writers keep its settings (database, driver,
namespace), so the first statement holds with the same `D` at every table that a statement
comes to, at whatever depth.  A table qualifier of a column is not a table reference of
this kind: it is written as it stands. -/
theorem statement_tables_scoped (w : writer) (hD : w.Database ≠ "") :
    (∀ s : Site, IsSite s → ∀ w1 : writer, s.run w = .ok () w1 →
      ∃ t rest, w.resolve s.table s.isWrite = .ok t ∧
        w1.buf = w.buf ++ s.pre w ++
          (if w.driver = "sqlite3" then identText w.EscapeIdents (w.Database ++ "_" ++ t)
           else identText w.EscapeIdents w.Database ++ "." ++ identText w.EscapeIdents t) ++
          rest) ∧
    (∀ (s : Site) (n : Nat) (q : Query), IsSite s → s.run = writeQuery n q →
      w.query = some q → ∀ (sql : String) (ps : List Value), w.Write n = .ok sql ps →
      ∃ t rest, w.resolve s.table s.isWrite = .ok t ∧
        sql = w.buf ++ s.pre w ++
          (if w.driver = "sqlite3" then identText w.EscapeIdents (w.Database ++ "_" ++ t)
           else identText w.EscapeIdents w.Database ++ "." ++ identText w.EscapeIdents t) ++
          rest) ∧
    (∀ (n : Nat) (pos : Position) (distinct forUpdate : Bool) (cols : List Expr) (t : Table)
      (fs : List SqlFrom) (wh : Option WherePart) (gb : List Expr) (hv : Option WherePart)
      (ob : List OrderColumn) (lim : Option Limit) (un : List SelectQuery) (ps : List Value)
      (sql : String) (params : List Value),
      w.query = some (.SelectQuery (.mk pos distinct forUpdate cols (some (.Table t :: fs)) wh
        gb hv ob lim un ps)) →
      w.Write (n + 3) = .ok sql params →
      ∃ before r rest, w.resolve t.Name false = .ok r ∧
        sql = w.buf ++ "SELECT " ++ before ++ "FROM " ++
          (if w.driver = "sqlite3" then identText w.EscapeIdents (w.Database ++ "_" ++ r)
           else identText w.EscapeIdents w.Database ++ "." ++ identText w.EscapeIdents r) ++
          rest) ∧
    writeParsed "select * from cars" [] "foo" "" = some "SELECT * FROM foo.cars" ∧
    writeParsed "select id from cars" [] "foo" "sqlite3" = some "SELECT id FROM foo_cars" ∧
    writeParsed "select * from cars c join foo.items i on i.car = c.id" [] "foo" "" =
      some "SELECT * FROM foo.cars AS c JOIN foo.items AS i ON i.car = c.id" ∧
    (∀ (n : Nat) (q : SelectQuery) (w0 w1 : writer), writeSelect n q w0 = .ok () w1 →
      w1.settings = w0.settings) ∧
    (∀ (n : Nat) (x : Expr) (w0 w1 : writer), writeExpr n x w0 = .ok () w1 →
      w1.settings = w0.settings) := by
  have site : ∀ s : Site, IsSite s → ∀ w1 : writer, s.run w = .ok () w1 →
      ∃ t rest, w.resolve s.table s.isWrite = .ok t ∧
        w1.buf = w.buf ++ s.pre w ++
          (if w.driver = "sqlite3" then identText w.EscapeIdents (w.Database ++ "_" ++ t)
           else identText w.EscapeIdents w.Database ++ "." ++ identText w.EscapeIdents t) ++
          rest := by
    intro s hs w1 h
    obtain ⟨hv, t, rest, ht, hb⟩ := site_emits s hs w w1 h
    exact ⟨t, rest, ht, by rw [hb, tableText_database w _ t hD hv]⟩
  refine ⟨site, ?_, ?_, by decide!, by decide!, by decide!,
    fun n q w0 w1 h => (Inv_ok readError _ (Inv_writeSelect n q) w0 w1 () h).1,
    fun n x w0 w1 h => (Inv_ok readError _ (Inv_writeExpr n x) w0 w1 () h).1⟩
  · intro s n q hs hrun hquery sql ps hw
    obtain ⟨q1, w1, hq1, hw1, hsql⟩ := Write_ok_inv w n sql ps hw
    rw [hquery] at hq1
    cases hq1
    rw [← hrun] at hw1
    obtain ⟨t, rest, ht, hb⟩ := site s hs w1 hw1
    exact ⟨t, rest, ht, by rw [hsql, hb]⟩
  · intro n pos distinct forUpdate cols t fs wh gb hv ob lim un ps sql params hquery hw
    obtain ⟨q1, w1, hq1, hw1, hsql⟩ := Write_ok_inv w (n + 3) sql params hw
    rw [hquery] at hq1
    cases hq1
    obtain ⟨hv1, before, r, rest, hr, hb⟩ :=
      select_first_table n pos distinct forUpdate cols t fs wh gb hv ob lim un ps w w1 hw1
    exact ⟨before, r, rest, hr, by rw [hsql, hb, tableText_database w _ r hD hv1]⟩

theorem statement_tables_scoped_witness :
    ∃ t rest,
      ({ NewWriter (some (insertMarker "" "cars")) [] "foo" "sqlite3" with
          EscapeIdents := false }).resolve "cars" true = .ok t ∧
      "INSERT INTO foo_cars VALUES (?)" = "" ++ "INSERT INTO " ++
        (if "sqlite3" = "sqlite3" then identText false ("foo" ++ "_" ++ t)
         else identText false "foo" ++ "." ++ identText false t) ++ rest :=
  (statement_tables_scoped
    { NewWriter (some (insertMarker "" "cars")) [] "foo" "sqlite3" with EscapeIdents := false }
    (by decide!)).2.1
    ⟨writeInsert 5 ⟨noPos, ⟨noPos, "", "cars"⟩, [], [markerExpr], [], none⟩,
      fun _ => "INSERT INTO ", fun _ => "", "cars", true⟩
    5 (insertMarker "" "cars") (IsSite.insert 5 _) rfl rfl
    "INSERT INTO foo_cars VALUES (?)" [] rfl

/-! ## Tables under a namespace -/

theorem resolve_namespace_plain (w : writer) (table : String) (isWrite : Bool)
    (hN : w.Namespace ≠ "") (hI : w.IgnoreNamespaces = false)
    (hV : w.ValidateNamespace w.Namespace = .ok ())
    (hT : stringsContainsRune table ':' = false) :
    w.resolve table isWrite = .ok (stringsReplace w.Namespace ':' "_" ++ "_" ++ table) := by
  have hV2 : ({ w with currentQuery := some QueryType.SelectQuery } : writer).ValidateNamespace
      w.Namespace = .ok () := hV
  have h1 := prefixTableName_namespace { w with currentQuery := some .SelectQuery } table isWrite
    hN hI hV2 ⟨.SelectQuery, rfl, rfl⟩
  unfold writer.resolve
  rw [h1]
  have : (w.Namespace == "") = false := by simpa using hN
  simp [writer.addNamespace, writer.namespaceToSQL, hI, hT, this]

/-- C10 (counterexample): with the namespace `foo` the statement `select cars.id from cars`
is written with the table of FROM under the namespace and with the table qualifier of the
column as it stands: `cars.id`, not `foo_cars.id`. -/
theorem write_column_qualifier_without_namespace :
    testNamespace "select cars.id from cars" "" "foo" false =
      .ok "SELECT cars.id FROM foo_cars" := by
  decide!

set_option maxRecDepth 10000 in
/-- C10 (amended): with a non-empty namespace `N` and `IgnoreNamespaces` off, a table name
without `:` resolves, read or written, to `N` with each `:` replaced by `_`, then `_`, then
the name (when `N` is a valid namespace; otherwise nothing is written); every place where a
statement names such a table (`IsSite`: FROM, JOIN, the targets of the write statements,
SHOW COLUMNS, SHOW INDEX, REFERENCES), once written, has appended that name (scoped by the
database in force, if any), and so has the SQL that `Write` returns for such a statement
and for a select whose first FROM item is such a table.  `TestNamespace`,
`TestNamespace2`, `7`, `8`, `11` and `13` are instances.  The table qualifier of a column is
not a table of this kind: it is written as it stands. -/
theorem statement_tables_namespace (w : writer) (table : String)
    (hN : w.Namespace ≠ "") (hI : w.IgnoreNamespaces = false)
    (hT : stringsContainsRune table ':' = false) :
    (∀ isWrite : Bool, w.ValidateNamespace w.Namespace = .ok () →
      w.resolve table isWrite = .ok (stringsReplace w.Namespace ':' "_" ++ "_" ++ table)) ∧
    (∀ s : Site, IsSite s → s.table = table → ∀ w1 : writer, s.run w = .ok () w1 →
      ∃ rest, w1.buf = w.buf ++ s.pre w ++
        tableText w (s.database w) (stringsReplace w.Namespace ':' "_" ++ "_" ++ table) ++
        rest) ∧
    (∀ (s : Site) (n : Nat) (q : Query), IsSite s → s.table = table →
      s.run = writeQuery n q → w.query = some q →
      ∀ (sql : String) (ps : List Value), w.Write n = .ok sql ps →
      ∃ rest, sql = w.buf ++ s.pre w ++
        tableText w (s.database w) (stringsReplace w.Namespace ':' "_" ++ "_" ++ table) ++
        rest) ∧
    (∀ (n : Nat) (pos pos1 : Position) (distinct forUpdate : Bool) (cols : List Expr)
      (database al : String) (joins : List Join)
      (fs : List SqlFrom) (wh : Option WherePart) (gb : List Expr) (hv : Option WherePart)
      (ob : List OrderColumn) (lim : Option Limit) (un : List SelectQuery) (ps : List Value)
      (sql : String) (params : List Value),
      w.query = some (.SelectQuery (.mk pos distinct forUpdate cols
        (some (.Table (.mk pos1 table database al joins) :: fs)) wh gb hv ob lim un ps)) →
      w.Write (n + 3) = .ok sql params →
      ∃ before rest, sql = w.buf ++ "SELECT " ++ before ++ "FROM " ++
        tableText w database (stringsReplace w.Namespace ':' "_" ++ "_" ++ table) ++ rest) ∧
    testNamespace "SELECT * FROM client" "" "fiz:foo" false =
      .ok "SELECT * FROM fiz_foo_client" ∧
    testNamespace "SELECT * FROM client c JOIN sale s ON s.idClient = c.id" "" "foo" false =
      .ok "SELECT * FROM foo_client AS c JOIN foo_sale AS s ON s.idClient = c.id" ∧
    testNamespace "UPDATE client SET idClient = 2" "" "foo" false =
      .ok "UPDATE foo_client SET idClient = 2" ∧
    testNamespace "INSERT INTO client VALUES (?)" "" "foo" false =
      .ok "INSERT INTO foo_client VALUES (?)" ∧
    testNamespace "CREATE TABLE client (name VARCHAR(30))" "" "foo" false =
      .ok "CREATE TABLE foo_client (name VARCHAR(30) NOT NULL COLLATE NOCASE)" ∧
    testNamespace "INSERT INTO client SELECT name FROM user" "" "foo" false =
      .ok "INSERT INTO foo_client SELECT name FROM foo_user" := by
  have res := fun isWrite hV => resolve_namespace_plain w table isWrite hN hI hV hT
  have site : ∀ s : Site, IsSite s → s.table = table → ∀ w1 : writer, s.run w = .ok () w1 →
      ∃ rest, w1.buf = w.buf ++ s.pre w ++
        tableText w (s.database w) (stringsReplace w.Namespace ':' "_" ++ "_" ++ table) ++
        rest := by
    intro s hs htab w1 h
    obtain ⟨_, t, rest, ht, hb⟩ := site_emits s hs w w1 h
    rw [htab] at ht
    rw [res _ (resolve_ok_valid w _ _ _ hI ht)] at ht
    cases ht
    exact ⟨rest, hb⟩
  refine ⟨res, site, ?_, ?_, ?_⟩
  · intro s n q hs htab hrun hquery sql ps hw
    obtain ⟨q1, w1, hq1, hw1, hsql⟩ := Write_ok_inv w n sql ps hw
    rw [hquery] at hq1
    cases hq1
    rw [← hrun] at hw1
    obtain ⟨rest, hb⟩ := site s hs htab w1 hw1
    exact ⟨rest, by rw [hsql, hb]⟩
  · intro n pos pos1 distinct forUpdate cols database al joins fs wh gb hv ob lim un ps sql
      params hquery hw
    obtain ⟨q1, w1, hq1, hw1, hsql⟩ := Write_ok_inv w (n + 3) sql params hw
    rw [hquery] at hq1
    cases hq1
    obtain ⟨_, before, r, rest, hr, hb⟩ :=
      select_first_table n pos distinct forUpdate cols _ fs wh gb hv ob lim un ps w w1 hw1
    have hr2 : w.resolve table false = .ok r := hr
    rw [res _ (resolve_ok_valid w _ _ _ hI hr2)] at hr2
    cases hr2
    exact ⟨before, rest, by rw [hsql, hb]; rfl⟩
  · decide!

theorem statement_tables_namespace_witness :
    ∃ rest, "INSERT INTO fiz_foo_client VALUES (?)" = "" ++ "INSERT INTO " ++
      tableText { NewWriter (some (insertMarker "" "client")) [] "" "sqlite3" with
          Namespace := "fiz:foo", EscapeIdents := false } ""
        (stringsReplace "fiz:foo" ':' "_" ++ "_" ++ "client") ++ rest :=
  (statement_tables_namespace
    { NewWriter (some (insertMarker "" "client")) [] "" "sqlite3" with
      Namespace := "fiz:foo", EscapeIdents := false }
    "client" (by decide!) rfl (by decide!)).2.2.1
    ⟨writeInsert 5 ⟨noPos, ⟨noPos, "", "client"⟩, [], [markerExpr], [], none⟩,
      fun _ => "INSERT INTO ", fun _ => "", "client", true⟩
    5 (insertMarker "" "client") (IsSite.insert 5 _) rfl rfl rfl
    "INSERT INTO fiz_foo_client VALUES (?)" [] rfl

/-! ## Tables that are read under a namespace -/

theorem resolve_read (w : writer) (table : String) (hI : w.IgnoreNamespaces = false)
    (hV : w.ValidateNamespace w.Namespace = .ok ())
    (hT : stringsContainsRune table ':' = true) :
    w.resolve table false = .ok (stringsReplace table ':' "_") := by
  by_cases hn : w.Namespace = ""
  · unfold writer.resolve writer.prefixTableName
    simp [hI, hn, hT]
  · have hV2 : ({ w with currentQuery := some QueryType.SelectQuery } : writer).ValidateNamespace
        w.Namespace = .ok () := hV
    have h1 := prefixTableName_namespace { w with currentQuery := some .SelectQuery } table false
      hn hI hV2 ⟨.SelectQuery, rfl, rfl⟩
    unfold writer.resolve
    rw [h1]
    simp [writer.addNamespace, writer.namespaceToSQL, hI, hT]

theorem addNamespace_write_error (w : writer) (table e : String)
    (h : w.addNamespace table true = .error e) :
    e = "Invalid table prefix for a write query: " ++ table := by
  unfold writer.addNamespace at h
  by_cases hI : w.IgnoreNamespaces = true
  · simp [hI] at h
  · by_cases hT : stringsContainsRune table ':' = true
    · by_cases hA : w.NamespaceWriteAll = true
      · simp [hI, hT, hA] at h
      · by_cases hP : stringsHasPrefix table (w.Namespace ++ ":") = true
        · simp [hI, hT, hA, hP] at h
        · simp [hI, hT, hA, hP] at h
          exact h.symm
    · by_cases hn : (w.Namespace == "") = true
      · simp [hI, hT, hn] at h
      · simp [hI, hT, hn] at h

theorem prefixTableName_write_error (w : writer) (table e : String)
    (h : w.prefixTableName table true = .error e) :
    readError e ∨ e = "Invalid table prefix for a write query: " ++ table := by
  unfold writer.prefixTableName at h
  by_cases hI : w.IgnoreNamespaces = true
  · simp [hI] at h
  · by_cases hn : (w.Namespace == "") = true
    · simp [hI, hn] at h
    · simp only [hI, hn, Bool.false_eq_true, if_false] at h
      cases hv : w.ValidateNamespace w.Namespace with
      | error e1 =>
        rw [hv] at h
        simp only [Except.error.injEq] at h
        subst h
        exact Or.inl (ValidateNamespace_error w _ _ hv)
      | ok u =>
        rw [hv] at h
        simp only at h
        cases hq : w.currentQuery with
        | none =>
          rw [hq] at h
          simp only [Except.error.injEq] at h
          subst h
          exact Or.inl (readError_of _ (by decide!))
        | some t =>
          rw [hq] at h
          cases t <;> simp only [Except.error.injEq] at h <;>
            first
            | exact Or.inr (addNamespace_write_error w table e h)
            | (subst h; exact Or.inl (readError_of _ (by decide!)))

theorem writeTable_write_error (w w1 : writer) (database table e : String)
    (h : writeTable database table true w = .err e w1) :
    readError e ∨ e = "Invalid table prefix for a write query: " ++ table := by
  have hi2 := fun a b => Inv_Wbind readError (writeIdentifier a)
    (fun _ => W.bind (WriteString ".") fun _ => writeIdentifier b)
    (Inv_writeIdentifier a)
    (fun _ => Inv_Wbind _ _ _ (Inv_WriteString _ ".") (fun _ => Inv_writeIdentifier b))
  unfold writeTable at h
  by_cases hv : (!w.validateDatabase database) = true
  · rw [if_pos hv] at h
    injection h with h
    subst h
    exact Or.inl (readError_of _ (Diverges_append _ _ (by decide!)))
  · rw [if_neg hv] at h
    cases hp : w.prefixTableName table true with
    | error e1 =>
      rw [hp] at h
      injection h with h
      subst h
      exact prefixTableName_write_error w table _ hp
    | ok t =>
      rw [hp] at h
      dsimp only at h
      left
      by_cases hd : ((if (database == "") = true then w.Database else database) != "") = true
      · rw [if_pos hd] at h
        by_cases hs : (w.driver == "sqlite3") = true
        · rw [if_pos hs] at h
          exact (Inv_err readError _ (Inv_writeIdentifier _) _ _ _ h).2
        · rw [if_neg hs] at h
          exact (Inv_err readError _ (hi2 _ _) _ _ _ h).2
      · rw [if_neg hd] at h
        exact (Inv_err readError _ (Inv_writeIdentifier _) _ _ _ h).2

theorem writeInsert_error (n : Nat) (s : InsertQuery) (w w1 : writer) (e : String)
    (h : writeInsert n s w = .err e w1) :
    readError e ∨ e = "Invalid table prefix for a write query: " ++ s.Table.Name := by
  unfold writeInsert at h
  rw [W_bind_ok _ _ _ _ _ (setCurrentQuery_apply _ _)] at h
  rw [W_bind_ok _ _ _ _ _ (WriteString_apply _ _)] at h
  rw [W_bind_apply] at h
  cases ht : writeTable s.Table.Database s.Table.Name true
      { w with currentQuery := some QueryType.InsertQuery, buf := w.buf ++ "INSERT INTO " } with
  | ok u w2 =>
    rw [ht] at h
    left
    refine (Inv_err readError _ ?_ _ _ _ h).2
    repeat' (first
      | with_reducible (first
        | exact Inv_WriteString _ _
        | exact Inv_WriteRune _ _
        | (refine Inv_bind _ _ _ ?_ (fun _ => ?_))
        | (refine Inv_Wbind _ _ _ ?_ (fun _ => ?_))
        | exact Inv_pure _ _
        | exact Inv_Wpure _ _
        | exact Inv_goPanic _ _
        | exact Inv_outOfFuel _
        | exact Inv_getW _
        | exact Inv_removeAt _
        | exact Inv_cursor _
        | exact Inv_current _ _ (by decide!)
        | exact Inv_setCurrentQuery _ _ (by decide!)
        | exact Inv_writeIdentifier _
        | exact Inv_validateSeparator _
        | exact Inv_writeTable_read _ _
        | exact Inv_fail _ _ (readError_of _ (by decide!))
        | exact Inv_fail _ _ (readError_of _ (Diverges_append _ _ (by decide!)))
        | exact Inv_fail _ _ (readError_of _ (Diverges_append _ _ (Diverges_append _ _ (by decide!))))
        | exact Inv_fail _ _ (readError_of _ (Diverges_append _ _ (Diverges_append _ _ (Diverges_append _ _ (by decide!)))))
        | exact Inv_fail _ _ (readError_of _ (Diverges_append _ _ (Diverges_append _ _ (Diverges_append _ _ (Diverges_append _ _ (by decide!))))))
        | exact Inv_fail _ _ (readError_of _ (Diverges_append _ _ (Diverges_append _ _ (Diverges_append _ _ (Diverges_append _ _ (Diverges_append _ _ (by decide!)))))))
        | exact Inv_writeUnescapedAlphanumeric _
        | exact Inv_writeQuotedAlphanumeric _
        | exact Inv_writeInConstant _
        | exact Inv_replaceInParameter _
        | exact Inv_handleEmptyIN _
        | exact Inv_writeColumnNameExpr _
        | exact Inv_writeAllColumnsExpr _
        | exact Inv_writeParameterExpr
        | exact Inv_writeConstantExpr _ _ _
        | exact Inv_writeUTCTimestampSqlite _
        | exact Inv_writeSelect _ _
        | exact Inv_writeLimit _ _
        | exact Inv_writeFrom _ _
        | exact Inv_writeFromTable _ _
        | exact Inv_writeJoins _ _
        | exact Inv_writeJoin _ _
        | exact Inv_writeExpr _ _
        | exact Inv_writeOrderBy _ _
        | (refine InvAll_app _ _ _ ?_; assumption)
        | (refine Inv_forRange _ _ (fun _ _ => ?_) _ _)
        | (refine Inv_ignoreErr _ _ ?_)
        | (refine Inv_decRec _ _ _ _ (fun _ => ?_) (fun _ => ?_) <;> beta_reduce))
      | (lift_lets; intro jp; (have hjp : InvAll readError jp := ?_); clear_value jp)
      | (lift_lets; intro x; clear_value x)
      | (refine InvAll_intro _ _ (fun _ => ?_); unfold_let jp; beta_reduce)
      | split)
  | err e2 w2 =>
    rw [ht] at h
    injection h with h h2
    subst h
    exact writeTable_write_error _ _ _ _ _ ht
  | panic msg => rw [ht] at h; cases h
  | fuel => rw [ht] at h; cases h

/-- C12 (counterexample): with the namespace `foo` and `IgnoreNamespaces` set, the table
of `select name from bar:user` is emitted as `bar:user`, its `:` kept. -/
theorem write_select_ignore_namespaces :
    ({ NewWriter (some (selectNameFrom "bar:user")) [] "" "sqlite3" with
        Namespace := "foo", IgnoreNamespaces := true, EscapeIdents := false }).Write 20 =
      .ok "SELECT name FROM bar:user" [] := by
  rfl

set_option maxHeartbeats 4000000 in
set_option maxRecDepth 10000 in
/-- C12 (amended): with `IgnoreNamespaces` off, whatever the namespace, a table that is
read and whose name carries a namespace is never rejected for it, and its name is emitted
with every `:` replaced by `_`.  No select, join or expression (hence no nested select),
whatever the writer, returns the error `Invalid table prefix for a write query`; `Write`
on a select never fails with it, and on an INSERT only for the target table of the INSERT,
never for the tables of its VALUES or of its SELECT.  The name resolves, as a table that is
read, to itself with `:` replaced by `_` (when the namespace is a valid one; otherwise
nothing is written); every place where a statement names it as a table that is read
(`IsSite` with `isWrite` false: FROM, JOIN, SHOW COLUMNS, SHOW INDEX, REFERENCES), once
written, has appended that name, and so has the SQL that `Write` returns for a select whose
first FROM item is the table.  `TestNamespace3`, `4`, `14`, `15` and `21` are instances. -/
theorem read_tables_other_namespace (w : writer) (table : String)
    (hI : w.IgnoreNamespaces = false) (hT : stringsContainsRune table ':' = true) :
    (∀ (n : Nat) (q : SelectQuery) (w0 w1 : writer) (e : String),
      writeSelect n q w0 = .err e w1 → readError e) ∧
    (∀ (n : Nat) (j : Join) (w0 w1 : writer) (e : String),
      writeJoin n j w0 = .err e w1 → readError e) ∧
    (∀ (n : Nat) (x : Expr) (w0 w1 : writer) (e : String),
      writeExpr n x w0 = .err e w1 → readError e) ∧
    (∀ (n : Nat) (q : SelectQuery) (e : String), w.query = some (.SelectQuery q) →
      w.Write n = .error e → readError e) ∧
    (∀ (n : Nat) (s : InsertQuery) (e : String), w.query = some (.InsertQuery s) →
      w.Write n = .error e →
      readError e ∨ e = "Invalid table prefix for a write query: " ++ s.Table.Name) ∧
    (w.ValidateNamespace w.Namespace = .ok () →
      w.resolve table false = .ok (stringsReplace table ':' "_")) ∧
    (∀ s : Site, IsSite s → s.isWrite = false → s.table = table →
      ∀ w1 : writer, s.run w = .ok () w1 →
      ∃ rest, w1.buf = w.buf ++ s.pre w ++
        tableText w (s.database w) (stringsReplace table ':' "_") ++ rest) ∧
    (∀ (n : Nat) (pos pos1 : Position) (distinct forUpdate : Bool) (cols : List Expr)
      (database al : String) (joins : List Join)
      (fs : List SqlFrom) (wh : Option WherePart) (gb : List Expr) (hv : Option WherePart)
      (ob : List OrderColumn) (lim : Option Limit) (un : List SelectQuery) (ps : List Value)
      (sql : String) (params : List Value),
      w.query = some (.SelectQuery (.mk pos distinct forUpdate cols
        (some (.Table (.mk pos1 table database al joins) :: fs)) wh gb hv ob lim un ps)) →
      w.Write (n + 3) = .ok sql params →
      ∃ before rest, sql = w.buf ++ "SELECT " ++ before ++ "FROM " ++
        tableText w database (stringsReplace table ':' "_") ++ rest) ∧
    testNamespace "SELECT * FROM bar:client AS c JOIN sale AS s ON s.idClient = c.id" "" "foo"
        false =
      .ok "SELECT * FROM bar_client AS c JOIN foo_sale AS s ON s.idClient = c.id" ∧
    testNamespace "SELECT * FROM fiz:bar:client AS c JOIN sale AS s ON s.idClient = c.id" ""
        "buz:foo" false =
      .ok "SELECT * FROM fiz_bar_client AS c JOIN buz_foo_sale AS s ON s.idClient = c.id" ∧
    testNamespace "INSERT INTO client SELECT name FROM bar:user" "" "foo" false =
      .ok "INSERT INTO foo_client SELECT name FROM bar_user" ∧
    testNamespace "INSERT INTO client VALUES (1, (SELECT name FROM bar:user))" "" "foo" false =
      .ok "INSERT INTO foo_client VALUES (1, (SELECT name FROM bar_user))" ∧
    testNamespace "SELECT name FROM bar:user" "" "" false = .ok "SELECT name FROM bar_user" := by
  have res := fun hV => resolve_read w table hI hV hT
  refine ⟨fun n q w0 w1 e h => (Inv_err readError _ (Inv_writeSelect n q) _ _ _ h).2,
    fun n j w0 w1 e h => (Inv_err readError _ (Inv_writeJoin n j) _ _ _ h).2,
    fun n x w0 w1 e h => (Inv_err readError _ (Inv_writeExpr n x) _ _ _ h).2,
    ?_, ?_, res, ?_, ?_, ?_⟩
  · intro n q e hquery hw
    rcases Write_error_inv w n e hw with h1 | h1 | ⟨q1, w1, hq1, hw1⟩
    · exact ValidateNamespace_error w _ _ h1
    · rw [hquery] at h1
      cases h1.1
    · rw [hquery] at hq1
      cases hq1
      exact (Inv_err readError _ (Inv_writeSelect n q) _ _ _ hw1).2
  · intro n s e hquery hw
    rcases Write_error_inv w n e hw with h1 | h1 | ⟨q1, w1, hq1, hw1⟩
    · exact Or.inl (ValidateNamespace_error w _ _ h1)
    · rw [hquery] at h1
      cases h1.1
    · rw [hquery] at hq1
      cases hq1
      exact writeInsert_error n s w w1 e hw1
  · intro s hs hw htab w1 h
    obtain ⟨_, t, rest, ht, hb⟩ := site_emits s hs w w1 h
    rw [hw, htab] at ht
    rw [res (resolve_ok_valid w _ _ _ hI ht)] at ht
    cases ht
    exact ⟨rest, hb⟩
  · intro n pos pos1 distinct forUpdate cols database al joins fs wh gb hv ob lim un ps sql
      params hquery hw
    obtain ⟨q1, w1, hq1, hw1, hsql⟩ := Write_ok_inv w (n + 3) sql params hw
    rw [hquery] at hq1
    cases hq1
    obtain ⟨_, before, r, rest, hr, hb⟩ :=
      select_first_table n pos distinct forUpdate cols _ fs wh gb hv ob lim un ps w w1 hw1
    have hr2 : w.resolve table false = .ok r := hr
    rw [res (resolve_ok_valid w _ _ _ hI hr2)] at hr2
    cases hr2
    exact ⟨before, rest, by rw [hsql, hb]; rfl⟩
  · decide!

theorem read_tables_other_namespace_witness :
    ({ NewWriter (some (selectNameFrom "bar:user")) [] "" "sqlite3" with
        Namespace := "foo", EscapeIdents := false }).resolve "bar:user" false =
      .ok (stringsReplace "bar:user" ':' "_") ∧
    ∃ before rest, "SELECT name FROM bar_user" = "" ++ "SELECT " ++ before ++ "FROM " ++
      tableText { NewWriter (some (selectNameFrom "bar:user")) [] "" "sqlite3" with
        Namespace := "foo", EscapeIdents := false } "" (stringsReplace "bar:user" ':' "_") ++
      rest :=
  ⟨(read_tables_other_namespace
      { NewWriter (some (selectNameFrom "bar:user")) [] "" "sqlite3" with
        Namespace := "foo", EscapeIdents := false }
      "bar:user" rfl (by decide!)).2.2.2.2.2.1 rfl,
    (read_tables_other_namespace
      { NewWriter (some (selectNameFrom "bar:user")) [] "" "sqlite3" with
        Namespace := "foo", EscapeIdents := false }
      "bar:user" rfl (by decide!)).2.2.2.2.2.2.2.1
      17 noPos noPos false false [columnExpr "name"] "" "" [] [] none [] none [] none [] []
      "SELECT name FROM bar_user" [] rfl rfl⟩

/-! ## Targets of write statements under a namespace -/

theorem validateDatabase_own (w : writer) : w.validateDatabase w.Database = true := by
  unfold writer.validateDatabase
  by_cases h : (w.Database != "") = true
  · simp [h]
  · simp [h]

theorem writeTable_rejects (w p : writer) (database table : String)
    (hN : w.Namespace ≠ "") (hI : w.IgnoreNamespaces = false)
    (hA : w.NamespaceWriteAll = false)
    (hV : w.ValidateNamespace w.Namespace = .ok ())
    (hT : stringsContainsRune table ':' = true)
    (hP : stringsHasPrefix table (w.Namespace ++ ":") = false)
    (hDb : w.validateDatabase database = true)
    (hs : p.settings = w.settings) (hQ : p.inStatement = true) :
    writeTable database table true p =
      .err ("Invalid table prefix for a write query: " ++ table) p := by
  have hf := settings_fields hs
  have hN1 : p.Namespace ≠ "" := by rw [hf.2.2.1]; exact hN
  have hI1 : p.IgnoreNamespaces = false := by rw [hf.2.2.2.1]; exact hI
  have hA1 : p.NamespaceWriteAll = false := by rw [hf.2.1]; exact hA
  have hV1 : p.ValidateNamespace p.Namespace = .ok () := by
    unfold writer.ValidateNamespace
    rw [hf.2.2.2.1, hf.2.2.1]
    exact hV
  have hP1 : stringsHasPrefix table (p.Namespace ++ ":") = false := by rw [hf.2.2.1]; exact hP
  have hDb1 : p.validateDatabase database = true := by
    rw [validateDatabase_congr hs]; exact hDb
  have hQ2 : ∃ t, p.currentQuery = some t ∧ t.hasTables = true := by
    unfold writer.inStatement at hQ
    cases hc : p.currentQuery with
    | none => rw [hc] at hQ; cases hQ
    | some t => rw [hc] at hQ; exact ⟨t, rfl, hQ⟩
  have h1 : p.prefixTableName table true =
      .error ("Invalid table prefix for a write query: " ++ table) := by
    rw [prefixTableName_namespace p table true hN1 hI1 hV1 hQ2]
    simp [writer.addNamespace, hI1, hT, hA1, hP1]
  simp [writeTable, hDb1, h1]

theorem writeInsert_rejects (n : Nat) (s : InsertQuery) (w : writer)
    (hN : w.Namespace ≠ "") (hI : w.IgnoreNamespaces = false)
    (hA : w.NamespaceWriteAll = false) (hV : w.ValidateNamespace w.Namespace = .ok ())
    (hT : stringsContainsRune s.Table.Name ':' = true)
    (hP : stringsHasPrefix s.Table.Name (w.Namespace ++ ":") = false)
    (hDb : w.validateDatabase s.Table.Database = true) :
    ∃ w1, writeInsert n s w =
      .err ("Invalid table prefix for a write query: " ++ s.Table.Name) w1 := by
  unfold writeInsert
  rw [W_bind_ok _ _ _ _ _ (setCurrentQuery_apply _ _)]
  rw [W_bind_ok _ _ _ _ _ (WriteString_apply _ _)]
  rw [W_bind_apply, writeTable_rejects w _ _ _ hN hI hA hV hT hP hDb]
  · exact ⟨_, rfl⟩
  · rfl
  · rfl

theorem writeFromTable_rejects (n : Nat) (t : Table) (w p : writer)
    (hN : w.Namespace ≠ "") (hI : w.IgnoreNamespaces = false)
    (hA : w.NamespaceWriteAll = false) (hV : w.ValidateNamespace w.Namespace = .ok ())
    (hT : stringsContainsRune t.Name ':' = true)
    (hP : stringsHasPrefix t.Name (w.Namespace ++ ":") = false)
    (hDb : w.validateDatabase t.Database = true)
    (hs : p.settings = w.settings) (hQ : p.inStatement = true) :
    writeFromTable (n + 1) t true p =
      .err ("Invalid table prefix for a write query: " ++ t.Name) p := by
  rw [writeFromTable, W_bind_apply, writeTable_rejects w p _ _ hN hI hA hV hT hP hDb hs hQ]

theorem writeUpdate_rejects (n : Nat) (s : UpdateQuery) (w : writer)
    (hN : w.Namespace ≠ "") (hI : w.IgnoreNamespaces = false)
    (hA : w.NamespaceWriteAll = false) (hV : w.ValidateNamespace w.Namespace = .ok ())
    (hT : stringsContainsRune s.Table.Name ':' = true)
    (hP : stringsHasPrefix s.Table.Name (w.Namespace ++ ":") = false)
    (hDb : w.validateDatabase s.Table.Database = true)
    (hS : w.driver = "sqlite3" → s.Table.Joins.length = 0 ∧ s.Table.Alias.length = 0) :
    ∃ w1, writeUpdate (n + 1) s w =
      .err ("Invalid table prefix for a write query: " ++ s.Table.Name) w1 := by
  unfold writeUpdate
  rw [W_bind_ok _ _ _ _ _ (setCurrentQuery_apply _ _)]
  rw [W_bind_ok _ _ _ _ _ (getW_apply _)]
  split
  · rename_i hc
    exfalso
    simp only [Bool.and_eq_true, beq_iff_eq, decide_eq_true_eq] at hc
    have := (hS hc.1).1
    omega
  · split
    · rename_i hc
      exfalso
      simp only [Bool.and_eq_true, beq_iff_eq, decide_eq_true_eq] at hc
      have := (hS hc.1).2
      omega
    · rw [W_bind_ok _ _ _ _ _ (WriteString_apply _ _)]
      rw [W_bind_apply, writeFromTable_rejects _ _ w _ hN hI hA hV hT hP hDb]
      · exact ⟨_, rfl⟩
      · rfl
      · rfl

theorem aliases_ok (body : Nat → String → W Unit)
    (hb : ∀ (i : Nat) (a : String) (w : writer), w.IgnoreNamespaces = false →
      validIdentifierRunes false a.data 0 = true →
      ∃ w1, body i a w = .ok () w1 ∧ w1.settings = w.settings ∧
        w1.currentQuery = w.currentQuery) :
    ∀ (l : List String) (i : Nat) (w : writer), w.IgnoreNamespaces = false →
      (∀ a ∈ l, validIdentifierRunes false a.data 0 = true) →
      ∃ w1, forRange body l i w = .ok () w1 ∧ w1.settings = w.settings ∧
        w1.currentQuery = w.currentQuery := by
  intro l
  induction l with
  | nil =>
    intro i w _ _
    exact ⟨w, rfl, rfl, rfl⟩
  | cons a as ih =>
    intro i w hI hl
    obtain ⟨wa, h1, h2, h3⟩ := hb i a w hI (hl a (List.mem_cons_self _ _))
    have hIa : wa.IgnoreNamespaces = false := by
      rw [(settings_fields h2).2.2.2.1]
      exact hI
    obtain ⟨w1, h4, h5, h6⟩ := ih (i + 1) wa hIa (fun b hb1 => hl b (List.mem_cons_of_mem _ hb1))
    refine ⟨w1, ?_, h5.trans h2, h6.trans h3⟩
    simp only [forRange]
    show (body i a >>= fun _ => forRange body as (i + 1)) w = _
    rw [W_bind_ok _ _ _ _ _ h1]
    exact h4

theorem writeIdentifier_valid (a : String) (w : writer) (hI : w.IgnoreNamespaces = false)
    (ha : validIdentifierRunes false a.data 0 = true) :
    writeIdentifier a w = .ok () { w with buf := w.buf ++ identText w.EscapeIdents a } := by
  have : ∃ w1, writeIdentifier a w = .ok () w1 := by
    unfold writeIdentifier
    rw [hI, ha]
    exact ⟨_, rfl⟩
  obtain ⟨w1, h⟩ := this
  rw [h, writeIdentifier_ok _ _ _ h]

theorem writeDelete_rejects (n : Nat) (s : DeleteQuery) (w : writer)
    (hN : w.Namespace ≠ "") (hI : w.IgnoreNamespaces = false)
    (hA : w.NamespaceWriteAll = false) (hV : w.ValidateNamespace w.Namespace = .ok ())
    (hT : stringsContainsRune s.Table.Name ':' = true)
    (hP : stringsHasPrefix s.Table.Name (w.Namespace ++ ":") = false)
    (hDb : w.validateDatabase s.Table.Database = true)
    (hS : w.driver = "sqlite3" → s.Table.Joins.length = 0 ∧ s.Table.Alias.length = 0)
    (hL : s.Alias.length > 1 → ∀ a ∈ s.Alias, validIdentifierRunes false a.data 0 = true) :
    ∃ w1, writeDelete (n + 1) s w =
      .err ("Invalid table prefix for a write query: " ++ s.Table.Name) w1 := by
  unfold writeDelete
  rw [W_bind_ok _ _ _ _ _ (setCurrentQuery_apply _ _)]
  rw [W_bind_ok _ _ _ _ _ (getW_apply _)]
  split
  · rename_i hc
    exfalso
    simp only [Bool.and_eq_true, beq_iff_eq, decide_eq_true_eq] at hc
    have := (hS hc.1).1
    omega
  · split
    · rename_i hc
      exfalso
      simp only [Bool.and_eq_true, beq_iff_eq, decide_eq_true_eq] at hc
      have := (hS hc.1).2
      omega
    · rw [W_bind_ok _ _ _ _ _ (WriteString_apply _ _)]
      have hb : ∀ (i : Nat) (a : String) (w : writer), w.IgnoreNamespaces = false →
          validIdentifierRunes false a.data 0 = true →
          ∃ w1, (let __do_jp := fun (_ : PUnit) => writeIdentifier a;
            if i > 0 then do
              let y ← WriteString ", "
              __do_jp y
            else do
              let y ← pure PUnit.unit
              __do_jp y : W Unit) w = .ok () w1 ∧ w1.settings = w.settings ∧
            w1.currentQuery = w.currentQuery := by
        intro i a w hI ha
        by_cases hi : i > 0
        · simp only [hi, if_true]
          rw [W_bind_ok _ _ _ _ _ (WriteString_apply _ _)]
          rw [writeIdentifier_valid a { w with buf := w.buf ++ ", " } hI ha]
          exact ⟨_, rfl, rfl, rfl⟩
        · simp only [hi, if_false]
          rw [W_bind_ok _ _ _ _ _ (W_pure_apply _ _)]
          rw [writeIdentifier_valid a w hI ha]
          exact ⟨_, rfl, rfl, rfl⟩
      split
      · rename_i hc
        rw [W_bind_ok _ _ _ _ _ (WriteRune_apply _ _)]
        obtain ⟨wa, hloop, hs, hcq⟩ := aliases_ok _ hb s.Alias 0
          { w with currentQuery := some QueryType.DeleteQuery,
                   buf := w.buf ++ "DELETE" ++ String.singleton ' ' } hI (hL hc)
        rw [W_bind_ok _ _ _ _ _ hloop]
        beta_reduce
        rw [W_bind_ok _ _ _ _ _ (WriteString_apply _ _)]
        rw [W_bind_apply, writeFromTable_rejects n s.Table w { wa with buf := wa.buf ++ " FROM " }
          hN hI hA hV hT hP hDb hs
          (by show (match wa.currentQuery with | some t => t.hasTables | none => false) = true
              rw [hcq]
              rfl)]
        exact ⟨_, rfl⟩
      · rw [W_bind_ok _ _ _ _ _ (W_pure_apply _ _)]
        beta_reduce
        rw [W_bind_ok _ _ _ _ _ (WriteString_apply _ _)]
        rw [W_bind_apply, writeFromTable_rejects _ _ w _ hN hI hA hV hT hP hDb]
        · exact ⟨_, rfl⟩
        · rfl
        · rfl

theorem writeCreateTable_rejects (s : CreateTableQuery) (w : writer)
    (hN : w.Namespace ≠ "") (hI : w.IgnoreNamespaces = false)
    (hA : w.NamespaceWriteAll = false) (hV : w.ValidateNamespace w.Namespace = .ok ())
    (hT : stringsContainsRune s.Name ':' = true)
    (hP : stringsHasPrefix s.Name (w.Namespace ++ ":") = false) :
    ∃ w1, writeCreateTable s w =
      .err ("Invalid table prefix for a write query: " ++ s.Name) w1 := by
  unfold writeCreateTable
  rw [W_bind_ok _ _ _ _ _ (setCurrentQuery_apply _ _)]
  rw [W_bind_ok _ _ _ _ _ (WriteString_apply _ _)]
  split
  · rw [W_bind_ok _ _ _ _ _ (WriteString_apply _ _)]
    beta_reduce
    rw [W_bind_ok _ _ _ _ _ (getW_apply _)]
    rw [W_bind_apply, writeTable_rejects w _ _ _ hN hI hA hV hT hP (validateDatabase_own w)]
    · exact ⟨_, rfl⟩
    · rfl
    · rfl
  · rw [W_bind_ok _ _ _ _ _ (W_pure_apply _ _)]
    beta_reduce
    rw [W_bind_ok _ _ _ _ _ (getW_apply _)]
    rw [W_bind_apply, writeTable_rejects w _ _ _ hN hI hA hV hT hP (validateDatabase_own w)]
    · exact ⟨_, rfl⟩
    · rfl
    · rfl

theorem writeDropTable_rejects (s : DropTableQuery) (w : writer)
    (hN : w.Namespace ≠ "") (hI : w.IgnoreNamespaces = false)
    (hA : w.NamespaceWriteAll = false) (hV : w.ValidateNamespace w.Namespace = .ok ())
    (hT : stringsContainsRune s.Table ':' = true)
    (hP : stringsHasPrefix s.Table (w.Namespace ++ ":") = false)
    (hDb : w.validateDatabase s.Database = true) :
    ∃ w1, writeDropTable s w =
      .err ("Invalid table prefix for a write query: " ++ s.Table) w1 := by
  unfold writeDropTable
  rw [W_bind_ok _ _ _ _ _ (setCurrentQuery_apply _ _)]
  rw [W_bind_ok _ _ _ _ _ (WriteString_apply _ _)]
  split
  · rw [W_bind_ok _ _ _ _ _ (WriteString_apply _ _)]
    beta_reduce
    rw [writeTable_rejects w _ _ _ hN hI hA hV hT hP hDb]
    · exact ⟨_, rfl⟩
    · rfl
    · rfl
  · rw [W_bind_ok _ _ _ _ _ (W_pure_apply _ _)]
    beta_reduce
    rw [writeTable_rejects w _ _ _ hN hI hA hV hT hP hDb]
    · exact ⟨_, rfl⟩
    · rfl
    · rfl

theorem alter_rejects (database table : String) (k : PUnit → W Unit) (w : writer)
    (hN : w.Namespace ≠ "") (hI : w.IgnoreNamespaces = false)
    (hA : w.NamespaceWriteAll = false) (hV : w.ValidateNamespace w.Namespace = .ok ())
    (hQ : w.inStatement = true)
    (hT : stringsContainsRune table ':' = true)
    (hP : stringsHasPrefix table (w.Namespace ++ ":") = false)
    (hDb : w.validateDatabase database = true) :
    ∃ w1, (WriteString "ALTER TABLE " >>= fun _ => writeTable database table true >>= k) w =
      .err ("Invalid table prefix for a write query: " ++ table) w1 := by
  rw [W_bind_ok _ _ _ _ _ (WriteString_apply _ _)]
  rw [W_bind_apply, writeTable_rejects w _ _ _ hN hI hA hV hT hP hDb]
  · exact ⟨_, rfl⟩
  · rfl
  · exact hQ

theorem Write_of_err (w : writer) (n : Nat) (q : Query) (e : String)
    (hV : w.ValidateNamespace w.Namespace = .ok ()) (hq : w.query = some q)
    (h : ∃ w1, writeQuery n q w = .err e w1) : w.Write n = .error e := by
  obtain ⟨w1, h⟩ := h
  unfold writer.Write
  rw [hV, hq]
  simp only
  rw [h]

/-- C11 (counterexample): under the namespace `foo`, with `NamespaceWriteAll` and
`IgnoreNamespaces` off, four write statements whose target carries a namespace other than
`foo` and that do not fail with `Invalid table prefix for a write query`.  The target
`foo:bar:client`, of namespace `foo:bar`, starts with `foo:` and is written.  With the
database `db1` the target `db2.bar:client` fails with `Invalid database db2`: the database
is checked first.  Under sqlite3 an UPDATE with an alias fails with the error of the alias,
which is checked before the table is written.  With the namespace `fo o`, which is not a
valid one, `Write` fails with `Invalid identifier fo o` before it writes anything. -/
theorem write_target_other_namespace_not_rejected :
    testNamespace "INSERT INTO foo:bar:client VALUES (?)" "" "foo" false =
      .ok "INSERT INTO foo_bar_client VALUES (?)" ∧
    testNamespace "insert into db2.bar:client values (?)" "db1" "foo" false =
      .error "Invalid database db2" ∧
    testNamespace "UPDATE bar:client c SET a = 1" "" "foo" false =
      .error "Invalid operation: UPDATE with Alias not supported in sqlite3" ∧
    testNamespace "INSERT INTO bar:client VALUES (?)" "" "fo o" false =
      .error "Invalid identifier fo o" := by
  decide!

set_option maxHeartbeats 4000000 in
set_option maxRecDepth 10000 in
/-- C11 (amended): with a non-empty, valid namespace `N`, `NamespaceWriteAll` and
`IgnoreNamespaces` off, and a table name that contains `:` and does not start with `N:`,
`Write` fails with `Invalid table prefix for a write query: ` followed by the name on every
INSERT, UPDATE, DELETE, CREATE TABLE, DROP TABLE and ALTER TABLE (change, modify, add and
drop column, add constraint, add foreign key) whose target is that table, provided the
writer reaches the target: the database qualifier of the target passes the database check;
an UPDATE or DELETE under sqlite3 has neither join nor alias; the names of a DELETE with a
list of more than one alias are valid identifiers; and, for ALTER TABLE, which does not set
the current statement itself, the current statement of the writer is the query, as
`NewWriter` sets it.  `TestNamespace5`, `51`, `6`, `12` and `201`, a DROP
TABLE and two ALTER TABLE are instances. -/
theorem write_target_other_namespace (w : writer) (table : String)
    (hN : w.Namespace ≠ "") (hI : w.IgnoreNamespaces = false)
    (hA : w.NamespaceWriteAll = false)
    (hV : w.ValidateNamespace w.Namespace = .ok ())
    (hT : stringsContainsRune table ':' = true)
    (hP : stringsHasPrefix table (w.Namespace ++ ":") = false) :
    (∀ (n : Nat) (s : InsertQuery), w.query = some (.InsertQuery s) → s.Table.Name = table →
      w.validateDatabase s.Table.Database = true →
      w.Write n = .error ("Invalid table prefix for a write query: " ++ table)) ∧
    (∀ (n : Nat) (s : UpdateQuery), w.query = some (.UpdateQuery s) → s.Table.Name = table →
      w.validateDatabase s.Table.Database = true →
      (w.driver = "sqlite3" → s.Table.Joins.length = 0 ∧ s.Table.Alias.length = 0) →
      w.Write (n + 1) = .error ("Invalid table prefix for a write query: " ++ table)) ∧
    (∀ (n : Nat) (s : DeleteQuery), w.query = some (.DeleteQuery s) → s.Table.Name = table →
      w.validateDatabase s.Table.Database = true →
      (w.driver = "sqlite3" → s.Table.Joins.length = 0 ∧ s.Table.Alias.length = 0) →
      (s.Alias.length > 1 → ∀ a ∈ s.Alias, validIdentifierRunes false a.data 0 = true) →
      w.Write (n + 1) = .error ("Invalid table prefix for a write query: " ++ table)) ∧
    (∀ (n : Nat) (s : CreateTableQuery), w.query = some (.CreateTableQuery s) →
      s.Name = table →
      w.Write n = .error ("Invalid table prefix for a write query: " ++ table)) ∧
    (∀ (n : Nat) (s : DropTableQuery), w.query = some (.DropTableQuery s) → s.Table = table →
      w.validateDatabase s.Database = true →
      w.Write n = .error ("Invalid table prefix for a write query: " ++ table)) ∧
    (∀ (n : Nat) (s : RenameColumnQuery), w.query = some (.RenameColumnQuery s) →
      s.Table = table → w.validateDatabase s.Database = true →
      w.currentQuery = some .RenameColumnQuery →
      w.Write n = .error ("Invalid table prefix for a write query: " ++ table)) ∧
    (∀ (n : Nat) (s : ModifyColumnQuery), w.query = some (.ModifyColumnQuery s) →
      s.Table = table → w.validateDatabase s.Database = true →
      w.currentQuery = some .ModifyColumnQuery →
      w.Write n = .error ("Invalid table prefix for a write query: " ++ table)) ∧
    (∀ (n : Nat) (s : AddColumnQuery), w.query = some (.AddColumnQuery s) →
      s.Table = table → w.validateDatabase s.Database = true →
      w.currentQuery = some .AddColumnQuery →
      w.Write n = .error ("Invalid table prefix for a write query: " ++ table)) ∧
    (∀ (n : Nat) (s : AlterDropQuery), w.query = some (.AlterDropQuery s) →
      s.Table = table → w.validateDatabase s.Database = true →
      w.currentQuery = some .AlterDropQuery →
      w.Write n = .error ("Invalid table prefix for a write query: " ++ table)) ∧
    (∀ (n : Nat) (s : AddConstraintQuery), w.query = some (.AddConstraintQuery s) →
      s.Table = table → w.validateDatabase s.Database = true →
      w.currentQuery = some .AddConstraintQuery →
      w.Write n = .error ("Invalid table prefix for a write query: " ++ table)) ∧
    (∀ (n : Nat) (s : AddFKQuery), w.query = some (.AddFKQuery s) →
      s.Table = table → w.validateDatabase s.Database = true →
      w.currentQuery = some .AddFKQuery →
      w.Write n = .error ("Invalid table prefix for a write query: " ++ table)) ∧
    testNamespace "UPDATE bar:client SET idClient = 2" "" "foo" false =
      .error "Invalid table prefix for a write query: bar:client" ∧
    testNamespace "DELETE FROM bar:client" "" "foo" false =
      .error "Invalid table prefix for a write query: bar:client" ∧
    testNamespace "INSERT INTO bar:client VALUES (?)" "" "foo" false =
      .error "Invalid table prefix for a write query: bar:client" ∧
    testNamespace "CREATE TABLE bar:client (name VARCHAR(30))" "" "foo" false =
      .error "Invalid table prefix for a write query: bar:client" ∧
    testNamespace "INSERT INTO fizz:foo:bar:client SELECT name FROM bar:user" "" "foo" false =
      .error "Invalid table prefix for a write query: fizz:foo:bar:client" ∧
    testNamespace "DROP TABLE bar:client" "" "foo" false =
      .error "Invalid table prefix for a write query: bar:client" ∧
    testNamespace "ALTER TABLE bar:client ADD COLUMN a int" "" "foo" false =
      .error "Invalid table prefix for a write query: bar:client" ∧
    testNamespace "ALTER TABLE bar:client DROP COLUMN a" "" "foo" false =
      .error "Invalid table prefix for a write query: bar:client" := by
  refine ⟨?_, ?_, ?_, ?_, ?_, ?_, ?_, ?_, ?_, ?_, ?_, ?_⟩
  · intro n s hq ht hDb
    subst ht
    exact Write_of_err w n _ _ hV hq (writeInsert_rejects n s w hN hI hA hV hT hP hDb)
  · intro n s hq ht hDb hS
    subst ht
    exact Write_of_err w (n + 1) _ _ hV hq (writeUpdate_rejects n s w hN hI hA hV hT hP hDb hS)
  · intro n s hq ht hDb hS hL
    subst ht
    exact Write_of_err w (n + 1) _ _ hV hq
      (writeDelete_rejects n s w hN hI hA hV hT hP hDb hS hL)
  · intro n s hq ht
    subst ht
    exact Write_of_err w n _ _ hV hq (writeCreateTable_rejects s w hN hI hA hV hT hP)
  · intro n s hq ht hDb
    subst ht
    exact Write_of_err w n _ _ hV hq (writeDropTable_rejects s w hN hI hA hV hT hP hDb)
  · intro n s hq ht hDb hQ
    subst ht
    exact Write_of_err w n _ _ hV hq (alter_rejects _ _ _ w hN hI hA hV
      (by unfold writer.inStatement; rw [hQ]; rfl) hT hP hDb)
  · intro n s hq ht hDb hQ
    subst ht
    exact Write_of_err w n _ _ hV hq (alter_rejects _ _ _ w hN hI hA hV
      (by unfold writer.inStatement; rw [hQ]; rfl) hT hP hDb)
  · intro n s hq ht hDb hQ
    subst ht
    exact Write_of_err w n _ _ hV hq (alter_rejects _ _ _ w hN hI hA hV
      (by unfold writer.inStatement; rw [hQ]; rfl) hT hP hDb)
  · intro n s hq ht hDb hQ
    subst ht
    exact Write_of_err w n _ _ hV hq (alter_rejects _ _ _ w hN hI hA hV
      (by unfold writer.inStatement; rw [hQ]; rfl) hT hP hDb)
  · intro n s hq ht hDb hQ
    subst ht
    exact Write_of_err w n _ _ hV hq (alter_rejects _ _ _ w hN hI hA hV
      (by unfold writer.inStatement; rw [hQ]; rfl) hT hP hDb)
  · intro n s hq ht hDb hQ
    subst ht
    exact Write_of_err w n _ _ hV hq (alter_rejects _ _ _ w hN hI hA hV
      (by unfold writer.inStatement; rw [hQ]; rfl) hT hP hDb)
  · decide!

theorem write_target_other_namespace_witness :
    ({ NewWriter (some (insertMarker "" "bar:client")) [] "" "sqlite3" with
        Namespace := "foo" }).Write 20 =
      .error ("Invalid table prefix for a write query: " ++ "bar:client") :=
  (write_target_other_namespace
    { NewWriter (some (insertMarker "" "bar:client")) [] "" "sqlite3" with Namespace := "foo" }
    "bar:client" (by decide!) rfl rfl rfl (by decide!) (by decide!)).1
    20 ⟨noPos, ⟨noPos, "", "bar:client"⟩, [], [markerExpr], [], none⟩ rfl rfl (by decide!)

/-! ## The lexer -/

theorem SM_pure_apply {σ α : Type} (a : α) (s : σ) : (pure a : SM σ α) s = .ok a s := rfl

theorem SM_bind_apply {σ α β : Type} (m : SM σ α) (f : α → SM σ β) (s : σ) :
    (m >>= f) s = match m s with
      | .ok a s1 => f a s1
      | .err e s1 => .err e s1
      | .fuel => .fuel := rfl

theorem SM_bind_ok {σ α β : Type} (m : SM σ α) (f : α → SM σ β) (s s1 : σ) (a : α)
    (h : m s = .ok a s1) : (m >>= f) s = f a s1 := by
  rw [SM_bind_apply, h]

theorem skipWhiteSpace_stop (n : Nat) (l : lexer) (c : Char) (rest : List Char)
    (hr : l.reader = c :: rest) (hw : isWhitespace c.toNat = false) (he : c ≠ eofByte) :
    lexer.skipWhiteSpace (n + 1) l = .ok () l := by
  have hp : lexer.peek l = .ok c l := by
    simp [lexer.peek, hr, he]
  simp only [lexer.skipWhiteSpace]
  rw [SM_bind_ok _ _ _ _ _ hp]
  simp [hw, SM_pure_apply]

theorem next_plain (l : lexer) (c : Char) (rest : List Char)
    (hr : l.reader = c :: rest) (hw : isWhitespace c.toNat = false) (he : c ≠ eofByte) :
    lexer.next l = .ok c ⟨⟨l.Pos.Line, l.Pos.Column + 1, l.Pos.Length⟩, rest, l.Tokens⟩ := by
  have hp : lexer.readNext l = .ok c l.advance := by
    simp [lexer.readNext, hr]
  have h1 : c ≠ '\n' := by
    intro h; subst h; revert hw; decide!
  have h2 : c ≠ '\r' := by
    intro h; subst h; revert hw; decide!
  simp only [lexer.next]
  rw [SM_bind_ok _ _ _ _ _ hp]
  simp [h1, h2, he, SM_bind_apply, SM.modify, SM_pure_apply, lexer.advance, hr]

/-- One turn of the loop of `run` at a byte that is neither whitespace nor `byte(EOF)`. -/
theorem run_turn (n : Nat) (l : lexer) (c : Char) (rest : List Char)
    (hr : l.reader = c :: rest) (hw : isWhitespace c.toNat = false) (he : c ≠ eofByte) :
    lexer.run (n + 1) l =
      (lexer.scanToken (rest.length + 1) c >>= fun token =>
        lexer.addToken token >>= fun _ => lexer.run n)
        ⟨⟨l.Pos.Line, l.Pos.Column + 1, l.Pos.Length⟩, rest, l.Tokens⟩ := by
  have hg : (SM.get : SM lexer lexer) l = .ok l l := rfl
  have hs := skipWhiteSpace_stop (rest.length + 1) l c rest hr hw he
  have hn := next_plain l c rest hr hw he
  simp only [lexer.run]
  rw [SM_bind_ok _ _ _ _ _ hg]
  simp only [hr, List.length_cons]
  rw [SM_bind_ok _ _ _ _ _ hs, SM_bind_ok _ _ _ _ _ hn]
  have he2 : (c == eofByte) = false := by simpa using he
  simp only [he2, Bool.false_eq_true, if_false]
  rfl

/-- C29: the token of a backticked identifier keeps the opening backtick in its text (the
claim gives it the text between the backticks); it is never promoted to a keyword and an
unclosed backtick makes the lexer fail. -/
theorem lex_backtick_keeps_quote :
    lexTexts "`name`" = some [(.IDENT, "`name")] ∧
    lexTexts "`select`" = some [(.IDENT, "`select")] ∧
    lexTexts "`name" = none ∧
    writeParsed "select `name` from t" [] "" "" = none := by decide!

/-- C30 (counterexample): a byte without a token mapping is not skipped like a space: for
the backslash in `a\b` the lexer adds a token of type NOTSET between the two
identifiers. -/
theorem lex_unmapped_byte_not_space :
    lexTypes "a\\b" = some [.IDENT, .NOTSET, .IDENT] ∧ lexTypes "a b" = some [.IDENT, .IDENT] ∧
    lexTypes "a\\b" ≠ lexTypes "a b" := by decide!

theorem scanToken_unmapped (n : Nat) (c : Char) (l : lexer) (hc : unmappedByte c = true) :
    lexer.scanToken n c l = .ok ⟨.NOTSET, "", default⟩ l := by
  simp only [unmappedByte, Bool.and_eq_true, Bool.not_eq_true', bne_iff_ne, ne_eq,
    Option.isNone_iff_eq_none] at hc
  obtain ⟨⟨⟨⟨⟨⟨⟨⟨⟨⟨⟨_, h1⟩, h2⟩, h3⟩, h4⟩, h5⟩, h6⟩, h7⟩, h8⟩, h9⟩, h10⟩, _⟩ := hc
  simp [lexer.scanToken, h1, h2, h3, h4, h5, h6, h7, h8, h9, h10, SM_pure_apply]

/-- C30 (amended): for every byte without a token mapping, one turn of the loop of `run`
adds a token of type NOTSET with an empty text and goes on with the byte after it. -/
theorem run_unmapped_byte (n : Nat) (l : lexer) (c : Char) (rest : List Char)
    (hr : l.reader = c :: rest) (hc : unmappedByte c = true) :
    lexer.run (n + 1) l = lexer.run n
      ⟨⟨l.Pos.Line, l.Pos.Column + 1, l.Pos.Length⟩, rest,
        l.Tokens ++ [⟨.NOTSET, "", ⟨l.Pos.Line, l.Pos.Column + 1, 0⟩⟩]⟩ := by
  have hw : isWhitespace c.toNat = false := by
    simp only [unmappedByte, Bool.and_eq_true, Bool.not_eq_true'] at hc
    exact hc.1.1.1.1.1.1.1.1.1.1.1
  have he : c ≠ eofByte := by
    simp only [unmappedByte, Bool.and_eq_true, bne_iff_ne, ne_eq] at hc
    exact hc.2
  rw [run_turn n l c rest hr hw he, SM_bind_ok _ _ _ _ _ (scanToken_unmapped _ c _ hc)]
  rfl

theorem run_unmapped_byte_witness :
    unmappedByte '\\' = true ∧
    lexer.run 3 (newLexer "\\b") = lexer.run 2
      ⟨⟨0, 1, 0⟩, ['b'], [⟨.NOTSET, "", ⟨0, 1, 0⟩⟩]⟩ :=
  ⟨by decide!, run_unmapped_byte 2 (newLexer "\\b") '\\' ['b'] rfl (by decide!)⟩

/-- C31 (counterexample): the tokens of `ab c` record the columns 2 and 4, while their
first bytes are three columns apart: the columns are not those of the first bytes,
whatever the number given to the first column. -/
theorem lex_columns_not_first_byte :
    lexColumns "ab c" = some [2, 4] ∧ ¬ ∃ b : Int, lexColumns "ab c" = some [b, b + 3] := by
  have h : lexColumns "ab c" = some [2, 4] := by decide!
  refine ⟨h, ?_⟩
  rintro ⟨b, hb⟩
  rw [h] at hb
  simp only [Option.some.injEq, List.cons.injEq, and_true] at hb
  omega

/-- C31 (amended): a token records the line and the column that the lexer has reached when
the token is added, that is after its last byte was read, and the length of its text: if
scanning at the byte `c` yields the token `t` and the lexer state `l1`, the turn of `run`
adds `t` with the position of `l1` and the length of `t.Str`. -/
theorem run_records_end_position (n : Nat) (l l1 : lexer) (c : Char) (rest : List Char)
    (t : Token) (hr : l.reader = c :: rest) (hw : isWhitespace c.toNat = false)
    (he : c ≠ eofByte)
    (hs : lexer.scanToken (rest.length + 1) c
      ⟨⟨l.Pos.Line, l.Pos.Column + 1, l.Pos.Length⟩, rest, l.Tokens⟩ = .ok t l1) :
    lexer.run (n + 1) l = lexer.run n
      { l1 with Tokens := l1.Tokens ++
        [⟨t.Typ, t.Str, ⟨l1.Pos.Line, l1.Pos.Column, t.Str.length⟩⟩] } := by
  rw [run_turn n l c rest hr hw he, SM_bind_ok _ _ _ _ _ hs]
  rfl

theorem run_records_end_position_witness :
    lexer.run 5 (newLexer "ab c") = lexer.run 4
      ⟨⟨0, 2, 0⟩, [' ', 'c'], [⟨.IDENT, "ab", ⟨0, 2, 2⟩⟩]⟩ :=
  run_records_end_position 4 (newLexer "ab c") ⟨⟨0, 2, 0⟩, [' ', 'c'], []⟩ 'a' ['b', ' ', 'c']
    ⟨.IDENT, "ab", default⟩ rfl (by decide!) (by decide!) rfl

/-- C35: two consecutive bytes 0x02 end the run of the lexer without an error although
input remains: the first is dropped by `peek`, the second is taken by `next` for
`byte(EOF)`; the unterminated string after them is never read. -/
theorem lex_byte_two_ends_run :
    lexTypes ("select 1 " ++ String.mk [Char.ofNat 2, Char.ofNat 2] ++ " 'unclosed") =
      some [.SELECT, .INT] ∧
    lexTypes "select 1  'unclosed" = none ∧
    writeParsed ("select 1 " ++ String.mk [Char.ofNat 2, Char.ofNat 2] ++ " 'unclosed")
      [] "" "" = some "SELECT 1" := by decide!

/-- C21: `ParseQuery` returns a query for inputs that hold a byte without a token mapping
or a dangling token: the error of the token after `set a` is discarded by
`parseColumnValues` and that of the token after `for` by `parseForUpdate`. -/
theorem parseQuery_accepts_stray_token :
    (ParseQuery "update t set a \\").isOk = true ∧
    writeParsed "update t set a \\" [] "" "" = some "UPDATE t SET " ∧
    writeParsed "update t set a = 1, b = 2 +" [] "" "" = some "UPDATE t SET " ∧
    writeParsed "select a from t for \\" [] "" "" = some "SELECT a FROM t" := by decide!

/-- C27: the second slot of a LIMIT clause is not checked: `LIMIT 3, foo` is accepted and
written back, because `parseLimit` tests the type of the first slot again. -/
theorem parseLimit_second_slot_unchecked :
    (ParseQuery "select a from t limit 3, foo").isOk = true ∧
    writeParsed "select a from t limit 3, foo" [] "" "" = some "SELECT a FROM t LIMIT 3, foo" ∧
    writeParsed "select a from t limit 3," [] "" "" = some "SELECT a FROM t LIMIT 3, " := by
  decide!

/-- C25: a `?` in a LIMIT slot is written without advancing the parameter cursor: in the
UNION branch after `LIMIT ?` the null-equality rewrite inspects the parameter of the LIMIT
marker (5) instead of the nil bound to its own marker, and writes `x = ?`. -/
theorem write_limit_marker_keeps_cursor :
    writeParsed "select a from t limit ? union select b from u where x = ?"
      [.int 5, .nil] "" "" =
      some "SELECT a FROM t LIMIT ? UNION SELECT b FROM u WHERE x = ?" ∧
    writeParsed "select a from t limit ? union select b from u where x = ?"
      [.nil, .int 5] "" "" =
      some "SELECT a FROM t LIMIT ? UNION SELECT b FROM u WHERE x IS NULL" := by decide!

/-- C1: parsing and writing is not idempotent: the string `a\c` is written as `"a\c"`,
which the lexer rejects (invalid escape sequence), and `a = null` is written as
`a IS NULL`, which is written again as `a IS null`. -/
theorem write_parse_not_idempotent :
    writeParsed "select 'a\\\\c'" [] "" "" = some "SELECT \"a\\c\"" ∧
    (ParseQuery "SELECT \"a\\c\"").isOk = false ∧
    writeParsed "select a from t where a = null" [] "" "" =
      some "SELECT a FROM t WHERE a IS NULL" ∧
    writeParsed "SELECT a FROM t WHERE a IS NULL" [] "" "" =
      some "SELECT a FROM t WHERE a IS null" := by decide!

/-! ## The parser -/

theorem SM_throw_apply {σ α : Type} (e : Error) (s : σ) : (SM.throw e : SM σ α) s = .err e s := rfl

theorem SM_bind_err {σ α β : Type} (m : SM σ α) (f : α → SM σ β) (s s1 : σ) (e : Error)
    (h : m s = .err e s1) : (m >>= f) s = .err e s1 := by
  rw [SM_bind_apply, h]

theorem SM_bind_fuel {σ α β : Type} (m : SM σ α) (f : α → SM σ β) (s : σ)
    (h : m s = .fuel) : (m >>= f) s = .fuel := by
  rw [SM_bind_apply, h]

theorem Parser_peek_apply (p : Parser) : Parser.peek p = .ok (p.tokenAt p.lexIdex) p := rfl

theorem tokenAt_lt (p : Parser) (i : Nat) (h : (p.tokenAt i).Typ ≠ .EOF) :
    i < p.Tokens.length := by
  by_contra hlt
  apply h
  have : p.Tokens[i]? = none := List.getElem?_eq_none (by omega)
  simp [Parser.tokenAt, this, eofToken]

theorem Parser_next_apply (p : Parser) (h : (p.tokenAt p.lexIdex).Typ ≠ .EOF) :
    Parser.next p = .ok (p.tokenAt p.lexIdex) p.advance := by
  have := tokenAt_lt p _ h
  simp [Parser.next]
  omega

theorem parseInner_false (n : Nat) : ∀ (p p1 : Parser),
    Parser.parseInner n p = .ok false p1 → (p1.tokenAt p1.lexIdex).Typ = .EOF := by
  induction n with
  | zero => intro p p1 h; simp [Parser.parseInner, SM.noFuel] at h
  | succ n ih =>
    intro p p1 h
    simp only [Parser.parseInner] at h
    rw [SM_bind_ok _ _ _ _ _ (Parser_peek_apply p)] at h
    generalize ht : p.tokenAt p.lexIdex = t at h
    cases hty : t.Typ <;> simp only [hty] at h
    case COMMENT =>
      rw [SM_bind_apply] at h
      cases hn : Parser.next p with
      | ok a s => rw [hn] at h; exact ih _ _ h
      | err e s => rw [hn] at h; cases h
      | fuel => rw [hn] at h; cases h
    case SEMICOLON =>
      rw [SM_bind_apply] at h
      cases hn : Parser.next p with
      | ok a s => rw [hn] at h; simp [SM_pure_apply] at h
      | err e s => rw [hn] at h; cases h
      | fuel => rw [hn] at h; cases h
    case EOF =>
      simp only [SM_pure_apply, SRes.ok.injEq, true_and] at h
      subst h
      rw [ht, hty]
    all_goals (simp [SM_throw_apply] at h)

theorem SM_bind_ok_inv {σ α β : Type} (m : SM σ α) (f : α → SM σ β) (s s1 : σ) (b : β)
    (h : (m >>= f) s = .ok b s1) : ∃ a s2, m s = .ok a s2 ∧ f a s2 = .ok b s1 := by
  rw [SM_bind_apply] at h
  cases hm : m s with
  | ok a s2 => rw [hm] at h; exact ⟨a, s2, rfl, h⟩
  | err e s2 => rw [hm] at h; cases h
  | fuel => rw [hm] at h; cases h

theorem parseStatement_none (n : Nat) (t : Token) (p p1 : Parser)
    (h : Parser.parseStatement n t p = .ok none p1) : t.Typ = .EOF ∧ p1 = p := by
  simp only [Parser.parseStatement] at h
  cases hty : t.Typ <;> simp only [hty] at h
  case EOF =>
    simp only [SM_pure_apply, SRes.ok.injEq, true_and] at h
    exact ⟨rfl, h.symm⟩
  case SELECT =>
    obtain ⟨q, s2, _, h2⟩ := SM_bind_ok_inv _ _ _ _ _ h
    simp [SM_bind_apply, SM.get, SM_pure_apply] at h2
  case INSERT =>
    obtain ⟨q, s2, _, h2⟩ := SM_bind_ok_inv _ _ _ _ _ h
    simp [SM_bind_apply, SM.get, SM_pure_apply] at h2
  case UPDATE =>
    obtain ⟨q, s2, _, h2⟩ := SM_bind_ok_inv _ _ _ _ _ h
    simp [SM_bind_apply, SM.get, SM_pure_apply] at h2
  case DELETE =>
    obtain ⟨q, s2, _, h2⟩ := SM_bind_ok_inv _ _ _ _ _ h
    simp [SM_bind_apply, SM.get, SM_pure_apply] at h2
  case CREATE =>
    obtain ⟨q, s2, _, h2⟩ := SM_bind_ok_inv _ _ _ _ _ h
    simp [SM_bind_apply, SM.get, SM_pure_apply] at h2
  case SHOW =>
    obtain ⟨q, s2, _, h2⟩ := SM_bind_ok_inv _ _ _ _ _ h
    simp [SM_bind_apply, SM.get, SM_pure_apply] at h2
  case DROP =>
    obtain ⟨q, s2, _, h2⟩ := SM_bind_ok_inv _ _ _ _ _ h
    simp [SM_bind_apply, SM.get, SM_pure_apply] at h2
  case ALTER =>
    obtain ⟨q, s2, _, h2⟩ := SM_bind_ok_inv _ _ _ _ _ h
    simp [SM_bind_apply, SM.get, SM_pure_apply] at h2
  all_goals (simp [SM_throw_apply] at h)

/-- When the loop of `Parse` ends without an error, the token at the cursor is the end of
the input. -/
theorem parseLoop_ok_at_end (n : Nat) : ∀ (qs qs1 : List Query) (p p1 : Parser),
    Parser.parseLoop n qs p = .ok qs1 p1 → (p1.tokenAt p1.lexIdex).Typ = .EOF := by
  induction n with
  | zero => intro qs qs1 p p1 h; simp [Parser.parseLoop, SM.noFuel] at h
  | succ n ih =>
    intro qs qs1 p p1 h
    simp only [Parser.parseLoop] at h
    obtain ⟨_, p0, _, h⟩ := SM_bind_ok_inv _ _ _ _ _ h
    rw [SM_bind_ok _ _ _ _ _ (Parser_peek_apply p0)] at h
    generalize htk : p0.tokenAt p0.lexIdex = t at h
    by_cases hc : t.Typ = .COMMENT
    · simp only [hc, beq_self_eq_true, if_true] at h
      obtain ⟨_, p2, _, h⟩ := SM_bind_ok_inv _ _ _ _ _ h
      exact ih _ _ _ _ h
    · have hc2 : (t.Typ == Typ.COMMENT) = false := by simpa using hc
      simp only [hc2, Bool.false_eq_true, if_false] at h
      obtain ⟨r, p2, hs, h⟩ := SM_bind_ok_inv _ _ _ _ _ h
      cases r with
      | none =>
        simp only [SM_pure_apply, SRes.ok.injEq] at h
        obtain ⟨ht, hp⟩ := parseStatement_none _ _ _ _ hs
        rw [← h.2, hp, htk]
        exact ht
      | some q =>
        simp only at h
        obtain ⟨b, p3, hi, h⟩ := SM_bind_ok_inv _ _ _ _ _ h
        cases b with
        | true => exact ih _ _ _ _ h
        | false =>
          simp only [Bool.false_eq_true, if_false, SM_pure_apply, SRes.ok.injEq] at h
          rw [← h.2]
          exact parseInner_false _ _ _ hi

/-- C20: when `Parse` succeeds the token at the cursor is the end of the input, so no token
is left over; and a token after a statement that is not `;`, a comment or the end of the
input makes the loop `inner` of `Parse` fail with `Unexpected ...`. -/
theorem parse_consumes_all_tokens :
    (∀ (replaceParams : Bool) (code : String) (qs : List Query) (p : Parser),
      Parser.ParseState replaceParams code = .ok (qs, p) → (p.tokenAt p.lexIdex).Typ = .EOF) ∧
    (∀ (n : Nat) (p : Parser), (p.tokenAt p.lexIdex).Typ ≠ .COMMENT →
      (p.tokenAt p.lexIdex).Typ ≠ .SEMICOLON → (p.tokenAt p.lexIdex).Typ ≠ .EOF →
      Parser.parseInner (n + 1) p = .err (unexpectedToken (p.tokenAt p.lexIdex)) p) := by
  constructor
  · intro r code qs p h
    simp only [Parser.ParseState] at h
    split at h
    · cases h
    · cases h
    · split at h
      · rename_i hl
        simp only [ParseResult.ok.injEq, Prod.mk.injEq] at h
        rw [← h.2]
        exact parseLoop_ok_at_end _ _ _ _ _ hl
      · cases h
      · cases h
  · intro n p h1 h2 h3
    simp only [Parser.parseInner]
    rw [SM_bind_ok _ _ _ _ _ (Parser_peek_apply p)]
    generalize p.tokenAt p.lexIdex = t at h1 h2 h3 ⊢
    cases hty : t.Typ <;> simp_all [SM_throw_apply]

theorem parse_consumes_all_tokens_witness :
    (∀ (qs : List Query) (p : Parser),
      Parser.ParseState false "select 1; select 2" = .ok (qs, p) →
      (p.tokenAt p.lexIdex).Typ = .EOF) ∧
    Parser.parseInner 1 (NewStrParser false [⟨.INT, "1", ⟨0, 1, 1⟩⟩]) =
      .err (unexpectedToken ⟨.INT, "1", ⟨0, 1, 1⟩⟩) (NewStrParser false [⟨.INT, "1", ⟨0, 1, 1⟩⟩]) :=
  ⟨fun qs p h => parse_consumes_all_tokens.1 false "select 1; select 2" qs p h,
   parse_consumes_all_tokens.2 0 (NewStrParser false [⟨.INT, "1", ⟨0, 1, 1⟩⟩])
    (by decide!) (by decide!) (by decide!)⟩

theorem Parser_next_typ (p : Parser) (k : Typ) (h : (p.tokenAt p.lexIdex).Typ = k)
    (hk : k ≠ .EOF) : Parser.next p = .ok (p.tokenAt p.lexIdex) p.advance :=
  Parser_next_apply p (by rw [h]; exact hk)

/-- C16: `parseLimit` on `LIMIT a` stores `a` as `RowCount` without an `Offset`; on
`LIMIT a, b` it stores `a` as `Offset` and `b` as `RowCount`; and the writer emits the
two-slot clause as ` LIMIT a, b`, the offset first (`a`, `b` being INT or `?` tokens). -/
theorem parseLimit_slots (p : Parser) (a b : Token) (w : writer) (n : Nat)
    (hl : (p.tokenAt p.lexIdex).Typ = .LIMIT)
    (ha : p.tokenAt (p.lexIdex + 1) = a) (hat : a.Typ = .INT ∨ a.Typ = .QUESTION) :
    ((p.tokenAt (p.lexIdex + 2)).Typ ≠ .COMMA →
      Parser.parseLimit p = .ok (some (.mk (p.tokenAt p.lexIdex).Pos
        (some (.ConstantExpr a.Pos .INT a.Str)) none)) { p with lexIdex := p.lexIdex + 2 }) ∧
    ((p.tokenAt (p.lexIdex + 2)).Typ = .COMMA → p.tokenAt (p.lexIdex + 3) = b →
      (b.Typ = .INT ∨ b.Typ = .QUESTION) →
      Parser.parseLimit p = .ok (some (.mk (p.tokenAt p.lexIdex).Pos
        (some (.ConstantExpr b.Pos .INT b.Str)) (some (.ConstantExpr a.Pos .INT a.Str))))
        { p with lexIdex := p.lexIdex + 4 }) ∧
    (w.Format = false →
      writeLimit (n + 2) (.mk (p.tokenAt p.lexIdex).Pos
        (some (.ConstantExpr b.Pos .INT b.Str)) (some (.ConstantExpr a.Pos .INT a.Str))) w =
      .ok () { w with buf := w.buf ++ " LIMIT " ++ a.Str ++ ", " ++ b.Str }) := by
  have h0 : Parser.peek p = .ok (p.tokenAt p.lexIdex) p := rfl
  have hn0 : Parser.next p = .ok (p.tokenAt p.lexIdex) p.advance :=
    Parser_next_typ p _ hl (by decide!)
  have ha1 : (p.advance.tokenAt p.advance.lexIdex) = a := ha
  have hane : a.Typ ≠ .EOF := by rcases hat with h | h <;> rw [h] <;> decide!
  have hn1 : Parser.next p.advance = .ok a p.advance.advance := by
    have := Parser_next_apply p.advance (by rw [ha1]; exact hane)
    rw [ha1] at this; exact this
  have hp1 : Parser.peek p.advance = .ok a p.advance := by
    rw [Parser_peek_apply, ha1]
  have hp2 : Parser.peek p.advance.advance = .ok (p.tokenAt (p.lexIdex + 2)) p.advance.advance := rfl
  refine ⟨?_, ?_, ?_⟩
  · intro hc
    simp only [Parser.parseLimit]
    rw [SM_bind_ok _ _ _ _ _ h0]
    simp only [hl, bne_self_eq_false, Bool.false_eq_true, if_false]
    rw [SM_bind_ok _ _ _ _ _ hn0, SM_bind_ok _ _ _ _ _ hp1]
    have hc2 : ((p.tokenAt (p.lexIdex + 2)).Typ == Typ.COMMA) = false := by simpa using hc
    rcases hat with h | h <;> simp only [h] <;> rw [SM_bind_ok _ _ _ _ _ hn1] <;>
      rw [SM_bind_ok _ _ _ _ _ hp2] <;> simp only [hc2, Bool.false_eq_true, if_false] <;> rfl
  · intro hc hb hbt
    have hn2 : Parser.next p.advance.advance =
        .ok (p.tokenAt (p.lexIdex + 2)) p.advance.advance.advance :=
      Parser_next_typ p.advance.advance _ hc (by decide!)
    have hb3 : p.advance.advance.advance.tokenAt p.advance.advance.advance.lexIdex = b := hb
    have hp3 : Parser.peek p.advance.advance.advance = .ok b p.advance.advance.advance := by
      rw [Parser_peek_apply, hb3]
    have hbne : b.Typ ≠ .EOF := by rcases hbt with h | h <;> rw [h] <;> decide!
    have hn3 : Parser.next p.advance.advance.advance =
        .ok b p.advance.advance.advance.advance := by
      have := Parser_next_apply p.advance.advance.advance (by rw [hb3]; exact hbne)
      rw [hb3] at this; exact this
    simp only [Parser.parseLimit]
    rw [SM_bind_ok _ _ _ _ _ h0]
    simp only [hl, bne_self_eq_false, Bool.false_eq_true, if_false]
    rw [SM_bind_ok _ _ _ _ _ hn0, SM_bind_ok _ _ _ _ _ hp1]
    rcases hat with h | h <;> simp only [h] <;> rw [SM_bind_ok _ _ _ _ _ hn1] <;>
      rw [SM_bind_ok _ _ _ _ _ hp2] <;> simp only [hc, beq_self_eq_true, if_true] <;>
      rw [SM_bind_ok _ _ _ _ _ hn2, SM_bind_ok _ _ _ _ _ hp3, SM_bind_ok _ _ _ _ _ hn3] <;> rfl
  · intro hf
    simp [writeLimit, writeExpr, writeConstantExpr, ignoreErr, W_bind_apply, getW_apply, hf,
      WriteRune_apply, WriteString_apply, String.append_assoc]
    rw [← String.append_assoc (String.singleton ' ')]
    rfl

theorem parseLimit_slots_witness :
    Parser.parseLimit (NewStrParser false [⟨.LIMIT, "limit", ⟨0, 5, 5⟩⟩, ⟨.INT, "3", ⟨0, 7, 1⟩⟩,
      ⟨.COMMA, ",", ⟨0, 8, 1⟩⟩, ⟨.INT, "4", ⟨0, 9, 1⟩⟩]) =
      .ok (some (.mk ⟨0, 5, 5⟩ (some (.ConstantExpr ⟨0, 9, 1⟩ .INT "4"))
        (some (.ConstantExpr ⟨0, 7, 1⟩ .INT "3"))))
        { NewStrParser false [⟨.LIMIT, "limit", ⟨0, 5, 5⟩⟩, ⟨.INT, "3", ⟨0, 7, 1⟩⟩,
            ⟨.COMMA, ",", ⟨0, 8, 1⟩⟩, ⟨.INT, "4", ⟨0, 9, 1⟩⟩] with lexIdex := 4 } :=
  (parseLimit_slots (NewStrParser false [⟨.LIMIT, "limit", ⟨0, 5, 5⟩⟩, ⟨.INT, "3", ⟨0, 7, 1⟩⟩,
      ⟨.COMMA, ",", ⟨0, 8, 1⟩⟩, ⟨.INT, "4", ⟨0, 9, 1⟩⟩]) ⟨.INT, "3", ⟨0, 7, 1⟩⟩
      ⟨.INT, "4", ⟨0, 9, 1⟩⟩ (NewWriter none [] "" "") 0 rfl rfl (Or.inl rfl)).2.1 rfl rfl
      (Or.inl rfl)

set_option maxRecDepth 10000 in
/-- C23: with `ReplaceParams` the literals of `select myFn(id, 2, otherFn(3)) from foo
where name > 5` become markers and `Params` is `[2, 3, 5]`; but the statement
`update t set a = 1, b = 2 +` is accepted with `Params = [1, 2]` and a tree without any
marker, since `parseColumnValues` discards the columns together with the error. -/
theorem replaceParams_discarded_columns :
    parseReplaced "select myFn(id, 2, otherFn(3)) from foo where name > 5" =
      some (["2", "3", "5"], "SELECT MYFN(id, ?, OTHERFN(?)) FROM foo WHERE name > ?") ∧
    parseReplaced "update t set a = 1, b = 2 +" = some (["1", "2"], "UPDATE t SET ") := by
  decide!

/-- C32: `AUTO_INCREMENT`, `PRIMARY` and `UNIQUE` are compared with the token text as it
is written: the CREATE TABLE statements accepted with these words in upper case are
rejected when the words are in lower case. -/
theorem parseCreate_case_sensitive_words :
    (ParseQuery "create table t (id int not null AUTO_INCREMENT)").isOk = true ∧
    (ParseQuery "create table t (id int not null auto_increment)").isOk = false ∧
    (ParseQuery "create table t (id int, PRIMARY KEY (id), UNIQUE KEY n (c))").isOk = true ∧
    (ParseQuery "create table t (id int, primary key (id), unique key n (c))").isOk = false ∧
    (ParseQuery "create table t (id int, UNIQUE KEY n (c))").isOk = true ∧
    (ParseQuery "create table t (id int, unique key n (c))").isOk = false := by decide!

/-- C34: the suffix `ON DELETE CASCADE` of a foreign key in CREATE TABLE is read and
dropped: the statement is written as the one without the suffix, while the same
constraint added by ALTER TABLE keeps it. -/
theorem parseFKConstraint_drops_cascade :
    writeParsed ("create table t (a int, CONSTRAINT fk FOREIGN KEY (a) REFERENCES r(rc) " ++
      "ON DELETE CASCADE)") [] "" "" =
      some ("CREATE TABLE t (a int NOT NULL, CONSTRAINT fk FOREIGN KEY (a) REFERENCES r(rc))" ++
        " ENGINE=InnoDb DEFAULT CHARACTER SET = utf8 DEFAULT COLLATE = utf8_general_ci") ∧
    writeParsed "create table t (a int, CONSTRAINT fk FOREIGN KEY (a) REFERENCES r(rc))"
      [] "" "" =
      some ("CREATE TABLE t (a int NOT NULL, CONSTRAINT fk FOREIGN KEY (a) REFERENCES r(rc))" ++
        " ENGINE=InnoDb DEFAULT CHARACTER SET = utf8 DEFAULT COLLATE = utf8_general_ci") ∧
    writeParsed ("alter table t add constraint fk foreign key (a) references r(rc) " ++
      "on delete cascade") [] "" "" =
      some "ALTER TABLE t ADD CONSTRAINT fk FOREIGN KEY(a) REFERENCES r(rc) ON DELETE CASCADE" := by
  decide!

/-! ## The builder -/

/-- C37: `SetColumns` is not atomic: after the failing call `SetColumns("id test1")` the
column list of `select id from users` is empty (the query is written `SELECT  FROM users`),
while the failing `AddColumns("id test1")` leaves the columns as they were. -/
theorem setColumns_clears_on_error :
    builtSQL ((parsedSelect "select id from users").map fun q => q.SetColumns "id test1") =
      "error ParseColumns: Unexpected IDENT 'test1' at column 8: SELECT  FROM users" ∧
    builtSQL ((parsedSelect "select id from users").map fun q => q.AddColumns "id test1") =
      "error ParseColumns: Unexpected IDENT 'test1' at column 8: SELECT id FROM users" := by
  decide!

/-- C19: `SelectQuery.Join` does not take INNER and CROSS for join keywords: it puts a JOIN
token in front of `inner join ...` and of `cross join ...`, which then fail to parse, while
fragments that begin with LEFT, OUTER or JOIN, or with a table name, are parsed as the claim
says. -/
theorem select_join_inner_rejected :
    builtSQL ((parsedSelect "select * from users").map fun q =>
        q.Join "inner join invoices on a = b") =
      "error Expecting IDENT got INNER (inner): SELECT * FROM users" ∧
    builtSQL ((parsedSelect "select * from users").map fun q => q.Join "cross join invoices") =
      "error Expecting IDENT got CROSS (cross): SELECT * FROM users" ∧
    builtSQL ((parsedSelect "select * from users").map fun q =>
        q.Join "left join invoices on a = b") =
      "ok: SELECT * FROM users LEFT JOIN invoices ON a = b" ∧
    builtSQL ((parsedSelect "select * from users").map fun q => q.Join "invoices on a = b") =
      "ok: SELECT * FROM users JOIN invoices ON a = b" ∧
    builtSQL ((parsedSelect "select 1").map fun q => q.Join "invoices") =
      "error Can't add a join to this query (empty FROM): SELECT 1" ∧
    builtSQL ((parsedSelect "select * from (select 1) as x").map fun q => q.Join "invoices") =
      "error Can't add a join to this query. From must be a table: SELECT * FROM (SELECT 1) AS x" := by
  decide!

/-- C28: when the query already has a WHERE, `And` and `Or` return before
`parseAfterFilter`: the trailing ORDER BY, GROUP BY and HAVING of the fragment are dropped,
while on a query without a WHERE they are merged. -/
theorem and_drops_trailing_clauses :
    builtSQL ((parsedSelect "select * from t where a = 1").map fun q =>
        q.And "b = 2 order by c group by d having e = 1" []) =
      "ok: SELECT * FROM t WHERE a = 1 AND b = 2" ∧
    builtSQL ((parsedSelect "select * from t where a = 1").map fun q =>
        q.Or "b = 2 order by c" []) =
      "ok: SELECT * FROM t WHERE a = 1 OR b = 2" ∧
    builtSQL ((parsedSelect "select * from t").map fun q =>
        q.And "b = 2 order by c group by d having e = 1" []) =
      "ok: SELECT * FROM t WHERE b = 2 GROUP BY d HAVING e = 1 ORDER BY c" := by
  decide!

theorem setWherePart_WherePart (q : SelectQuery) (w : Option Goql.WherePart) :
    (q.setWherePart w).WherePart = w := by
  cases q; rfl

theorem setParams_WherePart (q : SelectQuery) (ps : List Value) :
    (q.setParams ps).WherePart = q.WherePart := by
  cases q; rfl

/-- C18: `AndQuery(f)` sets the WHERE of the target to `Binary(AND, e, Paren(x))` and
`OrQuery(f)` to `Binary(OR, e, x)`, `e` being the WHERE of the target and `x` that of `f`
(`Paren(x)`, `x` when the target has none); the parameters of `f` are appended after
those of the target; a nil `f` leaves the target unchanged. -/
theorem andQuery_orQuery_splice (q f : SelectQuery) (pos : Position) (x : Expr)
    (hf : f.WherePart = some (.mk pos x)) :
    q.AndQuery (some f) = .ok ((q.setParams (q.Params ++ f.Params)).setWherePart
      (whereAfter .AND q.WherePart (.ParenExpr ⟨0, 0, 0⟩ x ⟨0, 0, 0⟩))) ∧
    q.OrQuery (some f) = .ok ((q.setParams (q.Params ++ f.Params)).setWherePart
      (whereAfter .OR q.WherePart x)) ∧
    q.AndQuery none = .ok q ∧ q.OrQuery none = .ok q := by
  refine ⟨?_, ?_, rfl, rfl⟩
  · simp only [SelectQuery.AndQuery, hf, setParams_WherePart, whereAfter]
    cases hq : q.WherePart with
    | none => rfl
    | some w => cases w; rfl
  · simp only [SelectQuery.OrQuery, hf, setParams_WherePart, whereAfter]
    cases hq : q.WherePart with
    | none => rfl
    | some w => cases w; rfl

theorem andQuery_orQuery_splice_witness :
    builtSQL ((parsedSelect "select * from users where id = 1").map fun q =>
      match parsedSelect "select 1 from t where status = 2 or status = 3" with
      | some f => SelectQuery.AndQuery q (some f)
      | none => .fuel) =
      "ok: SELECT * FROM users WHERE id = 1 AND (status = 2 OR status = 3)" ∧
    (SelectQuery.mk ⟨0, 0, 0⟩ false false [] none none [] none [] none [] [.int 1]).AndQuery
      (some (.mk ⟨0, 0, 0⟩ false false [] none (some (.mk ⟨0, 0, 0⟩ (.ParameterExpr ⟨0, 0, 0⟩ "")))
        [] none [] none [] [.int 2])) =
      .ok (.mk ⟨0, 0, 0⟩ false false [] none
        (some (.mk ⟨0, 0, 0⟩ (.ParenExpr ⟨0, 0, 0⟩ (.ParameterExpr ⟨0, 0, 0⟩ "") ⟨0, 0, 0⟩)))
        [] none [] none [] [.int 1, .int 2]) :=
  ⟨by decide!,
   (andQuery_orQuery_splice
     (.mk ⟨0, 0, 0⟩ false false [] none none [] none [] none [] [.int 1])
     (.mk ⟨0, 0, 0⟩ false false [] none (some (.mk ⟨0, 0, 0⟩ (.ParameterExpr ⟨0, 0, 0⟩ "")))
        [] none [] none [] [.int 2]) ⟨0, 0, 0⟩ (.ParameterExpr ⟨0, 0, 0⟩ "") rfl).1⟩

theorem setWherePart_Params (q : SelectQuery) (w : Option Goql.WherePart) :
    (q.setWherePart w).Params = q.Params := by
  cases q; rfl

theorem setParams_Params (q : SelectQuery) (ps : List Value) : (q.setParams ps).Params = ps := by
  cases q; rfl

theorem setOrderByPart_keeps (q : SelectQuery) (o : List OrderColumn) :
    (q.setOrderByPart o).WherePart = q.WherePart ∧ (q.setOrderByPart o).Params = q.Params := by
  cases q; exact ⟨rfl, rfl⟩

theorem setGroupByPart_keeps (q : SelectQuery) (g : List Expr) :
    (q.setGroupByPart g).WherePart = q.WherePart ∧ (q.setGroupByPart g).Params = q.Params := by
  cases q; exact ⟨rfl, rfl⟩

theorem setHavingPart_keeps (q : SelectQuery) (h : Option Goql.WherePart) :
    (q.setHavingPart h).WherePart = q.WherePart ∧ (q.setHavingPart h).Params = q.Params := by
  cases q; exact ⟨rfl, rfl⟩

theorem mergeHaving_keeps (q : SelectQuery) (h : Goql.WherePart) :
    (q.mergeHaving h).WherePart = q.WherePart ∧ (q.mergeHaving h).Params = q.Params := by
  unfold SelectQuery.mergeHaving
  split
  · exact setHavingPart_keeps _ _
  · exact setHavingPart_keeps _ _

theorem parseAfterFilter_keeps (n : Nat) (q q1 : SelectQuery) (p : Parser)
    (h : (parseAfterFilter n q p).query = some q1) :
    q1.WherePart = q.WherePart ∧ q1.Params = q.Params := by
  have key : ∀ (qa : SelectQuery) (p2 : Parser),
      (qa.WherePart = q.WherePart ∧ qa.Params = q.Params) →
      (match Parser.parseHaving n p2 with
        | .fuel => (BRes.fuel : BRes SelectQuery)
        | .err e _ => .err e.Message qa
        | .ok none _ => .ok qa
        | .ok (some h) _ => .ok (qa.mergeHaving h)).query = some q1 →
      q1.WherePart = q.WherePart ∧ q1.Params = q.Params := by
    intro qa p2 hqa hr
    cases hh : Parser.parseHaving n p2 with
    | fuel => rw [hh] at hr; simp [BRes.query] at hr
    | err e p3 =>
      rw [hh] at hr
      simp only [BRes.query, Option.some.injEq] at hr
      subst hr; exact hqa
    | ok hv p3 =>
      rw [hh] at hr
      cases hv with
      | none =>
        simp only [BRes.query, Option.some.injEq] at hr
        subst hr; exact hqa
      | some x =>
        simp only [BRes.query, Option.some.injEq] at hr
        subst hr
        exact ⟨(mergeHaving_keeps _ _).1.trans hqa.1, (mergeHaving_keeps _ _).2.trans hqa.2⟩
  have key2 : ∀ (qa : SelectQuery) (p1 : Parser),
      (qa.WherePart = q.WherePart ∧ qa.Params = q.Params) →
      (match Parser.parseGroupBy n p1 with
        | .fuel => (BRes.fuel : BRes SelectQuery)
        | rg =>
          let (q2, p2) := match rg with
            | .ok g p2 => (qa.setGroupByPart (qa.GroupByPart ++ g), p2)
            | .err _ p2 => (qa, p2)
            | .fuel => (qa, p1)
          match Parser.parseHaving n p2 with
          | .fuel => .fuel
          | .err e _ => .err e.Message q2
          | .ok none _ => .ok q2
          | .ok (some h) _ => .ok (q2.mergeHaving h)).query = some q1 →
      q1.WherePart = q.WherePart ∧ q1.Params = q.Params := by
    intro qa p1 hqa hr
    cases hg : Parser.parseGroupBy n p1 with
    | fuel => rw [hg] at hr; simp [BRes.query] at hr
    | ok g p2 =>
      rw [hg] at hr
      exact key _ p2 ⟨(setGroupByPart_keeps _ _).1.trans hqa.1,
        (setGroupByPart_keeps _ _).2.trans hqa.2⟩ hr
    | err e p2 =>
      rw [hg] at hr
      exact key _ p2 hqa hr
  unfold parseAfterFilter at h
  cases ho : Parser.parseOrderBy n p with
  | fuel => rw [ho] at h; simp [BRes.query] at h
  | ok o p1 =>
    rw [ho] at h
    exact key2 _ p1 (setOrderByPart_keeps _ _) h
  | err e p1 =>
    rw [ho] at h
    exact key2 _ p1 ⟨rfl, rfl⟩ h

/-- C17: for an update, a delete and a select, `And(fragment)` sets the WHERE to
`Binary(AND, e, exp)` and `Or(fragment)` to `Binary(OR, e, exp)`, `e` being the existing
WHERE expression and `exp` the expression parsed from the fragment (by `parseBooleanExpr`
for `And`, by `parseBooleanTerm` for `Or`); without an existing WHERE both set it to
`exp`; the parameters of the caller are appended to `Params`.  On a select without a
WHERE the query so changed then goes through `parseAfterFilter` (which reads the clauses
after the filter), and whatever that returns, a query or an error, the select is left
with the WHERE `exp` and with those `Params`. -/
theorem and_or_set_where (code : String) (params : List Value) (p : Parser)
    (hp : fragmentParser code = .inl (.ok p)) :
    (∀ (exp : Expr) (p1 : Parser),
      Parser.parseBooleanExpr (parseFuel p.Tokens.length) p = .ok exp p1 →
      (∀ q : UpdateQuery, q.And code params = .ok { q with
          Params := q.Params ++ p1.Params ++ params
          WherePart := whereAfter .AND q.WherePart exp }) ∧
      (∀ q : DeleteQuery, q.And code params = .ok { q with
          Params := q.Params ++ p1.Params ++ params
          WherePart := whereAfter .AND q.WherePart exp }) ∧
      (∀ q : SelectQuery, stringsHasPrefix (stringsToUpper code) "ORDER BY" = false →
        (q.WherePart ≠ none → q.And code params =
          .ok ((q.setParams (q.Params ++ p1.Params ++ params)).setWherePart
            (whereAfter .AND q.WherePart exp))) ∧
        (q.WherePart = none →
          q.And code params =
            ((q.setParams (q.Params ++ p1.Params ++ params)).setWherePart
              (whereAfter .AND none exp)).afterFilter p1 ∧
          ∀ q1, (q.And code params).query = some q1 →
            q1.WherePart = some (.mk exp.Position exp) ∧
              q1.Params = q.Params ++ p1.Params ++ params))) ∧
    (∀ (exp : Expr) (p1 : Parser),
      Parser.parseBooleanTerm (parseFuel p.Tokens.length) p = .ok exp p1 →
      (∀ q : UpdateQuery, q.Or code params = .ok { q with
          Params := q.Params ++ params
          WherePart := whereAfter .OR q.WherePart exp }) ∧
      (∀ q : DeleteQuery, q.Or code params = .ok { q with
          Params := q.Params ++ params
          WherePart := whereAfter .OR q.WherePart exp }) ∧
      (∀ q : SelectQuery, stringsHasPrefix (stringsToUpper code) "ORDER BY" = false →
        (q.WherePart ≠ none → q.Or code params =
          .ok ((q.setParams (q.Params ++ params)).setWherePart
            (whereAfter .OR q.WherePart exp))) ∧
        (q.WherePart = none →
          q.Or code params =
            ((q.setParams (q.Params ++ params)).setWherePart
              (whereAfter .OR none exp)).afterFilter p1 ∧
          ∀ q1, (q.Or code params).query = some q1 →
            q1.WherePart = some (.mk exp.Position exp) ∧
              q1.Params = q.Params ++ params))) := by
  constructor
  · intro exp p1 he
    refine ⟨?_, ?_, ?_⟩
    · intro q
      simp only [UpdateQuery.And, hp, he, processParams, whereAfter]
      cases hq : q.WherePart with
      | none => rfl
      | some w => cases w; rfl
    · intro q
      simp only [DeleteQuery.And, hp, he, processParams, whereAfter]
      cases hq : q.WherePart with
      | none => rfl
      | some w => cases w; rfl
    · intro q hf
      constructor
      · intro hw
        simp only [SelectQuery.And, hp, he, hf, processParams, whereAfter, setParams_WherePart,
          Bool.not_false, if_true]
        cases hq : q.WherePart with
        | none => exact absurd hq hw
        | some w => cases w; rfl
      · intro hw
        have heq : q.And code params =
            ((q.setParams (q.Params ++ p1.Params ++ params)).setWherePart
              (whereAfter .AND none exp)).afterFilter p1 := by
          simp only [SelectQuery.And, hp, he, hf, processParams, whereAfter,
            setParams_WherePart, Bool.not_false, if_true, hw]
        refine ⟨heq, ?_⟩
        intro q1 hq1
        rw [heq] at hq1
        have hk := parseAfterFilter_keeps _ _ _ _ hq1
        rw [setWherePart_WherePart, setWherePart_Params, setParams_Params] at hk
        exact hk
  · intro exp p1 he
    refine ⟨?_, ?_, ?_⟩
    · intro q
      simp only [UpdateQuery.Or, hp, he, processParams, whereAfter]
      cases hq : q.WherePart with
      | none => rfl
      | some w => cases w; rfl
    · intro q
      simp only [DeleteQuery.Or, hp, he, processParams, whereAfter]
      cases hq : q.WherePart with
      | none => rfl
      | some w => cases w; rfl
    · intro q hf
      constructor
      · intro hw
        simp only [SelectQuery.Or, hp, he, hf, processParams, whereAfter, setParams_WherePart,
          Bool.not_false, if_true]
        cases hq : q.WherePart with
        | none => exact absurd hq hw
        | some w => cases w; rfl
      · intro hw
        have heq : q.Or code params =
            ((q.setParams (q.Params ++ params)).setWherePart
              (whereAfter .OR none exp)).afterFilter p1 := by
          simp only [SelectQuery.Or, hp, he, hf, processParams, whereAfter,
            setParams_WherePart, Bool.not_false, if_true, hw]
        refine ⟨heq, ?_⟩
        intro q1 hq1
        rw [heq] at hq1
        have hk := parseAfterFilter_keeps _ _ _ _ hq1
        rw [setWherePart_WherePart, setWherePart_Params, setParams_Params] at hk
        exact hk

theorem and_or_set_where_witness :
    ∃ (p : Parser) (exp : Expr) (p1 : Parser) (q1 : SelectQuery),
      fragmentParser "b = ?" = .inl (.ok p) ∧
      Parser.parseBooleanExpr (parseFuel p.Tokens.length) p = .ok exp p1 ∧
      exp.shape = "Binary(EQL, b, ?)" ∧
      (∀ q : UpdateQuery, q.And "b = ?" [.int 2] = .ok { q with
          Params := q.Params ++ p1.Params ++ [.int 2]
          WherePart := whereAfter .AND q.WherePart exp }) ∧
      ((SelectQuery.mk noPos false false [.AllColumnsExpr "" noPos]
          (some [.Table (.mk noPos "t" "" "" [])]) none [] none [] none [] []).And
          "b = ?" [.int 2]).query = some q1 ∧
      q1.WherePart = some (.mk exp.Position exp) ∧
      q1.Params = [] ++ p1.Params ++ [.int 2] :=
  ⟨_, _, _, _, rfl, rfl, by decide!,
    fun q => ((and_or_set_where "b = ?" [.int 2] _ rfl).1 _ _ rfl).1 q,
    rfl,
    ((((and_or_set_where "b = ?" [.int 2] _ rfl).1 _ _ rfl).2.2
      (SelectQuery.mk noPos false false [.AllColumnsExpr "" noPos]
        (some [.Table (.mk noPos "t" "" "" [])]) none [] none [] none [] []) (by decide!)).2 rfl).2
      _ rfl⟩

/-! ## Column definitions -/

theorem Appends_bind (m1 m2 : W Unit) (t1 t2 : String) (h1 : Appends m1 t1)
    (h2 : Appends m2 t2) : Appends (m1 >>= fun _ => m2) (t1 ++ t2) := by
  intro w w1 he h
  rw [W_bind_apply] at h
  cases hm : m1 w with
  | ok a w2 =>
    rw [hm] at h
    have e1 := h1 w w2 he hm
    have he2 : w2.EscapeIdents = false := by rw [e1]; exact he
    have e2 := h2 w2 w1 he2 h
    rw [e2, e1]
    simp [String.append_assoc]
  | err e w2 => rw [hm] at h; cases h
  | panic msg => rw [hm] at h; cases h
  | fuel => rw [hm] at h; cases h

theorem Appends_WriteString (s : String) : Appends (WriteString s) s := by
  intro w w1 _ h
  simp only [WriteString_apply, Res.ok.injEq, true_and] at h
  exact h.symm

theorem Appends_pure : Appends (pure ()) "" := by
  intro w w1 _ h
  simp only [W_pure_apply, Res.ok.injEq, true_and] at h
  rw [← h]; simp

theorem Appends_ite (b : Prop) [Decidable b] (m1 m2 : W Unit) (t1 t2 : String)
    (h1 : Appends m1 t1) (h2 : Appends m2 t2) :
    Appends (if b then m1 else m2) (if b then t1 else t2) := by
  by_cases hb : b <;> simp [hb, h1, h2]

theorem Appends_writeIdentifier (s : String) : Appends (writeIdentifier s) s := by
  intro w w1 he h
  have := writeIdentifier_ok s w w1 h
  rw [this, he]
  simp [identText]

theorem Appends_writeUnescapedAlphanumeric (s : String) :
    Appends (writeUnescapedAlphanumeric s) s := by
  intro w w1 _ h
  unfold writeUnescapedAlphanumeric at h
  split at h
  · cases h
  · simp only [WriteString_apply, Res.ok.injEq, true_and] at h
    exact h.symm

theorem Appends_writeQuotedAlphanumeric (s : String) :
    Appends (writeQuotedAlphanumeric s) s := by
  intro w w1 _ h
  unfold writeQuotedAlphanumeric at h
  split at h
  · cases h
  · simp only [WriteString_apply, Res.ok.injEq, true_and] at h
    exact h.symm

theorem Appends_pure_bind (k : PUnit → W Unit) (t : String) (h : Appends (k PUnit.unit) t) :
    Appends (pure PUnit.unit >>= k) t := h

theorem Appends_bind_unit (m1 : W Unit) (k : PUnit → W Unit) (t1 t2 : String) (h1 : Appends m1 t1)
    (h2 : Appends (k PUnit.unit) t2) : Appends (m1 >>= k) (t1 ++ t2) :=
  Appends_bind m1 (k PUnit.unit) t1 t2 h1 h2

theorem Appends_null (n : Bool) (k : PUnit → W Unit) (tk : String)
    (hk : Appends (k PUnit.unit) tk) :
    Appends ((if (!n) = true then WriteString " NOT" else pure PUnit.unit) >>= fun _ =>
      WriteString " NULL" >>= k) ((if n = true then " NULL" else " NOT NULL") ++ tk) := by
  cases n
  · have h := Appends_bind_unit _ (fun _ => WriteString " NULL" >>= k) _ _
      (Appends_WriteString " NOT") (Appends_bind_unit _ k _ _ (Appends_WriteString " NULL") hk)
    have e : " NOT" ++ (" NULL" ++ tk) = " NOT NULL" ++ tk := by
      rw [← String.append_assoc]; rfl
    rw [e] at h
    simpa using h
  · have h := Appends_bind_unit _ k _ _ (Appends_WriteString " NULL") hk
    simpa using h

theorem Appends_default (d : String) :
    Appends (if (d != "") = true then WriteString " DEFAULT " >>= fun _ =>
      writeQuotedAlphanumeric d else pure PUnit.unit)
      (if (d != "") = true then " DEFAULT " ++ d else "") := by
  apply Appends_ite
  · exact Appends_bind_unit _ _ _ _ (Appends_WriteString _) (Appends_writeQuotedAlphanumeric _)
  · exact Appends_pure

theorem Appends_size (size decimals : String) :
    Appends (if (size != "") = true then WriteString "(" >>= fun _ =>
        writeUnescapedAlphanumeric size >>= fun _ =>
        (if (decimals != "") = true then WriteString "," >>= fun _ =>
          writeUnescapedAlphanumeric decimals else pure PUnit.unit) >>= fun _ =>
        WriteString ")" else pure PUnit.unit)
      (if (size != "") = true then "(" ++ (size ++ ((if (decimals != "") = true then
        "," ++ decimals else "") ++ ")")) else "") := by
  apply Appends_ite
  · apply Appends_bind_unit _ _ _ _ (Appends_WriteString _)
    apply Appends_bind_unit _ _ _ _ (Appends_writeUnescapedAlphanumeric _)
    apply Appends_bind_unit
    · apply Appends_ite
      · exact Appends_bind_unit _ _ _ _ (Appends_WriteString _)
          (Appends_writeUnescapedAlphanumeric _)
      · exact Appends_pure
    · exact Appends_WriteString _
  · exact Appends_pure

theorem Appends_writeCreateColumnMySQL (c : CreateColumn) :
    Appends (writeCreateColumnMySQL c) (columnText false c) := by
  unfold writeCreateColumnMySQL columnText
  apply Appends_bind_unit _ _ _ _ (Appends_writeIdentifier _)
  apply Appends_bind_unit
  · cases c.Typ <;> exact Appends_WriteString _
  apply Appends_bind_unit _ _ _ _ (Appends_size _ _)
  apply Appends_bind_unit
  · apply Appends_ite
    · exact Appends_WriteString _
    · exact Appends_pure
  simp only [Bool.false_and, Bool.false_eq_true, if_false, String.append_empty]
  exact Appends_null _ _ _ (Appends_default _)

theorem Appends_writeCreateColumnSqlite3 (c : CreateColumn) :
    Appends (writeCreateColumnSqlite3 c) (columnText true c) := by
  unfold writeCreateColumnSqlite3 columnText
  apply Appends_bind_unit _ _ _ _ (Appends_writeIdentifier _)
  apply Appends_bind_unit
  · cases c.Typ <;> first | exact Appends_WriteString _ | exact Appends_pure
  apply Appends_bind_unit _ _ _ _ (Appends_size _ _)
  apply Appends_bind_unit
  · apply Appends_ite
    · exact Appends_WriteString _
    · exact Appends_pure
  apply Appends_null
  apply Appends_bind_unit _ _ _ _ (Appends_default _)
  cases c.Typ <;> first | exact Appends_WriteString _ | exact Appends_pure

theorem writeCreateColumn_text (c : CreateColumn) (w w1 : writer)
    (he : w.EscapeIdents = false) (h : writeCreateColumn c w = .ok () w1) :
    w1 = { w with buf := w.buf ++ columnText (w.driver == "sqlite3") c } := by
  unfold writeCreateColumn at h
  rw [W_bind_ok _ _ _ _ _ (getW_apply w)] at h
  by_cases hd : w.driver = "sqlite3"
  · have hd1 : (w.driver == "sqlite3") = true := by simpa using hd
    simp only [hd1, if_true] at h ⊢
    exact Appends_writeCreateColumnSqlite3 c w w1 he h
  · have hd2 : (w.driver == "sqlite3") = false := by simpa using hd
    simp only [hd2, Bool.false_eq_true, if_false] at h ⊢
    exact Appends_writeCreateColumnMySQL c w w1 he h

theorem Yields_pure {σ α : Type} (P : α → Prop) (a : α) (h : P a) :
    Yields P (pure a : SM σ α) := by
  intro s b s1 hb
  simp only [SM_pure_apply, SRes.ok.injEq] at hb
  rw [← hb.1]; exact h

theorem Yields_throw {σ α : Type} (P : α → Prop) (e : Error) :
    Yields P (SM.throw e : SM σ α) := by
  intro s b s1 hb
  simp [SM_throw_apply] at hb

theorem Yields_bind {σ α β : Type} (P : β → Prop) (m : SM σ α) (f : α → SM σ β)
    (h : ∀ a, Yields P (f a)) : Yields P (m >>= f) := by
  intro s b s1 hb
  obtain ⟨a, s2, _, h2⟩ := SM_bind_ok_inv _ _ _ _ _ hb
  exact h a s2 b s1 h2

theorem parseCreateColumn_flags (p p1 : Parser) (c : CreateColumn)
    (h : Parser.parseCreateColumn p = .ok c p1) :
    (c.Key = true ∧ c = ⟨c.Name, .Int, false, "", "", true, ""⟩) ∨
    (c.Key = false ∧ ∃ (name : String) (pa : Parser) (typ : ColumnType) (pb : Parser)
      (sz : String × String) (p2 : Parser),
      Parser.parseColumnName p = .ok name pa ∧ Parser.parseColumnType pa = .ok typ pb ∧
      Parser.parseColumnSize pb = .ok sz p2 ∧
      (c.Nullable = true ↔ (p2.tokenAt p2.lexIdex).Typ = .NULL)) := by
  unfold Parser.parseCreateColumn at h
  obtain ⟨name, pa, hname, h⟩ := SM_bind_ok_inv _ _ _ _ _ h
  rw [SM_bind_ok _ _ _ _ _ (Parser_peek_apply pa)] at h
  split at h
  · left
    obtain ⟨_, _, _, h⟩ := SM_bind_ok_inv _ _ _ _ _ h
    simp only [SM_pure_apply, SRes.ok.injEq] at h
    rw [← h.1]
    exact ⟨rfl, rfl⟩
  · right
    obtain ⟨typ, pb, htyp, h⟩ := SM_bind_ok_inv _ _ _ _ _ h
    obtain ⟨sz, p2, hsz, h⟩ := SM_bind_ok_inv _ _ _ _ _ h
    obtain ⟨size, decimals⟩ := sz
    simp only at h
    obtain ⟨nullable, p3, hnul, h⟩ := SM_bind_ok_inv _ _ _ _ _ h
    obtain ⟨isN, p4, hisn, h⟩ := SM_bind_ok_inv _ _ _ _ _ h
    have tail : c.Key = false ∧ c.Nullable = isN := by
      refine (?_ : Yields (fun c : CreateColumn => c.Key = false ∧ c.Nullable = isN) _) _ _ _ h
      clear * -
      apply Yields_bind; intro t
      split
      · exact Yields_throw _ _
      · have hK : ∀ u : PUnit, Yields (fun c : CreateColumn => c.Key = false ∧ c.Nullable = isN)
            (Parser.peek >>= fun t => if (t.Typ == Typ.DEFAULT) = true then
              Parser.next >>= fun _ => Parser.next >>= fun t =>
                match t.Typ with
                | .STRING => pure ⟨name, typ, isN, size, decimals, false, "'" ++ t.Str ++ "'"⟩
                | .INT | .FLOAT | .TRUE | .FALSE =>
                  pure ⟨name, typ, isN, size, decimals, false, t.Str⟩
                | _ => SM.throw (newError t ("Invalid default value type " ++ t.Str))
              else pure ⟨name, typ, isN, size, decimals, false, ""⟩) := by
          intro _
          apply Yields_bind; intro t2
          split
          · apply Yields_bind; intro _
            apply Yields_bind; intro t3
            split <;> first | exact Yields_pure _ _ ⟨rfl, rfl⟩ | exact Yields_throw _ _
          · exact Yields_pure _ _ ⟨rfl, rfl⟩
        split
        · apply Yields_bind; intro _
          apply Yields_bind; intro u
          exact hK u
        · apply Yields_bind; intro u
          exact hK u
    refine ⟨tail.1, name, pa, typ, pb, (size, decimals), p2, hname, htyp, hsz, ?_⟩
    · rw [tail.2]
      rw [SM_bind_ok _ _ _ _ _ (Parser_peek_apply p2)] at hnul
      by_cases hnot : (p2.tokenAt p2.lexIdex).Typ = .NOT
      · simp only [hnot, beq_self_eq_true, if_true] at hnul
        obtain ⟨_, p3a, _, hnul⟩ := SM_bind_ok_inv _ _ _ _ _ hnul
        simp only [SM_pure_apply, SRes.ok.injEq] at hnul
        rw [SM_bind_ok _ _ _ _ _ (Parser_peek_apply p3)] at hisn
        have hn : nullable = false := hnul.1.symm
        subst hn
        have : isN = false := by
          split at hisn
          · obtain ⟨_, _, _, hisn⟩ := SM_bind_ok_inv _ _ _ _ _ hisn
            simp only [SM_pure_apply, SRes.ok.injEq] at hisn
            exact hisn.1.symm
          · simp only [SM_pure_apply, SRes.ok.injEq] at hisn
            exact hisn.1.symm
        rw [this, hnot]
        simp
      · have hnot2 : ((p2.tokenAt p2.lexIdex).Typ == Typ.NOT) = false := by simpa using hnot
        simp only [hnot2, Bool.false_eq_true, if_false, SM_pure_apply, SRes.ok.injEq] at hnul
        obtain ⟨hn, hp⟩ := hnul
        subst hn; subst hp
        rw [SM_bind_ok _ _ _ _ _ (Parser_peek_apply p2)] at hisn
        by_cases hnull : (p2.tokenAt p2.lexIdex).Typ = .NULL
        · simp only [hnull, beq_self_eq_true, if_true] at hisn
          obtain ⟨_, _, _, hisn⟩ := SM_bind_ok_inv _ _ _ _ _ hisn
          simp only [SM_pure_apply, SRes.ok.injEq] at hisn
          rw [← hisn.1, hnull]
          simp
        · have hnull2 : ((p2.tokenAt p2.lexIdex).Typ == Typ.NULL) = false := by simpa using hnull
          simp only [hnull2, Bool.false_eq_true, if_false, SM_pure_apply, SRes.ok.injEq] at hisn
          rw [← hisn.1]
          simp [hnull]

set_option maxRecDepth 10000 in
/-- C24: a column parsed by `parseCreateColumn` is either the `key` shortcut, an Int key
column that is not nullable, or a column whose `Nullable` flag is set exactly when the token
after its type and size is `NULL` (an explicit NULL, not `NOT NULL`); both writers emit
`NOT NULL` unless the flag is set, in which case they emit `NULL` (the text of
`columnText`); the key column is written `int AUTO_INCREMENT NOT NULL` under mysql, with a
trailing `PRIMARY KEY(col)`, and `INTEGER PRIMARY KEY NOT NULL` under sqlite3. -/
theorem createColumn_null_and_key :
    (∀ (p p1 : Parser) (c : CreateColumn), Parser.parseCreateColumn p = .ok c p1 →
      (c.Key = true ∧ c = ⟨c.Name, .Int, false, "", "", true, ""⟩) ∨
      (c.Key = false ∧ ∃ (name : String) (pa : Parser) (typ : ColumnType) (pb : Parser)
        (sz : String × String) (p2 : Parser),
        Parser.parseColumnName p = .ok name pa ∧ Parser.parseColumnType pa = .ok typ pb ∧
        Parser.parseColumnSize pb = .ok sz p2 ∧
        (c.Nullable = true ↔ (p2.tokenAt p2.lexIdex).Typ = .NULL))) ∧
    (∀ (c : CreateColumn) (w w1 : writer), w.EscapeIdents = false →
      writeCreateColumn c w = .ok () w1 →
      w1 = { w with buf := w.buf ++ columnText (w.driver == "sqlite3") c }) ∧
    (∀ name : String,
      columnText false ⟨name, .Int, false, "", "", true, ""⟩ =
        name ++ " int AUTO_INCREMENT NOT NULL" ∧
      columnText true ⟨name, .Int, false, "", "", true, ""⟩ =
        name ++ " INTEGER PRIMARY KEY NOT NULL") ∧
    writeParsed "create table if not exists cars (id key, name varchar(10) null)" [] "" "mysql" =
      some ("CREATE TABLE IF NOT EXISTS cars (id int AUTO_INCREMENT NOT NULL, " ++
        "name varchar(10) NULL, PRIMARY KEY(id)) ENGINE=InnoDb DEFAULT CHARACTER SET = utf8 " ++
        "DEFAULT COLLATE = utf8_general_ci") ∧
    writeParsed "create table if not exists cars (id key, name varchar(10))" [] "" "sqlite3" =
      some ("CREATE TABLE IF NOT EXISTS cars (id INTEGER PRIMARY KEY NOT NULL, " ++
        "name VARCHAR(10) NOT NULL COLLATE NOCASE)") := by
  refine ⟨parseCreateColumn_flags, fun c w w1 he h => writeCreateColumn_text c w w1 he h,
    fun name => ⟨?_, ?_⟩, by decide!, by decide!⟩
  · simp [columnText, typeText]
  · simp [columnText, typeText]

theorem createColumn_null_and_key_witness :
    (NewStrParser false [⟨.IDENT, "a", ⟨0, 1, 1⟩⟩, ⟨.INTEGER, "int", ⟨0, 5, 3⟩⟩,
        ⟨.NULL, "null", ⟨0, 10, 4⟩⟩]).parseCreateColumn =
      .ok ⟨"a", .Int, true, "", "", false, ""⟩
        { NewStrParser false [⟨.IDENT, "a", ⟨0, 1, 1⟩⟩, ⟨.INTEGER, "int", ⟨0, 5, 3⟩⟩,
            ⟨.NULL, "null", ⟨0, 10, 4⟩⟩] with lexIdex := 3 } ∧
    ({ NewWriter none [] "" "sqlite3" with EscapeIdents := false, buf := "a INTEGER NULL" } :
        writer) =
      { ({ NewWriter none [] "" "sqlite3" with EscapeIdents := false } : writer) with
        buf := "" ++ columnText true ⟨"a", .Int, true, "", "", false, ""⟩ } :=
  ⟨rfl, createColumn_null_and_key.2.1 ⟨"a", .Int, true, "", "", false, ""⟩
    { NewWriter none [] "" "sqlite3" with EscapeIdents := false }
    { NewWriter none [] "" "sqlite3" with EscapeIdents := false, buf := "a INTEGER NULL" }
    rfl rfl⟩

/-! ## Column defaults -/

theorem Parser_next_cases (p p1 : Parser) (t : Token) (h : Parser.next p = .ok t p1) :
    (t = eofToken ∧ p1 = p) ∨ (t = p.tokenAt p.lexIdex ∧ p1 = p.advance) := by
  unfold Parser.next at h
  split at h
  · simp only [SRes.ok.injEq] at h
    exact Or.inl ⟨h.1.symm, h.2.symm⟩
  · simp only [SRes.ok.injEq] at h
    exact Or.inr ⟨h.1.symm, h.2.symm⟩

theorem parseCreateColumn_default (p p1 : Parser) (c : CreateColumn)
    (h : Parser.parseCreateColumn p = .ok c p1) :
    c.Key = true ∨
    ((p1.tokenAt p1.lexIdex).Typ ≠ .DEFAULT ∧ c.Default = "") ∨
    (∃ pd : Parser, p1 = pd.advance.advance ∧ (pd.tokenAt pd.lexIdex).Typ = .DEFAULT ∧
      (((pd.tokenAt (pd.lexIdex + 1)).Typ = .STRING ∧
          c.Default = "'" ++ (pd.tokenAt (pd.lexIdex + 1)).Str ++ "'") ∨
        ((pd.tokenAt (pd.lexIdex + 1)).Typ ∈ [Typ.INT, Typ.FLOAT, Typ.TRUE, Typ.FALSE] ∧
          c.Default = (pd.tokenAt (pd.lexIdex + 1)).Str))) := by
  unfold Parser.parseCreateColumn at h
  obtain ⟨name, pa, hname, h⟩ := SM_bind_ok_inv _ _ _ _ _ h
  rw [SM_bind_ok _ _ _ _ _ (Parser_peek_apply pa)] at h
  split at h
  · left
    obtain ⟨_, _, _, h⟩ := SM_bind_ok_inv _ _ _ _ _ h
    simp only [SM_pure_apply, SRes.ok.injEq] at h
    rw [← h.1]
  · right
    obtain ⟨typ, pb, htyp, h⟩ := SM_bind_ok_inv _ _ _ _ _ h
    obtain ⟨sz, p2, hsz, h⟩ := SM_bind_ok_inv _ _ _ _ _ h
    obtain ⟨size, decimals⟩ := sz
    simp only at h
    obtain ⟨nullable, p3, hnul, h⟩ := SM_bind_ok_inv _ _ _ _ _ h
    obtain ⟨isN, p4, hisn, h⟩ := SM_bind_ok_inv _ _ _ _ _ h
    rw [SM_bind_ok _ _ _ _ _ (Parser_peek_apply p4)] at h
    have hK : ∀ (pd : Parser),
        (Parser.peek >>= fun t => if (t.Typ == Typ.DEFAULT) = true then
              Parser.next >>= fun _ => Parser.next >>= fun t =>
                match t.Typ with
                | .STRING => pure ⟨name, typ, isN, size, decimals, false, "'" ++ t.Str ++ "'"⟩
                | .INT | .FLOAT | .TRUE | .FALSE =>
                  pure ⟨name, typ, isN, size, decimals, false, t.Str⟩
                | _ => SM.throw (newError t ("Invalid default value type " ++ t.Str))
              else pure ⟨name, typ, isN, size, decimals, false, ""⟩ : SM Parser CreateColumn) pd
          = .ok c p1 →
        ((p1.tokenAt p1.lexIdex).Typ ≠ .DEFAULT ∧ c.Default = "") ∨
        (∃ pd : Parser, p1 = pd.advance.advance ∧ (pd.tokenAt pd.lexIdex).Typ = .DEFAULT ∧
          (((pd.tokenAt (pd.lexIdex + 1)).Typ = .STRING ∧
              c.Default = "'" ++ (pd.tokenAt (pd.lexIdex + 1)).Str ++ "'") ∨
            ((pd.tokenAt (pd.lexIdex + 1)).Typ ∈ [Typ.INT, Typ.FLOAT, Typ.TRUE, Typ.FALSE] ∧
              c.Default = (pd.tokenAt (pd.lexIdex + 1)).Str))) := by
      intro pd hpd
      rw [SM_bind_ok _ _ _ _ _ (Parser_peek_apply pd)] at hpd
      by_cases hD : (pd.tokenAt pd.lexIdex).Typ = .DEFAULT
      · right
        simp only [hD, beq_self_eq_true, if_true] at hpd
        have hn1 : Parser.next pd = .ok (pd.tokenAt pd.lexIdex) pd.advance :=
          Parser_next_typ pd .DEFAULT hD (by decide!)
        rw [SM_bind_ok _ _ _ _ _ hn1] at hpd
        obtain ⟨t, pe, hn2, hpd⟩ := SM_bind_ok_inv _ _ _ _ _ hpd
        rcases Parser_next_cases _ _ _ hn2 with ⟨ht, hpe⟩ | ⟨ht, hpe⟩
        · subst ht
          simp [eofToken, SM_throw_apply] at hpd
        · have ht2 : t = pd.tokenAt (pd.lexIdex + 1) := by
            rw [ht]; rfl
          subst hpe
          have hm : ∀ (t : Token) (s : Parser),
              (match t.Typ with
                | .STRING => pure ⟨name, typ, isN, size, decimals, false, "'" ++ t.Str ++ "'"⟩
                | .INT | .FLOAT | .TRUE | .FALSE =>
                  pure ⟨name, typ, isN, size, decimals, false, t.Str⟩
                | _ => SM.throw (newError t ("Invalid default value type " ++ t.Str)) :
                  SM Parser CreateColumn) s = .ok c p1 →
              p1 = s ∧ ((t.Typ = .STRING ∧ c.Default = "'" ++ t.Str ++ "'") ∨
                (t.Typ ∈ [Typ.INT, Typ.FLOAT, Typ.TRUE, Typ.FALSE] ∧ c.Default = t.Str)) := by
            intro t s
            cases hty : t.Typ <;> intro hh <;>
              simp only [SM_pure_apply, SRes.ok.injEq, SM_throw_apply] at hh <;>
              first
              | exact ⟨hh.2.symm, Or.inl ⟨rfl, by rw [← hh.1]⟩⟩
              | exact ⟨hh.2.symm, Or.inr ⟨by decide!, by rw [← hh.1]⟩⟩
              | cases hh
          have := hm _ _ hpd
          rw [ht2] at this
          exact ⟨pd, this.1, hD, this.2⟩
      · left
        have hD2 : ((pd.tokenAt pd.lexIdex).Typ == Typ.DEFAULT) = false := by simpa using hD
        simp only [hD2, Bool.false_eq_true, if_false, SM_pure_apply, SRes.ok.injEq] at hpd
        rw [← hpd.1, ← hpd.2]
        exact ⟨hD, rfl⟩
    by_cases h1 : ((p4.tokenAt p4.lexIdex).Str == "AUTO_INCREMENT" &&
        !stringsEqualFold name "id") = true
    · simp [h1, SM_throw_apply] at h
    · simp only [h1, if_false] at h
      by_cases h2 : ((p4.tokenAt p4.lexIdex).Str == "AUTO_INCREMENT") = true
      · simp only [h2, if_true] at h
        obtain ⟨_, p5, _, h⟩ := SM_bind_ok_inv _ _ _ _ _ h
        obtain ⟨u, p6, hu, h⟩ := SM_bind_ok_inv _ _ _ _ _ h
        simp only [SM_pure_apply, SRes.ok.injEq] at hu
        rw [← hu.2] at h
        exact hK _ h
      · simp only [h2, if_false] at h
        obtain ⟨u, p6, hu, h⟩ := SM_bind_ok_inv _ _ _ _ _ h
        simp only [SM_pure_apply, SRes.ok.injEq] at hu
        rw [← hu.2] at h
        exact hK _ h

theorem columnText_default (sqlite : Bool) (c : CreateColumn) (h : c.Default ≠ "") :
    ∃ pre, columnText sqlite c = pre ++ (" DEFAULT " ++ c.Default) ++
      (if sqlite && (c.Typ == .Char || c.Typ == .Varchar || c.Typ == .Text ||
          c.Typ == .MediumText) then " COLLATE NOCASE" else "") := by
  have hd : (c.Default != "") = true := by simpa using h
  unfold columnText
  simp only [hd, if_true]
  refine ⟨c.Name ++ (typeText sqlite c.Typ ++
    ((if c.Size != "" then "(" ++ (c.Size ++ ((if c.Decimals != "" then "," ++ c.Decimals else "")
      ++ ")")) else "") ++
    ((if c.Key then (if sqlite then " PRIMARY KEY" else " AUTO_INCREMENT") else "") ++
    (if c.Nullable then " NULL" else " NOT NULL")))), ?_⟩
  simp only [String.append_assoc]

theorem writeConstantExpr_bool (pos : Position) (v : String) (w : writer) :
    writeConstantExpr pos .TRUE v w =
        .ok () { w with buf := w.buf ++ (if w.driver = "sqlite3" then "1" else "true") } ∧
      writeConstantExpr pos .FALSE v w =
        .ok () { w with buf := w.buf ++ (if w.driver = "sqlite3" then "0" else "false") } := by
  by_cases hd : w.driver = "sqlite3"
  · have hd1 : (w.driver == "sqlite3") = true := by simpa using hd
    constructor <;>
      simp [writeConstantExpr, W_bind_apply, getW_apply, hd1, hd, WriteString_apply]
  · have hd1 : (w.driver == "sqlite3") = false := by simpa using hd
    constructor <;>
      simp [writeConstantExpr, W_bind_apply, getW_apply, hd1, hd, WriteString_apply]

/-- C33 (counterexample): under sqlite3 the default `true` of a column is written
`DEFAULT true`, not `DEFAULT 1`, and under mysql the default `TRUE` is written
`DEFAULT TRUE`, not `DEFAULT true`. -/
theorem write_column_default_true_sqlite :
    writeParsed "create table users (active bool default true)" [] "" "sqlite3" =
      some "CREATE TABLE users (active BOOLEAN NOT NULL DEFAULT true)" ∧
    writeParsed "create table users (active bool default true)" [] "" "sqlite3" ≠
      some "CREATE TABLE users (active BOOLEAN NOT NULL DEFAULT 1)" ∧
    writeParsed "create table users (active bool default TRUE)" [] "" "mysql" =
      some ("CREATE TABLE users (active bool NOT NULL DEFAULT TRUE) ENGINE=InnoDb " ++
        "DEFAULT CHARACTER SET = utf8 DEFAULT COLLATE = utf8_general_ci") := by decide!

set_option maxRecDepth 10000 in
/-- C33 (amended): the default of a column is kept and written as it is spelled, under
both drivers.  A column that `parseCreateColumn` returns is the `key` shortcut, or has no
DEFAULT clause and an empty `Default`, or ends with the tokens DEFAULT and `t`, where `t`
is a string (kept between single quotes) or an INT, FLOAT, TRUE or FALSE token whose text
is the `Default`; the column writers of both drivers append `DEFAULT` and that text
unchanged; the statement `create table users (active bool default <lit>)` is written with
`DEFAULT <lit>` for each spelling of the two literals under both drivers.  The TRUE and
FALSE constants of expressions, in contrast, are written `1` and `0` under sqlite3 and
`true` and `false` otherwise. -/
theorem write_column_default_bool_verbatim :
    (∀ (p p1 : Parser) (c : CreateColumn), Parser.parseCreateColumn p = .ok c p1 →
      c.Key = true ∨
      ((p1.tokenAt p1.lexIdex).Typ ≠ .DEFAULT ∧ c.Default = "") ∨
      (∃ pd : Parser, p1 = pd.advance.advance ∧ (pd.tokenAt pd.lexIdex).Typ = .DEFAULT ∧
        (((pd.tokenAt (pd.lexIdex + 1)).Typ = .STRING ∧
            c.Default = "'" ++ (pd.tokenAt (pd.lexIdex + 1)).Str ++ "'") ∨
          ((pd.tokenAt (pd.lexIdex + 1)).Typ ∈ [Typ.INT, Typ.FLOAT, Typ.TRUE, Typ.FALSE] ∧
            c.Default = (pd.tokenAt (pd.lexIdex + 1)).Str)))) ∧
    (∀ (c : CreateColumn) (w w1 : writer), w.EscapeIdents = false →
      writeCreateColumn c w = .ok () w1 →
      w1 = { w with buf := w.buf ++ columnText (w.driver == "sqlite3") c }) ∧
    (∀ (sqlite : Bool) (c : CreateColumn), c.Default ≠ "" →
      ∃ pre, columnText sqlite c = pre ++ (" DEFAULT " ++ c.Default) ++
        (if sqlite && (c.Typ == .Char || c.Typ == .Varchar || c.Typ == .Text ||
            c.Typ == .MediumText) then " COLLATE NOCASE" else "")) ∧
    (∀ lit ∈ ["true", "True", "TRUE", "false", "False", "FALSE"],
      ∀ driver ∈ ["mysql", "sqlite3"],
      writeParsed ("create table users (active bool default " ++ lit ++ ")") [] "" driver =
        some ("CREATE TABLE users (active " ++
          (if driver = "sqlite3" then "BOOLEAN" else "bool") ++
          " NOT NULL DEFAULT " ++ lit ++ ")" ++ (if driver = "sqlite3" then "" else
            " ENGINE=InnoDb DEFAULT CHARACTER SET = utf8 DEFAULT COLLATE = utf8_general_ci"))) ∧
    (∀ (pos : Position) (v : String) (w : writer),
      writeConstantExpr pos .TRUE v w =
          .ok () { w with buf := w.buf ++ (if w.driver = "sqlite3" then "1" else "true") } ∧
        writeConstantExpr pos .FALSE v w =
          .ok () { w with buf := w.buf ++ (if w.driver = "sqlite3" then "0" else "false") }) :=
  ⟨parseCreateColumn_default, fun c w w1 he h => writeCreateColumn_text c w w1 he h,
    columnText_default, by decide!, writeConstantExpr_bool⟩

theorem write_column_default_bool_verbatim_witness :
    (((NewStrParser false [⟨.IDENT, "a", ⟨0, 1, 1⟩⟩, ⟨.BOOL, "bool", ⟨0, 6, 4⟩⟩,
          ⟨.DEFAULT, "default", ⟨0, 14, 7⟩⟩, ⟨.TRUE, "True", ⟨0, 19, 4⟩⟩]).tokenAt 4).Typ ≠
        .DEFAULT ∧ "True" = "") ∨
      (∃ pd : Parser,
        { NewStrParser false [⟨.IDENT, "a", ⟨0, 1, 1⟩⟩, ⟨.BOOL, "bool", ⟨0, 6, 4⟩⟩,
            ⟨.DEFAULT, "default", ⟨0, 14, 7⟩⟩, ⟨.TRUE, "True", ⟨0, 19, 4⟩⟩] with
          lexIdex := 4 } = pd.advance.advance ∧
        (pd.tokenAt pd.lexIdex).Typ = .DEFAULT ∧
        (((pd.tokenAt (pd.lexIdex + 1)).Typ = .STRING ∧
            "True" = "'" ++ (pd.tokenAt (pd.lexIdex + 1)).Str ++ "'") ∨
          ((pd.tokenAt (pd.lexIdex + 1)).Typ ∈ [Typ.INT, Typ.FLOAT, Typ.TRUE, Typ.FALSE] ∧
            "True" = (pd.tokenAt (pd.lexIdex + 1)).Str))) :=
  (write_column_default_bool_verbatim.1
    (NewStrParser false [⟨.IDENT, "a", ⟨0, 1, 1⟩⟩, ⟨.BOOL, "bool", ⟨0, 6, 4⟩⟩,
      ⟨.DEFAULT, "default", ⟨0, 14, 7⟩⟩, ⟨.TRUE, "True", ⟨0, 19, 4⟩⟩])
    { NewStrParser false [⟨.IDENT, "a", ⟨0, 1, 1⟩⟩, ⟨.BOOL, "bool", ⟨0, 6, 4⟩⟩,
        ⟨.DEFAULT, "default", ⟨0, 14, 7⟩⟩, ⟨.TRUE, "True", ⟨0, 19, 4⟩⟩] with lexIdex := 4 }
    ⟨"a", .Bool, false, "", "", false, "True"⟩ rfl).resolve_left (by decide!)

/-! ## Precedence and associativity -/

theorem Nested_mono (k k1 : Nat) (e : Expr) (hk : k1 ≤ k) (h : Nested k e) : Nested k1 e := by
  cases h with
  | operand _ _ h => exact .operand _ _ h
  | binary _ op l r h1 h2 h3 => exact .binary _ _ _ _ (Nat.le_trans hk h1) h2 h3

theorem binaryLevel_le (op : Typ) : binaryLevel op ≤ 5 := by
  cases op <;> decide!

theorem Nested_level (k : Nat) (e : Expr) (hk : k ≤ 6) (h : Nested k e) : k ≤ e.level := by
  cases h with
  | operand _ _ h => rw [h]; exact hk
  | binary _ op l r h1 h2 h3 => exact h1

theorem Yields_noFuel {σ α : Type} (P : α → Prop) : Yields P (SM.noFuel : SM σ α) := by
  intro s b s1 hb
  cases hb

theorem Yields_bind_of {σ α β : Type} (Q : α → Prop) (P : β → Prop) (m : SM σ α)
    (f : α → SM σ β) (hm : Yields Q m) (hf : ∀ a, Q a → Yields P (f a)) :
    Yields P (m >>= f) := by
  intro s b s1 hb
  rw [SM_bind_apply] at hb
  cases hms : m s with
  | ok a s0 =>
    rw [hms] at hb
    exact hf a (hm s a s0 hms) s0 b s1 hb
  | err e s0 => rw [hms] at hb; cases hb
  | fuel => rw [hms] at hb; cases hb

theorem Yields_parseColumnExpr : Yields (fun e : Expr => e.level = 6) Parser.parseColumnExpr := by
  unfold Parser.parseColumnExpr
  repeat' (first
    | exact Yields_pure _ _ rfl
    | exact Yields_throw _ _
    | exact Yields_noFuel _
    | (refine Yields_bind _ _ _ (fun _ => ?_))
    | split)

theorem Yields_parseCallExpr (n : Nat) :
    Yields (fun e : Expr => e.level = 6) (Parser.parseCallExpr n) := by
  cases n with
  | zero => rw [Parser.parseCallExpr]; exact Yields_noFuel _
  | succ n =>
    rw [Parser.parseCallExpr]
    repeat' (first
      | exact Yields_pure _ _ rfl
      | exact Yields_throw _ _
      | exact Yields_noFuel _
      | (refine Yields_bind _ _ _ (fun _ => ?_))
      | split)

theorem Yields_parseGroupConcat (n : Nat) :
    Yields (fun e : Expr => e.level = 6) (Parser.parseGroupConcat n) := by
  cases n with
  | zero => rw [Parser.parseGroupConcat]; exact Yields_noFuel _
  | succ n =>
    rw [Parser.parseGroupConcat]
    repeat' (first
      | exact Yields_pure _ _ rfl
      | exact Yields_throw _ _
      | exact Yields_noFuel _
      | (refine Yields_bind _ _ _ (fun _ => ?_))
      | split)

theorem Yields_parseInExpr (n : Nat) :
    Yields (fun e : Expr => e.level = 6) (Parser.parseInExpr n) := by
  cases n with
  | zero => rw [Parser.parseInExpr]; exact Yields_noFuel _
  | succ n =>
    rw [Parser.parseInExpr]
    repeat' (first
      | exact Yields_pure _ _ rfl
      | exact Yields_throw _ _
      | exact Yields_noFuel _
      | (refine Yields_bind _ _ _ (fun _ => ?_))
      | split)

theorem Yields_parseBetweenExpr (n : Nat) :
    Yields (fun e : Expr => e.level = 6) (Parser.parseBetweenExpr n) := by
  cases n with
  | zero => rw [Parser.parseBetweenExpr]; exact Yields_noFuel _
  | succ n =>
    rw [Parser.parseBetweenExpr]
    repeat' (first
      | exact Yields_pure _ _ rfl
      | exact Yields_throw _ _
      | exact Yields_noFuel _
      | (refine Yields_bind _ _ _ (fun _ => ?_))
      | split)

theorem Yields_parseFactor (n : Nat) :
    Yields (fun e : Expr => e.level = 6) (Parser.parseFactor n) := by
  cases n with
  | zero => rw [Parser.parseFactor]; exact Yields_noFuel _
  | succ n =>
    rw [Parser.parseFactor]
    repeat' (first
      | exact Yields_pure _ _ rfl
      | exact Yields_throw _ _
      | exact Yields_noFuel _
      | exact Yields_parseColumnExpr
      | exact Yields_parseCallExpr _
      | exact Yields_parseGroupConcat _
      | (refine Yields_bind _ _ _ (fun _ => ?_))
      | split)

theorem Yields_parseSignedFactor (n : Nat) :
    Yields (fun e : Expr => e.level = 6) (Parser.parseSignedFactor n) := by
  cases n with
  | zero => rw [Parser.parseSignedFactor]; exact Yields_noFuel _
  | succ n =>
    rw [Parser.parseSignedFactor]
    repeat' (first
      | exact Yields_pure _ _ rfl
      | exact Yields_throw _ _
      | exact Yields_noFuel _
      | exact Yields_parseFactor _
      | (refine Yields_bind _ _ _ (fun _ => ?_))
      | split)

theorem Yields_parseTermLoop (n : Nat) :
    ∀ e, Nested 5 e → Yields (Nested 5) (Parser.parseTermLoop n e) := by
  induction n with
  | zero => intro e _; rw [Parser.parseTermLoop]; exact Yields_noFuel _
  | succ n ih =>
    intro e he
    rw [Parser.parseTermLoop]
    refine Yields_bind _ _ _ (fun t => ?_)
    split
    all_goals first
      | exact Yields_pure _ _ he
      | (rename_i hty
         refine Yields_bind _ _ _ (fun _ => ?_)
         refine Yields_bind_of _ _ _ _ (Yields_parseSignedFactor n) (fun rh hrh => ?_)
         exact ih _ (.binary 5 _ _ _ (by rw [hty]; decide!) (by rw [hty]; exact he)
           (by rw [hty]; exact .operand _ _ hrh)))

theorem Yields_parseTerm (n : Nat) : Yields (Nested 5) (Parser.parseTerm n) := by
  cases n with
  | zero => rw [Parser.parseTerm]; exact Yields_noFuel _
  | succ n =>
    rw [Parser.parseTerm]
    exact Yields_bind_of _ _ _ _ (Yields_parseSignedFactor n)
      (fun lh h => Yields_parseTermLoop n lh (.operand _ _ h))

theorem Yields_parseExprLoop (n : Nat) :
    ∀ e, Nested 4 e → Yields (Nested 4) (Parser.parseExprLoop n e) := by
  induction n with
  | zero => intro e _; rw [Parser.parseExprLoop]; exact Yields_noFuel _
  | succ n ih =>
    intro e he
    rw [Parser.parseExprLoop]
    refine Yields_bind _ _ _ (fun t => ?_)
    split
    · rename_i hty
      simp only [Bool.or_eq_true, beq_iff_eq] at hty
      refine Yields_bind _ _ _ (fun _ => ?_)
      refine Yields_bind_of _ _ _ _ (Yields_parseTerm n) (fun rh hrh => ?_)
      rcases hty with hty | hty <;>
        exact ih _ (.binary 4 _ _ _ (by rw [hty]; decide!) (by rw [hty]; exact he)
          (by rw [hty]; exact hrh))
    · exact Yields_pure _ _ he

theorem Yields_parseExpr (n : Nat) : Yields (Nested 4) (Parser.parseExpr n) := by
  cases n with
  | zero => rw [Parser.parseExpr]; exact Yields_noFuel _
  | succ n =>
    rw [Parser.parseExpr]
    exact Yields_bind_of _ _ _ _ (Yields_parseTerm n)
      (fun lh h => Yields_parseExprLoop n lh (Nested_mono 5 4 lh (by decide!) h))

theorem Yields_parseRelationLoop (n : Nat) :
    ∀ e, Nested 3 e → Yields (Nested 3) (Parser.parseRelationLoop n e) := by
  induction n with
  | zero => intro e _; rw [Parser.parseRelationLoop]; exact Yields_noFuel _
  | succ n ih =>
    intro e he
    have step : ∀ (op : Typ) (rh : Expr), binaryLevel op = 3 → Nested 4 rh →
        Yields (Nested 3) (Parser.parseRelationLoop n (.BinaryExpr op e rh)) := by
      intro op rh hop hrh
      exact ih _ (.binary 3 _ _ _ (by rw [hop]) (by rw [hop]; exact he) (by rw [hop]; exact hrh))
    rw [Parser.parseRelationLoop]
    refine Yields_bind _ _ _ (fun t => ?_)
    repeat' (first
      | exact Yields_pure _ _ he
      | exact Yields_pure _ _ rfl
      | exact Yields_throw _ _
      | (refine Yields_bind_of _ _ _ _ (Yields_parseExpr n) (fun rh hrh => ?_))
      | (refine Yields_bind_of _ _ _ _ (Yields_parseInExpr n) (fun rh hrh => ?_))
      | (refine Yields_bind_of _ _ _ _ (Yields_parseBetweenExpr n) (fun rh hrh => ?_))
      | (refine Yields_bind_of (fun tp : Typ => binaryLevel tp = 3) _ _ _ ?_ (fun tp htp => ?_))
      | exact step _ _ (by first | rfl | assumption | (rename_i h _; rw [h]; rfl)
                                 | (rename_i h; rw [h]; rfl))
          (by first | assumption | exact .operand _ _ (by assumption))
      | (refine Yields_bind _ _ _ (fun _ => ?_))
      | split)

theorem Yields_parseRelation (n : Nat) : Yields (Nested 3) (Parser.parseRelation n) := by
  cases n with
  | zero => rw [Parser.parseRelation]; exact Yields_noFuel _
  | succ n =>
    rw [Parser.parseRelation]
    exact Yields_bind_of _ _ _ _ (Yields_parseExpr n)
      (fun lh h => Yields_parseRelationLoop n lh (Nested_mono 4 3 lh (by decide!) h))

theorem Yields_parseNotFactor (n : Nat) : Yields (Nested 3) (Parser.parseNotFactor n) := by
  cases n with
  | zero => rw [Parser.parseNotFactor]; exact Yields_noFuel _
  | succ n =>
    rw [Parser.parseNotFactor]
    refine Yields_bind _ _ _ (fun t => ?_)
    split
    · refine Yields_bind _ _ _ (fun _ => ?_)
      refine Yields_bind _ _ _ (fun _ => ?_)
      exact Yields_pure _ _ (.operand _ _ rfl)
    · exact Yields_parseRelation n

theorem Yields_parseBooleanTermLoop (n : Nat) :
    ∀ e, Nested 2 e → Yields (Nested 2) (Parser.parseBooleanTermLoop n e) := by
  induction n with
  | zero => intro e _; rw [Parser.parseBooleanTermLoop]; exact Yields_noFuel _
  | succ n ih =>
    intro e he
    rw [Parser.parseBooleanTermLoop]
    refine Yields_bind _ _ _ (fun t => ?_)
    split
    · rename_i hty
      simp only [beq_iff_eq] at hty
      refine Yields_bind _ _ _ (fun _ => ?_)
      refine Yields_bind_of _ _ _ _ (Yields_parseNotFactor n) (fun rh hrh => ?_)
      exact ih _ (.binary 2 _ _ _ (by rw [hty]; decide!) (by rw [hty]; exact he)
        (by rw [hty]; exact hrh))
    · exact Yields_pure _ _ he

theorem Yields_parseBooleanTerm (n : Nat) : Yields (Nested 2) (Parser.parseBooleanTerm n) := by
  cases n with
  | zero => rw [Parser.parseBooleanTerm]; exact Yields_noFuel _
  | succ n =>
    rw [Parser.parseBooleanTerm]
    exact Yields_bind_of _ _ _ _ (Yields_parseNotFactor n)
      (fun lh h => Yields_parseBooleanTermLoop n lh (Nested_mono 3 2 lh (by decide!) h))

theorem Yields_parseBooleanExprLoop (n : Nat) :
    ∀ e, Nested 1 e → Yields (Nested 1) (Parser.parseBooleanExprLoop n e) := by
  induction n with
  | zero => intro e _; rw [Parser.parseBooleanExprLoop]; exact Yields_noFuel _
  | succ n ih =>
    intro e he
    rw [Parser.parseBooleanExprLoop]
    refine Yields_bind _ _ _ (fun t => ?_)
    split
    · rename_i hty
      simp only [beq_iff_eq] at hty
      refine Yields_bind _ _ _ (fun _ => ?_)
      refine Yields_bind_of _ _ _ _ (Yields_parseBooleanTerm n) (fun rh hrh => ?_)
      exact ih _ (.binary 1 _ _ _ (by rw [hty]; decide!) (by rw [hty]; exact he)
        (by rw [hty]; exact hrh))
    · exact Yields_pure _ _ he

theorem Yields_parseBooleanExpr (n : Nat) : Yields (Nested 1) (Parser.parseBooleanExpr n) := by
  cases n with
  | zero => rw [Parser.parseBooleanExpr]; exact Yields_noFuel _
  | succ n =>
    rw [Parser.parseBooleanExpr]
    exact Yields_bind_of _ _ _ _ (Yields_parseBooleanTerm n)
      (fun lh h => Yields_parseBooleanExprLoop n lh (Nested_mono 2 1 lh (by decide!) h))

set_option maxRecDepth 10000 in
/-- C22: every binary level is left-associative and the levels bind in the order
OR, AND, relation, additive, multiplicative.  Whatever the tokens, the tree that
`parseBooleanExpr` returns is `Nested` from level 1 (OR), the tree of `parseBooleanTerm`
from level 2 (AND), of `parseRelation` from level 3, of `parseExpr` from level 4 (`+`, `-`)
and of `parseTerm` from level 5 (`*`, `/`, `%`, `>>`, `&`); and in a `Nested` tree the left
operand of a binary operator binds at the level of the operator or tighter, the right
operand strictly tighter, and so on below them: a chain of operators of one level nests to
the left, and a looser operator is never an operand of a tighter one.  The parser returns
the trees of the three expressions of the claim, the left-nested tree for a chain of each
operator of each level, and the expected tree for each pair of neighbouring levels. -/
theorem parse_precedence_and_associativity :
    (∀ (n : Nat) (p p1 : Parser) (e : Expr),
      (Parser.parseBooleanExpr n p = .ok e p1 → Nested 1 e) ∧
      (Parser.parseBooleanTerm n p = .ok e p1 → Nested 2 e) ∧
      (Parser.parseRelation n p = .ok e p1 → Nested 3 e) ∧
      (Parser.parseExpr n p = .ok e p1 → Nested 4 e) ∧
      (Parser.parseTerm n p = .ok e p1 → Nested 5 e)) ∧
    (∀ (k : Nat) (op : Typ) (l r : Expr), Nested k (.BinaryExpr op l r) →
      k ≤ binaryLevel op ∧ binaryLevel op ≤ l.level ∧ binaryLevel op < r.level ∧
        Nested (binaryLevel op) l ∧ Nested (binaryLevel op + 1) r) ∧
    parseShape "a = b = c" = some "Binary(EQL, Binary(EQL, a, b), c)" ∧
    parseShape "a OR b AND c" = some "Binary(OR, a, Binary(AND, b, c))" ∧
    parseShape "1 + 2 * 3" = some "Binary(ADD, 1, Binary(MUL, 2, 3))" ∧
    (∀ c ∈ [("or", "OR"), ("and", "AND"), ("=", "EQL"), ("!=", "NEQ"), ("<", "LSS"),
        ("<=", "LEQ"), (">", "GTR"), (">=", "GEQ"), ("like", "LIKE"), ("not like", "NOTLIKE"),
        ("is", "IS"), ("is not", "ISNOT"), ("+", "ADD"), ("-", "SUB"), ("*", "MUL"),
        ("/", "DIV"), ("%", "MOD"), (">>", "LSF"), ("&", "ANB")],
      parseShape ("a " ++ c.1 ++ " b " ++ c.1 ++ " c") =
        some ("Binary(" ++ c.2 ++ ", Binary(" ++ c.2 ++ ", a, b), c)")) ∧
    parseShape "a in (1) in (2)" = some "Binary(IN, Binary(IN, a, _), _)" ∧
    parseShape "a not in (1) not in (2)" = some "Binary(NOTIN, Binary(NOTIN, a, _), _)" ∧
    parseShape "a between 1 and 2 between 3 and 4" =
      some "Binary(BETWEEN, Binary(BETWEEN, a, _), _)" ∧
    parseShape "1 - 2 + 3" = some "Binary(ADD, Binary(SUB, 1, 2), 3)" ∧
    parseShape "8 / 4 % 3 >> 2 & 1" =
      some "Binary(ANB, Binary(LSF, Binary(MOD, Binary(DIV, 8, 4), 3), 2), 1)" ∧
    parseShape "a < b = c like d" = some "Binary(LIKE, Binary(EQL, Binary(LSS, a, b), c), d)" ∧
    parseShape "a and b or c" = some "Binary(OR, Binary(AND, a, b), c)" ∧
    parseShape "a and b = c" = some "Binary(AND, a, Binary(EQL, b, c))" ∧
    parseShape "a = b and c" = some "Binary(AND, Binary(EQL, a, b), c)" ∧
    parseShape "a = b + c" = some "Binary(EQL, a, Binary(ADD, b, c))" ∧
    parseShape "a + b = c" = some "Binary(EQL, Binary(ADD, a, b), c)" ∧
    parseShape "a * b + c" = some "Binary(ADD, Binary(MUL, a, b), c)" ∧
    parseShape "a or b and c = d + e * f" =
      some "Binary(OR, a, Binary(AND, b, Binary(EQL, c, Binary(ADD, d, Binary(MUL, e, f)))))" ∧
    parseShape "a * b + c = d and e or f" =
      some "Binary(OR, Binary(AND, Binary(EQL, Binary(ADD, Binary(MUL, a, b), c), d), e), f)" := by
  refine ⟨fun n p p1 e => ⟨Yields_parseBooleanExpr n p e p1, Yields_parseBooleanTerm n p e p1,
    Yields_parseRelation n p e p1, Yields_parseExpr n p e p1, Yields_parseTerm n p e p1⟩,
    ?_, ?_⟩
  · intro k op l r h
    have hop := binaryLevel_le op
    cases h with
    | operand _ _ h =>
      have h1 : binaryLevel op = 6 := h
      omega
    | binary _ _ _ _ h1 h2 h3 =>
      exact ⟨h1, Nested_level _ _ (by omega) h2, Nested_level _ _ (by omega) h3, h2, h3⟩
  · decide!

theorem parse_precedence_and_associativity_witness :
    Nested 1 (.BinaryExpr .MUL
      (.BinaryExpr .MUL (.ColumnNameExpr ⟨⟨0, 1, 1⟩, "a", "", ""⟩)
        (.ColumnNameExpr ⟨⟨0, 5, 1⟩, "b", "", ""⟩))
      (.ColumnNameExpr ⟨⟨0, 9, 1⟩, "c", "", ""⟩)) :=
  (parse_precedence_and_associativity.1 20
    (NewStrParser false [⟨.IDENT, "a", ⟨0, 1, 1⟩⟩, ⟨.MUL, "*", ⟨0, 3, 1⟩⟩,
      ⟨.IDENT, "b", ⟨0, 5, 1⟩⟩, ⟨.MUL, "*", ⟨0, 7, 1⟩⟩, ⟨.IDENT, "c", ⟨0, 9, 1⟩⟩])
    { NewStrParser false [⟨.IDENT, "a", ⟨0, 1, 1⟩⟩, ⟨.MUL, "*", ⟨0, 3, 1⟩⟩,
        ⟨.IDENT, "b", ⟨0, 5, 1⟩⟩, ⟨.MUL, "*", ⟨0, 7, 1⟩⟩, ⟨.IDENT, "c", ⟨0, 9, 1⟩⟩] with
      lexIdex := 5 }
    _).1 rfl

/-! ## Database scoping of whole queries -/

theorem validateDatabase_other (w : writer) (database : String)
    (hD : w.Database ≠ "") (hd : database ≠ "") (hne : database ≠ w.Database) :
    w.validateDatabase database = false := by
  simp [writer.validateDatabase, hD, hd, hne]

theorem writeTable_other (w p : writer) (database table : String) (isWrite : Bool)
    (hv : w.validateDatabase database = false) (hs : p.settings = w.settings) :
    writeTable database table isWrite p = .err ("Invalid database " ++ database) p := by
  have hv1 : p.validateDatabase database = false := by
    rw [validateDatabase_congr hs]; exact hv
  simp [writeTable, hv1]

theorem writeJoin_other (n : Nat) (pos : Position) (typ : Typ) (table al database : String)
    (onExpr : Option Expr) (w : writer) (hv : w.validateDatabase database = false)
    (hty : typ ∈ [Typ.LEFT, Typ.RIGHT, Typ.INNER, Typ.OUTER, Typ.CROSS, Typ.JOIN]) :
    ∃ w1, writeJoin (n + 1) (.mk pos typ table al database onExpr) w =
      .err ("Invalid database " ++ database) w1 := by
  rw [writeJoin_eq]
  rw [W_bind_ok _ _ _ _ _ (getW_apply w)]
  have h1 : ∃ wa, (if w.Format = true then WriteRune '\n' else WriteRune ' ') w = .ok () wa ∧
      wa.settings = w.settings := by
    by_cases hF : w.Format = true
    · rw [if_pos hF]; exact ⟨_, rfl, rfl⟩
    · rw [if_neg hF]; exact ⟨_, rfl, rfl⟩
  obtain ⟨wa, h1, hs1⟩ := h1
  rw [W_bind_ok _ _ _ _ _ h1]
  simp only [List.mem_cons, List.mem_singleton, List.not_mem_nil, or_false] at hty
  rcases hty with h | h | h | h | h | h <;> subst h <;>
    (erw [W_bind_ok _ _ _ _ _ (WriteString_apply _ _)]
     rw [W_bind_apply, writeTable_other w _ _ _ _ hv]
     exact ⟨_, rfl⟩
     exact hs1)

theorem writeShow_tables_other (s : ShowQuery) (w : writer)
    (hc : stringsToLower s.Typ = "tables") (hv : w.validateDatabase s.Database = false) :
    ∃ w1, writeShow s w =
      .err ("Invalid database " ++ s.Database ++ " at " ++ s.Pos.String) w1 := by
  unfold writeShow
  rw [W_bind_ok _ _ _ _ _ (setCurrentQuery_apply _ _)]
  simp only [hc]
  rw [if_neg (by decide!), if_pos (by decide!)]
  unfold writeShowTables
  rw [W_bind_ok _ _ _ _ _ (getW_apply _)]
  have hv1 : ({ w with currentQuery := some QueryType.ShowQuery } : writer).validateDatabase
      s.Database = false := hv
  simp only [hv1, Bool.not_false, if_true]
  exact ⟨_, rfl⟩

theorem writeShow_columns_other (s : ShowQuery) (w : writer)
    (hc : stringsToLower s.Typ = "columns") (hv : w.validateDatabase s.Database = false) :
    ∃ w1, writeShow s w = .err ("Invalid database " ++ s.Database) w1 := by
  unfold writeShow
  rw [W_bind_ok _ _ _ _ _ (setCurrentQuery_apply _ _)]
  simp only [hc]
  rw [if_neg (by decide!), if_neg (by decide!), if_pos (by decide!)]
  unfold writeShowColumns
  rw [W_bind_ok _ _ _ _ _ (getW_apply _)]
  split
  · rw [W_bind_ok _ _ _ _ _ (WriteString_apply _ _)]
    rw [W_bind_apply, writeTable_other w _ _ _ _ hv]
    · exact ⟨_, rfl⟩
    · rfl
  · rw [W_bind_ok _ _ _ _ _ (WriteString_apply _ _)]
    rw [writeTable_other w _ _ _ _ hv]
    · exact ⟨_, rfl⟩
    · rfl

/-- C8 (counterexample): with the database `db1`, a query that references `db2.x` in the
left operand of an `IN ?` whose parameter is missing is written without an error: the
rewrite to `1=0` drops the operand before any table of it is reached. -/
theorem write_dropped_subquery_other_database :
    writeParsed "select 1 from cars where (select id from db2.x) in ?" [] "db1" "" =
      some "SELECT 1 FROM db1.cars WHERE 1=0" ∧
    failsInvalidDatabase "select 1 from cars where (select id from db2.x) in ?" "db1" = false ∧
    writeFailure "select !a from db2.t" [] "db1" "" = some "Invalid unary operator NT" := by
  decide!

set_option maxHeartbeats 4000000 in
set_option maxRecDepth 10000 in
/-- C8 (amended): when `Database` is a non-empty `D`, a table qualified with a non-empty
database other than `D` is never written, and the writer fails on it with an error whose
message starts with `Invalid database ` when it comes to it.  Whatever the state of the
writer (so for a top-level select, a nested subquery, an IN subquery and a UNION branch
alike): writing the table as an item of FROM fails with `Invalid database ` and the name of
the database; writing a JOIN of one of the six join types on it fails with the same error;
no select whose first FROM item is the table is written, and `Write` returns no SQL for
one.  With a valid namespace `Write` fails with `Invalid database ... at ...` on a SHOW
TABLES and with `Invalid database ...` on a SHOW COLUMNS that names the database.  The ten
queries of `TestInvalidDatabase` fail with a message that starts with `Invalid database `. -/
theorem other_database_rejected (w : writer) (database : String)
    (hD : w.Database ≠ "") (hd : database ≠ "") (hne : database ≠ w.Database) :
    (∀ (n : Nat) (t : Table), t.Database = database →
      writeFrom (n + 2) (.Table t) w = .err ("Invalid database " ++ database) w) ∧
    (∀ (n : Nat) (pos : Position) (typ : Typ) (table al : String) (onExpr : Option Expr),
      typ ∈ [Typ.LEFT, Typ.RIGHT, Typ.INNER, Typ.OUTER, Typ.CROSS, Typ.JOIN] →
      ∃ w1, writeJoin (n + 1) (.mk pos typ table al database onExpr) w =
        .err ("Invalid database " ++ database) w1) ∧
    (∀ (n : Nat) (pos : Position) (distinct forUpdate : Bool) (cols : List Expr) (t : Table)
      (fs : List SqlFrom) (wh : Option WherePart) (gb : List Expr) (hv : Option WherePart)
      (ob : List OrderColumn) (lim : Option Limit) (un : List SelectQuery) (ps : List Value)
      (w1 : writer), t.Database = database →
      writeSelect (n + 3) (.mk pos distinct forUpdate cols (some (.Table t :: fs)) wh gb hv ob
        lim un ps) w ≠ .ok () w1) ∧
    (∀ (n : Nat) (pos : Position) (distinct forUpdate : Bool) (cols : List Expr) (t : Table)
      (fs : List SqlFrom) (wh : Option WherePart) (gb : List Expr) (hv : Option WherePart)
      (ob : List OrderColumn) (lim : Option Limit) (un : List SelectQuery) (ps : List Value)
      (sql : String) (params : List Value), t.Database = database →
      w.query = some (.SelectQuery (.mk pos distinct forUpdate cols (some (.Table t :: fs)) wh
        gb hv ob lim un ps)) →
      w.Write (n + 3) ≠ .ok sql params) ∧
    (∀ (n : Nat) (s : ShowQuery), w.query = some (.ShowQuery s) →
      w.ValidateNamespace w.Namespace = .ok () → stringsToLower s.Typ = "tables" →
      s.Database = database →
      w.Write n = .error ("Invalid database " ++ database ++ " at " ++ s.Pos.String)) ∧
    (∀ (n : Nat) (s : ShowQuery), w.query = some (.ShowQuery s) →
      w.ValidateNamespace w.Namespace = .ok () → stringsToLower s.Typ = "columns" →
      s.Database = database →
      w.Write n = .error ("Invalid database " ++ database)) ∧
    (∀ code ∈ ["show databases", "show tables from db2", "show columns from db2.foo",
        "select count(*) from db2.cars", "select id, (select id2 from db2.cars) from cars",
        "select id, (select(select(select 1 from db2.cars))) from cars",
        "select id from cars c join db2.items j",
        "select id from cars a join items b on a = (select id from db2.x)",
        "select 1 from cars WHERE a in (select id from db2.x)",
        "select id from cars a UNION select id from db2.x"],
      failsInvalidDatabase code "db1" = true) := by
  have hv := validateDatabase_other w database hD hd hne
  have sel : ∀ (n : Nat) (pos : Position) (distinct forUpdate : Bool) (cols : List Expr)
      (t : Table) (fs : List SqlFrom) (wh : Option WherePart) (gb : List Expr)
      (hv : Option WherePart) (ob : List OrderColumn) (lim : Option Limit)
      (un : List SelectQuery) (ps : List Value) (w1 : writer), t.Database = database →
      writeSelect (n + 3) (.mk pos distinct forUpdate cols (some (.Table t :: fs)) wh gb hv ob
        lim un ps) w ≠ .ok () w1 := by
    intro n pos distinct forUpdate cols t fs wh gb hv1 ob lim un ps w1 ht h
    have := (select_first_table n pos distinct forUpdate cols t fs wh gb hv1 ob lim un ps w w1
      h).1
    rw [ht, hv] at this
    cases this
  refine ⟨?_, ?_, sel, ?_, ?_, ?_, by decide!⟩
  · intro n t ht
    subst ht
    rw [writeFrom, writeFromTable, W_bind_apply, writeTable_other w w _ _ _ hv rfl]
  · intro n pos typ table al onExpr hty
    exact writeJoin_other n pos typ table al database onExpr w hv hty
  · intro n pos distinct forUpdate cols t fs wh gb hv1 ob lim un ps sql params ht hquery hw
    obtain ⟨q1, w1, hq1, hw1, _⟩ := Write_ok_inv w (n + 3) sql params hw
    rw [hquery] at hq1
    cases hq1
    exact sel n pos distinct forUpdate cols t fs wh gb hv1 ob lim un ps w1 ht hw1
  · intro n s hquery hV hc hs
    subst hs
    exact Write_of_err w n _ _ hV hquery (writeShow_tables_other s w hc hv)
  · intro n s hquery hV hc hs
    subst hs
    exact Write_of_err w n _ _ hV hquery (writeShow_columns_other s w hc hv)

theorem other_database_rejected_witness :
    writeFrom 2 (.Table (.mk noPos "x" "db2" "" []))
        { NewWriter none [] "db1" "" with EscapeIdents := false } =
      .err ("Invalid database " ++ "db2")
        { NewWriter none [] "db1" "" with EscapeIdents := false } :=
  (other_database_rejected { NewWriter none [] "db1" "" with EscapeIdents := false } "db2"
    (by decide!) (by decide!) (by decide!)).1 0 (.mk noPos "x" "db2" "" []) rfl

/-! ## Termination of the parser -/

set_option linter.unusedVariables false

/-! ## The parser returns within its recursion budget -/

theorem Adv_refl (s : Parser) (h : s.lexIdex ≤ s.Tokens.length) : Adv s s :=
  ⟨rfl, Nat.le_refl _, h⟩

theorem Adv_trans {s s1 s2 : Parser} (h1 : Adv s s1) (h2 : Adv s1 s2) : Adv s s2 :=
  ⟨h2.1.trans h1.1, Nat.le_trans h1.2.1 h2.2.1, h2.2.2⟩

theorem Adv_left {s s1 : Parser} (h : Adv s s1) : s1.left ≤ s.left := by
  unfold Parser.left
  rw [h.1]
  have := h.2.1
  omega

theorem Within_apply {α : Type} {B : Nat} {post : α → Nat} {m : SM Parser α}
    (h : Within B post m) (s : Parser) (hs : s.lexIdex ≤ s.Tokens.length) (hb : s.left ≤ B) :
    match m s with
    | .ok a s1 => Adv s s1 ∧ s1.left ≤ post a
    | .err _ s1 => Adv s s1
    | .fuel => False := by
  unfold Within at h
  exact h s hs hb

theorem Within_intro {α : Type} {B : Nat} {post : α → Nat} {m : SM Parser α}
    (h : ∀ s : Parser, s.lexIdex ≤ s.Tokens.length → s.left ≤ B →
      match m s with
      | .ok a s1 => Adv s s1 ∧ s1.left ≤ post a
      | .err _ s1 => Adv s s1
      | .fuel => False) : Within B post m := by
  unfold Within
  exact h

theorem Within_pure {α : Type} {B : Nat} {post : α → Nat} {a : α} (h : B ≤ post a) :
    Within B post (pure a : SM Parser α) :=
  Within_intro fun s hs hb => ⟨Adv_refl s hs, Nat.le_trans hb h⟩

theorem Within_SMpure {α : Type} {B : Nat} {post : α → Nat} {a : α} (h : B ≤ post a) :
    Within B post (SM.pure a : SM Parser α) :=
  Within_pure h

theorem Within_throw {α : Type} {B : Nat} {post : α → Nat} {e : Error} :
    Within B post (SM.throw e : SM Parser α) :=
  Within_intro fun s hs _ => Adv_refl s hs

theorem Within_bind {α β : Type} {B : Nat} {q : α → Nat} {post : β → Nat}
    {m : SM Parser α} {f : α → SM Parser β} (hm : Within B q m)
    (hf : ∀ a, Within (q a) post (f a)) : Within B post (m >>= f) := by
  refine Within_intro fun s hs hb => ?_
  have h1 := Within_apply hm s hs hb
  rw [SM_bind_apply]
  cases hms : m s with
  | ok a s1 =>
    rw [hms] at h1
    have h2 := Within_apply (hf a) s1 (h1.1.1 ▸ h1.1.2.2) h1.2
    show match f a s1 with
      | .ok a s1 => _
      | .err _ s1 => _
      | .fuel => _
    cases hfs : f a s1 with
    | ok b s2 => rw [hfs] at h2; exact ⟨Adv_trans h1.1 h2.1, h2.2⟩
    | err e s2 => rw [hfs] at h2; exact Adv_trans h1.1 h2
    | fuel => rw [hfs] at h2; exact h2
  | err e s1 => rw [hms] at h1; exact h1
  | fuel => rw [hms] at h1; exact h1

theorem Within_SMbind {α β : Type} {B : Nat} {q : α → Nat} {post : β → Nat}
    {m : SM Parser α} {f : α → SM Parser β} (hm : Within B q m)
    (hf : ∀ a, Within (q a) post (f a)) : Within B post (SM.bind m f) :=
  Within_bind hm hf

theorem Within_conseq {α : Type} {B : Nat} {q post : α → Nat} {m : SM Parser α}
    (hm : Within B q m) (h : ∀ a, q a ≤ post a) : Within B post m := by
  refine Within_intro fun s hs hb => ?_
  have h1 := Within_apply hm s hs hb
  cases hms : m s with
  | ok a s1 => rw [hms] at h1; exact ⟨h1.1, Nat.le_trans h1.2 (h a)⟩
  | err e s1 => rw [hms] at h1; exact h1
  | fuel => rw [hms] at h1; exact h1

theorem Within_get {B : Nat} : Within B (fun _ => B) (SM.get : SM Parser Parser) :=
  Within_intro fun s hs hb => ⟨Adv_refl s hs, hb⟩

theorem Within_modify {B : Nat} {f : Parser → Parser}
    (hf : ∀ p : Parser, (f p).Tokens = p.Tokens ∧ (f p).lexIdex = p.lexIdex) :
    Within B (fun _ => B) (SM.modify f) :=
  Within_intro fun s hs hb => by
    have h := hf s
    refine ⟨⟨h.1, by rw [h.2], by rw [h.1, h.2]; exact hs⟩, ?_⟩
    unfold Parser.left
    rw [h.1, h.2]
    exact hb

theorem Within_peekTwo {B : Nat} : Within B (fun _ => B) Parser.peekTwo :=
  Within_intro fun s hs hb => ⟨Adv_refl s hs, hb⟩

theorem tokenAt_end (s : Parser) (i : Nat) (h : s.Tokens.length ≤ i) :
    s.tokenAt i = eofToken := by
  unfold Parser.tokenAt
  rw [List.get?_eq_none.mpr h]
  rfl

theorem Within_peek_bind {β : Type} {B : Nat} {post : β → Nat} {f : Token → SM Parser β}
    (h0 : Within 0 post (f eofToken)) (h1 : 1 ≤ B → ∀ t, Within B post (f t)) :
    Within B post (Parser.peek >>= f) := by
  refine Within_intro fun s hs hb => ?_
  rw [SM_bind_apply]
  show match f (s.tokenAt s.lexIdex) s with
    | .ok a s1 => _
    | .err _ s1 => _
    | .fuel => _
  by_cases h : s.Tokens.length ≤ s.lexIdex
  · rw [tokenAt_end s _ h]
    exact Within_apply h0 s hs (by unfold Parser.left; omega)
  · have hl : 1 ≤ s.left := by unfold Parser.left; omega
    exact Within_apply (h1 (by omega) _) s hs hb

theorem Within_next_bind {β : Type} {B : Nat} {post : β → Nat} {f : Token → SM Parser β}
    (h0 : Within 0 post (f eofToken)) (h1 : 1 ≤ B → ∀ t, Within (B - 1) post (f t)) :
    Within B post (Parser.next >>= f) := by
  refine Within_intro fun s hs hb => ?_
  rw [SM_bind_apply]
  unfold Parser.next
  by_cases h : s.lexIdex ≥ s.Tokens.length
  · rw [if_pos h]
    exact Within_apply h0 s hs (by unfold Parser.left; omega)
  · rw [if_neg h]
    have hl : 1 ≤ s.left := by unfold Parser.left; omega
    have hadv : Adv s s.advance := ⟨rfl, Nat.le_succ _, by show s.lexIdex + 1 ≤ s.Tokens.length; omega⟩
    have h2 := Within_apply (h1 (by omega) (s.tokenAt s.lexIdex)) s.advance hadv.2.2
      (by unfold Parser.left at hb ⊢; show s.Tokens.length - (s.lexIdex + 1) ≤ B - 1; omega)
    show match f (s.tokenAt s.lexIdex) s.advance with
      | .ok a s1 => _
      | .err _ s1 => _
      | .fuel => _
    cases hfs : f (s.tokenAt s.lexIdex) s.advance with
    | ok b s2 => rw [hfs] at h2; exact ⟨Adv_trans hadv h2.1, h2.2⟩
    | err e s2 => rw [hfs] at h2; exact Adv_trans hadv h2
    | fuel => rw [hfs] at h2; exact h2

theorem SM_bind_assoc {σ α β γ : Type} (m : SM σ α) (f : α → SM σ β) (g : β → SM σ γ) :
    ((m >>= f) >>= g) = (m >>= fun a => f a >>= g) := by
  funext s
  simp only [SM_bind_apply]
  cases m s <;> rfl

theorem SM_pure_bind {σ α β : Type} (a : α) (f : α → SM σ β) : (pure a >>= f) = f a := rfl

theorem SM_throw_bind {σ α β : Type} (e : Error) (f : α → SM σ β) :
    ((SM.throw e : SM σ α) >>= f) = SM.throw e := rfl

theorem Within_accept_bind {β : Type} {B : Nat} {post : β → Nat} {k : Typ}
    {f : Token → SM Parser β} (hk : (eofToken.Typ != k) = true)
    (h1 : 1 ≤ B → ∀ t, Within (B - 1) post (f t)) :
    Within B post (Parser.accept k >>= f) := by
  unfold Parser.accept
  rw [SM_bind_assoc]
  refine Within_next_bind ?_ (fun hB t => ?_)
  · show Within 0 post ((if (eofToken.Typ != k) = true then _ else _) >>= f)
    rw [if_pos hk, SM_throw_bind]
    exact Within_throw
  · show Within (B - 1) post ((if (t.Typ != k) = true then _ else _) >>= f)
    by_cases hc : (t.Typ != k) = true
    · rw [if_pos hc, SM_throw_bind]
      exact Within_throw
    · rw [if_neg hc, SM_pure_bind]
      exact h1 hB t

theorem Within_acceptString_bind {β : Type} {B : Nat} {post : β → Nat} {str : String}
    {f : Token → SM Parser β} (h0 : Within 0 post (f eofToken))
    (h1 : 1 ≤ B → ∀ t, Within (B - 1) post (f t)) :
    Within B post (Parser.acceptString str >>= f) := by
  unfold Parser.acceptString
  rw [SM_bind_assoc]
  refine Within_next_bind ?_ (fun hB t => ?_)
  · show Within 0 post ((if (!stringsEqualFold eofToken.Str str) = true then _ else _) >>= f)
    by_cases hc : (!stringsEqualFold eofToken.Str str) = true
    · rw [if_pos hc, SM_throw_bind]
      exact Within_throw
    · rw [if_neg hc, SM_pure_bind]
      exact h0
  · show Within (B - 1) post ((if (!stringsEqualFold t.Str str) = true then _ else _) >>= f)
    by_cases hc : (!stringsEqualFold t.Str str) = true
    · rw [if_pos hc, SM_throw_bind]
      exact Within_throw
    · rw [if_neg hc, SM_pure_bind]
      exact h1 hB t

theorem Within_bind_same {α β : Type} {B : Nat} {post : β → Nat}
    {m : SM Parser α} {f : α → SM Parser β} (hm : Within B (fun _ => B) m)
    (hf : ∀ a, Within B post (f a)) : Within B post (m >>= f) :=
  Within_bind hm hf

theorem Within_attempt_bind {α β : Type} {B : Nat} {q : α → Nat} {post : β → Nat}
    {m : SM Parser α} {f : Except Error α → SM Parser β} (hm : Within B q m)
    (hok : ∀ a, Within (q a) post (f (.ok a))) (herr : ∀ e, Within B post (f (.error e))) :
    Within B post (SM.attempt m >>= f) := by
  refine Within_intro fun s hs hb => ?_
  have h1 := Within_apply hm s hs hb
  rw [SM_bind_apply]
  unfold SM.attempt
  cases hms : m s with
  | ok a s1 =>
    rw [hms] at h1
    have h2 := Within_apply (hok a) s1 (h1.1.1 ▸ h1.1.2.2) h1.2
    show match f (.ok a) s1 with
      | .ok a s1 => _
      | .err _ s1 => _
      | .fuel => _
    cases hfs : f (.ok a) s1 with
    | ok b s2 => rw [hfs] at h2; exact ⟨Adv_trans h1.1 h2.1, h2.2⟩
    | err e s2 => rw [hfs] at h2; exact Adv_trans h1.1 h2
    | fuel => rw [hfs] at h2; exact h2
  | err e s1 =>
    rw [hms] at h1
    have h2 := Within_apply (herr e) s1 (h1.1 ▸ h1.2.2) (Nat.le_trans (Adv_left h1) hb)
    show match f (.error e) s1 with
      | .ok a s1 => _
      | .err _ s1 => _
      | .fuel => _
    cases hfs : f (.error e) s1 with
    | ok b s2 => rw [hfs] at h2; exact ⟨Adv_trans h1 h2.1, h2.2⟩
    | err e s2 => rw [hfs] at h2; exact Adv_trans h1 h2
    | fuel => rw [hfs] at h2; exact h2
  | fuel => rw [hms] at h1; exact h1.elim

theorem SM_bind_pure {σ α : Type} (m : SM σ α) : (m >>= fun a => (pure a : SM σ α)) = m := by
  funext s
  rw [SM_bind_apply]
  cases m s <;> rfl

theorem Within_top {α : Type} {B : Nat} {p : α → Nat} {m : SM Parser α}
    (hm : Within B p m) : Within B (fun _ => B) m := by
  refine Within_intro fun s hs hb => ?_
  have h1 := Within_apply hm s hs hb
  cases hms : m s with
  | ok a s1 => rw [hms] at h1; exact ⟨h1.1, Nat.le_trans (Adv_left h1.1) hb⟩
  | err e s1 => rw [hms] at h1; exact h1
  | fuel => rw [hms] at h1; exact h1.elim

theorem Within_next {B : Nat} : Within B (fun _ => B - 1) Parser.next := by
  rw [← SM_bind_pure Parser.next]
  exact Within_next_bind (Within_pure (Nat.zero_le _)) (fun _ _ => Within_pure (Nat.le_refl _))

theorem Within_peek {B : Nat} : Within B (fun _ => B) Parser.peek := by
  rw [← SM_bind_pure Parser.peek]
  exact Within_peek_bind (Within_pure (Nat.zero_le _)) (fun _ _ => Within_pure (Nat.le_refl _))

theorem Within_accept {B : Nat} {k : Typ} (hk : (eofToken.Typ != k) = true) :
    Within B (fun _ => B - 1) (Parser.accept k) := by
  rw [← SM_bind_pure (Parser.accept k)]
  exact Within_accept_bind hk (fun _ _ => Within_pure (Nat.le_refl _))

theorem Within_attempt {α : Type} {B : Nat} {q : α → Nat} {m : SM Parser α}
    (hm : Within B q m) : Within B (fun _ => B) (SM.attempt m) := by
  rw [← SM_bind_pure (SM.attempt m)]
  exact Within_attempt_bind (Within_top hm) (fun _ => Within_pure (Nat.le_refl _))
    (fun _ => Within_pure (Nat.le_refl _))

theorem Within_next_SMbind {β : Type} {B : Nat} {post : β → Nat} {f : Token → SM Parser β}
    (h0 : Within 0 post (f eofToken)) (h1 : 1 ≤ B → ∀ t, Within (B - 1) post (f t)) :
    Within B post (SM.bind Parser.next f) := Within_next_bind h0 h1

theorem Within_peek_SMbind {β : Type} {B : Nat} {post : β → Nat} {f : Token → SM Parser β}
    (h0 : Within 0 post (f eofToken)) (h1 : 1 ≤ B → ∀ t, Within B post (f t)) :
    Within B post (SM.bind Parser.peek f) := Within_peek_bind h0 h1

theorem Within_accept_SMbind {β : Type} {B : Nat} {post : β → Nat} {k : Typ}
    {f : Token → SM Parser β} (hk : (eofToken.Typ != k) = true)
    (h1 : 1 ≤ B → ∀ t, Within (B - 1) post (f t)) :
    Within B post (SM.bind (Parser.accept k) f) := Within_accept_bind hk h1

theorem Within_mono {α : Type} {B C : Nat} {post : α → Nat} {m : SM Parser α}
    (h : C ≤ B) (hm : Within B post m) : Within C post m :=
  Within_intro fun s hs hb => Within_apply hm s hs (Nat.le_trans hb h)

theorem SM_attempt_next_bind {α β : Type} (g : Token → SM Parser α)
    (f : Except Error α → SM Parser β) :
    (SM.attempt (Parser.next >>= g) >>= f) = (Parser.next >>= fun t => SM.attempt (g t) >>= f) := by
  funext s
  rw [SM_bind_apply, SM_bind_apply]
  unfold SM.attempt
  rw [SM_bind_apply]
  unfold Parser.next
  by_cases h : s.lexIdex ≥ s.Tokens.length
  · simp only [if_pos h]
    rfl
  · simp only [if_neg h]
    rfl

theorem Within_attempt_accept_bind {β : Type} {B : Nat} {post : β → Nat} {k : Typ}
    {f : Except Error Token → SM Parser β} (hk : (eofToken.Typ != k) = true)
    (herr : ∀ e, Within B post (f (.error e)))
    (hok : 1 ≤ B → ∀ t, Within (B - 1) post (f (.ok t))) :
    Within B post (SM.attempt (Parser.accept k) >>= f) := by
  unfold Parser.accept
  rw [SM_attempt_next_bind]
  refine Within_next_bind ?_ (fun hB t => ?_)
  · show Within 0 post (SM.attempt (if (eofToken.Typ != k) = true then _ else _) >>= f)
    rw [if_pos hk]
    exact Within_mono (Nat.zero_le _) (herr _)
  · show Within (B - 1) post (SM.attempt (if (t.Typ != k) = true then _ else _) >>= f)
    by_cases hc : (t.Typ != k) = true
    · rw [if_pos hc]
      exact Within_mono (Nat.sub_le _ _) (herr _)
    · rw [if_neg hc]
      exact hok hB t

theorem Meets_parsePrefixedIdentLoop_all (n : Nat) :
    ∀ (ident : String) (B : Nat), 1 + 40 * B ≤ n → Within B (fun _ => B) (Parser.parsePrefixedIdentLoop n ident) := by
  induction n with
  | zero => intro ident B hn; exfalso; omega
  | succ n ih =>
    intro ident B hn
    rw [Parser.parsePrefixedIdentLoop]
    repeat' (first
      | with_reducible (first
        | exact Within_throw
        | (refine Within_pure ?_; first | omega | (dsimp only; omega) | (simp <;> omega))
        | (refine Within_SMpure ?_; first | omega | (dsimp only; omega) | (simp <;> omega))
        | (refine Within_peek_bind ?_ (fun hB t => ?_) <;>
            (first | exact absurd hB (by decide!) | beta_reduce))
        | (refine Within_next_bind ?_ (fun hB t => ?_) <;>
            (first | exact absurd hB (by decide!) | beta_reduce))
        | (refine Within_accept_bind (by decide!) (fun hB t => ?_) <;>
            (first | exact absurd hB (by decide!) | beta_reduce))
        | (refine Within_acceptString_bind ?_ (fun hB t => ?_) <;>
            (first | exact absurd hB (by decide!) | beta_reduce))
        | (refine Within_next_SMbind ?_ (fun hB t => ?_) <;>
            (first | exact absurd hB (by decide!) | beta_reduce))
        | (refine Within_peek_SMbind ?_ (fun hB t => ?_) <;>
            (first | exact absurd hB (by decide!) | beta_reduce))
        | (refine Within_attempt_accept_bind (by decide!) (fun _ => ?_) (fun hB t => ?_) <;>
            (first | exact absurd hB (by decide!) | beta_reduce))
        | exact Within_attempt (Within_accept (by decide!))
        | exact Within_top (Within_accept (by decide!))
        | exact Within_top Within_next
        | exact Within_peek
        | (refine Within_accept_SMbind (by decide!) (fun hB t => ?_) <;>
            (first | exact absurd hB (by decide!) | beta_reduce))
        | (refine Within_bind Within_get (fun _ => ?_); beta_reduce)
        | (refine Within_bind (Within_modify (fun _ => ⟨rfl, rfl⟩)) (fun _ => ?_); beta_reduce)
        | (refine Within_bind Within_peekTwo (fun _ => ?_); beta_reduce)
        | (refine Within_bind (ih _ _ (by omega)) (fun _ => ?_); beta_reduce)
        | (refine Within_conseq (ih _ _ (by omega)) (fun _ => ?_); first | omega | (dsimp only; omega) | (dsimp only; split <;> omega))
        | (refine Within_attempt_bind (q := fun _ => _) ?_ (fun _ => ?_) (fun _ => ?_) <;> beta_reduce)
        | (refine Within_bind_same ?_ (fun _ => ?_))
        | (refine Within_SMbind (q := fun _ => _) ?_ (fun _ => ?_)))
      | (split <;> (first | (rename_i h; exact absurd h (by decide!)) | skip))
      | dsimp only)

theorem Meets_parsePrefixedIdentLoop (n : Nat) (ident : String) (B : Nat) (hn : 1 + 40 * B ≤ n) :
    Within B (fun _ => B) (Parser.parsePrefixedIdentLoop n ident) :=
  Meets_parsePrefixedIdentLoop_all n ident B hn

theorem Meets_parsePrefixedIdent (n : Nat) (B : Nat) (hn : 1 + 40 * B ≤ n) :
    Within B (fun _ => B) (Parser.parsePrefixedIdent n) := by
  unfold Parser.parsePrefixedIdent
  repeat' (first
    | with_reducible (first
      | exact Within_throw
      | (refine Within_pure ?_; first | omega | (dsimp only; omega) | (simp <;> omega))
      | (refine Within_SMpure ?_; first | omega | (dsimp only; omega) | (simp <;> omega))
      | (refine Within_peek_bind ?_ (fun hB t => ?_) <;>
          (first | exact absurd hB (by decide!) | beta_reduce))
      | (refine Within_next_bind ?_ (fun hB t => ?_) <;>
          (first | exact absurd hB (by decide!) | beta_reduce))
      | (refine Within_accept_bind (by decide!) (fun hB t => ?_) <;>
          (first | exact absurd hB (by decide!) | beta_reduce))
      | (refine Within_acceptString_bind ?_ (fun hB t => ?_) <;>
          (first | exact absurd hB (by decide!) | beta_reduce))
      | (refine Within_next_SMbind ?_ (fun hB t => ?_) <;>
          (first | exact absurd hB (by decide!) | beta_reduce))
      | (refine Within_peek_SMbind ?_ (fun hB t => ?_) <;>
          (first | exact absurd hB (by decide!) | beta_reduce))
      | (refine Within_attempt_accept_bind (by decide!) (fun _ => ?_) (fun hB t => ?_) <;>
          (first | exact absurd hB (by decide!) | beta_reduce))
      | exact Within_attempt (Within_accept (by decide!))
      | exact Within_top (Within_accept (by decide!))
      | exact Within_top Within_next
      | exact Within_peek
      | (refine Within_accept_SMbind (by decide!) (fun hB t => ?_) <;>
          (first | exact absurd hB (by decide!) | beta_reduce))
      | (refine Within_bind Within_get (fun _ => ?_); beta_reduce)
      | (refine Within_bind (Within_modify (fun _ => ⟨rfl, rfl⟩)) (fun _ => ?_); beta_reduce)
      | (refine Within_bind Within_peekTwo (fun _ => ?_); beta_reduce)
      | (refine Within_bind (Meets_parsePrefixedIdentLoop _ _ _ (by omega)) (fun _ => ?_); beta_reduce)
      | (refine Within_conseq (Meets_parsePrefixedIdentLoop _ _ _ (by omega)) (fun _ => ?_); first | omega | (dsimp only; omega) | (dsimp only; split <;> omega))
      | (refine Within_attempt_bind (q := fun _ => _) ?_ (fun _ => ?_) (fun _ => ?_) <;> beta_reduce)
      | (refine Within_bind_same ?_ (fun _ => ?_))
      | (refine Within_SMbind (q := fun _ => _) ?_ (fun _ => ?_)))
    | (split <;> (first | (rename_i h; exact absurd h (by decide!)) | skip))
    | dsimp only)

theorem Meets_parseSelectorIdent (n : Nat) (B : Nat) (hn : 1 + 40 * B ≤ n) :
    Within B (fun _ => B) (Parser.parseSelectorIdent n) := by
  unfold Parser.parseSelectorIdent
  repeat' (first
    | with_reducible (first
      | exact Within_throw
      | (refine Within_pure ?_; first | omega | (dsimp only; omega) | (simp <;> omega))
      | (refine Within_SMpure ?_; first | omega | (dsimp only; omega) | (simp <;> omega))
      | (refine Within_peek_bind ?_ (fun hB t => ?_) <;>
          (first | exact absurd hB (by decide!) | beta_reduce))
      | (refine Within_next_bind ?_ (fun hB t => ?_) <;>
          (first | exact absurd hB (by decide!) | beta_reduce))
      | (refine Within_accept_bind (by decide!) (fun hB t => ?_) <;>
          (first | exact absurd hB (by decide!) | beta_reduce))
      | (refine Within_acceptString_bind ?_ (fun hB t => ?_) <;>
          (first | exact absurd hB (by decide!) | beta_reduce))
      | (refine Within_next_SMbind ?_ (fun hB t => ?_) <;>
          (first | exact absurd hB (by decide!) | beta_reduce))
      | (refine Within_peek_SMbind ?_ (fun hB t => ?_) <;>
          (first | exact absurd hB (by decide!) | beta_reduce))
      | (refine Within_attempt_accept_bind (by decide!) (fun _ => ?_) (fun hB t => ?_) <;>
          (first | exact absurd hB (by decide!) | beta_reduce))
      | exact Within_attempt (Within_accept (by decide!))
      | exact Within_top (Within_accept (by decide!))
      | exact Within_top Within_next
      | exact Within_peek
      | (refine Within_accept_SMbind (by decide!) (fun hB t => ?_) <;>
          (first | exact absurd hB (by decide!) | beta_reduce))
      | (refine Within_bind Within_get (fun _ => ?_); beta_reduce)
      | (refine Within_bind (Within_modify (fun _ => ⟨rfl, rfl⟩)) (fun _ => ?_); beta_reduce)
      | (refine Within_bind Within_peekTwo (fun _ => ?_); beta_reduce)
      | (refine Within_bind (Meets_parsePrefixedIdent _ _ (by omega)) (fun _ => ?_); beta_reduce)
      | (refine Within_conseq (Meets_parsePrefixedIdent _ _ (by omega)) (fun _ => ?_); first | omega | (dsimp only; omega) | (dsimp only; split <;> omega))
      | (refine Within_attempt_bind (q := fun _ => _) ?_ (fun _ => ?_) (fun _ => ?_) <;> beta_reduce)
      | (refine Within_bind_same ?_ (fun _ => ?_))
      | (refine Within_SMbind (q := fun _ => _) ?_ (fun _ => ?_)))
    | (split <;> (first | (rename_i h; exact absurd h (by decide!)) | skip))
    | dsimp only)

theorem Meets_parseColumnNameExpr (n : Nat) (B : Nat) (hn : 1 + 40 * B ≤ n) :
    Within B (fun _ => B) (Parser.parseColumnNameExpr n) := by
  unfold Parser.parseColumnNameExpr
  repeat' (first
    | with_reducible (first
      | exact Within_throw
      | (refine Within_pure ?_; first | omega | (dsimp only; omega) | (simp <;> omega))
      | (refine Within_SMpure ?_; first | omega | (dsimp only; omega) | (simp <;> omega))
      | (refine Within_peek_bind ?_ (fun hB t => ?_) <;>
          (first | exact absurd hB (by decide!) | beta_reduce))
      | (refine Within_next_bind ?_ (fun hB t => ?_) <;>
          (first | exact absurd hB (by decide!) | beta_reduce))
      | (refine Within_accept_bind (by decide!) (fun hB t => ?_) <;>
          (first | exact absurd hB (by decide!) | beta_reduce))
      | (refine Within_acceptString_bind ?_ (fun hB t => ?_) <;>
          (first | exact absurd hB (by decide!) | beta_reduce))
      | (refine Within_next_SMbind ?_ (fun hB t => ?_) <;>
          (first | exact absurd hB (by decide!) | beta_reduce))
      | (refine Within_peek_SMbind ?_ (fun hB t => ?_) <;>
          (first | exact absurd hB (by decide!) | beta_reduce))
      | (refine Within_attempt_accept_bind (by decide!) (fun _ => ?_) (fun hB t => ?_) <;>
          (first | exact absurd hB (by decide!) | beta_reduce))
      | exact Within_attempt (Within_accept (by decide!))
      | exact Within_top (Within_accept (by decide!))
      | exact Within_top Within_next
      | exact Within_peek
      | (refine Within_accept_SMbind (by decide!) (fun hB t => ?_) <;>
          (first | exact absurd hB (by decide!) | beta_reduce))
      | (refine Within_bind Within_get (fun _ => ?_); beta_reduce)
      | (refine Within_bind (Within_modify (fun _ => ⟨rfl, rfl⟩)) (fun _ => ?_); beta_reduce)
      | (refine Within_bind Within_peekTwo (fun _ => ?_); beta_reduce)
      | (refine Within_bind (Meets_parseSelectorIdent _ _ (by omega)) (fun _ => ?_); beta_reduce)
      | (refine Within_conseq (Meets_parseSelectorIdent _ _ (by omega)) (fun _ => ?_); first | omega | (dsimp only; omega) | (dsimp only; split <;> omega))
      | (refine Within_attempt_bind (q := fun _ => _) ?_ (fun _ => ?_) (fun _ => ?_) <;> beta_reduce)
      | (refine Within_bind_same ?_ (fun _ => ?_))
      | (refine Within_SMbind (q := fun _ => _) ?_ (fun _ => ?_)))
    | (split <;> (first | (rename_i h; exact absurd h (by decide!)) | skip))
    | dsimp only)

theorem Steps_parseSelecColumnIdent {B : Nat} : Within B (fun _ => B) Parser.parseSelecColumnIdent := by
  unfold Parser.parseSelecColumnIdent
  repeat' (first
    | with_reducible (first
      | exact Within_throw
      | (refine Within_pure ?_; first | omega | (dsimp only; omega) | (simp <;> omega))
      | (refine Within_SMpure ?_; first | omega | (dsimp only; omega) | (simp <;> omega))
      | (refine Within_peek_bind ?_ (fun hB t => ?_) <;>
          (first | exact absurd hB (by decide!) | beta_reduce))
      | (refine Within_next_bind ?_ (fun hB t => ?_) <;>
          (first | exact absurd hB (by decide!) | beta_reduce))
      | (refine Within_accept_bind (by decide!) (fun hB t => ?_) <;>
          (first | exact absurd hB (by decide!) | beta_reduce))
      | (refine Within_acceptString_bind ?_ (fun hB t => ?_) <;>
          (first | exact absurd hB (by decide!) | beta_reduce))
      | (refine Within_next_SMbind ?_ (fun hB t => ?_) <;>
          (first | exact absurd hB (by decide!) | beta_reduce))
      | (refine Within_peek_SMbind ?_ (fun hB t => ?_) <;>
          (first | exact absurd hB (by decide!) | beta_reduce))
      | (refine Within_attempt_accept_bind (by decide!) (fun _ => ?_) (fun hB t => ?_) <;>
          (first | exact absurd hB (by decide!) | beta_reduce))
      | exact Within_attempt (Within_accept (by decide!))
      | exact Within_top (Within_accept (by decide!))
      | exact Within_top Within_next
      | exact Within_peek
      | (refine Within_accept_SMbind (by decide!) (fun hB t => ?_) <;>
          (first | exact absurd hB (by decide!) | beta_reduce))
      | (refine Within_bind Within_get (fun _ => ?_); beta_reduce)
      | (refine Within_bind (Within_modify (fun _ => ⟨rfl, rfl⟩)) (fun _ => ?_); beta_reduce)
      | (refine Within_bind Within_peekTwo (fun _ => ?_); beta_reduce)
      | (refine Within_attempt_bind (q := fun _ => _) ?_ (fun _ => ?_) (fun _ => ?_) <;> beta_reduce)
      | (refine Within_bind_same ?_ (fun _ => ?_))
      | (refine Within_SMbind (q := fun _ => _) ?_ (fun _ => ?_)))
    | (split <;> (first | (rename_i h; exact absurd h (by decide!)) | skip))
    | dsimp only)

theorem Steps_parseColumnExpr {B : Nat} : Within B (fun _ => B) Parser.parseColumnExpr := by
  unfold Parser.parseColumnExpr
  repeat' (first
    | with_reducible (first
      | exact Within_throw
      | (refine Within_pure ?_; first | omega | (dsimp only; omega) | (simp <;> omega))
      | (refine Within_SMpure ?_; first | omega | (dsimp only; omega) | (simp <;> omega))
      | (refine Within_peek_bind ?_ (fun hB t => ?_) <;>
          (first | exact absurd hB (by decide!) | beta_reduce))
      | (refine Within_next_bind ?_ (fun hB t => ?_) <;>
          (first | exact absurd hB (by decide!) | beta_reduce))
      | (refine Within_accept_bind (by decide!) (fun hB t => ?_) <;>
          (first | exact absurd hB (by decide!) | beta_reduce))
      | (refine Within_acceptString_bind ?_ (fun hB t => ?_) <;>
          (first | exact absurd hB (by decide!) | beta_reduce))
      | (refine Within_next_SMbind ?_ (fun hB t => ?_) <;>
          (first | exact absurd hB (by decide!) | beta_reduce))
      | (refine Within_peek_SMbind ?_ (fun hB t => ?_) <;>
          (first | exact absurd hB (by decide!) | beta_reduce))
      | (refine Within_attempt_accept_bind (by decide!) (fun _ => ?_) (fun hB t => ?_) <;>
          (first | exact absurd hB (by decide!) | beta_reduce))
      | exact Within_attempt (Within_accept (by decide!))
      | exact Within_top (Within_accept (by decide!))
      | exact Within_top Within_next
      | exact Within_peek
      | (refine Within_accept_SMbind (by decide!) (fun hB t => ?_) <;>
          (first | exact absurd hB (by decide!) | beta_reduce))
      | (refine Within_bind Within_get (fun _ => ?_); beta_reduce)
      | (refine Within_bind (Within_modify (fun _ => ⟨rfl, rfl⟩)) (fun _ => ?_); beta_reduce)
      | (refine Within_bind Within_peekTwo (fun _ => ?_); beta_reduce)
      | (refine Within_bind (Steps_parseSelecColumnIdent) (fun _ => ?_); beta_reduce)
      | (refine Within_conseq (Steps_parseSelecColumnIdent) (fun _ => ?_); first | omega | (dsimp only; omega) | (dsimp only; split <;> omega))
      | (refine Within_attempt_bind (q := fun _ => _) ?_ (fun _ => ?_) (fun _ => ?_) <;> beta_reduce)
      | (refine Within_bind_same ?_ (fun _ => ?_))
      | (refine Within_SMbind (q := fun _ => _) ?_ (fun _ => ?_)))
    | (split <;> (first | (rename_i h; exact absurd h (by decide!)) | skip))
    | dsimp only)

theorem Steps_parseAlias {B : Nat} : Within B (fun _ => B) Parser.parseAlias := by
  unfold Parser.parseAlias
  repeat' (first
    | with_reducible (first
      | exact Within_throw
      | (refine Within_pure ?_; first | omega | (dsimp only; omega) | (simp <;> omega))
      | (refine Within_SMpure ?_; first | omega | (dsimp only; omega) | (simp <;> omega))
      | (refine Within_peek_bind ?_ (fun hB t => ?_) <;>
          (first | exact absurd hB (by decide!) | beta_reduce))
      | (refine Within_next_bind ?_ (fun hB t => ?_) <;>
          (first | exact absurd hB (by decide!) | beta_reduce))
      | (refine Within_accept_bind (by decide!) (fun hB t => ?_) <;>
          (first | exact absurd hB (by decide!) | beta_reduce))
      | (refine Within_acceptString_bind ?_ (fun hB t => ?_) <;>
          (first | exact absurd hB (by decide!) | beta_reduce))
      | (refine Within_next_SMbind ?_ (fun hB t => ?_) <;>
          (first | exact absurd hB (by decide!) | beta_reduce))
      | (refine Within_peek_SMbind ?_ (fun hB t => ?_) <;>
          (first | exact absurd hB (by decide!) | beta_reduce))
      | (refine Within_attempt_accept_bind (by decide!) (fun _ => ?_) (fun hB t => ?_) <;>
          (first | exact absurd hB (by decide!) | beta_reduce))
      | exact Within_attempt (Within_accept (by decide!))
      | exact Within_top (Within_accept (by decide!))
      | exact Within_top Within_next
      | exact Within_peek
      | (refine Within_accept_SMbind (by decide!) (fun hB t => ?_) <;>
          (first | exact absurd hB (by decide!) | beta_reduce))
      | (refine Within_bind Within_get (fun _ => ?_); beta_reduce)
      | (refine Within_bind (Within_modify (fun _ => ⟨rfl, rfl⟩)) (fun _ => ?_); beta_reduce)
      | (refine Within_bind Within_peekTwo (fun _ => ?_); beta_reduce)
      | (refine Within_attempt_bind (q := fun _ => _) ?_ (fun _ => ?_) (fun _ => ?_) <;> beta_reduce)
      | (refine Within_bind_same ?_ (fun _ => ?_))
      | (refine Within_SMbind (q := fun _ => _) ?_ (fun _ => ?_)))
    | (split <;> (first | (rename_i h; exact absurd h (by decide!)) | skip))
    | dsimp only)

theorem Meets_parseOrderByLoop_all (n : Nat) :
    ∀ (columns : List OrderColumn) (B : Nat), 2 + 40 * B ≤ n → Within B (fun _ => B) (Parser.parseOrderByLoop n columns) := by
  induction n with
  | zero => intro columns B hn; exfalso; omega
  | succ n ih =>
    intro columns B hn
    rw [Parser.parseOrderByLoop]
    repeat' (first
      | with_reducible (first
        | exact Within_throw
        | (refine Within_pure ?_; first | omega | (dsimp only; omega) | (simp <;> omega))
        | (refine Within_SMpure ?_; first | omega | (dsimp only; omega) | (simp <;> omega))
        | (refine Within_peek_bind ?_ (fun hB t => ?_) <;>
            (first | exact absurd hB (by decide!) | beta_reduce))
        | (refine Within_next_bind ?_ (fun hB t => ?_) <;>
            (first | exact absurd hB (by decide!) | beta_reduce))
        | (refine Within_accept_bind (by decide!) (fun hB t => ?_) <;>
            (first | exact absurd hB (by decide!) | beta_reduce))
        | (refine Within_acceptString_bind ?_ (fun hB t => ?_) <;>
            (first | exact absurd hB (by decide!) | beta_reduce))
        | (refine Within_next_SMbind ?_ (fun hB t => ?_) <;>
            (first | exact absurd hB (by decide!) | beta_reduce))
        | (refine Within_peek_SMbind ?_ (fun hB t => ?_) <;>
            (first | exact absurd hB (by decide!) | beta_reduce))
        | (refine Within_attempt_accept_bind (by decide!) (fun _ => ?_) (fun hB t => ?_) <;>
            (first | exact absurd hB (by decide!) | beta_reduce))
        | exact Within_attempt (Within_accept (by decide!))
        | exact Within_top (Within_accept (by decide!))
        | exact Within_top Within_next
        | exact Within_peek
        | (refine Within_accept_SMbind (by decide!) (fun hB t => ?_) <;>
            (first | exact absurd hB (by decide!) | beta_reduce))
        | (refine Within_bind Within_get (fun _ => ?_); beta_reduce)
        | (refine Within_bind (Within_modify (fun _ => ⟨rfl, rfl⟩)) (fun _ => ?_); beta_reduce)
        | (refine Within_bind Within_peekTwo (fun _ => ?_); beta_reduce)
        | (refine Within_bind (Meets_parseColumnNameExpr _ _ (by omega)) (fun _ => ?_); beta_reduce)
        | (refine Within_conseq (Meets_parseColumnNameExpr _ _ (by omega)) (fun _ => ?_); first | omega | (dsimp only; omega) | (dsimp only; split <;> omega))
        | (refine Within_bind (ih _ _ (by omega)) (fun _ => ?_); beta_reduce)
        | (refine Within_conseq (ih _ _ (by omega)) (fun _ => ?_); first | omega | (dsimp only; omega) | (dsimp only; split <;> omega))
        | (refine Within_attempt_bind (q := fun _ => _) ?_ (fun _ => ?_) (fun _ => ?_) <;> beta_reduce)
        | (refine Within_bind_same ?_ (fun _ => ?_))
        | (refine Within_SMbind (q := fun _ => _) ?_ (fun _ => ?_)))
      | (split <;> (first | (rename_i h; exact absurd h (by decide!)) | skip))
      | dsimp only)

theorem Meets_parseOrderByLoop (n : Nat) (columns : List OrderColumn) (B : Nat) (hn : 2 + 40 * B ≤ n) :
    Within B (fun _ => B) (Parser.parseOrderByLoop n columns) :=
  Meets_parseOrderByLoop_all n columns B hn

theorem Meets_parseOrderBy (n : Nat) (B : Nat) (hn : 2 + 40 * B ≤ n) :
    Within B (fun _ => B) (Parser.parseOrderBy n) := by
  unfold Parser.parseOrderBy
  repeat' (first
    | with_reducible (first
      | exact Within_throw
      | (refine Within_pure ?_; first | omega | (dsimp only; omega) | (simp <;> omega))
      | (refine Within_SMpure ?_; first | omega | (dsimp only; omega) | (simp <;> omega))
      | (refine Within_peek_bind ?_ (fun hB t => ?_) <;>
          (first | exact absurd hB (by decide!) | beta_reduce))
      | (refine Within_next_bind ?_ (fun hB t => ?_) <;>
          (first | exact absurd hB (by decide!) | beta_reduce))
      | (refine Within_accept_bind (by decide!) (fun hB t => ?_) <;>
          (first | exact absurd hB (by decide!) | beta_reduce))
      | (refine Within_acceptString_bind ?_ (fun hB t => ?_) <;>
          (first | exact absurd hB (by decide!) | beta_reduce))
      | (refine Within_next_SMbind ?_ (fun hB t => ?_) <;>
          (first | exact absurd hB (by decide!) | beta_reduce))
      | (refine Within_peek_SMbind ?_ (fun hB t => ?_) <;>
          (first | exact absurd hB (by decide!) | beta_reduce))
      | (refine Within_attempt_accept_bind (by decide!) (fun _ => ?_) (fun hB t => ?_) <;>
          (first | exact absurd hB (by decide!) | beta_reduce))
      | exact Within_attempt (Within_accept (by decide!))
      | exact Within_top (Within_accept (by decide!))
      | exact Within_top Within_next
      | exact Within_peek
      | (refine Within_accept_SMbind (by decide!) (fun hB t => ?_) <;>
          (first | exact absurd hB (by decide!) | beta_reduce))
      | (refine Within_bind Within_get (fun _ => ?_); beta_reduce)
      | (refine Within_bind (Within_modify (fun _ => ⟨rfl, rfl⟩)) (fun _ => ?_); beta_reduce)
      | (refine Within_bind Within_peekTwo (fun _ => ?_); beta_reduce)
      | (refine Within_bind (Meets_parseOrderByLoop _ _ _ (by omega)) (fun _ => ?_); beta_reduce)
      | (refine Within_conseq (Meets_parseOrderByLoop _ _ _ (by omega)) (fun _ => ?_); first | omega | (dsimp only; omega) | (dsimp only; split <;> omega))
      | (refine Within_attempt_bind (q := fun _ => _) ?_ (fun _ => ?_) (fun _ => ?_) <;> beta_reduce)
      | (refine Within_bind_same ?_ (fun _ => ?_))
      | (refine Within_SMbind (q := fun _ => _) ?_ (fun _ => ?_)))
    | (split <;> (first | (rename_i h; exact absurd h (by decide!)) | skip))
    | dsimp only)

theorem Steps_parseLimit {B : Nat} : Within B (fun _ => B) Parser.parseLimit := by
  unfold Parser.parseLimit
  repeat' (first
    | with_reducible (first
      | exact Within_throw
      | (refine Within_pure ?_; first | omega | (dsimp only; omega) | (simp <;> omega))
      | (refine Within_SMpure ?_; first | omega | (dsimp only; omega) | (simp <;> omega))
      | (refine Within_peek_bind ?_ (fun hB t => ?_) <;>
          (first | exact absurd hB (by decide!) | beta_reduce))
      | (refine Within_next_bind ?_ (fun hB t => ?_) <;>
          (first | exact absurd hB (by decide!) | beta_reduce))
      | (refine Within_accept_bind (by decide!) (fun hB t => ?_) <;>
          (first | exact absurd hB (by decide!) | beta_reduce))
      | (refine Within_acceptString_bind ?_ (fun hB t => ?_) <;>
          (first | exact absurd hB (by decide!) | beta_reduce))
      | (refine Within_next_SMbind ?_ (fun hB t => ?_) <;>
          (first | exact absurd hB (by decide!) | beta_reduce))
      | (refine Within_peek_SMbind ?_ (fun hB t => ?_) <;>
          (first | exact absurd hB (by decide!) | beta_reduce))
      | (refine Within_attempt_accept_bind (by decide!) (fun _ => ?_) (fun hB t => ?_) <;>
          (first | exact absurd hB (by decide!) | beta_reduce))
      | exact Within_attempt (Within_accept (by decide!))
      | exact Within_top (Within_accept (by decide!))
      | exact Within_top Within_next
      | exact Within_peek
      | (refine Within_accept_SMbind (by decide!) (fun hB t => ?_) <;>
          (first | exact absurd hB (by decide!) | beta_reduce))
      | (refine Within_bind Within_get (fun _ => ?_); beta_reduce)
      | (refine Within_bind (Within_modify (fun _ => ⟨rfl, rfl⟩)) (fun _ => ?_); beta_reduce)
      | (refine Within_bind Within_peekTwo (fun _ => ?_); beta_reduce)
      | (refine Within_attempt_bind (q := fun _ => _) ?_ (fun _ => ?_) (fun _ => ?_) <;> beta_reduce)
      | (refine Within_bind_same ?_ (fun _ => ?_))
      | (refine Within_SMbind (q := fun _ => _) ?_ (fun _ => ?_)))
    | (split <;> (first | (rename_i h; exact absurd h (by decide!)) | skip))
    | dsimp only)

theorem Steps_parseForUpdate {B : Nat} : Within B (fun _ => B) Parser.parseForUpdate := by
  unfold Parser.parseForUpdate
  repeat' (first
    | with_reducible (first
      | exact Within_throw
      | (refine Within_pure ?_; first | omega | (dsimp only; omega) | (simp <;> omega))
      | (refine Within_SMpure ?_; first | omega | (dsimp only; omega) | (simp <;> omega))
      | (refine Within_peek_bind ?_ (fun hB t => ?_) <;>
          (first | exact absurd hB (by decide!) | beta_reduce))
      | (refine Within_next_bind ?_ (fun hB t => ?_) <;>
          (first | exact absurd hB (by decide!) | beta_reduce))
      | (refine Within_accept_bind (by decide!) (fun hB t => ?_) <;>
          (first | exact absurd hB (by decide!) | beta_reduce))
      | (refine Within_acceptString_bind ?_ (fun hB t => ?_) <;>
          (first | exact absurd hB (by decide!) | beta_reduce))
      | (refine Within_next_SMbind ?_ (fun hB t => ?_) <;>
          (first | exact absurd hB (by decide!) | beta_reduce))
      | (refine Within_peek_SMbind ?_ (fun hB t => ?_) <;>
          (first | exact absurd hB (by decide!) | beta_reduce))
      | (refine Within_attempt_accept_bind (by decide!) (fun _ => ?_) (fun hB t => ?_) <;>
          (first | exact absurd hB (by decide!) | beta_reduce))
      | exact Within_attempt (Within_accept (by decide!))
      | exact Within_top (Within_accept (by decide!))
      | exact Within_top Within_next
      | exact Within_peek
      | (refine Within_accept_SMbind (by decide!) (fun hB t => ?_) <;>
          (first | exact absurd hB (by decide!) | beta_reduce))
      | (refine Within_bind Within_get (fun _ => ?_); beta_reduce)
      | (refine Within_bind (Within_modify (fun _ => ⟨rfl, rfl⟩)) (fun _ => ?_); beta_reduce)
      | (refine Within_bind Within_peekTwo (fun _ => ?_); beta_reduce)
      | (refine Within_attempt_bind (q := fun _ => _) ?_ (fun _ => ?_) (fun _ => ?_) <;> beta_reduce)
      | (refine Within_bind_same ?_ (fun _ => ?_))
      | (refine Within_SMbind (q := fun _ => _) ?_ (fun _ => ?_)))
    | (split <;> (first | (rename_i h; exact absurd h (by decide!)) | skip))
    | dsimp only)

theorem Meets_parseSelect_step (n : Nat) (ih : ParsersAt n) :
    ∀ (B : Nat), 1 + 40 * B ≤ n + 1 → Within B (fun _ => B) (Parser.parseSelect (n + 1)) := by
  have ih_parseSelectColumns := ih.2.2.2.2.2.2.2.2.1
  have ih_parseFrom := ih.2.2.2.2.2.2.2.2.2.2.2.1
  have ih_parseWhere := ih.2.2.2.2.2.2.2.1
  have ih_parseGroupBy := ih.2.2.2.2.2.1
  have ih_parseHaving := ih.2.2.2.1
  have ih_parseUnion := ih.2.1
  clear ih
  intro B hn
  rw [Parser.parseSelect]
  repeat' (first
    | with_reducible (first
      | exact Within_throw
      | (refine Within_pure ?_; first | omega | (dsimp only; omega) | (simp <;> omega))
      | (refine Within_SMpure ?_; first | omega | (dsimp only; omega) | (simp <;> omega))
      | (refine Within_peek_bind ?_ (fun hB t => ?_) <;>
          (first | exact absurd hB (by decide!) | beta_reduce))
      | (refine Within_next_bind ?_ (fun hB t => ?_) <;>
          (first | exact absurd hB (by decide!) | beta_reduce))
      | (refine Within_accept_bind (by decide!) (fun hB t => ?_) <;>
          (first | exact absurd hB (by decide!) | beta_reduce))
      | (refine Within_acceptString_bind ?_ (fun hB t => ?_) <;>
          (first | exact absurd hB (by decide!) | beta_reduce))
      | (refine Within_next_SMbind ?_ (fun hB t => ?_) <;>
          (first | exact absurd hB (by decide!) | beta_reduce))
      | (refine Within_peek_SMbind ?_ (fun hB t => ?_) <;>
          (first | exact absurd hB (by decide!) | beta_reduce))
      | (refine Within_attempt_accept_bind (by decide!) (fun _ => ?_) (fun hB t => ?_) <;>
          (first | exact absurd hB (by decide!) | beta_reduce))
      | exact Within_attempt (Within_accept (by decide!))
      | exact Within_top (Within_accept (by decide!))
      | exact Within_top Within_next
      | exact Within_peek
      | (refine Within_accept_SMbind (by decide!) (fun hB t => ?_) <;>
          (first | exact absurd hB (by decide!) | beta_reduce))
      | (refine Within_bind Within_get (fun _ => ?_); beta_reduce)
      | (refine Within_bind (Within_modify (fun _ => ⟨rfl, rfl⟩)) (fun _ => ?_); beta_reduce)
      | (refine Within_bind Within_peekTwo (fun _ => ?_); beta_reduce)
      | (refine Within_bind (ih_parseSelectColumns _ (by omega)) (fun _ => ?_); beta_reduce)
      | (refine Within_conseq (ih_parseSelectColumns _ (by omega)) (fun _ => ?_); first | omega | (dsimp only; omega) | (dsimp only; split <;> omega))
      | (refine Within_bind (ih_parseFrom _ (by omega)) (fun _ => ?_); beta_reduce)
      | (refine Within_conseq (ih_parseFrom _ (by omega)) (fun _ => ?_); first | omega | (dsimp only; omega) | (dsimp only; split <;> omega))
      | (refine Within_bind (ih_parseWhere _ (by omega)) (fun _ => ?_); beta_reduce)
      | (refine Within_conseq (ih_parseWhere _ (by omega)) (fun _ => ?_); first | omega | (dsimp only; omega) | (dsimp only; split <;> omega))
      | (refine Within_bind (ih_parseGroupBy _ (by omega)) (fun _ => ?_); beta_reduce)
      | (refine Within_conseq (ih_parseGroupBy _ (by omega)) (fun _ => ?_); first | omega | (dsimp only; omega) | (dsimp only; split <;> omega))
      | (refine Within_bind (ih_parseHaving _ (by omega)) (fun _ => ?_); beta_reduce)
      | (refine Within_conseq (ih_parseHaving _ (by omega)) (fun _ => ?_); first | omega | (dsimp only; omega) | (dsimp only; split <;> omega))
      | (refine Within_bind (Meets_parseOrderBy _ _ (by omega)) (fun _ => ?_); beta_reduce)
      | (refine Within_conseq (Meets_parseOrderBy _ _ (by omega)) (fun _ => ?_); first | omega | (dsimp only; omega) | (dsimp only; split <;> omega))
      | (refine Within_bind (Steps_parseLimit) (fun _ => ?_); beta_reduce)
      | (refine Within_conseq (Steps_parseLimit) (fun _ => ?_); first | omega | (dsimp only; omega) | (dsimp only; split <;> omega))
      | (refine Within_bind (ih_parseUnion _ (by omega)) (fun _ => ?_); beta_reduce)
      | (refine Within_conseq (ih_parseUnion _ (by omega)) (fun _ => ?_); first | omega | (dsimp only; omega) | (dsimp only; split <;> omega))
      | (refine Within_bind (Steps_parseForUpdate) (fun _ => ?_); beta_reduce)
      | (refine Within_conseq (Steps_parseForUpdate) (fun _ => ?_); first | omega | (dsimp only; omega) | (dsimp only; split <;> omega))
      | (refine Within_attempt_bind (q := fun _ => _) ?_ (fun _ => ?_) (fun _ => ?_) <;> beta_reduce)
      | (refine Within_bind_same ?_ (fun _ => ?_))
      | (refine Within_SMbind (q := fun _ => _) ?_ (fun _ => ?_)))
    | (split <;> (first | (rename_i h; exact absurd h (by decide!)) | skip))
    | dsimp only)

theorem Meets_parseUnion_step (n : Nat) (ih : ParsersAt n) :
    ∀ (B : Nat), 1 + 40 * B ≤ n + 1 → Within B (fun _ => B) (Parser.parseUnion (n + 1)) := by
  have ih_parseUnionLoop := ih.2.2.1
  clear ih
  intro B hn
  rw [Parser.parseUnion]
  repeat' (first
    | with_reducible (first
      | exact Within_throw
      | (refine Within_pure ?_; first | omega | (dsimp only; omega) | (simp <;> omega))
      | (refine Within_SMpure ?_; first | omega | (dsimp only; omega) | (simp <;> omega))
      | (refine Within_peek_bind ?_ (fun hB t => ?_) <;>
          (first | exact absurd hB (by decide!) | beta_reduce))
      | (refine Within_next_bind ?_ (fun hB t => ?_) <;>
          (first | exact absurd hB (by decide!) | beta_reduce))
      | (refine Within_accept_bind (by decide!) (fun hB t => ?_) <;>
          (first | exact absurd hB (by decide!) | beta_reduce))
      | (refine Within_acceptString_bind ?_ (fun hB t => ?_) <;>
          (first | exact absurd hB (by decide!) | beta_reduce))
      | (refine Within_next_SMbind ?_ (fun hB t => ?_) <;>
          (first | exact absurd hB (by decide!) | beta_reduce))
      | (refine Within_peek_SMbind ?_ (fun hB t => ?_) <;>
          (first | exact absurd hB (by decide!) | beta_reduce))
      | (refine Within_attempt_accept_bind (by decide!) (fun _ => ?_) (fun hB t => ?_) <;>
          (first | exact absurd hB (by decide!) | beta_reduce))
      | exact Within_attempt (Within_accept (by decide!))
      | exact Within_top (Within_accept (by decide!))
      | exact Within_top Within_next
      | exact Within_peek
      | (refine Within_accept_SMbind (by decide!) (fun hB t => ?_) <;>
          (first | exact absurd hB (by decide!) | beta_reduce))
      | (refine Within_bind Within_get (fun _ => ?_); beta_reduce)
      | (refine Within_bind (Within_modify (fun _ => ⟨rfl, rfl⟩)) (fun _ => ?_); beta_reduce)
      | (refine Within_bind Within_peekTwo (fun _ => ?_); beta_reduce)
      | (refine Within_bind (ih_parseUnionLoop _ _ (by omega)) (fun _ => ?_); beta_reduce)
      | (refine Within_conseq (ih_parseUnionLoop _ _ (by omega)) (fun _ => ?_); first | omega | (dsimp only; omega) | (dsimp only; split <;> omega))
      | (refine Within_attempt_bind (q := fun _ => _) ?_ (fun _ => ?_) (fun _ => ?_) <;> beta_reduce)
      | (refine Within_bind_same ?_ (fun _ => ?_))
      | (refine Within_SMbind (q := fun _ => _) ?_ (fun _ => ?_)))
    | (split <;> (first | (rename_i h; exact absurd h (by decide!)) | skip))
    | dsimp only)

theorem Meets_parseUnionLoop_step (n : Nat) (ih : ParsersAt n) :
    ∀ (queries : List SelectQuery) (B : Nat), 2 + 40 * B ≤ n + 1 → Within B (fun _ => B) (Parser.parseUnionLoop (n + 1) queries) := by
  have ih_parseSelect := ih.1
  have ih_parseUnionLoop := ih.2.2.1
  clear ih
  intro queries B hn
  rw [Parser.parseUnionLoop]
  repeat' (first
    | with_reducible (first
      | exact Within_throw
      | (refine Within_pure ?_; first | omega | (dsimp only; omega) | (simp <;> omega))
      | (refine Within_SMpure ?_; first | omega | (dsimp only; omega) | (simp <;> omega))
      | (refine Within_peek_bind ?_ (fun hB t => ?_) <;>
          (first | exact absurd hB (by decide!) | beta_reduce))
      | (refine Within_next_bind ?_ (fun hB t => ?_) <;>
          (first | exact absurd hB (by decide!) | beta_reduce))
      | (refine Within_accept_bind (by decide!) (fun hB t => ?_) <;>
          (first | exact absurd hB (by decide!) | beta_reduce))
      | (refine Within_acceptString_bind ?_ (fun hB t => ?_) <;>
          (first | exact absurd hB (by decide!) | beta_reduce))
      | (refine Within_next_SMbind ?_ (fun hB t => ?_) <;>
          (first | exact absurd hB (by decide!) | beta_reduce))
      | (refine Within_peek_SMbind ?_ (fun hB t => ?_) <;>
          (first | exact absurd hB (by decide!) | beta_reduce))
      | (refine Within_attempt_accept_bind (by decide!) (fun _ => ?_) (fun hB t => ?_) <;>
          (first | exact absurd hB (by decide!) | beta_reduce))
      | exact Within_attempt (Within_accept (by decide!))
      | exact Within_top (Within_accept (by decide!))
      | exact Within_top Within_next
      | exact Within_peek
      | (refine Within_accept_SMbind (by decide!) (fun hB t => ?_) <;>
          (first | exact absurd hB (by decide!) | beta_reduce))
      | (refine Within_bind Within_get (fun _ => ?_); beta_reduce)
      | (refine Within_bind (Within_modify (fun _ => ⟨rfl, rfl⟩)) (fun _ => ?_); beta_reduce)
      | (refine Within_bind Within_peekTwo (fun _ => ?_); beta_reduce)
      | (refine Within_bind (ih_parseSelect _ (by omega)) (fun _ => ?_); beta_reduce)
      | (refine Within_conseq (ih_parseSelect _ (by omega)) (fun _ => ?_); first | omega | (dsimp only; omega) | (dsimp only; split <;> omega))
      | (refine Within_bind (ih_parseUnionLoop _ _ (by omega)) (fun _ => ?_); beta_reduce)
      | (refine Within_conseq (ih_parseUnionLoop _ _ (by omega)) (fun _ => ?_); first | omega | (dsimp only; omega) | (dsimp only; split <;> omega))
      | (refine Within_attempt_bind (q := fun _ => _) ?_ (fun _ => ?_) (fun _ => ?_) <;> beta_reduce)
      | (refine Within_bind_same ?_ (fun _ => ?_))
      | (refine Within_SMbind (q := fun _ => _) ?_ (fun _ => ?_)))
    | (split <;> (first | (rename_i h; exact absurd h (by decide!)) | skip))
    | dsimp only)

theorem Meets_parseHaving_step (n : Nat) (ih : ParsersAt n) :
    ∀ (B : Nat), 1 + 40 * B ≤ n + 1 → Within B (fun _ => B) (Parser.parseHaving (n + 1)) := by
  have ih_parseHavingPart := ih.2.2.2.2.1
  clear ih
  intro B hn
  rw [Parser.parseHaving]
  repeat' (first
    | with_reducible (first
      | exact Within_throw
      | (refine Within_pure ?_; first | omega | (dsimp only; omega) | (simp <;> omega))
      | (refine Within_SMpure ?_; first | omega | (dsimp only; omega) | (simp <;> omega))
      | (refine Within_peek_bind ?_ (fun hB t => ?_) <;>
          (first | exact absurd hB (by decide!) | beta_reduce))
      | (refine Within_next_bind ?_ (fun hB t => ?_) <;>
          (first | exact absurd hB (by decide!) | beta_reduce))
      | (refine Within_accept_bind (by decide!) (fun hB t => ?_) <;>
          (first | exact absurd hB (by decide!) | beta_reduce))
      | (refine Within_acceptString_bind ?_ (fun hB t => ?_) <;>
          (first | exact absurd hB (by decide!) | beta_reduce))
      | (refine Within_next_SMbind ?_ (fun hB t => ?_) <;>
          (first | exact absurd hB (by decide!) | beta_reduce))
      | (refine Within_peek_SMbind ?_ (fun hB t => ?_) <;>
          (first | exact absurd hB (by decide!) | beta_reduce))
      | (refine Within_attempt_accept_bind (by decide!) (fun _ => ?_) (fun hB t => ?_) <;>
          (first | exact absurd hB (by decide!) | beta_reduce))
      | exact Within_attempt (Within_accept (by decide!))
      | exact Within_top (Within_accept (by decide!))
      | exact Within_top Within_next
      | exact Within_peek
      | (refine Within_accept_SMbind (by decide!) (fun hB t => ?_) <;>
          (first | exact absurd hB (by decide!) | beta_reduce))
      | (refine Within_bind Within_get (fun _ => ?_); beta_reduce)
      | (refine Within_bind (Within_modify (fun _ => ⟨rfl, rfl⟩)) (fun _ => ?_); beta_reduce)
      | (refine Within_bind Within_peekTwo (fun _ => ?_); beta_reduce)
      | (refine Within_bind (ih_parseHavingPart _ (by omega)) (fun _ => ?_); beta_reduce)
      | (refine Within_conseq (ih_parseHavingPart _ (by omega)) (fun _ => ?_); first | omega | (dsimp only; omega) | (dsimp only; split <;> omega))
      | (refine Within_attempt_bind (q := fun _ => _) ?_ (fun _ => ?_) (fun _ => ?_) <;> beta_reduce)
      | (refine Within_bind_same ?_ (fun _ => ?_))
      | (refine Within_SMbind (q := fun _ => _) ?_ (fun _ => ?_)))
    | (split <;> (first | (rename_i h; exact absurd h (by decide!)) | skip))
    | dsimp only)

theorem Meets_parseHavingPart_step (n : Nat) (ih : ParsersAt n) :
    ∀ (B : Nat), 12 + 40 * B ≤ n + 1 → Within B (fun _ => B) (Parser.parseHavingPart (n + 1)) := by
  have ih_parseBooleanExpr := ih.2.2.2.2.2.2.2.2.2.2.2.2.2.2.2.1
  clear ih
  intro B hn
  rw [Parser.parseHavingPart]
  repeat' (first
    | with_reducible (first
      | exact Within_throw
      | (refine Within_pure ?_; first | omega | (dsimp only; omega) | (simp <;> omega))
      | (refine Within_SMpure ?_; first | omega | (dsimp only; omega) | (simp <;> omega))
      | (refine Within_peek_bind ?_ (fun hB t => ?_) <;>
          (first | exact absurd hB (by decide!) | beta_reduce))
      | (refine Within_next_bind ?_ (fun hB t => ?_) <;>
          (first | exact absurd hB (by decide!) | beta_reduce))
      | (refine Within_accept_bind (by decide!) (fun hB t => ?_) <;>
          (first | exact absurd hB (by decide!) | beta_reduce))
      | (refine Within_acceptString_bind ?_ (fun hB t => ?_) <;>
          (first | exact absurd hB (by decide!) | beta_reduce))
      | (refine Within_next_SMbind ?_ (fun hB t => ?_) <;>
          (first | exact absurd hB (by decide!) | beta_reduce))
      | (refine Within_peek_SMbind ?_ (fun hB t => ?_) <;>
          (first | exact absurd hB (by decide!) | beta_reduce))
      | (refine Within_attempt_accept_bind (by decide!) (fun _ => ?_) (fun hB t => ?_) <;>
          (first | exact absurd hB (by decide!) | beta_reduce))
      | exact Within_attempt (Within_accept (by decide!))
      | exact Within_top (Within_accept (by decide!))
      | exact Within_top Within_next
      | exact Within_peek
      | (refine Within_accept_SMbind (by decide!) (fun hB t => ?_) <;>
          (first | exact absurd hB (by decide!) | beta_reduce))
      | (refine Within_bind Within_get (fun _ => ?_); beta_reduce)
      | (refine Within_bind (Within_modify (fun _ => ⟨rfl, rfl⟩)) (fun _ => ?_); beta_reduce)
      | (refine Within_bind Within_peekTwo (fun _ => ?_); beta_reduce)
      | (refine Within_bind (ih_parseBooleanExpr _ (by omega)) (fun _ => ?_); beta_reduce)
      | (refine Within_conseq (ih_parseBooleanExpr _ (by omega)) (fun _ => ?_); first | omega | (dsimp only; omega) | (dsimp only; split <;> omega))
      | (refine Within_attempt_bind (q := fun _ => _) ?_ (fun _ => ?_) (fun _ => ?_) <;> beta_reduce)
      | (refine Within_bind_same ?_ (fun _ => ?_))
      | (refine Within_SMbind (q := fun _ => _) ?_ (fun _ => ?_)))
    | (split <;> (first | (rename_i h; exact absurd h (by decide!)) | skip))
    | dsimp only)

theorem Meets_parseGroupBy_step (n : Nat) (ih : ParsersAt n) :
    ∀ (B : Nat), 1 + 40 * B ≤ n + 1 → Within B (fun _ => B) (Parser.parseGroupBy (n + 1)) := by
  have ih_parseGroupByLoop := ih.2.2.2.2.2.2.1
  clear ih
  intro B hn
  rw [Parser.parseGroupBy]
  repeat' (first
    | with_reducible (first
      | exact Within_throw
      | (refine Within_pure ?_; first | omega | (dsimp only; omega) | (simp <;> omega))
      | (refine Within_SMpure ?_; first | omega | (dsimp only; omega) | (simp <;> omega))
      | (refine Within_peek_bind ?_ (fun hB t => ?_) <;>
          (first | exact absurd hB (by decide!) | beta_reduce))
      | (refine Within_next_bind ?_ (fun hB t => ?_) <;>
          (first | exact absurd hB (by decide!) | beta_reduce))
      | (refine Within_accept_bind (by decide!) (fun hB t => ?_) <;>
          (first | exact absurd hB (by decide!) | beta_reduce))
      | (refine Within_acceptString_bind ?_ (fun hB t => ?_) <;>
          (first | exact absurd hB (by decide!) | beta_reduce))
      | (refine Within_next_SMbind ?_ (fun hB t => ?_) <;>
          (first | exact absurd hB (by decide!) | beta_reduce))
      | (refine Within_peek_SMbind ?_ (fun hB t => ?_) <;>
          (first | exact absurd hB (by decide!) | beta_reduce))
      | (refine Within_attempt_accept_bind (by decide!) (fun _ => ?_) (fun hB t => ?_) <;>
          (first | exact absurd hB (by decide!) | beta_reduce))
      | exact Within_attempt (Within_accept (by decide!))
      | exact Within_top (Within_accept (by decide!))
      | exact Within_top Within_next
      | exact Within_peek
      | (refine Within_accept_SMbind (by decide!) (fun hB t => ?_) <;>
          (first | exact absurd hB (by decide!) | beta_reduce))
      | (refine Within_bind Within_get (fun _ => ?_); beta_reduce)
      | (refine Within_bind (Within_modify (fun _ => ⟨rfl, rfl⟩)) (fun _ => ?_); beta_reduce)
      | (refine Within_bind Within_peekTwo (fun _ => ?_); beta_reduce)
      | (refine Within_bind (ih_parseGroupByLoop _ _ (by omega)) (fun _ => ?_); beta_reduce)
      | (refine Within_conseq (ih_parseGroupByLoop _ _ (by omega)) (fun _ => ?_); first | omega | (dsimp only; omega) | (dsimp only; split <;> omega))
      | (refine Within_attempt_bind (q := fun _ => _) ?_ (fun _ => ?_) (fun _ => ?_) <;> beta_reduce)
      | (refine Within_bind_same ?_ (fun _ => ?_))
      | (refine Within_SMbind (q := fun _ => _) ?_ (fun _ => ?_)))
    | (split <;> (first | (rename_i h; exact absurd h (by decide!)) | skip))
    | dsimp only)

theorem Meets_parseGroupByLoop_step (n : Nat) (ih : ParsersAt n) :
    ∀ (columns : List Expr) (B : Nat), 13 + 40 * B ≤ n + 1 → Within B (fun _ => B) (Parser.parseGroupByLoop (n + 1) columns) := by
  have ih_parseSelectColumnExpr := ih.2.2.2.2.2.2.2.2.2.2.1
  have ih_parseGroupByLoop := ih.2.2.2.2.2.2.1
  clear ih
  intro columns B hn
  rw [Parser.parseGroupByLoop]
  repeat' (first
    | with_reducible (first
      | exact Within_throw
      | (refine Within_pure ?_; first | omega | (dsimp only; omega) | (simp <;> omega))
      | (refine Within_SMpure ?_; first | omega | (dsimp only; omega) | (simp <;> omega))
      | (refine Within_peek_bind ?_ (fun hB t => ?_) <;>
          (first | exact absurd hB (by decide!) | beta_reduce))
      | (refine Within_next_bind ?_ (fun hB t => ?_) <;>
          (first | exact absurd hB (by decide!) | beta_reduce))
      | (refine Within_accept_bind (by decide!) (fun hB t => ?_) <;>
          (first | exact absurd hB (by decide!) | beta_reduce))
      | (refine Within_acceptString_bind ?_ (fun hB t => ?_) <;>
          (first | exact absurd hB (by decide!) | beta_reduce))
      | (refine Within_next_SMbind ?_ (fun hB t => ?_) <;>
          (first | exact absurd hB (by decide!) | beta_reduce))
      | (refine Within_peek_SMbind ?_ (fun hB t => ?_) <;>
          (first | exact absurd hB (by decide!) | beta_reduce))
      | (refine Within_attempt_accept_bind (by decide!) (fun _ => ?_) (fun hB t => ?_) <;>
          (first | exact absurd hB (by decide!) | beta_reduce))
      | exact Within_attempt (Within_accept (by decide!))
      | exact Within_top (Within_accept (by decide!))
      | exact Within_top Within_next
      | exact Within_peek
      | (refine Within_accept_SMbind (by decide!) (fun hB t => ?_) <;>
          (first | exact absurd hB (by decide!) | beta_reduce))
      | (refine Within_bind Within_get (fun _ => ?_); beta_reduce)
      | (refine Within_bind (Within_modify (fun _ => ⟨rfl, rfl⟩)) (fun _ => ?_); beta_reduce)
      | (refine Within_bind Within_peekTwo (fun _ => ?_); beta_reduce)
      | (refine Within_bind (ih_parseSelectColumnExpr _ (by omega)) (fun _ => ?_); beta_reduce)
      | (refine Within_conseq (ih_parseSelectColumnExpr _ (by omega)) (fun _ => ?_); first | omega | (dsimp only; omega) | (dsimp only; split <;> omega))
      | (refine Within_bind (ih_parseGroupByLoop _ _ (by omega)) (fun _ => ?_); beta_reduce)
      | (refine Within_conseq (ih_parseGroupByLoop _ _ (by omega)) (fun _ => ?_); first | omega | (dsimp only; omega) | (dsimp only; split <;> omega))
      | (refine Within_attempt_bind (q := fun _ => _) ?_ (fun _ => ?_) (fun _ => ?_) <;> beta_reduce)
      | (refine Within_bind_same ?_ (fun _ => ?_))
      | (refine Within_SMbind (q := fun _ => _) ?_ (fun _ => ?_)))
    | (split <;> (first | (rename_i h; exact absurd h (by decide!)) | skip))
    | dsimp only)

theorem Meets_parseWhere_step (n : Nat) (ih : ParsersAt n) :
    ∀ (B : Nat), 1 + 40 * B ≤ n + 1 → Within B (fun _ => B) (Parser.parseWhere (n + 1)) := by
  have ih_parseBooleanExpr := ih.2.2.2.2.2.2.2.2.2.2.2.2.2.2.2.1
  clear ih
  intro B hn
  rw [Parser.parseWhere]
  repeat' (first
    | with_reducible (first
      | exact Within_throw
      | (refine Within_pure ?_; first | omega | (dsimp only; omega) | (simp <;> omega))
      | (refine Within_SMpure ?_; first | omega | (dsimp only; omega) | (simp <;> omega))
      | (refine Within_peek_bind ?_ (fun hB t => ?_) <;>
          (first | exact absurd hB (by decide!) | beta_reduce))
      | (refine Within_next_bind ?_ (fun hB t => ?_) <;>
          (first | exact absurd hB (by decide!) | beta_reduce))
      | (refine Within_accept_bind (by decide!) (fun hB t => ?_) <;>
          (first | exact absurd hB (by decide!) | beta_reduce))
      | (refine Within_acceptString_bind ?_ (fun hB t => ?_) <;>
          (first | exact absurd hB (by decide!) | beta_reduce))
      | (refine Within_next_SMbind ?_ (fun hB t => ?_) <;>
          (first | exact absurd hB (by decide!) | beta_reduce))
      | (refine Within_peek_SMbind ?_ (fun hB t => ?_) <;>
          (first | exact absurd hB (by decide!) | beta_reduce))
      | (refine Within_attempt_accept_bind (by decide!) (fun _ => ?_) (fun hB t => ?_) <;>
          (first | exact absurd hB (by decide!) | beta_reduce))
      | exact Within_attempt (Within_accept (by decide!))
      | exact Within_top (Within_accept (by decide!))
      | exact Within_top Within_next
      | exact Within_peek
      | (refine Within_accept_SMbind (by decide!) (fun hB t => ?_) <;>
          (first | exact absurd hB (by decide!) | beta_reduce))
      | (refine Within_bind Within_get (fun _ => ?_); beta_reduce)
      | (refine Within_bind (Within_modify (fun _ => ⟨rfl, rfl⟩)) (fun _ => ?_); beta_reduce)
      | (refine Within_bind Within_peekTwo (fun _ => ?_); beta_reduce)
      | (refine Within_bind (ih_parseBooleanExpr _ (by omega)) (fun _ => ?_); beta_reduce)
      | (refine Within_conseq (ih_parseBooleanExpr _ (by omega)) (fun _ => ?_); first | omega | (dsimp only; omega) | (dsimp only; split <;> omega))
      | (refine Within_attempt_bind (q := fun _ => _) ?_ (fun _ => ?_) (fun _ => ?_) <;> beta_reduce)
      | (refine Within_bind_same ?_ (fun _ => ?_))
      | (refine Within_SMbind (q := fun _ => _) ?_ (fun _ => ?_)))
    | (split <;> (first | (rename_i h; exact absurd h (by decide!)) | skip))
    | dsimp only)

theorem Meets_parseSelectColumns_step (n : Nat) (ih : ParsersAt n) :
    ∀ (B : Nat), 14 + 40 * B ≤ n + 1 → Within B (fun _ => B) (Parser.parseSelectColumns (n + 1)) := by
  have ih_parseSelectColumnsLoop := ih.2.2.2.2.2.2.2.2.2.1
  clear ih
  intro B hn
  rw [Parser.parseSelectColumns]
  repeat' (first
    | with_reducible (first
      | exact Within_throw
      | (refine Within_pure ?_; first | omega | (dsimp only; omega) | (simp <;> omega))
      | (refine Within_SMpure ?_; first | omega | (dsimp only; omega) | (simp <;> omega))
      | (refine Within_peek_bind ?_ (fun hB t => ?_) <;>
          (first | exact absurd hB (by decide!) | beta_reduce))
      | (refine Within_next_bind ?_ (fun hB t => ?_) <;>
          (first | exact absurd hB (by decide!) | beta_reduce))
      | (refine Within_accept_bind (by decide!) (fun hB t => ?_) <;>
          (first | exact absurd hB (by decide!) | beta_reduce))
      | (refine Within_acceptString_bind ?_ (fun hB t => ?_) <;>
          (first | exact absurd hB (by decide!) | beta_reduce))
      | (refine Within_next_SMbind ?_ (fun hB t => ?_) <;>
          (first | exact absurd hB (by decide!) | beta_reduce))
      | (refine Within_peek_SMbind ?_ (fun hB t => ?_) <;>
          (first | exact absurd hB (by decide!) | beta_reduce))
      | (refine Within_attempt_accept_bind (by decide!) (fun _ => ?_) (fun hB t => ?_) <;>
          (first | exact absurd hB (by decide!) | beta_reduce))
      | exact Within_attempt (Within_accept (by decide!))
      | exact Within_top (Within_accept (by decide!))
      | exact Within_top Within_next
      | exact Within_peek
      | (refine Within_accept_SMbind (by decide!) (fun hB t => ?_) <;>
          (first | exact absurd hB (by decide!) | beta_reduce))
      | (refine Within_bind Within_get (fun _ => ?_); beta_reduce)
      | (refine Within_bind (Within_modify (fun _ => ⟨rfl, rfl⟩)) (fun _ => ?_); beta_reduce)
      | (refine Within_bind Within_peekTwo (fun _ => ?_); beta_reduce)
      | (refine Within_bind (ih_parseSelectColumnsLoop _ _ (by omega)) (fun _ => ?_); beta_reduce)
      | (refine Within_conseq (ih_parseSelectColumnsLoop _ _ (by omega)) (fun _ => ?_); first | omega | (dsimp only; omega) | (dsimp only; split <;> omega))
      | (refine Within_attempt_bind (q := fun _ => _) ?_ (fun _ => ?_) (fun _ => ?_) <;> beta_reduce)
      | (refine Within_bind_same ?_ (fun _ => ?_))
      | (refine Within_SMbind (q := fun _ => _) ?_ (fun _ => ?_)))
    | (split <;> (first | (rename_i h; exact absurd h (by decide!)) | skip))
    | dsimp only)

theorem Meets_parseSelectColumnsLoop_step (n : Nat) (ih : ParsersAt n) :
    ∀ (columns : List Expr) (B : Nat), 13 + 40 * B ≤ n + 1 → Within B (fun _ => B) (Parser.parseSelectColumnsLoop (n + 1) columns) := by
  have ih_parseSelectColumnExpr := ih.2.2.2.2.2.2.2.2.2.2.1
  have ih_parseSelectColumnsLoop := ih.2.2.2.2.2.2.2.2.2.1
  clear ih
  intro columns B hn
  rw [Parser.parseSelectColumnsLoop]
  repeat' (first
    | with_reducible (first
      | exact Within_throw
      | (refine Within_pure ?_; first | omega | (dsimp only; omega) | (simp <;> omega))
      | (refine Within_SMpure ?_; first | omega | (dsimp only; omega) | (simp <;> omega))
      | (refine Within_peek_bind ?_ (fun hB t => ?_) <;>
          (first | exact absurd hB (by decide!) | beta_reduce))
      | (refine Within_next_bind ?_ (fun hB t => ?_) <;>
          (first | exact absurd hB (by decide!) | beta_reduce))
      | (refine Within_accept_bind (by decide!) (fun hB t => ?_) <;>
          (first | exact absurd hB (by decide!) | beta_reduce))
      | (refine Within_acceptString_bind ?_ (fun hB t => ?_) <;>
          (first | exact absurd hB (by decide!) | beta_reduce))
      | (refine Within_next_SMbind ?_ (fun hB t => ?_) <;>
          (first | exact absurd hB (by decide!) | beta_reduce))
      | (refine Within_peek_SMbind ?_ (fun hB t => ?_) <;>
          (first | exact absurd hB (by decide!) | beta_reduce))
      | (refine Within_attempt_accept_bind (by decide!) (fun _ => ?_) (fun hB t => ?_) <;>
          (first | exact absurd hB (by decide!) | beta_reduce))
      | exact Within_attempt (Within_accept (by decide!))
      | exact Within_top (Within_accept (by decide!))
      | exact Within_top Within_next
      | exact Within_peek
      | (refine Within_accept_SMbind (by decide!) (fun hB t => ?_) <;>
          (first | exact absurd hB (by decide!) | beta_reduce))
      | (refine Within_bind Within_get (fun _ => ?_); beta_reduce)
      | (refine Within_bind (Within_modify (fun _ => ⟨rfl, rfl⟩)) (fun _ => ?_); beta_reduce)
      | (refine Within_bind Within_peekTwo (fun _ => ?_); beta_reduce)
      | (refine Within_bind (ih_parseSelectColumnExpr _ (by omega)) (fun _ => ?_); beta_reduce)
      | (refine Within_conseq (ih_parseSelectColumnExpr _ (by omega)) (fun _ => ?_); first | omega | (dsimp only; omega) | (dsimp only; split <;> omega))
      | (refine Within_bind (ih_parseSelectColumnsLoop _ _ (by omega)) (fun _ => ?_); beta_reduce)
      | (refine Within_conseq (ih_parseSelectColumnsLoop _ _ (by omega)) (fun _ => ?_); first | omega | (dsimp only; omega) | (dsimp only; split <;> omega))
      | (refine Within_attempt_bind (q := fun _ => _) ?_ (fun _ => ?_) (fun _ => ?_) <;> beta_reduce)
      | (refine Within_bind_same ?_ (fun _ => ?_))
      | (refine Within_SMbind (q := fun _ => _) ?_ (fun _ => ?_)))
    | (split <;> (first | (rename_i h; exact absurd h (by decide!)) | skip))
    | dsimp only)

theorem Meets_parseSelectColumnExpr_step (n : Nat) (ih : ParsersAt n) :
    ∀ (B : Nat), 12 + 40 * B ≤ n + 1 → Within B (fun _ => B) (Parser.parseSelectColumnExpr (n + 1)) := by
  have ih_parseBooleanExpr := ih.2.2.2.2.2.2.2.2.2.2.2.2.2.2.2.1
  clear ih
  intro B hn
  rw [Parser.parseSelectColumnExpr]
  repeat' (first
    | with_reducible (first
      | exact Within_throw
      | (refine Within_pure ?_; first | omega | (dsimp only; omega) | (simp <;> omega))
      | (refine Within_SMpure ?_; first | omega | (dsimp only; omega) | (simp <;> omega))
      | (refine Within_peek_bind ?_ (fun hB t => ?_) <;>
          (first | exact absurd hB (by decide!) | beta_reduce))
      | (refine Within_next_bind ?_ (fun hB t => ?_) <;>
          (first | exact absurd hB (by decide!) | beta_reduce))
      | (refine Within_accept_bind (by decide!) (fun hB t => ?_) <;>
          (first | exact absurd hB (by decide!) | beta_reduce))
      | (refine Within_acceptString_bind ?_ (fun hB t => ?_) <;>
          (first | exact absurd hB (by decide!) | beta_reduce))
      | (refine Within_next_SMbind ?_ (fun hB t => ?_) <;>
          (first | exact absurd hB (by decide!) | beta_reduce))
      | (refine Within_peek_SMbind ?_ (fun hB t => ?_) <;>
          (first | exact absurd hB (by decide!) | beta_reduce))
      | (refine Within_attempt_accept_bind (by decide!) (fun _ => ?_) (fun hB t => ?_) <;>
          (first | exact absurd hB (by decide!) | beta_reduce))
      | exact Within_attempt (Within_accept (by decide!))
      | exact Within_top (Within_accept (by decide!))
      | exact Within_top Within_next
      | exact Within_peek
      | (refine Within_accept_SMbind (by decide!) (fun hB t => ?_) <;>
          (first | exact absurd hB (by decide!) | beta_reduce))
      | (refine Within_bind Within_get (fun _ => ?_); beta_reduce)
      | (refine Within_bind (Within_modify (fun _ => ⟨rfl, rfl⟩)) (fun _ => ?_); beta_reduce)
      | (refine Within_bind Within_peekTwo (fun _ => ?_); beta_reduce)
      | (refine Within_bind (ih_parseBooleanExpr _ (by omega)) (fun _ => ?_); beta_reduce)
      | (refine Within_conseq (ih_parseBooleanExpr _ (by omega)) (fun _ => ?_); first | omega | (dsimp only; omega) | (dsimp only; split <;> omega))
      | (refine Within_bind (Steps_parseAlias) (fun _ => ?_); beta_reduce)
      | (refine Within_conseq (Steps_parseAlias) (fun _ => ?_); first | omega | (dsimp only; omega) | (dsimp only; split <;> omega))
      | (refine Within_attempt_bind (q := fun _ => _) ?_ (fun _ => ?_) (fun _ => ?_) <;> beta_reduce)
      | (refine Within_bind_same ?_ (fun _ => ?_))
      | (refine Within_SMbind (q := fun _ => _) ?_ (fun _ => ?_)))
    | (split <;> (first | (rename_i h; exact absurd h (by decide!)) | skip))
    | dsimp only)

theorem Meets_parseFrom_step (n : Nat) (ih : ParsersAt n) :
    ∀ (B : Nat), 1 + 40 * B ≤ n + 1 → Within B (fun _ => B) (Parser.parseFrom (n + 1)) := by
  have ih_parseFromLoop := ih.2.2.2.2.2.2.2.2.2.2.2.2.1
  clear ih
  intro B hn
  rw [Parser.parseFrom]
  repeat' (first
    | with_reducible (first
      | exact Within_throw
      | (refine Within_pure ?_; first | omega | (dsimp only; omega) | (simp <;> omega))
      | (refine Within_SMpure ?_; first | omega | (dsimp only; omega) | (simp <;> omega))
      | (refine Within_peek_bind ?_ (fun hB t => ?_) <;>
          (first | exact absurd hB (by decide!) | beta_reduce))
      | (refine Within_next_bind ?_ (fun hB t => ?_) <;>
          (first | exact absurd hB (by decide!) | beta_reduce))
      | (refine Within_accept_bind (by decide!) (fun hB t => ?_) <;>
          (first | exact absurd hB (by decide!) | beta_reduce))
      | (refine Within_acceptString_bind ?_ (fun hB t => ?_) <;>
          (first | exact absurd hB (by decide!) | beta_reduce))
      | (refine Within_next_SMbind ?_ (fun hB t => ?_) <;>
          (first | exact absurd hB (by decide!) | beta_reduce))
      | (refine Within_peek_SMbind ?_ (fun hB t => ?_) <;>
          (first | exact absurd hB (by decide!) | beta_reduce))
      | (refine Within_attempt_accept_bind (by decide!) (fun _ => ?_) (fun hB t => ?_) <;>
          (first | exact absurd hB (by decide!) | beta_reduce))
      | exact Within_attempt (Within_accept (by decide!))
      | exact Within_top (Within_accept (by decide!))
      | exact Within_top Within_next
      | exact Within_peek
      | (refine Within_accept_SMbind (by decide!) (fun hB t => ?_) <;>
          (first | exact absurd hB (by decide!) | beta_reduce))
      | (refine Within_bind Within_get (fun _ => ?_); beta_reduce)
      | (refine Within_bind (Within_modify (fun _ => ⟨rfl, rfl⟩)) (fun _ => ?_); beta_reduce)
      | (refine Within_bind Within_peekTwo (fun _ => ?_); beta_reduce)
      | (refine Within_bind (ih_parseFromLoop _ _ (by omega)) (fun _ => ?_); beta_reduce)
      | (refine Within_conseq (ih_parseFromLoop _ _ (by omega)) (fun _ => ?_); first | omega | (dsimp only; omega) | (dsimp only; split <;> omega))
      | (refine Within_attempt_bind (q := fun _ => _) ?_ (fun _ => ?_) (fun _ => ?_) <;> beta_reduce)
      | (refine Within_bind_same ?_ (fun _ => ?_))
      | (refine Within_SMbind (q := fun _ => _) ?_ (fun _ => ?_)))
    | (split <;> (first | (rename_i h; exact absurd h (by decide!)) | skip))
    | dsimp only)

theorem Meets_parseFromLoop_step (n : Nat) (ih : ParsersAt n) :
    ∀ (froms : List SqlFrom) (B : Nat), 3 + 40 * B ≤ n + 1 → Within B (fun _ => B) (Parser.parseFromLoop (n + 1) froms) := by
  have ih_parseParenExpr := ih.2.2.2.2.2.2.2.2.2.2.2.2.2.2.2.2.2.2.2.2.2.2.2.2.2.2.2.2.2.2.1
  have ih_parseFromTable := ih.2.2.2.2.2.2.2.2.2.2.2.2.2.1
  have ih_parseFromLoop := ih.2.2.2.2.2.2.2.2.2.2.2.2.1
  clear ih
  intro froms B hn
  rw [Parser.parseFromLoop]
  repeat' (first
    | with_reducible (first
      | exact Within_throw
      | (refine Within_pure ?_; first | omega | (dsimp only; omega) | (simp <;> omega))
      | (refine Within_SMpure ?_; first | omega | (dsimp only; omega) | (simp <;> omega))
      | (refine Within_peek_bind ?_ (fun hB t => ?_) <;>
          (first | exact absurd hB (by decide!) | beta_reduce))
      | (refine Within_next_bind ?_ (fun hB t => ?_) <;>
          (first | exact absurd hB (by decide!) | beta_reduce))
      | (refine Within_accept_bind (by decide!) (fun hB t => ?_) <;>
          (first | exact absurd hB (by decide!) | beta_reduce))
      | (refine Within_acceptString_bind ?_ (fun hB t => ?_) <;>
          (first | exact absurd hB (by decide!) | beta_reduce))
      | (refine Within_next_SMbind ?_ (fun hB t => ?_) <;>
          (first | exact absurd hB (by decide!) | beta_reduce))
      | (refine Within_peek_SMbind ?_ (fun hB t => ?_) <;>
          (first | exact absurd hB (by decide!) | beta_reduce))
      | (refine Within_attempt_accept_bind (by decide!) (fun _ => ?_) (fun hB t => ?_) <;>
          (first | exact absurd hB (by decide!) | beta_reduce))
      | exact Within_attempt (Within_accept (by decide!))
      | exact Within_top (Within_accept (by decide!))
      | exact Within_top Within_next
      | exact Within_peek
      | (refine Within_accept_SMbind (by decide!) (fun hB t => ?_) <;>
          (first | exact absurd hB (by decide!) | beta_reduce))
      | (refine Within_bind Within_get (fun _ => ?_); beta_reduce)
      | (refine Within_bind (Within_modify (fun _ => ⟨rfl, rfl⟩)) (fun _ => ?_); beta_reduce)
      | (refine Within_bind Within_peekTwo (fun _ => ?_); beta_reduce)
      | (refine Within_bind (ih_parseParenExpr _ (by omega)) (fun _ => ?_); beta_reduce)
      | (refine Within_conseq (ih_parseParenExpr _ (by omega)) (fun _ => ?_); first | omega | (dsimp only; omega) | (dsimp only; split <;> omega))
      | (refine Within_bind (Steps_parseAlias) (fun _ => ?_); beta_reduce)
      | (refine Within_conseq (Steps_parseAlias) (fun _ => ?_); first | omega | (dsimp only; omega) | (dsimp only; split <;> omega))
      | (refine Within_bind (ih_parseFromTable _ _ (by omega)) (fun _ => ?_); beta_reduce)
      | (refine Within_conseq (ih_parseFromTable _ _ (by omega)) (fun _ => ?_); first | omega | (dsimp only; omega) | (dsimp only; split <;> omega))
      | (refine Within_bind (ih_parseFromLoop _ _ (by omega)) (fun _ => ?_); beta_reduce)
      | (refine Within_conseq (ih_parseFromLoop _ _ (by omega)) (fun _ => ?_); first | omega | (dsimp only; omega) | (dsimp only; split <;> omega))
      | (refine Within_attempt_bind (q := fun _ => _) ?_ (fun _ => ?_) (fun _ => ?_) <;> beta_reduce)
      | (refine Within_bind_same ?_ (fun _ => ?_))
      | (refine Within_SMbind (q := fun _ => _) ?_ (fun _ => ?_)))
    | (split <;> (first | (rename_i h; exact absurd h (by decide!)) | skip))
    | dsimp only)

theorem Meets_parseFromTable_step (n : Nat) (ih : ParsersAt n) :
    ∀ (t : Token) (B : Nat), 2 + 40 * B ≤ n + 1 → Within B (fun _ => B) (Parser.parseFromTable (n + 1) t) := by
  have ih_parseJoins := ih.2.2.2.2.2.2.2.2.2.2.2.2.2.2.1
  clear ih
  intro t B hn
  rw [Parser.parseFromTable]
  repeat' (first
    | with_reducible (first
      | exact Within_throw
      | (refine Within_pure ?_; first | omega | (dsimp only; omega) | (simp <;> omega))
      | (refine Within_SMpure ?_; first | omega | (dsimp only; omega) | (simp <;> omega))
      | (refine Within_peek_bind ?_ (fun hB t => ?_) <;>
          (first | exact absurd hB (by decide!) | beta_reduce))
      | (refine Within_next_bind ?_ (fun hB t => ?_) <;>
          (first | exact absurd hB (by decide!) | beta_reduce))
      | (refine Within_accept_bind (by decide!) (fun hB t => ?_) <;>
          (first | exact absurd hB (by decide!) | beta_reduce))
      | (refine Within_acceptString_bind ?_ (fun hB t => ?_) <;>
          (first | exact absurd hB (by decide!) | beta_reduce))
      | (refine Within_next_SMbind ?_ (fun hB t => ?_) <;>
          (first | exact absurd hB (by decide!) | beta_reduce))
      | (refine Within_peek_SMbind ?_ (fun hB t => ?_) <;>
          (first | exact absurd hB (by decide!) | beta_reduce))
      | (refine Within_attempt_accept_bind (by decide!) (fun _ => ?_) (fun hB t => ?_) <;>
          (first | exact absurd hB (by decide!) | beta_reduce))
      | exact Within_attempt (Within_accept (by decide!))
      | exact Within_top (Within_accept (by decide!))
      | exact Within_top Within_next
      | exact Within_peek
      | (refine Within_accept_SMbind (by decide!) (fun hB t => ?_) <;>
          (first | exact absurd hB (by decide!) | beta_reduce))
      | (refine Within_bind Within_get (fun _ => ?_); beta_reduce)
      | (refine Within_bind (Within_modify (fun _ => ⟨rfl, rfl⟩)) (fun _ => ?_); beta_reduce)
      | (refine Within_bind Within_peekTwo (fun _ => ?_); beta_reduce)
      | (refine Within_bind (Meets_parseSelectorIdent _ _ (by omega)) (fun _ => ?_); beta_reduce)
      | (refine Within_conseq (Meets_parseSelectorIdent _ _ (by omega)) (fun _ => ?_); first | omega | (dsimp only; omega) | (dsimp only; split <;> omega))
      | (refine Within_bind (Steps_parseAlias) (fun _ => ?_); beta_reduce)
      | (refine Within_conseq (Steps_parseAlias) (fun _ => ?_); first | omega | (dsimp only; omega) | (dsimp only; split <;> omega))
      | (refine Within_bind (ih_parseJoins _ _ (by omega)) (fun _ => ?_); beta_reduce)
      | (refine Within_conseq (ih_parseJoins _ _ (by omega)) (fun _ => ?_); first | omega | (dsimp only; omega) | (dsimp only; split <;> omega))
      | (refine Within_attempt_bind (q := fun _ => _) ?_ (fun _ => ?_) (fun _ => ?_) <;> beta_reduce)
      | (refine Within_bind_same ?_ (fun _ => ?_))
      | (refine Within_SMbind (q := fun _ => _) ?_ (fun _ => ?_)))
    | (split <;> (first | (rename_i h; exact absurd h (by decide!)) | skip))
    | dsimp only)

theorem Meets_parseJoins_step (n : Nat) (ih : ParsersAt n) :
    ∀ (joins : List Join) (B : Nat), 1 + 40 * B ≤ n + 1 → Within B (fun _ => B) (Parser.parseJoins (n + 1) joins) := by
  have ih_parseBooleanExpr := ih.2.2.2.2.2.2.2.2.2.2.2.2.2.2.2.1
  have ih_parseJoins := ih.2.2.2.2.2.2.2.2.2.2.2.2.2.2.1
  clear ih
  intro joins B hn
  rw [Parser.parseJoins]
  refine Within_peek_bind ?_ (fun hB t => ?_)
  · exact Within_pure (a := joins) (Nat.zero_le _)
  · beta_reduce
    refine Within_bind (q := fun tp => if tp.isSome = true then B - 1 else B) ?_ (fun tp => ?_)
    · skip
      repeat' (first
        | with_reducible (first
          | exact Within_throw
          | (refine Within_pure ?_; first | omega | (dsimp only; omega) | (simp <;> omega))
          | (refine Within_SMpure ?_; first | omega | (dsimp only; omega) | (simp <;> omega))
          | (refine Within_peek_bind ?_ (fun hB t => ?_) <;>
              (first | exact absurd hB (by decide!) | beta_reduce))
          | (refine Within_next_bind ?_ (fun hB t => ?_) <;>
              (first | exact absurd hB (by decide!) | beta_reduce))
          | (refine Within_accept_bind (by decide!) (fun hB t => ?_) <;>
              (first | exact absurd hB (by decide!) | beta_reduce))
          | (refine Within_acceptString_bind ?_ (fun hB t => ?_) <;>
              (first | exact absurd hB (by decide!) | beta_reduce))
          | (refine Within_next_SMbind ?_ (fun hB t => ?_) <;>
              (first | exact absurd hB (by decide!) | beta_reduce))
          | (refine Within_peek_SMbind ?_ (fun hB t => ?_) <;>
              (first | exact absurd hB (by decide!) | beta_reduce))
          | (refine Within_attempt_accept_bind (by decide!) (fun _ => ?_) (fun hB t => ?_) <;>
              (first | exact absurd hB (by decide!) | beta_reduce))
          | exact Within_attempt (Within_accept (by decide!))
          | exact Within_top (Within_accept (by decide!))
          | exact Within_top Within_next
          | exact Within_peek
          | (refine Within_accept_SMbind (by decide!) (fun hB t => ?_) <;>
              (first | exact absurd hB (by decide!) | beta_reduce))
          | (refine Within_bind Within_get (fun _ => ?_); beta_reduce)
          | (refine Within_bind (Within_modify (fun _ => ⟨rfl, rfl⟩)) (fun _ => ?_); beta_reduce)
          | (refine Within_bind Within_peekTwo (fun _ => ?_); beta_reduce)
          | (refine Within_bind (Meets_parseSelectorIdent _ _ (by omega)) (fun _ => ?_); beta_reduce)
          | (refine Within_conseq (Meets_parseSelectorIdent _ _ (by omega)) (fun _ => ?_); first | omega | (dsimp only; omega) | (dsimp only; split <;> omega))
          | (refine Within_bind (Steps_parseAlias) (fun _ => ?_); beta_reduce)
          | (refine Within_conseq (Steps_parseAlias) (fun _ => ?_); first | omega | (dsimp only; omega) | (dsimp only; split <;> omega))
          | (refine Within_bind (ih_parseBooleanExpr _ (by omega)) (fun _ => ?_); beta_reduce)
          | (refine Within_conseq (ih_parseBooleanExpr _ (by omega)) (fun _ => ?_); first | omega | (dsimp only; omega) | (dsimp only; split <;> omega))
          | (refine Within_bind (ih_parseJoins _ _ (by omega)) (fun _ => ?_); beta_reduce)
          | (refine Within_conseq (ih_parseJoins _ _ (by omega)) (fun _ => ?_); first | omega | (dsimp only; omega) | (dsimp only; split <;> omega))
          | (refine Within_attempt_bind (q := fun _ => _) ?_ (fun _ => ?_) (fun _ => ?_) <;> beta_reduce)
          | (refine Within_bind_same ?_ (fun _ => ?_))
          | (refine Within_SMbind (q := fun _ => _) ?_ (fun _ => ?_)))
        | (split <;> (first | (rename_i h; exact absurd h (by decide!)) | skip))
        | dsimp only)
    · cases tp with
      | none => exact Within_pure (Nat.le_refl _)
      | some tp =>
        show Within (B - 1) _ _
        dsimp only
        repeat' (first
          | with_reducible (first
            | exact Within_throw
            | (refine Within_pure ?_; first | omega | (dsimp only; omega) | (simp <;> omega))
            | (refine Within_SMpure ?_; first | omega | (dsimp only; omega) | (simp <;> omega))
            | (refine Within_peek_bind ?_ (fun hB t => ?_) <;>
                (first | exact absurd hB (by decide!) | beta_reduce))
            | (refine Within_next_bind ?_ (fun hB t => ?_) <;>
                (first | exact absurd hB (by decide!) | beta_reduce))
            | (refine Within_accept_bind (by decide!) (fun hB t => ?_) <;>
                (first | exact absurd hB (by decide!) | beta_reduce))
            | (refine Within_acceptString_bind ?_ (fun hB t => ?_) <;>
                (first | exact absurd hB (by decide!) | beta_reduce))
            | (refine Within_next_SMbind ?_ (fun hB t => ?_) <;>
                (first | exact absurd hB (by decide!) | beta_reduce))
            | (refine Within_peek_SMbind ?_ (fun hB t => ?_) <;>
                (first | exact absurd hB (by decide!) | beta_reduce))
            | (refine Within_attempt_accept_bind (by decide!) (fun _ => ?_) (fun hB t => ?_) <;>
                (first | exact absurd hB (by decide!) | beta_reduce))
            | exact Within_attempt (Within_accept (by decide!))
            | exact Within_top (Within_accept (by decide!))
            | exact Within_top Within_next
            | exact Within_peek
            | (refine Within_accept_SMbind (by decide!) (fun hB t => ?_) <;>
                (first | exact absurd hB (by decide!) | beta_reduce))
            | (refine Within_bind Within_get (fun _ => ?_); beta_reduce)
            | (refine Within_bind (Within_modify (fun _ => ⟨rfl, rfl⟩)) (fun _ => ?_); beta_reduce)
            | (refine Within_bind Within_peekTwo (fun _ => ?_); beta_reduce)
            | (refine Within_bind (Meets_parseSelectorIdent _ _ (by omega)) (fun _ => ?_); beta_reduce)
            | (refine Within_conseq (Meets_parseSelectorIdent _ _ (by omega)) (fun _ => ?_); first | omega | (dsimp only; omega) | (dsimp only; split <;> omega))
            | (refine Within_bind (Steps_parseAlias) (fun _ => ?_); beta_reduce)
            | (refine Within_conseq (Steps_parseAlias) (fun _ => ?_); first | omega | (dsimp only; omega) | (dsimp only; split <;> omega))
            | (refine Within_bind (ih_parseBooleanExpr _ (by omega)) (fun _ => ?_); beta_reduce)
            | (refine Within_conseq (ih_parseBooleanExpr _ (by omega)) (fun _ => ?_); first | omega | (dsimp only; omega) | (dsimp only; split <;> omega))
            | (refine Within_bind (ih_parseJoins _ _ (by omega)) (fun _ => ?_); beta_reduce)
            | (refine Within_conseq (ih_parseJoins _ _ (by omega)) (fun _ => ?_); first | omega | (dsimp only; omega) | (dsimp only; split <;> omega))
            | (refine Within_attempt_bind (q := fun _ => _) ?_ (fun _ => ?_) (fun _ => ?_) <;> beta_reduce)
            | (refine Within_bind_same ?_ (fun _ => ?_))
            | (refine Within_SMbind (q := fun _ => _) ?_ (fun _ => ?_)))
          | (split <;> (first | (rename_i h; exact absurd h (by decide!)) | skip))
          | dsimp only)

theorem Meets_parseBooleanExpr_step (n : Nat) (ih : ParsersAt n) :
    ∀ (B : Nat), 11 + 40 * B ≤ n + 1 → Within B (fun _ => B) (Parser.parseBooleanExpr (n + 1)) := by
  have ih_parseBooleanTerm := ih.2.2.2.2.2.2.2.2.2.2.2.2.2.2.2.2.2.1
  have ih_parseBooleanExprLoop := ih.2.2.2.2.2.2.2.2.2.2.2.2.2.2.2.2.1
  clear ih
  intro B hn
  rw [Parser.parseBooleanExpr]
  repeat' (first
    | with_reducible (first
      | exact Within_throw
      | (refine Within_pure ?_; first | omega | (dsimp only; omega) | (simp <;> omega))
      | (refine Within_SMpure ?_; first | omega | (dsimp only; omega) | (simp <;> omega))
      | (refine Within_peek_bind ?_ (fun hB t => ?_) <;>
          (first | exact absurd hB (by decide!) | beta_reduce))
      | (refine Within_next_bind ?_ (fun hB t => ?_) <;>
          (first | exact absurd hB (by decide!) | beta_reduce))
      | (refine Within_accept_bind (by decide!) (fun hB t => ?_) <;>
          (first | exact absurd hB (by decide!) | beta_reduce))
      | (refine Within_acceptString_bind ?_ (fun hB t => ?_) <;>
          (first | exact absurd hB (by decide!) | beta_reduce))
      | (refine Within_next_SMbind ?_ (fun hB t => ?_) <;>
          (first | exact absurd hB (by decide!) | beta_reduce))
      | (refine Within_peek_SMbind ?_ (fun hB t => ?_) <;>
          (first | exact absurd hB (by decide!) | beta_reduce))
      | (refine Within_attempt_accept_bind (by decide!) (fun _ => ?_) (fun hB t => ?_) <;>
          (first | exact absurd hB (by decide!) | beta_reduce))
      | exact Within_attempt (Within_accept (by decide!))
      | exact Within_top (Within_accept (by decide!))
      | exact Within_top Within_next
      | exact Within_peek
      | (refine Within_accept_SMbind (by decide!) (fun hB t => ?_) <;>
          (first | exact absurd hB (by decide!) | beta_reduce))
      | (refine Within_bind Within_get (fun _ => ?_); beta_reduce)
      | (refine Within_bind (Within_modify (fun _ => ⟨rfl, rfl⟩)) (fun _ => ?_); beta_reduce)
      | (refine Within_bind Within_peekTwo (fun _ => ?_); beta_reduce)
      | (refine Within_bind (ih_parseBooleanTerm _ (by omega)) (fun _ => ?_); beta_reduce)
      | (refine Within_conseq (ih_parseBooleanTerm _ (by omega)) (fun _ => ?_); first | omega | (dsimp only; omega) | (dsimp only; split <;> omega))
      | (refine Within_bind (ih_parseBooleanExprLoop _ _ (by omega)) (fun _ => ?_); beta_reduce)
      | (refine Within_conseq (ih_parseBooleanExprLoop _ _ (by omega)) (fun _ => ?_); first | omega | (dsimp only; omega) | (dsimp only; split <;> omega))
      | (refine Within_attempt_bind (q := fun _ => _) ?_ (fun _ => ?_) (fun _ => ?_) <;> beta_reduce)
      | (refine Within_bind_same ?_ (fun _ => ?_))
      | (refine Within_SMbind (q := fun _ => _) ?_ (fun _ => ?_)))
    | (split <;> (first | (rename_i h; exact absurd h (by decide!)) | skip))
    | dsimp only)

theorem Meets_parseBooleanExprLoop_step (n : Nat) (ih : ParsersAt n) :
    ∀ (e : Expr) (B : Nat), 1 + 40 * B ≤ n + 1 → Within B (fun _ => B) (Parser.parseBooleanExprLoop (n + 1) e) := by
  have ih_parseBooleanTerm := ih.2.2.2.2.2.2.2.2.2.2.2.2.2.2.2.2.2.1
  have ih_parseBooleanExprLoop := ih.2.2.2.2.2.2.2.2.2.2.2.2.2.2.2.2.1
  clear ih
  intro e B hn
  rw [Parser.parseBooleanExprLoop]
  repeat' (first
    | with_reducible (first
      | exact Within_throw
      | (refine Within_pure ?_; first | omega | (dsimp only; omega) | (simp <;> omega))
      | (refine Within_SMpure ?_; first | omega | (dsimp only; omega) | (simp <;> omega))
      | (refine Within_peek_bind ?_ (fun hB t => ?_) <;>
          (first | exact absurd hB (by decide!) | beta_reduce))
      | (refine Within_next_bind ?_ (fun hB t => ?_) <;>
          (first | exact absurd hB (by decide!) | beta_reduce))
      | (refine Within_accept_bind (by decide!) (fun hB t => ?_) <;>
          (first | exact absurd hB (by decide!) | beta_reduce))
      | (refine Within_acceptString_bind ?_ (fun hB t => ?_) <;>
          (first | exact absurd hB (by decide!) | beta_reduce))
      | (refine Within_next_SMbind ?_ (fun hB t => ?_) <;>
          (first | exact absurd hB (by decide!) | beta_reduce))
      | (refine Within_peek_SMbind ?_ (fun hB t => ?_) <;>
          (first | exact absurd hB (by decide!) | beta_reduce))
      | (refine Within_attempt_accept_bind (by decide!) (fun _ => ?_) (fun hB t => ?_) <;>
          (first | exact absurd hB (by decide!) | beta_reduce))
      | exact Within_attempt (Within_accept (by decide!))
      | exact Within_top (Within_accept (by decide!))
      | exact Within_top Within_next
      | exact Within_peek
      | (refine Within_accept_SMbind (by decide!) (fun hB t => ?_) <;>
          (first | exact absurd hB (by decide!) | beta_reduce))
      | (refine Within_bind Within_get (fun _ => ?_); beta_reduce)
      | (refine Within_bind (Within_modify (fun _ => ⟨rfl, rfl⟩)) (fun _ => ?_); beta_reduce)
      | (refine Within_bind Within_peekTwo (fun _ => ?_); beta_reduce)
      | (refine Within_bind (ih_parseBooleanTerm _ (by omega)) (fun _ => ?_); beta_reduce)
      | (refine Within_conseq (ih_parseBooleanTerm _ (by omega)) (fun _ => ?_); first | omega | (dsimp only; omega) | (dsimp only; split <;> omega))
      | (refine Within_bind (ih_parseBooleanExprLoop _ _ (by omega)) (fun _ => ?_); beta_reduce)
      | (refine Within_conseq (ih_parseBooleanExprLoop _ _ (by omega)) (fun _ => ?_); first | omega | (dsimp only; omega) | (dsimp only; split <;> omega))
      | (refine Within_attempt_bind (q := fun _ => _) ?_ (fun _ => ?_) (fun _ => ?_) <;> beta_reduce)
      | (refine Within_bind_same ?_ (fun _ => ?_))
      | (refine Within_SMbind (q := fun _ => _) ?_ (fun _ => ?_)))
    | (split <;> (first | (rename_i h; exact absurd h (by decide!)) | skip))
    | dsimp only)

theorem Meets_parseBooleanTerm_step (n : Nat) (ih : ParsersAt n) :
    ∀ (B : Nat), 10 + 40 * B ≤ n + 1 → Within B (fun _ => B) (Parser.parseBooleanTerm (n + 1)) := by
  have ih_parseNotFactor := ih.2.2.2.2.2.2.2.2.2.2.2.2.2.2.2.2.2.2.2.1
  have ih_parseBooleanTermLoop := ih.2.2.2.2.2.2.2.2.2.2.2.2.2.2.2.2.2.2.1
  clear ih
  intro B hn
  rw [Parser.parseBooleanTerm]
  repeat' (first
    | with_reducible (first
      | exact Within_throw
      | (refine Within_pure ?_; first | omega | (dsimp only; omega) | (simp <;> omega))
      | (refine Within_SMpure ?_; first | omega | (dsimp only; omega) | (simp <;> omega))
      | (refine Within_peek_bind ?_ (fun hB t => ?_) <;>
          (first | exact absurd hB (by decide!) | beta_reduce))
      | (refine Within_next_bind ?_ (fun hB t => ?_) <;>
          (first | exact absurd hB (by decide!) | beta_reduce))
      | (refine Within_accept_bind (by decide!) (fun hB t => ?_) <;>
          (first | exact absurd hB (by decide!) | beta_reduce))
      | (refine Within_acceptString_bind ?_ (fun hB t => ?_) <;>
          (first | exact absurd hB (by decide!) | beta_reduce))
      | (refine Within_next_SMbind ?_ (fun hB t => ?_) <;>
          (first | exact absurd hB (by decide!) | beta_reduce))
      | (refine Within_peek_SMbind ?_ (fun hB t => ?_) <;>
          (first | exact absurd hB (by decide!) | beta_reduce))
      | (refine Within_attempt_accept_bind (by decide!) (fun _ => ?_) (fun hB t => ?_) <;>
          (first | exact absurd hB (by decide!) | beta_reduce))
      | exact Within_attempt (Within_accept (by decide!))
      | exact Within_top (Within_accept (by decide!))
      | exact Within_top Within_next
      | exact Within_peek
      | (refine Within_accept_SMbind (by decide!) (fun hB t => ?_) <;>
          (first | exact absurd hB (by decide!) | beta_reduce))
      | (refine Within_bind Within_get (fun _ => ?_); beta_reduce)
      | (refine Within_bind (Within_modify (fun _ => ⟨rfl, rfl⟩)) (fun _ => ?_); beta_reduce)
      | (refine Within_bind Within_peekTwo (fun _ => ?_); beta_reduce)
      | (refine Within_bind (ih_parseNotFactor _ (by omega)) (fun _ => ?_); beta_reduce)
      | (refine Within_conseq (ih_parseNotFactor _ (by omega)) (fun _ => ?_); first | omega | (dsimp only; omega) | (dsimp only; split <;> omega))
      | (refine Within_bind (ih_parseBooleanTermLoop _ _ (by omega)) (fun _ => ?_); beta_reduce)
      | (refine Within_conseq (ih_parseBooleanTermLoop _ _ (by omega)) (fun _ => ?_); first | omega | (dsimp only; omega) | (dsimp only; split <;> omega))
      | (refine Within_attempt_bind (q := fun _ => _) ?_ (fun _ => ?_) (fun _ => ?_) <;> beta_reduce)
      | (refine Within_bind_same ?_ (fun _ => ?_))
      | (refine Within_SMbind (q := fun _ => _) ?_ (fun _ => ?_)))
    | (split <;> (first | (rename_i h; exact absurd h (by decide!)) | skip))
    | dsimp only)

theorem Meets_parseBooleanTermLoop_step (n : Nat) (ih : ParsersAt n) :
    ∀ (e : Expr) (B : Nat), 1 + 40 * B ≤ n + 1 → Within B (fun _ => B) (Parser.parseBooleanTermLoop (n + 1) e) := by
  have ih_parseNotFactor := ih.2.2.2.2.2.2.2.2.2.2.2.2.2.2.2.2.2.2.2.1
  have ih_parseBooleanTermLoop := ih.2.2.2.2.2.2.2.2.2.2.2.2.2.2.2.2.2.2.1
  clear ih
  intro e B hn
  rw [Parser.parseBooleanTermLoop]
  repeat' (first
    | with_reducible (first
      | exact Within_throw
      | (refine Within_pure ?_; first | omega | (dsimp only; omega) | (simp <;> omega))
      | (refine Within_SMpure ?_; first | omega | (dsimp only; omega) | (simp <;> omega))
      | (refine Within_peek_bind ?_ (fun hB t => ?_) <;>
          (first | exact absurd hB (by decide!) | beta_reduce))
      | (refine Within_next_bind ?_ (fun hB t => ?_) <;>
          (first | exact absurd hB (by decide!) | beta_reduce))
      | (refine Within_accept_bind (by decide!) (fun hB t => ?_) <;>
          (first | exact absurd hB (by decide!) | beta_reduce))
      | (refine Within_acceptString_bind ?_ (fun hB t => ?_) <;>
          (first | exact absurd hB (by decide!) | beta_reduce))
      | (refine Within_next_SMbind ?_ (fun hB t => ?_) <;>
          (first | exact absurd hB (by decide!) | beta_reduce))
      | (refine Within_peek_SMbind ?_ (fun hB t => ?_) <;>
          (first | exact absurd hB (by decide!) | beta_reduce))
      | (refine Within_attempt_accept_bind (by decide!) (fun _ => ?_) (fun hB t => ?_) <;>
          (first | exact absurd hB (by decide!) | beta_reduce))
      | exact Within_attempt (Within_accept (by decide!))
      | exact Within_top (Within_accept (by decide!))
      | exact Within_top Within_next
      | exact Within_peek
      | (refine Within_accept_SMbind (by decide!) (fun hB t => ?_) <;>
          (first | exact absurd hB (by decide!) | beta_reduce))
      | (refine Within_bind Within_get (fun _ => ?_); beta_reduce)
      | (refine Within_bind (Within_modify (fun _ => ⟨rfl, rfl⟩)) (fun _ => ?_); beta_reduce)
      | (refine Within_bind Within_peekTwo (fun _ => ?_); beta_reduce)
      | (refine Within_bind (ih_parseNotFactor _ (by omega)) (fun _ => ?_); beta_reduce)
      | (refine Within_conseq (ih_parseNotFactor _ (by omega)) (fun _ => ?_); first | omega | (dsimp only; omega) | (dsimp only; split <;> omega))
      | (refine Within_bind (ih_parseBooleanTermLoop _ _ (by omega)) (fun _ => ?_); beta_reduce)
      | (refine Within_conseq (ih_parseBooleanTermLoop _ _ (by omega)) (fun _ => ?_); first | omega | (dsimp only; omega) | (dsimp only; split <;> omega))
      | (refine Within_attempt_bind (q := fun _ => _) ?_ (fun _ => ?_) (fun _ => ?_) <;> beta_reduce)
      | (refine Within_bind_same ?_ (fun _ => ?_))
      | (refine Within_SMbind (q := fun _ => _) ?_ (fun _ => ?_)))
    | (split <;> (first | (rename_i h; exact absurd h (by decide!)) | skip))
    | dsimp only)

theorem Meets_parseNotFactor_step (n : Nat) (ih : ParsersAt n) :
    ∀ (B : Nat), 9 + 40 * B ≤ n + 1 → Within B (fun _ => B) (Parser.parseNotFactor (n + 1)) := by
  have ih_parseRelation := ih.2.2.2.2.2.2.2.2.2.2.2.2.2.2.2.2.2.2.2.2.1
  clear ih
  intro B hn
  rw [Parser.parseNotFactor]
  repeat' (first
    | with_reducible (first
      | exact Within_throw
      | (refine Within_pure ?_; first | omega | (dsimp only; omega) | (simp <;> omega))
      | (refine Within_SMpure ?_; first | omega | (dsimp only; omega) | (simp <;> omega))
      | (refine Within_peek_bind ?_ (fun hB t => ?_) <;>
          (first | exact absurd hB (by decide!) | beta_reduce))
      | (refine Within_next_bind ?_ (fun hB t => ?_) <;>
          (first | exact absurd hB (by decide!) | beta_reduce))
      | (refine Within_accept_bind (by decide!) (fun hB t => ?_) <;>
          (first | exact absurd hB (by decide!) | beta_reduce))
      | (refine Within_acceptString_bind ?_ (fun hB t => ?_) <;>
          (first | exact absurd hB (by decide!) | beta_reduce))
      | (refine Within_next_SMbind ?_ (fun hB t => ?_) <;>
          (first | exact absurd hB (by decide!) | beta_reduce))
      | (refine Within_peek_SMbind ?_ (fun hB t => ?_) <;>
          (first | exact absurd hB (by decide!) | beta_reduce))
      | (refine Within_attempt_accept_bind (by decide!) (fun _ => ?_) (fun hB t => ?_) <;>
          (first | exact absurd hB (by decide!) | beta_reduce))
      | exact Within_attempt (Within_accept (by decide!))
      | exact Within_top (Within_accept (by decide!))
      | exact Within_top Within_next
      | exact Within_peek
      | (refine Within_accept_SMbind (by decide!) (fun hB t => ?_) <;>
          (first | exact absurd hB (by decide!) | beta_reduce))
      | (refine Within_bind Within_get (fun _ => ?_); beta_reduce)
      | (refine Within_bind (Within_modify (fun _ => ⟨rfl, rfl⟩)) (fun _ => ?_); beta_reduce)
      | (refine Within_bind Within_peekTwo (fun _ => ?_); beta_reduce)
      | (refine Within_bind (ih_parseRelation _ (by omega)) (fun _ => ?_); beta_reduce)
      | (refine Within_conseq (ih_parseRelation _ (by omega)) (fun _ => ?_); first | omega | (dsimp only; omega) | (dsimp only; split <;> omega))
      | (refine Within_attempt_bind (q := fun _ => _) ?_ (fun _ => ?_) (fun _ => ?_) <;> beta_reduce)
      | (refine Within_bind_same ?_ (fun _ => ?_))
      | (refine Within_SMbind (q := fun _ => _) ?_ (fun _ => ?_)))
    | (split <;> (first | (rename_i h; exact absurd h (by decide!)) | skip))
    | dsimp only)

theorem Meets_parseRelation_step (n : Nat) (ih : ParsersAt n) :
    ∀ (B : Nat), 8 + 40 * B ≤ n + 1 → Within B (fun _ => B) (Parser.parseRelation (n + 1)) := by
  have ih_parseExpr := ih.2.2.2.2.2.2.2.2.2.2.2.2.2.2.2.2.2.2.2.2.2.2.2.2.1
  have ih_parseRelationLoop := ih.2.2.2.2.2.2.2.2.2.2.2.2.2.2.2.2.2.2.2.2.2.1
  clear ih
  intro B hn
  rw [Parser.parseRelation]
  repeat' (first
    | with_reducible (first
      | exact Within_throw
      | (refine Within_pure ?_; first | omega | (dsimp only; omega) | (simp <;> omega))
      | (refine Within_SMpure ?_; first | omega | (dsimp only; omega) | (simp <;> omega))
      | (refine Within_peek_bind ?_ (fun hB t => ?_) <;>
          (first | exact absurd hB (by decide!) | beta_reduce))
      | (refine Within_next_bind ?_ (fun hB t => ?_) <;>
          (first | exact absurd hB (by decide!) | beta_reduce))
      | (refine Within_accept_bind (by decide!) (fun hB t => ?_) <;>
          (first | exact absurd hB (by decide!) | beta_reduce))
      | (refine Within_acceptString_bind ?_ (fun hB t => ?_) <;>
          (first | exact absurd hB (by decide!) | beta_reduce))
      | (refine Within_next_SMbind ?_ (fun hB t => ?_) <;>
          (first | exact absurd hB (by decide!) | beta_reduce))
      | (refine Within_peek_SMbind ?_ (fun hB t => ?_) <;>
          (first | exact absurd hB (by decide!) | beta_reduce))
      | (refine Within_attempt_accept_bind (by decide!) (fun _ => ?_) (fun hB t => ?_) <;>
          (first | exact absurd hB (by decide!) | beta_reduce))
      | exact Within_attempt (Within_accept (by decide!))
      | exact Within_top (Within_accept (by decide!))
      | exact Within_top Within_next
      | exact Within_peek
      | (refine Within_accept_SMbind (by decide!) (fun hB t => ?_) <;>
          (first | exact absurd hB (by decide!) | beta_reduce))
      | (refine Within_bind Within_get (fun _ => ?_); beta_reduce)
      | (refine Within_bind (Within_modify (fun _ => ⟨rfl, rfl⟩)) (fun _ => ?_); beta_reduce)
      | (refine Within_bind Within_peekTwo (fun _ => ?_); beta_reduce)
      | (refine Within_bind (ih_parseExpr _ (by omega)) (fun _ => ?_); beta_reduce)
      | (refine Within_conseq (ih_parseExpr _ (by omega)) (fun _ => ?_); first | omega | (dsimp only; omega) | (dsimp only; split <;> omega))
      | (refine Within_bind (ih_parseRelationLoop _ _ (by omega)) (fun _ => ?_); beta_reduce)
      | (refine Within_conseq (ih_parseRelationLoop _ _ (by omega)) (fun _ => ?_); first | omega | (dsimp only; omega) | (dsimp only; split <;> omega))
      | (refine Within_attempt_bind (q := fun _ => _) ?_ (fun _ => ?_) (fun _ => ?_) <;> beta_reduce)
      | (refine Within_bind_same ?_ (fun _ => ?_))
      | (refine Within_SMbind (q := fun _ => _) ?_ (fun _ => ?_)))
    | (split <;> (first | (rename_i h; exact absurd h (by decide!)) | skip))
    | dsimp only)

theorem Meets_parseRelationLoop_step (n : Nat) (ih : ParsersAt n) :
    ∀ (e : Expr) (B : Nat), 7 + 40 * B ≤ n + 1 → Within B (fun _ => B) (Parser.parseRelationLoop (n + 1) e) := by
  have ih_parseExpr := ih.2.2.2.2.2.2.2.2.2.2.2.2.2.2.2.2.2.2.2.2.2.2.2.2.1
  have ih_parseRelationLoop := ih.2.2.2.2.2.2.2.2.2.2.2.2.2.2.2.2.2.2.2.2.2.1
  have ih_parseInExpr := ih.2.2.2.2.2.2.2.2.2.2.2.2.2.2.2.2.2.2.2.2.2.2.2.1
  have ih_parseBetweenExpr := ih.2.2.2.2.2.2.2.2.2.2.2.2.2.2.2.2.2.2.2.2.2.2.1
  clear ih
  intro e B hn
  rw [Parser.parseRelationLoop]
  repeat' (first
    | with_reducible (first
      | exact Within_throw
      | (refine Within_pure ?_; first | omega | (dsimp only; omega) | (simp <;> omega))
      | (refine Within_SMpure ?_; first | omega | (dsimp only; omega) | (simp <;> omega))
      | (refine Within_peek_bind ?_ (fun hB t => ?_) <;>
          (first | exact absurd hB (by decide!) | beta_reduce))
      | (refine Within_next_bind ?_ (fun hB t => ?_) <;>
          (first | exact absurd hB (by decide!) | beta_reduce))
      | (refine Within_accept_bind (by decide!) (fun hB t => ?_) <;>
          (first | exact absurd hB (by decide!) | beta_reduce))
      | (refine Within_acceptString_bind ?_ (fun hB t => ?_) <;>
          (first | exact absurd hB (by decide!) | beta_reduce))
      | (refine Within_next_SMbind ?_ (fun hB t => ?_) <;>
          (first | exact absurd hB (by decide!) | beta_reduce))
      | (refine Within_peek_SMbind ?_ (fun hB t => ?_) <;>
          (first | exact absurd hB (by decide!) | beta_reduce))
      | (refine Within_attempt_accept_bind (by decide!) (fun _ => ?_) (fun hB t => ?_) <;>
          (first | exact absurd hB (by decide!) | beta_reduce))
      | exact Within_attempt (Within_accept (by decide!))
      | exact Within_top (Within_accept (by decide!))
      | exact Within_top Within_next
      | exact Within_peek
      | (refine Within_accept_SMbind (by decide!) (fun hB t => ?_) <;>
          (first | exact absurd hB (by decide!) | beta_reduce))
      | (refine Within_bind Within_get (fun _ => ?_); beta_reduce)
      | (refine Within_bind (Within_modify (fun _ => ⟨rfl, rfl⟩)) (fun _ => ?_); beta_reduce)
      | (refine Within_bind Within_peekTwo (fun _ => ?_); beta_reduce)
      | (refine Within_bind (ih_parseExpr _ (by omega)) (fun _ => ?_); beta_reduce)
      | (refine Within_conseq (ih_parseExpr _ (by omega)) (fun _ => ?_); first | omega | (dsimp only; omega) | (dsimp only; split <;> omega))
      | (refine Within_bind (ih_parseRelationLoop _ _ (by omega)) (fun _ => ?_); beta_reduce)
      | (refine Within_conseq (ih_parseRelationLoop _ _ (by omega)) (fun _ => ?_); first | omega | (dsimp only; omega) | (dsimp only; split <;> omega))
      | (refine Within_bind (ih_parseInExpr _ (by omega)) (fun _ => ?_); beta_reduce)
      | (refine Within_conseq (ih_parseInExpr _ (by omega)) (fun _ => ?_); first | omega | (dsimp only; omega) | (dsimp only; split <;> omega))
      | (refine Within_bind (ih_parseBetweenExpr _ (by omega)) (fun _ => ?_); beta_reduce)
      | (refine Within_conseq (ih_parseBetweenExpr _ (by omega)) (fun _ => ?_); first | omega | (dsimp only; omega) | (dsimp only; split <;> omega))
      | (refine Within_attempt_bind (q := fun _ => _) ?_ (fun _ => ?_) (fun _ => ?_) <;> beta_reduce)
      | (refine Within_bind_same ?_ (fun _ => ?_))
      | (refine Within_SMbind (q := fun _ => _) ?_ (fun _ => ?_)))
    | (split <;> (first | (rename_i h; exact absurd h (by decide!)) | skip))
    | dsimp only)

theorem Meets_parseBetweenExpr_step (n : Nat) (ih : ParsersAt n) :
    ∀ (B : Nat), 6 + 40 * B ≤ n + 1 → Within B (fun _ => B - 1) (Parser.parseBetweenExpr (n + 1)) := by
  have ih_parseExpr := ih.2.2.2.2.2.2.2.2.2.2.2.2.2.2.2.2.2.2.2.2.2.2.2.2.1
  clear ih
  intro B hn
  rw [Parser.parseBetweenExpr]
  repeat' (first
    | with_reducible (first
      | exact Within_throw
      | (refine Within_pure ?_; first | omega | (dsimp only; omega) | (simp <;> omega))
      | (refine Within_SMpure ?_; first | omega | (dsimp only; omega) | (simp <;> omega))
      | (refine Within_peek_bind ?_ (fun hB t => ?_) <;>
          (first | exact absurd hB (by decide!) | beta_reduce))
      | (refine Within_next_bind ?_ (fun hB t => ?_) <;>
          (first | exact absurd hB (by decide!) | beta_reduce))
      | (refine Within_accept_bind (by decide!) (fun hB t => ?_) <;>
          (first | exact absurd hB (by decide!) | beta_reduce))
      | (refine Within_acceptString_bind ?_ (fun hB t => ?_) <;>
          (first | exact absurd hB (by decide!) | beta_reduce))
      | (refine Within_next_SMbind ?_ (fun hB t => ?_) <;>
          (first | exact absurd hB (by decide!) | beta_reduce))
      | (refine Within_peek_SMbind ?_ (fun hB t => ?_) <;>
          (first | exact absurd hB (by decide!) | beta_reduce))
      | (refine Within_attempt_accept_bind (by decide!) (fun _ => ?_) (fun hB t => ?_) <;>
          (first | exact absurd hB (by decide!) | beta_reduce))
      | exact Within_attempt (Within_accept (by decide!))
      | exact Within_top (Within_accept (by decide!))
      | exact Within_top Within_next
      | exact Within_peek
      | (refine Within_accept_SMbind (by decide!) (fun hB t => ?_) <;>
          (first | exact absurd hB (by decide!) | beta_reduce))
      | (refine Within_bind Within_get (fun _ => ?_); beta_reduce)
      | (refine Within_bind (Within_modify (fun _ => ⟨rfl, rfl⟩)) (fun _ => ?_); beta_reduce)
      | (refine Within_bind Within_peekTwo (fun _ => ?_); beta_reduce)
      | (refine Within_bind (ih_parseExpr _ (by omega)) (fun _ => ?_); beta_reduce)
      | (refine Within_conseq (ih_parseExpr _ (by omega)) (fun _ => ?_); first | omega | (dsimp only; omega) | (dsimp only; split <;> omega))
      | (refine Within_attempt_bind (q := fun _ => _) ?_ (fun _ => ?_) (fun _ => ?_) <;> beta_reduce)
      | (refine Within_bind_same ?_ (fun _ => ?_))
      | (refine Within_SMbind (q := fun _ => _) ?_ (fun _ => ?_)))
    | (split <;> (first | (rename_i h; exact absurd h (by decide!)) | skip))
    | dsimp only)

theorem Meets_parseInExpr_step (n : Nat) (ih : ParsersAt n) :
    ∀ (B : Nat), 6 + 40 * B ≤ n + 1 → Within B (fun _ => B - 1) (Parser.parseInExpr (n + 1)) := by
  have ih_parseExpr := ih.2.2.2.2.2.2.2.2.2.2.2.2.2.2.2.2.2.2.2.2.2.2.2.2.1
  have ih_parseSelect := ih.1
  have ih_parseExpressionList := ih.2.2.2.2.2.2.2.2.2.2.2.2.2.2.2.2.2.2.2.2.2.2.2.2.2.2.2.2.2.2.2.2.2.2
  clear ih
  intro B hn
  rw [Parser.parseInExpr]
  repeat' (first
    | with_reducible (first
      | exact Within_throw
      | (refine Within_pure ?_; first | omega | (dsimp only; omega) | (simp <;> omega))
      | (refine Within_SMpure ?_; first | omega | (dsimp only; omega) | (simp <;> omega))
      | (refine Within_peek_bind ?_ (fun hB t => ?_) <;>
          (first | exact absurd hB (by decide!) | beta_reduce))
      | (refine Within_next_bind ?_ (fun hB t => ?_) <;>
          (first | exact absurd hB (by decide!) | beta_reduce))
      | (refine Within_accept_bind (by decide!) (fun hB t => ?_) <;>
          (first | exact absurd hB (by decide!) | beta_reduce))
      | (refine Within_acceptString_bind ?_ (fun hB t => ?_) <;>
          (first | exact absurd hB (by decide!) | beta_reduce))
      | (refine Within_next_SMbind ?_ (fun hB t => ?_) <;>
          (first | exact absurd hB (by decide!) | beta_reduce))
      | (refine Within_peek_SMbind ?_ (fun hB t => ?_) <;>
          (first | exact absurd hB (by decide!) | beta_reduce))
      | (refine Within_attempt_accept_bind (by decide!) (fun _ => ?_) (fun hB t => ?_) <;>
          (first | exact absurd hB (by decide!) | beta_reduce))
      | exact Within_attempt (Within_accept (by decide!))
      | exact Within_top (Within_accept (by decide!))
      | exact Within_top Within_next
      | exact Within_peek
      | (refine Within_accept_SMbind (by decide!) (fun hB t => ?_) <;>
          (first | exact absurd hB (by decide!) | beta_reduce))
      | (refine Within_bind Within_get (fun _ => ?_); beta_reduce)
      | (refine Within_bind (Within_modify (fun _ => ⟨rfl, rfl⟩)) (fun _ => ?_); beta_reduce)
      | (refine Within_bind Within_peekTwo (fun _ => ?_); beta_reduce)
      | (refine Within_bind (ih_parseExpr _ (by omega)) (fun _ => ?_); beta_reduce)
      | (refine Within_conseq (ih_parseExpr _ (by omega)) (fun _ => ?_); first | omega | (dsimp only; omega) | (dsimp only; split <;> omega))
      | (refine Within_bind (ih_parseSelect _ (by omega)) (fun _ => ?_); beta_reduce)
      | (refine Within_conseq (ih_parseSelect _ (by omega)) (fun _ => ?_); first | omega | (dsimp only; omega) | (dsimp only; split <;> omega))
      | (refine Within_bind (ih_parseExpressionList _ _ (by omega)) (fun _ => ?_); beta_reduce)
      | (refine Within_conseq (ih_parseExpressionList _ _ (by omega)) (fun _ => ?_); first | omega | (dsimp only; omega) | (dsimp only; split <;> omega))
      | (refine Within_attempt_bind (q := fun _ => _) ?_ (fun _ => ?_) (fun _ => ?_) <;> beta_reduce)
      | (refine Within_bind_same ?_ (fun _ => ?_))
      | (refine Within_SMbind (q := fun _ => _) ?_ (fun _ => ?_)))
    | (split <;> (first | (rename_i h; exact absurd h (by decide!)) | skip))
    | dsimp only)

theorem Meets_parseExpr_step (n : Nat) (ih : ParsersAt n) :
    ∀ (B : Nat), 5 + 40 * B ≤ n + 1 → Within B (fun _ => B) (Parser.parseExpr (n + 1)) := by
  have ih_parseTerm := ih.2.2.2.2.2.2.2.2.2.2.2.2.2.2.2.2.2.2.2.2.2.2.2.2.2.2.1
  have ih_parseExprLoop := ih.2.2.2.2.2.2.2.2.2.2.2.2.2.2.2.2.2.2.2.2.2.2.2.2.2.1
  clear ih
  intro B hn
  rw [Parser.parseExpr]
  repeat' (first
    | with_reducible (first
      | exact Within_throw
      | (refine Within_pure ?_; first | omega | (dsimp only; omega) | (simp <;> omega))
      | (refine Within_SMpure ?_; first | omega | (dsimp only; omega) | (simp <;> omega))
      | (refine Within_peek_bind ?_ (fun hB t => ?_) <;>
          (first | exact absurd hB (by decide!) | beta_reduce))
      | (refine Within_next_bind ?_ (fun hB t => ?_) <;>
          (first | exact absurd hB (by decide!) | beta_reduce))
      | (refine Within_accept_bind (by decide!) (fun hB t => ?_) <;>
          (first | exact absurd hB (by decide!) | beta_reduce))
      | (refine Within_acceptString_bind ?_ (fun hB t => ?_) <;>
          (first | exact absurd hB (by decide!) | beta_reduce))
      | (refine Within_next_SMbind ?_ (fun hB t => ?_) <;>
          (first | exact absurd hB (by decide!) | beta_reduce))
      | (refine Within_peek_SMbind ?_ (fun hB t => ?_) <;>
          (first | exact absurd hB (by decide!) | beta_reduce))
      | (refine Within_attempt_accept_bind (by decide!) (fun _ => ?_) (fun hB t => ?_) <;>
          (first | exact absurd hB (by decide!) | beta_reduce))
      | exact Within_attempt (Within_accept (by decide!))
      | exact Within_top (Within_accept (by decide!))
      | exact Within_top Within_next
      | exact Within_peek
      | (refine Within_accept_SMbind (by decide!) (fun hB t => ?_) <;>
          (first | exact absurd hB (by decide!) | beta_reduce))
      | (refine Within_bind Within_get (fun _ => ?_); beta_reduce)
      | (refine Within_bind (Within_modify (fun _ => ⟨rfl, rfl⟩)) (fun _ => ?_); beta_reduce)
      | (refine Within_bind Within_peekTwo (fun _ => ?_); beta_reduce)
      | (refine Within_bind (ih_parseTerm _ (by omega)) (fun _ => ?_); beta_reduce)
      | (refine Within_conseq (ih_parseTerm _ (by omega)) (fun _ => ?_); first | omega | (dsimp only; omega) | (dsimp only; split <;> omega))
      | (refine Within_bind (ih_parseExprLoop _ _ (by omega)) (fun _ => ?_); beta_reduce)
      | (refine Within_conseq (ih_parseExprLoop _ _ (by omega)) (fun _ => ?_); first | omega | (dsimp only; omega) | (dsimp only; split <;> omega))
      | (refine Within_attempt_bind (q := fun _ => _) ?_ (fun _ => ?_) (fun _ => ?_) <;> beta_reduce)
      | (refine Within_bind_same ?_ (fun _ => ?_))
      | (refine Within_SMbind (q := fun _ => _) ?_ (fun _ => ?_)))
    | (split <;> (first | (rename_i h; exact absurd h (by decide!)) | skip))
    | dsimp only)

theorem Meets_parseExprLoop_step (n : Nat) (ih : ParsersAt n) :
    ∀ (e : Expr) (B : Nat), 1 + 40 * B ≤ n + 1 → Within B (fun _ => B) (Parser.parseExprLoop (n + 1) e) := by
  have ih_parseTerm := ih.2.2.2.2.2.2.2.2.2.2.2.2.2.2.2.2.2.2.2.2.2.2.2.2.2.2.1
  have ih_parseExprLoop := ih.2.2.2.2.2.2.2.2.2.2.2.2.2.2.2.2.2.2.2.2.2.2.2.2.2.1
  clear ih
  intro e B hn
  rw [Parser.parseExprLoop]
  repeat' (first
    | with_reducible (first
      | exact Within_throw
      | (refine Within_pure ?_; first | omega | (dsimp only; omega) | (simp <;> omega))
      | (refine Within_SMpure ?_; first | omega | (dsimp only; omega) | (simp <;> omega))
      | (refine Within_peek_bind ?_ (fun hB t => ?_) <;>
          (first | exact absurd hB (by decide!) | beta_reduce))
      | (refine Within_next_bind ?_ (fun hB t => ?_) <;>
          (first | exact absurd hB (by decide!) | beta_reduce))
      | (refine Within_accept_bind (by decide!) (fun hB t => ?_) <;>
          (first | exact absurd hB (by decide!) | beta_reduce))
      | (refine Within_acceptString_bind ?_ (fun hB t => ?_) <;>
          (first | exact absurd hB (by decide!) | beta_reduce))
      | (refine Within_next_SMbind ?_ (fun hB t => ?_) <;>
          (first | exact absurd hB (by decide!) | beta_reduce))
      | (refine Within_peek_SMbind ?_ (fun hB t => ?_) <;>
          (first | exact absurd hB (by decide!) | beta_reduce))
      | (refine Within_attempt_accept_bind (by decide!) (fun _ => ?_) (fun hB t => ?_) <;>
          (first | exact absurd hB (by decide!) | beta_reduce))
      | exact Within_attempt (Within_accept (by decide!))
      | exact Within_top (Within_accept (by decide!))
      | exact Within_top Within_next
      | exact Within_peek
      | (refine Within_accept_SMbind (by decide!) (fun hB t => ?_) <;>
          (first | exact absurd hB (by decide!) | beta_reduce))
      | (refine Within_bind Within_get (fun _ => ?_); beta_reduce)
      | (refine Within_bind (Within_modify (fun _ => ⟨rfl, rfl⟩)) (fun _ => ?_); beta_reduce)
      | (refine Within_bind Within_peekTwo (fun _ => ?_); beta_reduce)
      | (refine Within_bind (ih_parseTerm _ (by omega)) (fun _ => ?_); beta_reduce)
      | (refine Within_conseq (ih_parseTerm _ (by omega)) (fun _ => ?_); first | omega | (dsimp only; omega) | (dsimp only; split <;> omega))
      | (refine Within_bind (ih_parseExprLoop _ _ (by omega)) (fun _ => ?_); beta_reduce)
      | (refine Within_conseq (ih_parseExprLoop _ _ (by omega)) (fun _ => ?_); first | omega | (dsimp only; omega) | (dsimp only; split <;> omega))
      | (refine Within_attempt_bind (q := fun _ => _) ?_ (fun _ => ?_) (fun _ => ?_) <;> beta_reduce)
      | (refine Within_bind_same ?_ (fun _ => ?_))
      | (refine Within_SMbind (q := fun _ => _) ?_ (fun _ => ?_)))
    | (split <;> (first | (rename_i h; exact absurd h (by decide!)) | skip))
    | dsimp only)

theorem Meets_parseTerm_step (n : Nat) (ih : ParsersAt n) :
    ∀ (B : Nat), 4 + 40 * B ≤ n + 1 → Within B (fun _ => B) (Parser.parseTerm (n + 1)) := by
  have ih_parseSignedFactor := ih.2.2.2.2.2.2.2.2.2.2.2.2.2.2.2.2.2.2.2.2.2.2.2.2.2.2.2.2.1
  have ih_parseTermLoop := ih.2.2.2.2.2.2.2.2.2.2.2.2.2.2.2.2.2.2.2.2.2.2.2.2.2.2.2.1
  clear ih
  intro B hn
  rw [Parser.parseTerm]
  repeat' (first
    | with_reducible (first
      | exact Within_throw
      | (refine Within_pure ?_; first | omega | (dsimp only; omega) | (simp <;> omega))
      | (refine Within_SMpure ?_; first | omega | (dsimp only; omega) | (simp <;> omega))
      | (refine Within_peek_bind ?_ (fun hB t => ?_) <;>
          (first | exact absurd hB (by decide!) | beta_reduce))
      | (refine Within_next_bind ?_ (fun hB t => ?_) <;>
          (first | exact absurd hB (by decide!) | beta_reduce))
      | (refine Within_accept_bind (by decide!) (fun hB t => ?_) <;>
          (first | exact absurd hB (by decide!) | beta_reduce))
      | (refine Within_acceptString_bind ?_ (fun hB t => ?_) <;>
          (first | exact absurd hB (by decide!) | beta_reduce))
      | (refine Within_next_SMbind ?_ (fun hB t => ?_) <;>
          (first | exact absurd hB (by decide!) | beta_reduce))
      | (refine Within_peek_SMbind ?_ (fun hB t => ?_) <;>
          (first | exact absurd hB (by decide!) | beta_reduce))
      | (refine Within_attempt_accept_bind (by decide!) (fun _ => ?_) (fun hB t => ?_) <;>
          (first | exact absurd hB (by decide!) | beta_reduce))
      | exact Within_attempt (Within_accept (by decide!))
      | exact Within_top (Within_accept (by decide!))
      | exact Within_top Within_next
      | exact Within_peek
      | (refine Within_accept_SMbind (by decide!) (fun hB t => ?_) <;>
          (first | exact absurd hB (by decide!) | beta_reduce))
      | (refine Within_bind Within_get (fun _ => ?_); beta_reduce)
      | (refine Within_bind (Within_modify (fun _ => ⟨rfl, rfl⟩)) (fun _ => ?_); beta_reduce)
      | (refine Within_bind Within_peekTwo (fun _ => ?_); beta_reduce)
      | (refine Within_bind (ih_parseSignedFactor _ (by omega)) (fun _ => ?_); beta_reduce)
      | (refine Within_conseq (ih_parseSignedFactor _ (by omega)) (fun _ => ?_); first | omega | (dsimp only; omega) | (dsimp only; split <;> omega))
      | (refine Within_bind (ih_parseTermLoop _ _ (by omega)) (fun _ => ?_); beta_reduce)
      | (refine Within_conseq (ih_parseTermLoop _ _ (by omega)) (fun _ => ?_); first | omega | (dsimp only; omega) | (dsimp only; split <;> omega))
      | (refine Within_attempt_bind (q := fun _ => _) ?_ (fun _ => ?_) (fun _ => ?_) <;> beta_reduce)
      | (refine Within_bind_same ?_ (fun _ => ?_))
      | (refine Within_SMbind (q := fun _ => _) ?_ (fun _ => ?_)))
    | (split <;> (first | (rename_i h; exact absurd h (by decide!)) | skip))
    | dsimp only)

theorem Meets_parseTermLoop_step (n : Nat) (ih : ParsersAt n) :
    ∀ (e : Expr) (B : Nat), 1 + 40 * B ≤ n + 1 → Within B (fun _ => B) (Parser.parseTermLoop (n + 1) e) := by
  have ih_parseSignedFactor := ih.2.2.2.2.2.2.2.2.2.2.2.2.2.2.2.2.2.2.2.2.2.2.2.2.2.2.2.2.1
  have ih_parseTermLoop := ih.2.2.2.2.2.2.2.2.2.2.2.2.2.2.2.2.2.2.2.2.2.2.2.2.2.2.2.1
  clear ih
  intro e B hn
  rw [Parser.parseTermLoop]
  repeat' (first
    | with_reducible (first
      | exact Within_throw
      | (refine Within_pure ?_; first | omega | (dsimp only; omega) | (simp <;> omega))
      | (refine Within_SMpure ?_; first | omega | (dsimp only; omega) | (simp <;> omega))
      | (refine Within_peek_bind ?_ (fun hB t => ?_) <;>
          (first | exact absurd hB (by decide!) | beta_reduce))
      | (refine Within_next_bind ?_ (fun hB t => ?_) <;>
          (first | exact absurd hB (by decide!) | beta_reduce))
      | (refine Within_accept_bind (by decide!) (fun hB t => ?_) <;>
          (first | exact absurd hB (by decide!) | beta_reduce))
      | (refine Within_acceptString_bind ?_ (fun hB t => ?_) <;>
          (first | exact absurd hB (by decide!) | beta_reduce))
      | (refine Within_next_SMbind ?_ (fun hB t => ?_) <;>
          (first | exact absurd hB (by decide!) | beta_reduce))
      | (refine Within_peek_SMbind ?_ (fun hB t => ?_) <;>
          (first | exact absurd hB (by decide!) | beta_reduce))
      | (refine Within_attempt_accept_bind (by decide!) (fun _ => ?_) (fun hB t => ?_) <;>
          (first | exact absurd hB (by decide!) | beta_reduce))
      | exact Within_attempt (Within_accept (by decide!))
      | exact Within_top (Within_accept (by decide!))
      | exact Within_top Within_next
      | exact Within_peek
      | (refine Within_accept_SMbind (by decide!) (fun hB t => ?_) <;>
          (first | exact absurd hB (by decide!) | beta_reduce))
      | (refine Within_bind Within_get (fun _ => ?_); beta_reduce)
      | (refine Within_bind (Within_modify (fun _ => ⟨rfl, rfl⟩)) (fun _ => ?_); beta_reduce)
      | (refine Within_bind Within_peekTwo (fun _ => ?_); beta_reduce)
      | (refine Within_bind (ih_parseSignedFactor _ (by omega)) (fun _ => ?_); beta_reduce)
      | (refine Within_conseq (ih_parseSignedFactor _ (by omega)) (fun _ => ?_); first | omega | (dsimp only; omega) | (dsimp only; split <;> omega))
      | (refine Within_bind (ih_parseTermLoop _ _ (by omega)) (fun _ => ?_); beta_reduce)
      | (refine Within_conseq (ih_parseTermLoop _ _ (by omega)) (fun _ => ?_); first | omega | (dsimp only; omega) | (dsimp only; split <;> omega))
      | (refine Within_attempt_bind (q := fun _ => _) ?_ (fun _ => ?_) (fun _ => ?_) <;> beta_reduce)
      | (refine Within_bind_same ?_ (fun _ => ?_))
      | (refine Within_SMbind (q := fun _ => _) ?_ (fun _ => ?_)))
    | (split <;> (first | (rename_i h; exact absurd h (by decide!)) | skip))
    | dsimp only)

theorem Meets_parseSignedFactor_step (n : Nat) (ih : ParsersAt n) :
    ∀ (B : Nat), 3 + 40 * B ≤ n + 1 → Within B (fun _ => B) (Parser.parseSignedFactor (n + 1)) := by
  have ih_parseFactor := ih.2.2.2.2.2.2.2.2.2.2.2.2.2.2.2.2.2.2.2.2.2.2.2.2.2.2.2.2.2.1
  clear ih
  intro B hn
  rw [Parser.parseSignedFactor]
  repeat' (first
    | with_reducible (first
      | exact Within_throw
      | (refine Within_pure ?_; first | omega | (dsimp only; omega) | (simp <;> omega))
      | (refine Within_SMpure ?_; first | omega | (dsimp only; omega) | (simp <;> omega))
      | (refine Within_peek_bind ?_ (fun hB t => ?_) <;>
          (first | exact absurd hB (by decide!) | beta_reduce))
      | (refine Within_next_bind ?_ (fun hB t => ?_) <;>
          (first | exact absurd hB (by decide!) | beta_reduce))
      | (refine Within_accept_bind (by decide!) (fun hB t => ?_) <;>
          (first | exact absurd hB (by decide!) | beta_reduce))
      | (refine Within_acceptString_bind ?_ (fun hB t => ?_) <;>
          (first | exact absurd hB (by decide!) | beta_reduce))
      | (refine Within_next_SMbind ?_ (fun hB t => ?_) <;>
          (first | exact absurd hB (by decide!) | beta_reduce))
      | (refine Within_peek_SMbind ?_ (fun hB t => ?_) <;>
          (first | exact absurd hB (by decide!) | beta_reduce))
      | (refine Within_attempt_accept_bind (by decide!) (fun _ => ?_) (fun hB t => ?_) <;>
          (first | exact absurd hB (by decide!) | beta_reduce))
      | exact Within_attempt (Within_accept (by decide!))
      | exact Within_top (Within_accept (by decide!))
      | exact Within_top Within_next
      | exact Within_peek
      | (refine Within_accept_SMbind (by decide!) (fun hB t => ?_) <;>
          (first | exact absurd hB (by decide!) | beta_reduce))
      | (refine Within_bind Within_get (fun _ => ?_); beta_reduce)
      | (refine Within_bind (Within_modify (fun _ => ⟨rfl, rfl⟩)) (fun _ => ?_); beta_reduce)
      | (refine Within_bind Within_peekTwo (fun _ => ?_); beta_reduce)
      | (refine Within_bind (ih_parseFactor _ (by omega)) (fun _ => ?_); beta_reduce)
      | (refine Within_conseq (ih_parseFactor _ (by omega)) (fun _ => ?_); first | omega | (dsimp only; omega) | (dsimp only; split <;> omega))
      | (refine Within_attempt_bind (q := fun _ => _) ?_ (fun _ => ?_) (fun _ => ?_) <;> beta_reduce)
      | (refine Within_bind_same ?_ (fun _ => ?_))
      | (refine Within_SMbind (q := fun _ => _) ?_ (fun _ => ?_)))
    | (split <;> (first | (rename_i h; exact absurd h (by decide!)) | skip))
    | dsimp only)

theorem Meets_parseFactor_step (n : Nat) (ih : ParsersAt n) :
    ∀ (B : Nat), 2 + 40 * B ≤ n + 1 → Within B (fun _ => B) (Parser.parseFactor (n + 1)) := by
  have ih_parseGroupConcat := ih.2.2.2.2.2.2.2.2.2.2.2.2.2.2.2.2.2.2.2.2.2.2.2.2.2.2.2.2.2.2.2.1
  have ih_parseCallExpr := ih.2.2.2.2.2.2.2.2.2.2.2.2.2.2.2.2.2.2.2.2.2.2.2.2.2.2.2.2.2.2.2.2.2.1
  have ih_parseParenExpr := ih.2.2.2.2.2.2.2.2.2.2.2.2.2.2.2.2.2.2.2.2.2.2.2.2.2.2.2.2.2.2.1
  clear ih
  intro B hn
  rw [Parser.parseFactor]
  repeat' (first
    | with_reducible (first
      | exact Within_throw
      | (refine Within_pure ?_; first | omega | (dsimp only; omega) | (simp <;> omega))
      | (refine Within_SMpure ?_; first | omega | (dsimp only; omega) | (simp <;> omega))
      | (refine Within_peek_bind ?_ (fun hB t => ?_) <;>
          (first | exact absurd hB (by decide!) | beta_reduce))
      | (refine Within_next_bind ?_ (fun hB t => ?_) <;>
          (first | exact absurd hB (by decide!) | beta_reduce))
      | (refine Within_accept_bind (by decide!) (fun hB t => ?_) <;>
          (first | exact absurd hB (by decide!) | beta_reduce))
      | (refine Within_acceptString_bind ?_ (fun hB t => ?_) <;>
          (first | exact absurd hB (by decide!) | beta_reduce))
      | (refine Within_next_SMbind ?_ (fun hB t => ?_) <;>
          (first | exact absurd hB (by decide!) | beta_reduce))
      | (refine Within_peek_SMbind ?_ (fun hB t => ?_) <;>
          (first | exact absurd hB (by decide!) | beta_reduce))
      | (refine Within_attempt_accept_bind (by decide!) (fun _ => ?_) (fun hB t => ?_) <;>
          (first | exact absurd hB (by decide!) | beta_reduce))
      | exact Within_attempt (Within_accept (by decide!))
      | exact Within_top (Within_accept (by decide!))
      | exact Within_top Within_next
      | exact Within_peek
      | (refine Within_accept_SMbind (by decide!) (fun hB t => ?_) <;>
          (first | exact absurd hB (by decide!) | beta_reduce))
      | (refine Within_bind Within_get (fun _ => ?_); beta_reduce)
      | (refine Within_bind (Within_modify (fun _ => ⟨rfl, rfl⟩)) (fun _ => ?_); beta_reduce)
      | (refine Within_bind Within_peekTwo (fun _ => ?_); beta_reduce)
      | (refine Within_bind (ih_parseGroupConcat _ (by omega)) (fun _ => ?_); beta_reduce)
      | (refine Within_conseq (ih_parseGroupConcat _ (by omega)) (fun _ => ?_); first | omega | (dsimp only; omega) | (dsimp only; split <;> omega))
      | (refine Within_bind (ih_parseCallExpr _ (by omega)) (fun _ => ?_); beta_reduce)
      | (refine Within_conseq (ih_parseCallExpr _ (by omega)) (fun _ => ?_); first | omega | (dsimp only; omega) | (dsimp only; split <;> omega))
      | (refine Within_bind (Steps_parseColumnExpr) (fun _ => ?_); beta_reduce)
      | (refine Within_conseq (Steps_parseColumnExpr) (fun _ => ?_); first | omega | (dsimp only; omega) | (dsimp only; split <;> omega))
      | (refine Within_bind (ih_parseParenExpr _ (by omega)) (fun _ => ?_); beta_reduce)
      | (refine Within_conseq (ih_parseParenExpr _ (by omega)) (fun _ => ?_); first | omega | (dsimp only; omega) | (dsimp only; split <;> omega))
      | (refine Within_attempt_bind (q := fun _ => _) ?_ (fun _ => ?_) (fun _ => ?_) <;> beta_reduce)
      | (refine Within_bind_same ?_ (fun _ => ?_))
      | (refine Within_SMbind (q := fun _ => _) ?_ (fun _ => ?_)))
    | (split <;> (first | (rename_i h; exact absurd h (by decide!)) | skip))
    | dsimp only)

theorem Meets_parseParenExpr_step (n : Nat) (ih : ParsersAt n) :
    ∀ (B : Nat), 1 + 40 * B ≤ n + 1 → Within B (fun _ => B) (Parser.parseParenExpr (n + 1)) := by
  have ih_parseSelect := ih.1
  have ih_parseBooleanExpr := ih.2.2.2.2.2.2.2.2.2.2.2.2.2.2.2.1
  clear ih
  intro B hn
  rw [Parser.parseParenExpr]
  repeat' (first
    | with_reducible (first
      | exact Within_throw
      | (refine Within_pure ?_; first | omega | (dsimp only; omega) | (simp <;> omega))
      | (refine Within_SMpure ?_; first | omega | (dsimp only; omega) | (simp <;> omega))
      | (refine Within_peek_bind ?_ (fun hB t => ?_) <;>
          (first | exact absurd hB (by decide!) | beta_reduce))
      | (refine Within_next_bind ?_ (fun hB t => ?_) <;>
          (first | exact absurd hB (by decide!) | beta_reduce))
      | (refine Within_accept_bind (by decide!) (fun hB t => ?_) <;>
          (first | exact absurd hB (by decide!) | beta_reduce))
      | (refine Within_acceptString_bind ?_ (fun hB t => ?_) <;>
          (first | exact absurd hB (by decide!) | beta_reduce))
      | (refine Within_next_SMbind ?_ (fun hB t => ?_) <;>
          (first | exact absurd hB (by decide!) | beta_reduce))
      | (refine Within_peek_SMbind ?_ (fun hB t => ?_) <;>
          (first | exact absurd hB (by decide!) | beta_reduce))
      | (refine Within_attempt_accept_bind (by decide!) (fun _ => ?_) (fun hB t => ?_) <;>
          (first | exact absurd hB (by decide!) | beta_reduce))
      | exact Within_attempt (Within_accept (by decide!))
      | exact Within_top (Within_accept (by decide!))
      | exact Within_top Within_next
      | exact Within_peek
      | (refine Within_accept_SMbind (by decide!) (fun hB t => ?_) <;>
          (first | exact absurd hB (by decide!) | beta_reduce))
      | (refine Within_bind Within_get (fun _ => ?_); beta_reduce)
      | (refine Within_bind (Within_modify (fun _ => ⟨rfl, rfl⟩)) (fun _ => ?_); beta_reduce)
      | (refine Within_bind Within_peekTwo (fun _ => ?_); beta_reduce)
      | (refine Within_bind (ih_parseSelect _ (by omega)) (fun _ => ?_); beta_reduce)
      | (refine Within_conseq (ih_parseSelect _ (by omega)) (fun _ => ?_); first | omega | (dsimp only; omega) | (dsimp only; split <;> omega))
      | (refine Within_bind (ih_parseBooleanExpr _ (by omega)) (fun _ => ?_); beta_reduce)
      | (refine Within_conseq (ih_parseBooleanExpr _ (by omega)) (fun _ => ?_); first | omega | (dsimp only; omega) | (dsimp only; split <;> omega))
      | (refine Within_attempt_bind (q := fun _ => _) ?_ (fun _ => ?_) (fun _ => ?_) <;> beta_reduce)
      | (refine Within_bind_same ?_ (fun _ => ?_))
      | (refine Within_SMbind (q := fun _ => _) ?_ (fun _ => ?_)))
    | (split <;> (first | (rename_i h; exact absurd h (by decide!)) | skip))
    | dsimp only)

theorem Meets_parseGroupConcat_step (n : Nat) (ih : ParsersAt n) :
    ∀ (B : Nat), 1 + 40 * B ≤ n + 1 → Within B (fun _ => B) (Parser.parseGroupConcat (n + 1)) := by
  have ih_parseGroupConcatLoop := ih.2.2.2.2.2.2.2.2.2.2.2.2.2.2.2.2.2.2.2.2.2.2.2.2.2.2.2.2.2.2.2.2.1
  clear ih
  intro B hn
  rw [Parser.parseGroupConcat]
  repeat' (first
    | with_reducible (first
      | exact Within_throw
      | (refine Within_pure ?_; first | omega | (dsimp only; omega) | (simp <;> omega))
      | (refine Within_SMpure ?_; first | omega | (dsimp only; omega) | (simp <;> omega))
      | (refine Within_peek_bind ?_ (fun hB t => ?_) <;>
          (first | exact absurd hB (by decide!) | beta_reduce))
      | (refine Within_next_bind ?_ (fun hB t => ?_) <;>
          (first | exact absurd hB (by decide!) | beta_reduce))
      | (refine Within_accept_bind (by decide!) (fun hB t => ?_) <;>
          (first | exact absurd hB (by decide!) | beta_reduce))
      | (refine Within_acceptString_bind ?_ (fun hB t => ?_) <;>
          (first | exact absurd hB (by decide!) | beta_reduce))
      | (refine Within_next_SMbind ?_ (fun hB t => ?_) <;>
          (first | exact absurd hB (by decide!) | beta_reduce))
      | (refine Within_peek_SMbind ?_ (fun hB t => ?_) <;>
          (first | exact absurd hB (by decide!) | beta_reduce))
      | (refine Within_attempt_accept_bind (by decide!) (fun _ => ?_) (fun hB t => ?_) <;>
          (first | exact absurd hB (by decide!) | beta_reduce))
      | exact Within_attempt (Within_accept (by decide!))
      | exact Within_top (Within_accept (by decide!))
      | exact Within_top Within_next
      | exact Within_peek
      | (refine Within_accept_SMbind (by decide!) (fun hB t => ?_) <;>
          (first | exact absurd hB (by decide!) | beta_reduce))
      | (refine Within_bind Within_get (fun _ => ?_); beta_reduce)
      | (refine Within_bind (Within_modify (fun _ => ⟨rfl, rfl⟩)) (fun _ => ?_); beta_reduce)
      | (refine Within_bind Within_peekTwo (fun _ => ?_); beta_reduce)
      | (refine Within_bind (ih_parseGroupConcatLoop _ _ (by omega)) (fun _ => ?_); beta_reduce)
      | (refine Within_conseq (ih_parseGroupConcatLoop _ _ (by omega)) (fun _ => ?_); first | omega | (dsimp only; omega) | (dsimp only; split <;> omega))
      | (refine Within_bind (Meets_parseOrderBy _ _ (by omega)) (fun _ => ?_); beta_reduce)
      | (refine Within_conseq (Meets_parseOrderBy _ _ (by omega)) (fun _ => ?_); first | omega | (dsimp only; omega) | (dsimp only; split <;> omega))
      | (refine Within_attempt_bind (q := fun _ => _) ?_ (fun _ => ?_) (fun _ => ?_) <;> beta_reduce)
      | (refine Within_bind_same ?_ (fun _ => ?_))
      | (refine Within_SMbind (q := fun _ => _) ?_ (fun _ => ?_)))
    | (split <;> (first | (rename_i h; exact absurd h (by decide!)) | skip))
    | dsimp only)

theorem Meets_parseGroupConcatLoop_step (n : Nat) (ih : ParsersAt n) :
    ∀ (exprs : List Expr) (B : Nat), 6 + 40 * B ≤ n + 1 → Within B (fun _ => B) (Parser.parseGroupConcatLoop (n + 1) exprs) := by
  have ih_parseExpr := ih.2.2.2.2.2.2.2.2.2.2.2.2.2.2.2.2.2.2.2.2.2.2.2.2.1
  have ih_parseGroupConcatLoop := ih.2.2.2.2.2.2.2.2.2.2.2.2.2.2.2.2.2.2.2.2.2.2.2.2.2.2.2.2.2.2.2.2.1
  clear ih
  intro exprs B hn
  rw [Parser.parseGroupConcatLoop]
  repeat' (first
    | with_reducible (first
      | exact Within_throw
      | (refine Within_pure ?_; first | omega | (dsimp only; omega) | (simp <;> omega))
      | (refine Within_SMpure ?_; first | omega | (dsimp only; omega) | (simp <;> omega))
      | (refine Within_peek_bind ?_ (fun hB t => ?_) <;>
          (first | exact absurd hB (by decide!) | beta_reduce))
      | (refine Within_next_bind ?_ (fun hB t => ?_) <;>
          (first | exact absurd hB (by decide!) | beta_reduce))
      | (refine Within_accept_bind (by decide!) (fun hB t => ?_) <;>
          (first | exact absurd hB (by decide!) | beta_reduce))
      | (refine Within_acceptString_bind ?_ (fun hB t => ?_) <;>
          (first | exact absurd hB (by decide!) | beta_reduce))
      | (refine Within_next_SMbind ?_ (fun hB t => ?_) <;>
          (first | exact absurd hB (by decide!) | beta_reduce))
      | (refine Within_peek_SMbind ?_ (fun hB t => ?_) <;>
          (first | exact absurd hB (by decide!) | beta_reduce))
      | (refine Within_attempt_accept_bind (by decide!) (fun _ => ?_) (fun hB t => ?_) <;>
          (first | exact absurd hB (by decide!) | beta_reduce))
      | exact Within_attempt (Within_accept (by decide!))
      | exact Within_top (Within_accept (by decide!))
      | exact Within_top Within_next
      | exact Within_peek
      | (refine Within_accept_SMbind (by decide!) (fun hB t => ?_) <;>
          (first | exact absurd hB (by decide!) | beta_reduce))
      | (refine Within_bind Within_get (fun _ => ?_); beta_reduce)
      | (refine Within_bind (Within_modify (fun _ => ⟨rfl, rfl⟩)) (fun _ => ?_); beta_reduce)
      | (refine Within_bind Within_peekTwo (fun _ => ?_); beta_reduce)
      | (refine Within_bind (ih_parseExpr _ (by omega)) (fun _ => ?_); beta_reduce)
      | (refine Within_conseq (ih_parseExpr _ (by omega)) (fun _ => ?_); first | omega | (dsimp only; omega) | (dsimp only; split <;> omega))
      | (refine Within_bind (ih_parseGroupConcatLoop _ _ (by omega)) (fun _ => ?_); beta_reduce)
      | (refine Within_conseq (ih_parseGroupConcatLoop _ _ (by omega)) (fun _ => ?_); first | omega | (dsimp only; omega) | (dsimp only; split <;> omega))
      | (refine Within_attempt_bind (q := fun _ => _) ?_ (fun _ => ?_) (fun _ => ?_) <;> beta_reduce)
      | (refine Within_bind_same ?_ (fun _ => ?_))
      | (refine Within_SMbind (q := fun _ => _) ?_ (fun _ => ?_)))
    | (split <;> (first | (rename_i h; exact absurd h (by decide!)) | skip))
    | dsimp only)

theorem Meets_parseCallExpr_step (n : Nat) (ih : ParsersAt n) :
    ∀ (B : Nat), 1 + 40 * B ≤ n + 1 → Within B (fun _ => B) (Parser.parseCallExpr (n + 1)) := by
  have ih_parseExpressionList := ih.2.2.2.2.2.2.2.2.2.2.2.2.2.2.2.2.2.2.2.2.2.2.2.2.2.2.2.2.2.2.2.2.2.2
  clear ih
  intro B hn
  rw [Parser.parseCallExpr]
  repeat' (first
    | with_reducible (first
      | exact Within_throw
      | (refine Within_pure ?_; first | omega | (dsimp only; omega) | (simp <;> omega))
      | (refine Within_SMpure ?_; first | omega | (dsimp only; omega) | (simp <;> omega))
      | (refine Within_peek_bind ?_ (fun hB t => ?_) <;>
          (first | exact absurd hB (by decide!) | beta_reduce))
      | (refine Within_next_bind ?_ (fun hB t => ?_) <;>
          (first | exact absurd hB (by decide!) | beta_reduce))
      | (refine Within_accept_bind (by decide!) (fun hB t => ?_) <;>
          (first | exact absurd hB (by decide!) | beta_reduce))
      | (refine Within_acceptString_bind ?_ (fun hB t => ?_) <;>
          (first | exact absurd hB (by decide!) | beta_reduce))
      | (refine Within_next_SMbind ?_ (fun hB t => ?_) <;>
          (first | exact absurd hB (by decide!) | beta_reduce))
      | (refine Within_peek_SMbind ?_ (fun hB t => ?_) <;>
          (first | exact absurd hB (by decide!) | beta_reduce))
      | (refine Within_attempt_accept_bind (by decide!) (fun _ => ?_) (fun hB t => ?_) <;>
          (first | exact absurd hB (by decide!) | beta_reduce))
      | exact Within_attempt (Within_accept (by decide!))
      | exact Within_top (Within_accept (by decide!))
      | exact Within_top Within_next
      | exact Within_peek
      | (refine Within_accept_SMbind (by decide!) (fun hB t => ?_) <;>
          (first | exact absurd hB (by decide!) | beta_reduce))
      | (refine Within_bind Within_get (fun _ => ?_); beta_reduce)
      | (refine Within_bind (Within_modify (fun _ => ⟨rfl, rfl⟩)) (fun _ => ?_); beta_reduce)
      | (refine Within_bind Within_peekTwo (fun _ => ?_); beta_reduce)
      | (refine Within_bind (ih_parseExpressionList _ _ (by omega)) (fun _ => ?_); beta_reduce)
      | (refine Within_conseq (ih_parseExpressionList _ _ (by omega)) (fun _ => ?_); first | omega | (dsimp only; omega) | (dsimp only; split <;> omega))
      | (refine Within_attempt_bind (q := fun _ => _) ?_ (fun _ => ?_) (fun _ => ?_) <;> beta_reduce)
      | (refine Within_bind_same ?_ (fun _ => ?_))
      | (refine Within_SMbind (q := fun _ => _) ?_ (fun _ => ?_)))
    | (split <;> (first | (rename_i h; exact absurd h (by decide!)) | skip))
    | dsimp only)

theorem Meets_parseExpressionList_step (n : Nat) (ih : ParsersAt n) :
    ∀ (args : List Expr) (B : Nat), 12 + 40 * B ≤ n + 1 → Within B (fun _ => B) (Parser.parseExpressionList (n + 1) args) := by
  have ih_parseBooleanExpr := ih.2.2.2.2.2.2.2.2.2.2.2.2.2.2.2.1
  have ih_parseExpressionList := ih.2.2.2.2.2.2.2.2.2.2.2.2.2.2.2.2.2.2.2.2.2.2.2.2.2.2.2.2.2.2.2.2.2.2
  clear ih
  intro args B hn
  rw [Parser.parseExpressionList]
  repeat' (first
    | with_reducible (first
      | exact Within_throw
      | (refine Within_pure ?_; first | omega | (dsimp only; omega) | (simp <;> omega))
      | (refine Within_SMpure ?_; first | omega | (dsimp only; omega) | (simp <;> omega))
      | (refine Within_peek_bind ?_ (fun hB t => ?_) <;>
          (first | exact absurd hB (by decide!) | beta_reduce))
      | (refine Within_next_bind ?_ (fun hB t => ?_) <;>
          (first | exact absurd hB (by decide!) | beta_reduce))
      | (refine Within_accept_bind (by decide!) (fun hB t => ?_) <;>
          (first | exact absurd hB (by decide!) | beta_reduce))
      | (refine Within_acceptString_bind ?_ (fun hB t => ?_) <;>
          (first | exact absurd hB (by decide!) | beta_reduce))
      | (refine Within_next_SMbind ?_ (fun hB t => ?_) <;>
          (first | exact absurd hB (by decide!) | beta_reduce))
      | (refine Within_peek_SMbind ?_ (fun hB t => ?_) <;>
          (first | exact absurd hB (by decide!) | beta_reduce))
      | (refine Within_attempt_accept_bind (by decide!) (fun _ => ?_) (fun hB t => ?_) <;>
          (first | exact absurd hB (by decide!) | beta_reduce))
      | exact Within_attempt (Within_accept (by decide!))
      | exact Within_top (Within_accept (by decide!))
      | exact Within_top Within_next
      | exact Within_peek
      | (refine Within_accept_SMbind (by decide!) (fun hB t => ?_) <;>
          (first | exact absurd hB (by decide!) | beta_reduce))
      | (refine Within_bind Within_get (fun _ => ?_); beta_reduce)
      | (refine Within_bind (Within_modify (fun _ => ⟨rfl, rfl⟩)) (fun _ => ?_); beta_reduce)
      | (refine Within_bind Within_peekTwo (fun _ => ?_); beta_reduce)
      | (refine Within_bind (ih_parseBooleanExpr _ (by omega)) (fun _ => ?_); beta_reduce)
      | (refine Within_conseq (ih_parseBooleanExpr _ (by omega)) (fun _ => ?_); first | omega | (dsimp only; omega) | (dsimp only; split <;> omega))
      | (refine Within_bind (ih_parseExpressionList _ _ (by omega)) (fun _ => ?_); beta_reduce)
      | (refine Within_conseq (ih_parseExpressionList _ _ (by omega)) (fun _ => ?_); first | omega | (dsimp only; omega) | (dsimp only; split <;> omega))
      | (refine Within_attempt_bind (q := fun _ => _) ?_ (fun _ => ?_) (fun _ => ?_) <;> beta_reduce)
      | (refine Within_bind_same ?_ (fun _ => ?_))
      | (refine Within_SMbind (q := fun _ => _) ?_ (fun _ => ?_)))
    | (split <;> (first | (rename_i h; exact absurd h (by decide!)) | skip))
    | dsimp only)

theorem ParsersAt_all (n : Nat) : ParsersAt n := by
  induction n with
  | zero =>
    refine ⟨?_, ?_, ?_, ?_, ?_, ?_, ?_, ?_, ?_, ?_, ?_, ?_, ?_, ?_, ?_, ?_, ?_, ?_, ?_, ?_, ?_, ?_, ?_, ?_, ?_, ?_, ?_, ?_, ?_, ?_, ?_, ?_, ?_, ?_, ?_⟩ <;> intros <;> exfalso <;> omega
  | succ n ih =>
    exact ⟨Meets_parseSelect_step n ih,
      Meets_parseUnion_step n ih,
      Meets_parseUnionLoop_step n ih,
      Meets_parseHaving_step n ih,
      Meets_parseHavingPart_step n ih,
      Meets_parseGroupBy_step n ih,
      Meets_parseGroupByLoop_step n ih,
      Meets_parseWhere_step n ih,
      Meets_parseSelectColumns_step n ih,
      Meets_parseSelectColumnsLoop_step n ih,
      Meets_parseSelectColumnExpr_step n ih,
      Meets_parseFrom_step n ih,
      Meets_parseFromLoop_step n ih,
      Meets_parseFromTable_step n ih,
      Meets_parseJoins_step n ih,
      Meets_parseBooleanExpr_step n ih,
      Meets_parseBooleanExprLoop_step n ih,
      Meets_parseBooleanTerm_step n ih,
      Meets_parseBooleanTermLoop_step n ih,
      Meets_parseNotFactor_step n ih,
      Meets_parseRelation_step n ih,
      Meets_parseRelationLoop_step n ih,
      Meets_parseBetweenExpr_step n ih,
      Meets_parseInExpr_step n ih,
      Meets_parseExpr_step n ih,
      Meets_parseExprLoop_step n ih,
      Meets_parseTerm_step n ih,
      Meets_parseTermLoop_step n ih,
      Meets_parseSignedFactor_step n ih,
      Meets_parseFactor_step n ih,
      Meets_parseParenExpr_step n ih,
      Meets_parseGroupConcat_step n ih,
      Meets_parseGroupConcatLoop_step n ih,
      Meets_parseCallExpr_step n ih,
      Meets_parseExpressionList_step n ih⟩

theorem Meets_parseUnion (n : Nat) (B : Nat) (hn : 1 + 40 * B ≤ n) :
    Within B (fun _ => B) (Parser.parseUnion n) :=
  (ParsersAt_all n).2.1 B hn

theorem Meets_parseHaving (n : Nat) (B : Nat) (hn : 1 + 40 * B ≤ n) :
    Within B (fun _ => B) (Parser.parseHaving n) :=
  (ParsersAt_all n).2.2.2.1 B hn

theorem Meets_parseHavingPart (n : Nat) (B : Nat) (hn : 12 + 40 * B ≤ n) :
    Within B (fun _ => B) (Parser.parseHavingPart n) :=
  (ParsersAt_all n).2.2.2.2.1 B hn

theorem Meets_parseGroupBy (n : Nat) (B : Nat) (hn : 1 + 40 * B ≤ n) :
    Within B (fun _ => B) (Parser.parseGroupBy n) :=
  (ParsersAt_all n).2.2.2.2.2.1 B hn

theorem Meets_parseSelectColumns (n : Nat) (B : Nat) (hn : 14 + 40 * B ≤ n) :
    Within B (fun _ => B) (Parser.parseSelectColumns n) :=
  (ParsersAt_all n).2.2.2.2.2.2.2.2.1 B hn

theorem Meets_parseSelectColumnExpr (n : Nat) (B : Nat) (hn : 12 + 40 * B ≤ n) :
    Within B (fun _ => B) (Parser.parseSelectColumnExpr n) :=
  (ParsersAt_all n).2.2.2.2.2.2.2.2.2.2.1 B hn

theorem Meets_parseFrom (n : Nat) (B : Nat) (hn : 1 + 40 * B ≤ n) :
    Within B (fun _ => B) (Parser.parseFrom n) :=
  (ParsersAt_all n).2.2.2.2.2.2.2.2.2.2.2.1 B hn

theorem Meets_parseBooleanTerm (n : Nat) (B : Nat) (hn : 10 + 40 * B ≤ n) :
    Within B (fun _ => B) (Parser.parseBooleanTerm n) :=
  (ParsersAt_all n).2.2.2.2.2.2.2.2.2.2.2.2.2.2.2.2.2.1 B hn

theorem Meets_parseNotFactor (n : Nat) (B : Nat) (hn : 9 + 40 * B ≤ n) :
    Within B (fun _ => B) (Parser.parseNotFactor n) :=
  (ParsersAt_all n).2.2.2.2.2.2.2.2.2.2.2.2.2.2.2.2.2.2.2.1 B hn

theorem Meets_parseRelation (n : Nat) (B : Nat) (hn : 8 + 40 * B ≤ n) :
    Within B (fun _ => B) (Parser.parseRelation n) :=
  (ParsersAt_all n).2.2.2.2.2.2.2.2.2.2.2.2.2.2.2.2.2.2.2.2.1 B hn

theorem Meets_parseBetweenExpr (n : Nat) (B : Nat) (hn : 6 + 40 * B ≤ n) :
    Within B (fun _ => B - 1) (Parser.parseBetweenExpr n) :=
  (ParsersAt_all n).2.2.2.2.2.2.2.2.2.2.2.2.2.2.2.2.2.2.2.2.2.2.1 B hn

theorem Meets_parseInExpr (n : Nat) (B : Nat) (hn : 6 + 40 * B ≤ n) :
    Within B (fun _ => B - 1) (Parser.parseInExpr n) :=
  (ParsersAt_all n).2.2.2.2.2.2.2.2.2.2.2.2.2.2.2.2.2.2.2.2.2.2.2.1 B hn

theorem Meets_parseExpr (n : Nat) (B : Nat) (hn : 5 + 40 * B ≤ n) :
    Within B (fun _ => B) (Parser.parseExpr n) :=
  (ParsersAt_all n).2.2.2.2.2.2.2.2.2.2.2.2.2.2.2.2.2.2.2.2.2.2.2.2.1 B hn

theorem Meets_parseTerm (n : Nat) (B : Nat) (hn : 4 + 40 * B ≤ n) :
    Within B (fun _ => B) (Parser.parseTerm n) :=
  (ParsersAt_all n).2.2.2.2.2.2.2.2.2.2.2.2.2.2.2.2.2.2.2.2.2.2.2.2.2.2.1 B hn

theorem Meets_parseSignedFactor (n : Nat) (B : Nat) (hn : 3 + 40 * B ≤ n) :
    Within B (fun _ => B) (Parser.parseSignedFactor n) :=
  (ParsersAt_all n).2.2.2.2.2.2.2.2.2.2.2.2.2.2.2.2.2.2.2.2.2.2.2.2.2.2.2.2.1 B hn

theorem Meets_parseFactor (n : Nat) (B : Nat) (hn : 2 + 40 * B ≤ n) :
    Within B (fun _ => B) (Parser.parseFactor n) :=
  (ParsersAt_all n).2.2.2.2.2.2.2.2.2.2.2.2.2.2.2.2.2.2.2.2.2.2.2.2.2.2.2.2.2.1 B hn

theorem Meets_parseParenExpr (n : Nat) (B : Nat) (hn : 1 + 40 * B ≤ n) :
    Within B (fun _ => B) (Parser.parseParenExpr n) :=
  (ParsersAt_all n).2.2.2.2.2.2.2.2.2.2.2.2.2.2.2.2.2.2.2.2.2.2.2.2.2.2.2.2.2.2.1 B hn

theorem Meets_parseGroupConcat (n : Nat) (B : Nat) (hn : 1 + 40 * B ≤ n) :
    Within B (fun _ => B) (Parser.parseGroupConcat n) :=
  (ParsersAt_all n).2.2.2.2.2.2.2.2.2.2.2.2.2.2.2.2.2.2.2.2.2.2.2.2.2.2.2.2.2.2.2.1 B hn

theorem Meets_parseCallExpr (n : Nat) (B : Nat) (hn : 1 + 40 * B ≤ n) :
    Within B (fun _ => B) (Parser.parseCallExpr n) :=
  (ParsersAt_all n).2.2.2.2.2.2.2.2.2.2.2.2.2.2.2.2.2.2.2.2.2.2.2.2.2.2.2.2.2.2.2.2.2.1 B hn

end Goql
